import Mathlib

/-!
# EMS-ESP telegram engine (`src/ems.cpp`): shallow embedding and verified properties

The embedding follows `ems.cpp` function by function and keeps its names.

Conventions of the embedding
* Bytes and counters are natural numbers; where the C code narrows a value to a
  machine width the reduction `% 2 ^ w` is written out.
* The headers `ems.h`, `ems_devices.h` and `emsuart.h` are not part of the
  sources.  Every constant, table and width they declare is a field of `Consts`
  and all functions take a `Consts` argument.
* The global variables of `ems.cpp` are the fields of `Ems`; every function
  that touches them maps an `Ems` to an `Ems`.
* The two UART primitives `emsuart_tx_buffer` and `emsaurt_tx_poll` append to
  the log `Ems.uart`; `millis()` is the argument `now`.
* Debug printing (`myDebug`, `_debugPrintTelegram`, `_printMessage`) and
  `myESP.fs_saveConfig` have no effect on the variables of `ems.cpp` and are
  left out, and with them the logging level.
-/

namespace EMS

/-! ## Types declared in the headers -/

/-- Values of `_EMS_TX_TELEGRAM_ACTION` used by `ems.cpp`; `EMS_TX_TELEGRAM_INIT`
stands for every other value of the enumeration. -/
inductive TxAction where
  | EMS_TX_TELEGRAM_INIT
  | EMS_TX_TELEGRAM_READ
  | EMS_TX_TELEGRAM_WRITE
  | EMS_TX_TELEGRAM_VALIDATE
  | EMS_TX_TELEGRAM_RAW
deriving DecidableEq, Repr

/-- Values of `_EMS_TX_STATUS`. -/
inductive TxStatus where
  | EMS_TX_STATUS_IDLE
  | EMS_TX_STATUS_WAIT
deriving DecidableEq, Repr

open TxAction TxStatus

/-- The Tx package `_EMS_TxTelegram`; `data` is the array
`data[EMS_MAX_TELEGRAM_LENGTH]`. -/
structure TxTelegram where
  action : TxAction
  dest : Nat
  type : Nat
  offset : Nat
  length : Nat
  dataValue : Nat
  type_validate : Nat
  comparisonValue : Nat
  comparisonOffset : Nat
  comparisonPostRead : Nat
  forceRefresh : Bool
  timestamp : Nat
  data : List Nat
deriving DecidableEq, Repr

/-- A row of `Boiler_Types` (`_Boiler_Type`), without the model string. -/
structure BoilerType where
  model_id : Nat
  product_id : Nat
  type_id : Nat
deriving DecidableEq, Repr

/-- A row of `Thermostat_Types` (`_Thermostat_Type`), without the model string. -/
structure ThermostatType where
  model_id : Nat
  product_id : Nat
  type_id : Nat
  read_supported : Bool
  write_supported : Bool
deriving DecidableEq, Repr

/-- A row of `Other_Types` (`_Other_Type`), without the model string. -/
structure OtherType where
  model_id : Nat
  product_id : Nat
  type_id : Nat
deriving DecidableEq, Repr

/-- Everything `ems.cpp` takes from `ems.h`, `ems_devices.h` and `emsuart.h`,
none of which is among the sources: identifiers, lengths, the type ids, the
payload offsets, the unset sentinels, the three device catalogs, the template
`EMS_TX_TELEGRAM_NEW` and the bit widths of the counters of `_EMS_Sys_Status`. -/
structure Consts where
  EMS_ID_ME : Nat
  EMS_ID_NONE : Nat
  EMS_PLUS_ID_NONE : Nat
  EMS_ID_SM10 : Nat
  EMS_MIN_TELEGRAM_LENGTH : Nat
  EMS_MAX_TELEGRAM_LENGTH : Nat
  EMS_MAXBUFFERSIZE : Nat
  EMS_TX_TELEGRAM_QUEUE_MAX : Nat
  EMS_TX_SUCCESS : Nat
  EMS_TX_ERROR : Nat
  EMS_TX_TELEGRAM_NEW : TxTelegram
  EMS_MODEL_NONE : Nat
  EMS_MODEL_ALL : Nat
  EMS_MODEL_UBA : Nat
  EMS_MODEL_OTHER : Nat
  EMS_MODEL_RC10 : Nat
  EMS_MODEL_RC20 : Nat
  EMS_MODEL_RC20F : Nat
  EMS_MODEL_RC30 : Nat
  EMS_MODEL_RC35 : Nat
  EMS_MODEL_ES73 : Nat
  EMS_MODEL_EASY : Nat
  EMS_MODEL_BOSCHEASY : Nat
  EMS_MODEL_RC1010 : Nat
  EMS_TYPE_Version : Nat
  EMS_TYPE_UBAMonitorFast : Nat
  EMS_TYPE_UBAMonitorSlow : Nat
  EMS_TYPE_UBAMonitorWWMessage : Nat
  EMS_TYPE_UBAParameterWW : Nat
  EMS_TYPE_UBATotalUptimeMessage : Nat
  EMS_TYPE_UBAMaintenanceSettingsMessage : Nat
  EMS_TYPE_UBAParametersMessage : Nat
  EMS_TYPE_UBASetPoints : Nat
  EMS_TYPE_UBAFunctionTest : Nat
  EMS_TYPE_SM10Monitor : Nat
  EMS_TYPE_RCTime : Nat
  EMS_TYPE_RCOutdoorTempMessage : Nat
  EMS_TYPE_RC10Set : Nat
  EMS_TYPE_RC10StatusMessage : Nat
  EMS_TYPE_RC20Set : Nat
  EMS_TYPE_RC20StatusMessage : Nat
  EMS_TYPE_RC30Set : Nat
  EMS_TYPE_RC30StatusMessage : Nat
  EMS_TYPE_RC35Set_HC1 : Nat
  EMS_TYPE_RC35StatusMessage_HC1 : Nat
  EMS_TYPE_RC35Set_HC2 : Nat
  EMS_TYPE_RC35StatusMessage_HC2 : Nat
  EMS_TYPE_AnlageParamSet : Nat
  EMS_TYPE_HK2Schaltzeiten : Nat
  EMS_TYPE_EasyStatusMessage : Nat
  EMS_TYPE_RC1010StatusMessage : Nat
  EMS_TYPE_RC1010Set : Nat
  EMS_OFFSET_UBAParameterWW_wwtemp : Nat
  EMS_OFFSET_UBAParameterWW_wwactivated : Nat
  EMS_OFFSET_UBAParameterWW_wwComfort : Nat
  EMS_OFFSET_UBASetPoints_flowtemp : Nat
  EMS_OFFSET_RC10StatusMessage_setpoint : Nat
  EMS_OFFSET_RC10StatusMessage_curr : Nat
  EMS_OFFSET_RC10Set_temp : Nat
  EMS_OFFSET_RC20StatusMessage_setpoint : Nat
  EMS_OFFSET_RC20StatusMessage_curr : Nat
  EMS_OFFSET_RC20Set_mode : Nat
  EMS_OFFSET_RC20Set_temp : Nat
  EMS_OFFSET_RC30StatusMessage_setpoint : Nat
  EMS_OFFSET_RC30StatusMessage_curr : Nat
  EMS_OFFSET_RC30Set_mode : Nat
  EMS_OFFSET_RC30Set_temp : Nat
  EMS_OFFSET_RC35StatusMessage_setpoint : Nat
  EMS_OFFSET_RC35StatusMessage_curr : Nat
  EMS_OFFSET_RC35Get_mode_day : Nat
  EMS_OFFSET_RC35Set_mode : Nat
  EMS_OFFSET_RC35Set_temp_day : Nat
  EMS_OFFSET_RC35Set_temp_night : Nat
  EMS_OFFSET_RC35Set_temp_holiday : Nat
  EMS_OFFSET_RC35Set_heatingtype : Nat
  EMS_OFFSET_RC35Set_circuitcalctemp : Nat
  EMS_OFFSET_EasyStatusMessage_setpoint : Nat
  EMS_OFFSET_EasyStatusMessage_curr : Nat
  EMS_OFFSET_RC1010StatusMessage_setpoint : Nat
  EMS_OFFSET_RC1010StatusMessage_curr : Nat
  EMS_VALUE_INT_ON : Nat
  EMS_VALUE_INT_NOTSET : Nat
  EMS_VALUE_SHORT_NOTSET : Nat
  EMS_VALUE_LONG_NOTSET : Nat
  EMS_VALUE_UBAParameterWW_wwComfort_Hot : Nat
  EMS_VALUE_UBAParameterWW_wwComfort_Eco : Nat
  EMS_VALUE_UBAParameterWW_wwComfort_Intelligent : Nat
  EMS_BOILER_TAPWATER_TEMPERATURE_MAX : Nat
  EMS_BOILER_SELFLOWTEMP_HEATING : Nat
  Boiler_Types : List BoilerType
  Thermostat_Types : List ThermostatType
  Other_Types : List OtherType
  /-- Bit width of `emsRxPgks`. -/
  rxPgksBits : Nat
  /-- Bit width of `emsTxPkgs`. -/
  txPkgsBits : Nat
  /-- Bit width of `emxCrcErr`. -/
  crcErrBits : Nat
  /-- Bit width of `txRetryCount`. -/
  retryBits : Nat
deriving Repr

/-! ## Constants defined in `ems.cpp` itself -/

/-- The table `ems_crc_table`. -/
def ems_crc_table : List Nat :=
  [0x00, 0x02, 0x04, 0x06, 0x08, 0x0A, 0x0C, 0x0E, 0x10, 0x12, 0x14, 0x16, 0x18, 0x1A, 0x1C, 0x1E, 0x20, 0x22,
   0x24, 0x26, 0x28, 0x2A, 0x2C, 0x2E, 0x30, 0x32, 0x34, 0x36, 0x38, 0x3A, 0x3C, 0x3E, 0x40, 0x42, 0x44, 0x46,
   0x48, 0x4A, 0x4C, 0x4E, 0x50, 0x52, 0x54, 0x56, 0x58, 0x5A, 0x5C, 0x5E, 0x60, 0x62, 0x64, 0x66, 0x68, 0x6A,
   0x6C, 0x6E, 0x70, 0x72, 0x74, 0x76, 0x78, 0x7A, 0x7C, 0x7E, 0x80, 0x82, 0x84, 0x86, 0x88, 0x8A, 0x8C, 0x8E,
   0x90, 0x92, 0x94, 0x96, 0x98, 0x9A, 0x9C, 0x9E, 0xA0, 0xA2, 0xA4, 0xA6, 0xA8, 0xAA, 0xAC, 0xAE, 0xB0, 0xB2,
   0xB4, 0xB6, 0xB8, 0xBA, 0xBC, 0xBE, 0xC0, 0xC2, 0xC4, 0xC6, 0xC8, 0xCA, 0xCC, 0xCE, 0xD0, 0xD2, 0xD4, 0xD6,
   0xD8, 0xDA, 0xDC, 0xDE, 0xE0, 0xE2, 0xE4, 0xE6, 0xE8, 0xEA, 0xEC, 0xEE, 0xF0, 0xF2, 0xF4, 0xF6, 0xF8, 0xFA,
   0xFC, 0xFE, 0x19, 0x1B, 0x1D, 0x1F, 0x11, 0x13, 0x15, 0x17, 0x09, 0x0B, 0x0D, 0x0F, 0x01, 0x03, 0x05, 0x07,
   0x39, 0x3B, 0x3D, 0x3F, 0x31, 0x33, 0x35, 0x37, 0x29, 0x2B, 0x2D, 0x2F, 0x21, 0x23, 0x25, 0x27, 0x59, 0x5B,
   0x5D, 0x5F, 0x51, 0x53, 0x55, 0x57, 0x49, 0x4B, 0x4D, 0x4F, 0x41, 0x43, 0x45, 0x47, 0x79, 0x7B, 0x7D, 0x7F,
   0x71, 0x73, 0x75, 0x77, 0x69, 0x6B, 0x6D, 0x6F, 0x61, 0x63, 0x65, 0x67, 0x99, 0x9B, 0x9D, 0x9F, 0x91, 0x93,
   0x95, 0x97, 0x89, 0x8B, 0x8D, 0x8F, 0x81, 0x83, 0x85, 0x87, 0xB9, 0xBB, 0xBD, 0xBF, 0xB1, 0xB3, 0xB5, 0xB7,
   0xA9, 0xAB, 0xAD, 0xAF, 0xA1, 0xA3, 0xA5, 0xA7, 0xD9, 0xDB, 0xDD, 0xDF, 0xD1, 0xD3, 0xD5, 0xD7, 0xC9, 0xCB,
   0xCD, 0xCF, 0xC1, 0xC3, 0xC5, 0xC7, 0xF9, 0xFB, 0xFD, 0xFF, 0xF1, 0xF3, 0xF5, 0xF7, 0xE9, 0xEB, 0xED, 0xEF,
   0xE1, 0xE3, 0xE5, 0xE7]

/-- The constant `TX_WRITE_TIMEOUT_COUNT`. -/
def TX_WRITE_TIMEOUT_COUNT : Nat := 2

/-- The constant `EMS_BUS_TIMEOUT` (milliseconds). -/
def EMS_BUS_TIMEOUT : Nat := 15000

/-- The constant `EMS_POLL_TIMEOUT` (milliseconds). -/
def EMS_POLL_TIMEOUT : Nat := 5000

/-! ## Global state -/

/-- The fields of `_EMS_Sys_Status` that `ems.cpp` reads; the receive status and
the logging level only feed debug output. -/
structure SysStatus where
  emsRxPgks : Nat
  emsTxPkgs : Nat
  emxCrcErr : Nat
  emsTxStatus : TxStatus
  emsRefreshed : Bool
  emsPollEnabled : Bool
  emsBusConnected : Bool
  emsRxTimestamp : Nat
  emsTxCapable : Bool
  emsTxDisabled : Bool
  emsPollFrequency : Nat
  txRetryCount : Nat
deriving DecidableEq, Repr

/-- The record `_EMS_Boiler`.  A field holds the value of the expression assigned
to it; `version` holds the two numbers printed into the version text (`none` is
the initial text) and `serviceCodeChar` the two characters of the service code. -/
structure Boiler where
  type_id : Nat
  product_id : Nat
  version : Option (Nat × Nat)
  wWActivated : Nat
  wWSelTemp : Nat
  wWCircPump : Nat
  wWDesiredTemp : Nat
  wWComfort : Nat
  selFlowTemp : Nat
  curFlowTemp : Nat
  retTemp : Nat
  burnGas : Nat
  fanWork : Nat
  ignWork : Nat
  heatPmp : Nat
  wWHeat : Nat
  wWCirc : Nat
  selBurnPow : Nat
  curBurnPow : Nat
  flameCurr : Nat
  sysPress : Nat
  serviceCodeChar : Nat × Nat
  serviceCode : Nat
  extTemp : Nat
  abgasTemp : Nat
  boilTemp : Nat
  pumpMod : Nat
  burnStarts : Nat
  burnWorkMin : Nat
  heatWorkMin : Nat
  wWCurTmp : Nat
  wWStarts : Nat
  wWWorkM : Nat
  wWOneTime : Nat
  wWCurFlow : Nat
  UBAuptime : Nat
  heating_temp : Nat
  pump_mod_max : Nat
  pump_mod_min : Nat
  tapwaterActive : Nat
  heatingActive : Nat
deriving DecidableEq, Repr

/-- The record `_EMS_Thermostat`. -/
structure Thermostat where
  type_id : Nat
  model_id : Nat
  product_id : Nat
  version : Option (Nat × Nat)
  read_supported : Bool
  write_supported : Bool
  hc : Nat
  setpoint_roomTemp : Nat
  curr_roomTemp : Nat
  hour : Nat
  minute : Nat
  second : Nat
  day : Nat
  month : Nat
  year : Nat
  mode : Nat
  day_mode : Nat
  daytemp : Nat
  nighttemp : Nat
  holidaytemp : Nat
  heatingtype : Nat
  circuitcalctemp : Nat
  ausschalthysterese : Nat
  einschalthysterese : Nat
  antipendelzeit : Nat
  kesselpumennachlauf : Nat
  auslegungstemp : Nat
  maxvorlauf : Nat
  heizturbo_till_next : Nat
  roomoffset : Nat
  minoutsidetemp : Nat
  housetype : Nat
  tempaveragebool : Nat
  pausezeit : Nat
  partyzeit : Nat
  max_vorlauf_reached : Nat
  urlaub_modus : Nat
  sommer_modus : Nat
  sommerschwelletemp : Nat
  minvorlauf : Nat
deriving DecidableEq, Repr

/-- The record `_EMS_Other`. -/
structure Other where
  SM10 : Bool
  SM10collectorTemp : Nat
  SM10bottomTemp : Nat
  SM10pumpModulation : Nat
  SM10pump : Nat
deriving DecidableEq, Repr

/-- One call of a UART primitive: `emsuart_tx_buffer(data, length)` sends the
first `length` bytes of `data`, `emsaurt_tx_poll()` sends the bare poll
acknowledgement. -/
inductive UartOut where
  | buffer (bytes : List Nat)
  | poll
deriving DecidableEq, Repr

/-- The global variables of `ems.cpp`: `EMS_Sys_Status`, `EMS_TxQueue` (front
first), `EMS_Boiler`, `EMS_Thermostat`, `EMS_Other`, the static
`_last_emsPollFrequency` of `_ems_readTelegram`, and the log of the calls made
to the UART. -/
structure Ems where
  sys : SysStatus
  txq : List TxTelegram
  boiler : Boiler
  thermostat : Thermostat
  other : Other
  lastPoll : Nat
  uart : List UartOut
deriving DecidableEq, Repr

/-! ## Primitives of the collaborators -/

/-- The call `emsuart_tx_buffer(data, length)`. -/
def emsuart_tx_buffer (data : List Nat) (length : Nat) (s : Ems) : Ems :=
  { s with uart := s.uart ++ [UartOut.buffer (data.take length)] }

/-- The call `emsaurt_tx_poll()`. -/
def emsaurt_tx_poll (s : Ems) : Ems :=
  { s with uart := s.uart ++ [UartOut.poll] }

/-- The method `CircularBuffer::push` on a buffer of capacity `cap`: the value
goes to the tail, and a full buffer loses its head element. -/
def txqPush (cap : Nat) (q : List TxTelegram) (t : TxTelegram) : List TxTelegram :=
  if q.length < cap then q ++ [t] else q.tail ++ [t]

/-- The method `CircularBuffer::unshift` on a buffer of capacity `cap`: the
value goes to the head, and a full buffer loses its tail element. -/
def txqUnshift (cap : Nat) (q : List TxTelegram) (t : TxTelegram) : List TxTelegram :=
  if q.length < cap then t :: q else t :: q.dropLast

/-- The call `EMS_TxQueue.push(t)`. -/
def Ems.push (k : Consts) (s : Ems) (t : TxTelegram) : Ems :=
  { s with txq := txqPush k.EMS_TX_TELEGRAM_QUEUE_MAX s.txq t }

/-- Store into a C array: `a[i] = v`.  A store outside the array is undefined
in C; here it leaves the array as it is. -/
def setByte (a : List Nat) (i : Nat) (v : Nat) : List Nat := a.set i v

/-- Store at the index `len - 1` computed in `int`: for `len = 0` the index is
`-1`, outside the array. -/
def setLast (a : List Nat) (len : Nat) (v : Nat) : List Nat :=
  if len = 0 then a else setByte a (len - 1) v

/-- Increment of an unsigned counter of `bits` bits. -/
def incr (bits : Nat) (n : Nat) : Nat := (n + 1) % 2 ^ bits

/-! ## Frame codec -/

/-- The function `_crcCalculator(data, len)`: starting from 0, for every
`i < len - 1` the checksum is replaced by its table entry and xor-ed with
`data[i]`.  The bound `len - 1` is computed in `int`, so for `len = 0` the loop
body never runs, as with the truncated subtraction used here. -/
def _crcCalculator (data : List Nat) (len : Nat) : Nat :=
  (List.range (len - 1)).foldl (fun crc i => (ems_crc_table.getD crc 0) ^^^ (data.getD i 0)) 0

/-! ## Type registry -/

/-- The callbacks stored in `EMS_Types`. -/
inductive Decoder where
  | _process_Version
  | _process_UBAMonitorFast
  | _process_UBAMonitorSlow
  | _process_UBAMonitorWWMessage
  | _process_UBAParameterWW
  | _process_UBATotalUptimeMessage
  | _process_UBAParametersMessage
  | _process_SetPoints
  | _process_SM10Monitor
  | _process_RCTime
  | _process_RCOutdoorTempMessage
  | _process_RC10Set
  | _process_RC10StatusMessage
  | _process_RC20Set
  | _process_RC20StatusMessage
  | _process_RC30Set
  | _process_RC30StatusMessage
  | _process_RC35Set
  | _process_RC35StatusMessage
  | _process_AnlageParamSet
  | _process_HK2Schaltzeiten
  | _process_EasyStatusMessage
  | _process_RC1010StatusMessage
  | _process_RC1010SetMessage
deriving DecidableEq, Repr

/-- A row of `EMS_Types` (`_EMS_Type`) without the label; `processType_cb` is
`none` for the `NULL` callback. -/
structure EmsType where
  model_id : Nat
  type : Nat
  processType_cb : Option Decoder
  emsplus : Bool
deriving DecidableEq, Repr

/-- The table `EMS_Types`, row by row.  The `SM10Monitor` row has no
initialiser for `emsplus`, which is therefore `false`. -/
def EMS_Types (k : Consts) : List EmsType :=
  [ ⟨k.EMS_MODEL_ALL, k.EMS_TYPE_Version, some Decoder._process_Version, false⟩,
    ⟨k.EMS_MODEL_UBA, k.EMS_TYPE_UBAMonitorFast, some Decoder._process_UBAMonitorFast, false⟩,
    ⟨k.EMS_MODEL_UBA, k.EMS_TYPE_UBAMonitorSlow, some Decoder._process_UBAMonitorSlow, false⟩,
    ⟨k.EMS_MODEL_UBA, k.EMS_TYPE_UBAMonitorWWMessage, some Decoder._process_UBAMonitorWWMessage, false⟩,
    ⟨k.EMS_MODEL_UBA, k.EMS_TYPE_UBAParameterWW, some Decoder._process_UBAParameterWW, false⟩,
    ⟨k.EMS_MODEL_UBA, k.EMS_TYPE_UBATotalUptimeMessage, some Decoder._process_UBATotalUptimeMessage, false⟩,
    ⟨k.EMS_MODEL_UBA, k.EMS_TYPE_UBAMaintenanceSettingsMessage, none, false⟩,
    ⟨k.EMS_MODEL_UBA, k.EMS_TYPE_UBAParametersMessage, some Decoder._process_UBAParametersMessage, false⟩,
    ⟨k.EMS_MODEL_UBA, k.EMS_TYPE_UBASetPoints, some Decoder._process_SetPoints, false⟩,
    ⟨k.EMS_MODEL_OTHER, k.EMS_TYPE_SM10Monitor, some Decoder._process_SM10Monitor, false⟩,
    ⟨k.EMS_MODEL_RC10, k.EMS_TYPE_RCTime, some Decoder._process_RCTime, false⟩,
    ⟨k.EMS_MODEL_RC10, k.EMS_TYPE_RC10Set, some Decoder._process_RC10Set, false⟩,
    ⟨k.EMS_MODEL_RC10, k.EMS_TYPE_RC10StatusMessage, some Decoder._process_RC10StatusMessage, false⟩,
    ⟨k.EMS_MODEL_RC20, k.EMS_TYPE_RCOutdoorTempMessage, some Decoder._process_RCOutdoorTempMessage, false⟩,
    ⟨k.EMS_MODEL_RC20, k.EMS_TYPE_RCTime, some Decoder._process_RCTime, false⟩,
    ⟨k.EMS_MODEL_RC20, k.EMS_TYPE_RC20Set, some Decoder._process_RC20Set, false⟩,
    ⟨k.EMS_MODEL_RC20, k.EMS_TYPE_RC20StatusMessage, some Decoder._process_RC20StatusMessage, false⟩,
    ⟨k.EMS_MODEL_RC20F, k.EMS_TYPE_RCOutdoorTempMessage, some Decoder._process_RCOutdoorTempMessage, false⟩,
    ⟨k.EMS_MODEL_RC20F, k.EMS_TYPE_RCTime, some Decoder._process_RCTime, false⟩,
    ⟨k.EMS_MODEL_RC20F, k.EMS_TYPE_RC20Set, some Decoder._process_RC20Set, false⟩,
    ⟨k.EMS_MODEL_RC20F, k.EMS_TYPE_RC20StatusMessage, some Decoder._process_RC20StatusMessage, false⟩,
    ⟨k.EMS_MODEL_RC30, k.EMS_TYPE_RCOutdoorTempMessage, some Decoder._process_RCOutdoorTempMessage, false⟩,
    ⟨k.EMS_MODEL_RC30, k.EMS_TYPE_RCTime, some Decoder._process_RCTime, false⟩,
    ⟨k.EMS_MODEL_RC30, k.EMS_TYPE_RC30Set, some Decoder._process_RC30Set, false⟩,
    ⟨k.EMS_MODEL_RC30, k.EMS_TYPE_RC30StatusMessage, some Decoder._process_RC30StatusMessage, false⟩,
    ⟨k.EMS_MODEL_RC35, k.EMS_TYPE_RCOutdoorTempMessage, some Decoder._process_RCOutdoorTempMessage, false⟩,
    ⟨k.EMS_MODEL_RC35, k.EMS_TYPE_RCTime, some Decoder._process_RCTime, false⟩,
    ⟨k.EMS_MODEL_RC35, k.EMS_TYPE_RC35Set_HC1, some Decoder._process_RC35Set, false⟩,
    ⟨k.EMS_MODEL_RC35, k.EMS_TYPE_RC35StatusMessage_HC1, some Decoder._process_RC35StatusMessage, false⟩,
    ⟨k.EMS_MODEL_RC35, k.EMS_TYPE_RC35Set_HC2, some Decoder._process_RC35Set, false⟩,
    ⟨k.EMS_MODEL_RC35, k.EMS_TYPE_RC35StatusMessage_HC2, some Decoder._process_RC35StatusMessage, false⟩,
    ⟨k.EMS_MODEL_RC35, k.EMS_TYPE_AnlageParamSet, some Decoder._process_AnlageParamSet, false⟩,
    ⟨k.EMS_MODEL_RC35, k.EMS_TYPE_HK2Schaltzeiten, some Decoder._process_HK2Schaltzeiten, false⟩,
    ⟨k.EMS_MODEL_ES73, k.EMS_TYPE_RCOutdoorTempMessage, some Decoder._process_RCOutdoorTempMessage, false⟩,
    ⟨k.EMS_MODEL_ES73, k.EMS_TYPE_RCTime, some Decoder._process_RCTime, false⟩,
    ⟨k.EMS_MODEL_ES73, k.EMS_TYPE_RC35Set_HC1, some Decoder._process_RC35Set, false⟩,
    ⟨k.EMS_MODEL_ES73, k.EMS_TYPE_RC35StatusMessage_HC1, some Decoder._process_RC35StatusMessage, false⟩,
    ⟨k.EMS_MODEL_EASY, k.EMS_TYPE_EasyStatusMessage, some Decoder._process_EasyStatusMessage, false⟩,
    ⟨k.EMS_MODEL_BOSCHEASY, k.EMS_TYPE_EasyStatusMessage, some Decoder._process_EasyStatusMessage, false⟩,
    ⟨k.EMS_MODEL_RC1010, k.EMS_TYPE_RC1010StatusMessage, some Decoder._process_RC1010StatusMessage, true⟩,
    ⟨k.EMS_MODEL_RC1010, k.EMS_TYPE_RC1010Set, some Decoder._process_RC1010SetMessage, true⟩ ]

/-- The function `_ems_findType`: index of the first row of `EMS_Types` with
the given type id, or `-1`. -/
def _ems_findType (k : Consts) (type : Nat) : Int :=
  match (EMS_Types k).findIdx? (fun e => e.type == type) with
  | some i => (i : Int)
  | none => -1

/-! ## Transmit path -/

/-- The function `_ems_sendTelegram`. -/
def _ems_sendTelegram (k : Consts) (s : Ems) : Ems :=
  match s.txq with
  | [] => s
  | t :: rest =>
    if t.dest = k.EMS_ID_NONE then
      { s with txq := rest }
    else if t.action = EMS_TX_TELEGRAM_RAW then
      let data := setLast t.data t.length (_crcCalculator t.data t.length)
      { emsuart_tx_buffer data t.length s with txq := rest }
    else
      let d0 := setByte t.data 0 k.EMS_ID_ME
      let d1 := setByte d0 1 (if t.action = EMS_TX_TELEGRAM_WRITE then t.dest else t.dest ||| 0x80)
      let d2 := setByte d1 2 t.type
      let d3 := setByte d2 3 t.offset
      let d4 := if t.length = k.EMS_MIN_TELEGRAM_LENGTH then setByte d3 4 t.dataValue else d3
      let d5 := setLast d4 t.length (_crcCalculator d4 t.length)
      let s1 := emsuart_tx_buffer d5 t.length s
      { s1 with sys := { s1.sys with emsTxStatus := EMS_TX_STATUS_WAIT } }

/-- The function `_createValidate`.  Its local `new_EMS_TxTelegram` is not
initialised: the fields the function does not assign (`forceRefresh`,
`timestamp`, `data`) keep whatever the variable held, which is the argument
`junk`. -/
def _createValidate (k : Consts) (junk : TxTelegram) (s : Ems) : Ems :=
  match s.txq with
  | [] => s
  | t :: rest =>
    let s1 := { s with sys := { s.sys with emsTxStatus := EMS_TX_STATUS_IDLE } }
    if t.action ≠ EMS_TX_TELEGRAM_WRITE ∨ t.type_validate = k.EMS_ID_NONE then
      { s1 with txq := rest }
    else
      let n : TxTelegram :=
        { junk with
          action := EMS_TX_TELEGRAM_VALIDATE
          type_validate := t.type_validate
          dest := t.dest
          type := t.type
          comparisonValue := t.comparisonValue
          comparisonPostRead := t.comparisonPostRead
          comparisonOffset := t.comparisonOffset
          offset := t.comparisonOffset
          dataValue := 1
          length := k.EMS_MIN_TELEGRAM_LENGTH }
      { s1 with txq := txqUnshift k.EMS_TX_TELEGRAM_QUEUE_MAX rest n }

/-- The function `_removeTxQueue`. -/
def _removeTxQueue (s : Ems) : Ems :=
  { s with txq := s.txq.tail, sys := { s.sys with emsTxStatus := EMS_TX_STATUS_IDLE } }

/-- The function `ems_setEmsRefreshed`. -/
def ems_setEmsRefreshed (b : Bool) (s : Ems) : Ems :=
  { s with sys := { s.sys with emsRefreshed := b } }

/-- The function `ems_setPoll`. -/
def ems_setPoll (b : Bool) (s : Ems) : Ems :=
  { s with sys := { s.sys with emsPollEnabled := b } }

/-- The function `ems_setTxDisabled`. -/
def ems_setTxDisabled (b : Bool) (s : Ems) : Ems :=
  { s with sys := { s.sys with emsTxDisabled := b } }

/-- The function `ems_setThermostatHC`. -/
def ems_setThermostatHC (hc : Nat) (s : Ems) : Ems :=
  { s with thermostat := { s.thermostat with hc := hc } }

/-- The function `ems_getThermostatEnabled`. -/
def ems_getThermostatEnabled (k : Consts) (s : Ems) : Bool :=
  s.thermostat.type_id != k.EMS_ID_NONE

/-- The function `ems_getBoilerEnabled`. -/
def ems_getBoilerEnabled (k : Consts) (s : Ems) : Bool :=
  s.boiler.type_id != k.EMS_ID_NONE

/-- The function `ems_getTxCapable`: the state after the call and the value
returned. -/
def ems_getTxCapable (s : Ems) : Ems × Bool :=
  let s1 : Ems :=
    if s.sys.emsPollFrequency = 0 ∨ s.sys.emsPollFrequency > EMS_POLL_TIMEOUT then
      { s with sys := { s.sys with emsTxCapable := false } }
    else s
  (s1, s1.sys.emsTxCapable)

/-- The function `ems_getBusConnected` called at time `now`, in 32-bit unsigned
arithmetic: the state after the call and the value returned. -/
def ems_getBusConnected (now : Nat) (s : Ems) : Ems × Bool :=
  let s1 : Ems :=
    if (now + 2 ^ 32 - s.sys.emsRxTimestamp) % 2 ^ 32 > EMS_BUS_TIMEOUT then
      { s with sys := { s.sys with emsBusConnected := false } }
    else s
  (s1, s1.sys.emsBusConnected)

/-- The function `ems_doReadCommand(type, dest, forceRefresh)`. -/
def ems_doReadCommand (k : Consts) (now : Nat) (type dest : Nat) (forceRefresh : Bool)
    (s : Ems) : Ems :=
  if type = k.EMS_ID_NONE ∨ dest = k.EMS_ID_NONE then s
  else if s.sys.emsTxDisabled then s
  else
    let t : TxTelegram :=
      { k.EMS_TX_TELEGRAM_NEW with
        timestamp := now
        action := EMS_TX_TELEGRAM_READ
        dest := dest
        offset := 0
        length := k.EMS_MIN_TELEGRAM_LENGTH
        type := type
        dataValue := k.EMS_MAX_TELEGRAM_LENGTH
        type_validate := k.EMS_ID_NONE
        comparisonValue := 0
        comparisonOffset := 0
        comparisonPostRead := k.EMS_ID_NONE
        forceRefresh := forceRefresh }
    Ems.push k { s with sys := { s.sys with txRetryCount := 0 } } t

/-- The body of the `while (p != 0)` loop of `ems_sendRawTelegram` for the
tokens after the first: `count` is a `uint8_t`, so `++count` wraps at 256. -/
def rawLoop : List Nat → TxTelegram × Nat → TxTelegram × Nat
  | [], acc => acc
  | val :: rest, (t, count) =>
    let count1 := (count + 1) % 256
    let t1 : TxTelegram := { t with data := setByte t.data count1 val }
    let t2 : TxTelegram :=
      if count1 = 1 then { t1 with dest := val }
      else if count1 = 2 then { t1 with type := val }
      else if count1 = 3 then { t1 with offset := val }
      else t1
    rawLoop rest (t2, count1)

/-- The function `ems_sendRawTelegram`.  The text is cut into tokens by
`strtok` and each token is converted by `(uint8_t)strtol(value, 0, 16)`, both
from the C library; `vals` is the list of the bytes so obtained, one per
token. -/
def ems_sendRawTelegram (k : Consts) (now : Nat) (vals : List Nat) (s : Ems) : Ems :=
  if s.sys.emsTxDisabled then s
  else
    let s1 : Ems := { s with sys := { s.sys with txRetryCount := 0 } }
    let t0 : TxTelegram := { k.EMS_TX_TELEGRAM_NEW with timestamp := now }
    match vals with
    | [] => s1
    | v0 :: rest =>
      let r := rawLoop rest ({ t0 with data := setByte t0.data 0 v0 }, 0)
      if r.2 = 0 then s1
      else
        Ems.push k s1
          { r.1 with
            length := (r.2 + 2) % 256
            type_validate := k.EMS_ID_NONE
            action := EMS_TX_TELEGRAM_RAW }

/-- The function `ems_setThermostatTemp(temperature, temptype)`.  The data value
is `(uint8_t)((float)temperature * (float)2)`; floating point is not modelled
and `value` is the byte this conversion yields. -/
def ems_setThermostatTemp (k : Consts) (now : Nat) (value : Nat) (temptype : Nat)
    (s : Ems) : Ems :=
  if !ems_getThermostatEnabled k s then s
  else if !s.thermostat.write_supported then s
  else
    let model_id := s.thermostat.model_id
    let type := s.thermostat.type_id
    let hc := s.thermostat.hc
    let t0 : TxTelegram :=
      { k.EMS_TX_TELEGRAM_NEW with
        timestamp := now, action := EMS_TX_TELEGRAM_WRITE, dest := type }
    let t1 : TxTelegram :=
      if model_id = k.EMS_MODEL_RC20 then
        { t0 with type := k.EMS_TYPE_RC20Set, offset := k.EMS_OFFSET_RC20Set_temp,
                  comparisonPostRead := k.EMS_TYPE_RC20StatusMessage }
      else if model_id = k.EMS_MODEL_RC10 then
        { t0 with type := k.EMS_TYPE_RC10Set, offset := k.EMS_OFFSET_RC10Set_temp,
                  comparisonPostRead := k.EMS_TYPE_RC10StatusMessage }
      else if model_id = k.EMS_MODEL_RC30 then
        { t0 with type := k.EMS_TYPE_RC30Set, offset := k.EMS_OFFSET_RC30Set_temp,
                  comparisonPostRead := k.EMS_TYPE_RC30StatusMessage }
      else if model_id = k.EMS_MODEL_RC35 ∨ model_id = k.EMS_MODEL_ES73 then
        let a : TxTelegram :=
          if temptype = 1 then { t0 with offset := k.EMS_OFFSET_RC35Set_temp_night }
          else if temptype = 2 then { t0 with offset := k.EMS_OFFSET_RC35Set_temp_day }
          else if temptype = 3 then { t0 with offset := 3 }
          else if s.thermostat.day_mode = 0 then
            { t0 with offset := k.EMS_OFFSET_RC35Set_temp_night }
          else if s.thermostat.day_mode = 1 then
            { t0 with offset := k.EMS_OFFSET_RC35Set_temp_day }
          else t0
        if hc = 1 then
          { a with type := k.EMS_TYPE_RC35Set_HC1,
                   comparisonPostRead := k.EMS_TYPE_RC35StatusMessage_HC1 }
        else
          { a with type := k.EMS_TYPE_RC35Set_HC2,
                   comparisonPostRead := k.EMS_TYPE_RC35StatusMessage_HC2 }
      else t0
    let t2 : TxTelegram :=
      { t1 with
        length := k.EMS_MIN_TELEGRAM_LENGTH
        dataValue := value
        type_validate := t1.type
        comparisonOffset := t1.offset
        comparisonValue := value
        forceRefresh := false }
    Ems.push k { s with sys := { s.sys with txRetryCount := 0 } } t2

/-- The function `ems_setThermostatMode(mode)`. -/
def ems_setThermostatMode (k : Consts) (now : Nat) (mode : Nat) (s : Ems) : Ems :=
  if !ems_getThermostatEnabled k s then s
  else if !s.thermostat.write_supported then s
  else
    let model_id := s.thermostat.model_id
    let type := s.thermostat.type_id
    let hc := s.thermostat.hc
    let t0 : TxTelegram :=
      { k.EMS_TX_TELEGRAM_NEW with
        timestamp := now, action := EMS_TX_TELEGRAM_WRITE, dest := type
        length := k.EMS_MIN_TELEGRAM_LENGTH, dataValue := mode }
    let t1 : TxTelegram :=
      if model_id = k.EMS_MODEL_RC20 then
        { t0 with type := k.EMS_TYPE_RC20Set, offset := k.EMS_OFFSET_RC20Set_mode }
      else if model_id = k.EMS_MODEL_RC30 then
        { t0 with type := k.EMS_TYPE_RC30Set, offset := k.EMS_OFFSET_RC30Set_mode }
      else if model_id = k.EMS_MODEL_RC35 ∨ model_id = k.EMS_MODEL_ES73 then
        { t0 with
          type := if hc = 2 then k.EMS_TYPE_RC35Set_HC2 else k.EMS_TYPE_RC35Set_HC1
          offset := k.EMS_OFFSET_RC35Set_mode }
      else t0
    let t2 : TxTelegram :=
      { t1 with
        type_validate := t1.type
        comparisonOffset := t1.offset
        comparisonValue := t1.dataValue
        comparisonPostRead := t1.type
        forceRefresh := false }
    Ems.push k { s with sys := { s.sys with txRetryCount := 0 } } t2

/-- The function `ems_setWarmWaterTemp(temperature)`. -/
def ems_setWarmWaterTemp (k : Consts) (now : Nat) (temperature : Nat) (s : Ems) : Ems :=
  if temperature < 30 ∨ temperature > k.EMS_BOILER_TAPWATER_TEMPERATURE_MAX then s
  else
    let t : TxTelegram :=
      { k.EMS_TX_TELEGRAM_NEW with
        timestamp := now
        action := EMS_TX_TELEGRAM_WRITE
        dest := s.boiler.type_id
        type := k.EMS_TYPE_UBAParameterWW
        offset := k.EMS_OFFSET_UBAParameterWW_wwtemp
        length := k.EMS_MIN_TELEGRAM_LENGTH
        dataValue := temperature
        type_validate := k.EMS_TYPE_UBAParameterWW
        comparisonOffset := k.EMS_OFFSET_UBAParameterWW_wwtemp
        comparisonValue := temperature
        comparisonPostRead := k.EMS_TYPE_UBAParameterWW
        forceRefresh := false }
    Ems.push k { s with sys := { s.sys with txRetryCount := 0 } } t

/-- The function `ems_setFlowTemp(temperature)`. -/
def ems_setFlowTemp (k : Consts) (now : Nat) (temperature : Nat) (s : Ems) : Ems :=
  let t : TxTelegram :=
    { k.EMS_TX_TELEGRAM_NEW with
      timestamp := now
      action := EMS_TX_TELEGRAM_WRITE
      dest := s.boiler.type_id
      type := k.EMS_TYPE_UBASetPoints
      offset := k.EMS_OFFSET_UBASetPoints_flowtemp
      length := k.EMS_MIN_TELEGRAM_LENGTH
      dataValue := temperature
      type_validate := k.EMS_TYPE_UBASetPoints
      comparisonOffset := k.EMS_OFFSET_UBASetPoints_flowtemp
      comparisonValue := temperature
      comparisonPostRead := k.EMS_TYPE_UBASetPoints
      forceRefresh := false }
  Ems.push k { s with sys := { s.sys with txRetryCount := 0 } } t

/-- The function `ems_setWarmWaterModeComfort(comfort)`: the retry counter is
reset before the argument is checked. -/
def ems_setWarmWaterModeComfort (k : Consts) (now : Nat) (comfort : Nat) (s : Ems) : Ems :=
  let s1 : Ems := { s with sys := { s.sys with txRetryCount := 0 } }
  let t0 : TxTelegram := { k.EMS_TX_TELEGRAM_NEW with timestamp := now }
  let dv : Option Nat :=
    if comfort = 1 then some k.EMS_VALUE_UBAParameterWW_wwComfort_Hot
    else if comfort = 2 then some k.EMS_VALUE_UBAParameterWW_wwComfort_Eco
    else if comfort = 3 then some k.EMS_VALUE_UBAParameterWW_wwComfort_Intelligent
    else none
  match dv with
  | none => s1
  | some v =>
    Ems.push k s1
      { t0 with
        dataValue := v
        action := EMS_TX_TELEGRAM_WRITE
        dest := s.boiler.type_id
        type := k.EMS_TYPE_UBAParameterWW
        offset := k.EMS_OFFSET_UBAParameterWW_wwComfort
        length := k.EMS_MIN_TELEGRAM_LENGTH
        type_validate := k.EMS_ID_NONE }

/-- The function `ems_setWarmWaterActivated(activated)`. -/
def ems_setWarmWaterActivated (k : Consts) (now : Nat) (activated : Bool) (s : Ems) : Ems :=
  let t : TxTelegram :=
    { k.EMS_TX_TELEGRAM_NEW with
      timestamp := now
      action := EMS_TX_TELEGRAM_WRITE
      dest := s.boiler.type_id
      type := k.EMS_TYPE_UBAParameterWW
      offset := k.EMS_OFFSET_UBAParameterWW_wwactivated
      length := k.EMS_MIN_TELEGRAM_LENGTH
      type_validate := k.EMS_ID_NONE
      dataValue := if activated then 0xFF else 0x00 }
  Ems.push k { s with sys := { s.sys with txRetryCount := 0 } } t

/-- The function `ems_setWarmTapWaterActivated(activated)`. -/
def ems_setWarmTapWaterActivated (k : Consts) (now : Nat) (activated : Bool) (s : Ems) : Ems :=
  let t0 : TxTelegram := { k.EMS_TX_TELEGRAM_NEW with timestamp := now }
  let cleared : List Nat :=
    (List.range k.EMS_MAX_TELEGRAM_LENGTH).foldl (fun d i => setByte d i 0x00) t0.data
  let t1 : TxTelegram :=
    { t0 with
      data := cleared
      action := EMS_TX_TELEGRAM_WRITE
      dest := s.boiler.type_id
      type := k.EMS_TYPE_UBAFunctionTest
      offset := 0
      length := 22
      type_validate := k.EMS_TYPE_UBAFunctionTest
      comparisonOffset := 0
      comparisonValue := if activated then 0 else 1
      comparisonPostRead := k.EMS_TYPE_UBAFunctionTest
      forceRefresh := true }
  let h0 := setByte t1.data 0 k.EMS_ID_ME
  let h1 := setByte h0 1 t1.dest
  let h2 := setByte h1 2 t1.type
  let h3 := setByte h2 3 t1.offset
  let d : List Nat :=
    if !activated then
      setByte (setByte (setByte (setByte h3 4 0x5A) 5 0x00) 7 0x64) 8 0xFF
    else h3
  Ems.push k { s with sys := { s.sys with txRetryCount := 0 } } { t1 with data := d }

/-- The function `ems_getThermostatValues`.  The two raw requests are the texts
`0b 90 49 55 20` and `0b 90 47 16 20`. -/
def ems_getThermostatValues (k : Consts) (now : Nat) (s : Ems) : Ems :=
  if !ems_getThermostatEnabled k s then s
  else if !s.thermostat.read_supported then s
  else
    let model_id := s.thermostat.model_id
    let type := s.thermostat.type_id
    let s0 : Ems := { s with thermostat := { s.thermostat with hc := 2 } }
    let hc := s0.thermostat.hc
    let rd := fun (ty : Nat) (x : Ems) => ems_doReadCommand k now ty type false x
    let s1 : Ems :=
      if model_id = k.EMS_MODEL_RC20 then
        rd k.EMS_TYPE_RC20Set (rd k.EMS_TYPE_RC20StatusMessage s0)
      else if model_id = k.EMS_MODEL_RC30 then
        rd k.EMS_TYPE_RC30Set (rd k.EMS_TYPE_RC30StatusMessage s0)
      else if model_id = k.EMS_MODEL_RC35 ∨ model_id = k.EMS_MODEL_ES73 then
        if hc = 1 then
          rd k.EMS_TYPE_RC35Set_HC1 (rd k.EMS_TYPE_RC35StatusMessage_HC1 s0)
        else if hc = 2 then
          let a := rd k.EMS_TYPE_RC35Set_HC2 (rd k.EMS_TYPE_RC35StatusMessage_HC2 s0)
          let b := rd k.EMS_TYPE_AnlageParamSet a
          let c := ems_sendRawTelegram k now [0x0b, 0x90, 0x49, 0x55, 0x20] b
          ems_sendRawTelegram k now [0x0b, 0x90, 0x47, 0x16, 0x20] c
        else s0
      else if model_id = k.EMS_MODEL_EASY ∨ model_id = k.EMS_MODEL_BOSCHEASY then
        rd k.EMS_TYPE_EasyStatusMessage s0
      else s0
    rd k.EMS_TYPE_RCTime s1

/-- The function `ems_getBoilerValues`. -/
def ems_getBoilerValues (k : Consts) (now : Nat) (s : Ems) : Ems :=
  let rd := fun (ty : Nat) (x : Ems) => ems_doReadCommand k now ty x.boiler.type_id false x
  rd k.EMS_TYPE_UBATotalUptimeMessage
    (rd k.EMS_TYPE_UBAParametersMessage
      (rd k.EMS_TYPE_UBAParameterWW
        (rd k.EMS_TYPE_UBAMonitorSlow
          (rd k.EMS_TYPE_UBAMonitorFast s))))

/-- The function `ems_getOtherValues`. -/
def ems_getOtherValues (k : Consts) (now : Nat) (s : Ems) : Ems :=
  if s.other.SM10 then ems_doReadCommand k now k.EMS_TYPE_SM10Monitor k.EMS_ID_SM10 false s
  else s

/-- The method `std::list::unique`: of every run of equal neighbours only the
first stays. -/
def unique : List Nat → List Nat
  | [] => []
  | [a] => [a]
  | a :: b :: rest => if a = b then unique (b :: rest) else a :: unique (b :: rest)

/-- The list `Device_Ids` that `ems_scanDevices` builds: the device ids of the
three catalogs, sorted, made unique, without `EMS_MODEL_NONE`. -/
def Device_Ids (k : Consts) : List Nat :=
  let ids := k.Boiler_Types.map (fun bt => bt.type_id)
    ++ k.Thermostat_Types.map (fun tt => tt.type_id)
    ++ k.Other_Types.map (fun ot => ot.type_id)
  (unique (ids.insertionSort (fun a b => a ≤ b))).filter (fun a => a != k.EMS_MODEL_NONE)

/-- The function `ems_scanDevices`. -/
def ems_scanDevices (k : Consts) (now : Nat) (s : Ems) : Ems :=
  (Device_Ids k).foldl (fun x type_id => ems_doReadCommand k now k.EMS_TYPE_Version type_id false x) s

/-- The function `ems_discoverModels`. -/
def ems_discoverModels (k : Consts) (now : Nat) (s : Ems) : Ems :=
  let s1 := ems_doReadCommand k now k.EMS_TYPE_Version s.boiler.type_id false s
  let s2 := ems_doReadCommand k now k.EMS_TYPE_Version k.EMS_ID_SM10 false s1
  if s2.thermostat.type_id = k.EMS_ID_NONE then ems_scanDevices k now s2
  else ems_doReadCommand k now k.EMS_TYPE_Version s2.thermostat.type_id false s2

/-- The function `ems_startupTelegrams`; the two texts are printed from
`EMS_ID_ME` and the boiler's device id. -/
def ems_startupTelegrams (k : Consts) (now : Nat) (s : Ems) : Ems :=
  let s1 := ems_sendRawTelegram k now [k.EMS_ID_ME % 256, s.boiler.type_id % 256, 0x1D, 0x00, 0x00] s
  ems_sendRawTelegram k now
    [k.EMS_ID_ME % 256, (s1.boiler.type_id ||| 0x80) % 256, 0x01, 0x00, 0x1B] s1

/-! ## Decoders

A decoder receives the bytes that start at its `data` pointer; a read outside
the bytes given yields 0. -/

/-- The macro `_toByte(i)`. -/
def _toByte (data : List Nat) (i : Nat) : Nat := data.getD i 0

/-- The macro `_toShort(i)`. -/
def _toShort (data : List Nat) (i : Nat) : Nat :=
  (data.getD i 0 <<< 8) + data.getD (i + 1) 0

/-- The macro `_toLong(i)`. -/
def _toLong (data : List Nat) (i : Nat) : Nat :=
  (data.getD i 0 <<< 16) + (data.getD (i + 1) 0 <<< 8) + data.getD (i + 2) 0

/-- The macro `_bitRead(i, bit)`. -/
def _bitRead (data : List Nat) (i bit : Nat) : Nat := (data.getD i 0 >>> bit) &&& 0x01

/-- The Arduino macro `bitRead(value, bit)`. -/
def bitRead (value bit : Nat) : Nat := (value >>> bit) &&& 0x01

/-- A C truth value stored in a number. -/
def ofBool (b : Bool) : Nat := if b then 1 else 0

/-- Raise `EMS_Sys_Status.emsRefreshed`. -/
def setRefreshed (s : Ems) : Ems := { s with sys := { s.sys with emsRefreshed := true } }

/-- The function `_checkActive`. -/
def _checkActive (k : Consts) (s : Ems) : Ems :=
  let s1 : Ems :=
    if s.boiler.wWCurFlow ≠ k.EMS_VALUE_INT_NOTSET ∧ s.boiler.burnGas ≠ k.EMS_VALUE_INT_NOTSET then
      { s with boiler := { s.boiler with
          tapwaterActive :=
            ofBool (s.boiler.wWCurFlow != 0 && s.boiler.burnGas == k.EMS_VALUE_INT_ON) } }
    else s
  if s1.boiler.selFlowTemp ≠ k.EMS_VALUE_INT_NOTSET ∧ s1.boiler.burnGas ≠ k.EMS_VALUE_INT_NOTSET then
    { s1 with boiler := { s1.boiler with
        heatingActive :=
          ofBool (decide (s1.boiler.selFlowTemp ≥ k.EMS_BOILER_SELFLOWTEMP_HEATING)
            && s1.boiler.burnGas == k.EMS_VALUE_INT_ON) } }
  else s1

/-- The function `_process_UBAParameterWW`. -/
def _process_UBAParameterWW (k : Consts) (data : List Nat) (s : Ems) : Ems :=
  setRefreshed { s with boiler := { s.boiler with
    wWActivated := ofBool (_toByte data 1 == 0xFF)
    wWSelTemp := _toByte data 2
    wWCircPump := ofBool (_toByte data 6 == 0xFF)
    wWDesiredTemp := _toByte data 8
    wWComfort := _toByte data k.EMS_OFFSET_UBAParameterWW_wwComfort } }

/-- The function `_process_UBATotalUptimeMessage`. -/
def _process_UBATotalUptimeMessage (data : List Nat) (s : Ems) : Ems :=
  setRefreshed { s with boiler := { s.boiler with UBAuptime := _toLong data 0 } }

/-- The function `_process_UBAParametersMessage`. -/
def _process_UBAParametersMessage (data : List Nat) (s : Ems) : Ems :=
  { s with
    boiler := { s.boiler with
      heating_temp := _toByte data 1
      pump_mod_max := _toByte data 9
      pump_mod_min := _toByte data 10 }
    thermostat := { s.thermostat with
      ausschalthysterese := _toByte data 4
      einschalthysterese := _toByte data 5
      antipendelzeit := _toByte data 6
      kesselpumennachlauf := _toByte data 8 } }

/-- The function `_process_UBAMonitorWWMessage`. -/
def _process_UBAMonitorWWMessage (data : List Nat) (s : Ems) : Ems :=
  { s with boiler := { s.boiler with
    wWCurTmp := _toShort data 1
    wWStarts := _toLong data 13
    wWWorkM := _toLong data 10
    wWOneTime := _bitRead data 5 1
    wWCurFlow := _toByte data 9 } }

/-- The function `_process_UBAMonitorFast`. -/
def _process_UBAMonitorFast (k : Consts) (data : List Nat) (s : Ems) : Ems :=
  _checkActive k { s with boiler := { s.boiler with
    selFlowTemp := _toByte data 0
    curFlowTemp := _toShort data 1
    retTemp := _toShort data 13
    burnGas := _bitRead data 7 0
    fanWork := _bitRead data 7 2
    ignWork := _bitRead data 7 3
    heatPmp := _bitRead data 7 5
    wWHeat := _bitRead data 7 6
    wWCirc := _bitRead data 7 7
    curBurnPow := _toByte data 4
    selBurnPow := _toByte data 3
    flameCurr := _toShort data 15
    serviceCodeChar := (_toByte data 18, _toByte data 19)
    serviceCode := _toShort data 20
    sysPress := _toByte data 17 } }

/-- The function `_process_UBAMonitorSlow`. -/
def _process_UBAMonitorSlow (data : List Nat) (s : Ems) : Ems :=
  { s with boiler := { s.boiler with
    extTemp := _toShort data 0
    abgasTemp := _toShort data 4
    boilTemp := _toShort data 2
    pumpMod := _toByte data 9
    burnStarts := _toLong data 10
    burnWorkMin := _toLong data 13
    heatWorkMin := _toLong data 19 } }

/-- The function `_process_RC10StatusMessage`. -/
def _process_RC10StatusMessage (k : Consts) (data : List Nat) (s : Ems) : Ems :=
  setRefreshed { s with thermostat := { s.thermostat with
    setpoint_roomTemp := _toByte data k.EMS_OFFSET_RC10StatusMessage_setpoint
    curr_roomTemp := _toByte data k.EMS_OFFSET_RC10StatusMessage_curr } }

/-- The function `_process_RC20StatusMessage`. -/
def _process_RC20StatusMessage (k : Consts) (data : List Nat) (s : Ems) : Ems :=
  setRefreshed { s with thermostat := { s.thermostat with
    setpoint_roomTemp := _toByte data k.EMS_OFFSET_RC20StatusMessage_setpoint
    curr_roomTemp := _toShort data k.EMS_OFFSET_RC20StatusMessage_curr } }

/-- The function `_process_RC30StatusMessage`. -/
def _process_RC30StatusMessage (k : Consts) (data : List Nat) (s : Ems) : Ems :=
  setRefreshed { s with thermostat := { s.thermostat with
    setpoint_roomTemp := _toByte data k.EMS_OFFSET_RC30StatusMessage_setpoint
    curr_roomTemp := _toShort data k.EMS_OFFSET_RC30StatusMessage_curr } }

/-- The function `_process_RC35StatusMessage`. -/
def _process_RC35StatusMessage (k : Consts) (data : List Nat) (s : Ems) : Ems :=
  setRefreshed { s with thermostat := { s.thermostat with
    setpoint_roomTemp := _toByte data k.EMS_OFFSET_RC35StatusMessage_setpoint
    curr_roomTemp :=
      if data.getD 3 0 = 0x7D then k.EMS_VALUE_SHORT_NOTSET
      else _toShort data k.EMS_OFFSET_RC35StatusMessage_curr
    urlaub_modus := bitRead (data.getD 0 0) 5
    sommer_modus := bitRead (data.getD k.EMS_OFFSET_RC35Get_mode_day 0) 0
    day_mode := bitRead (data.getD k.EMS_OFFSET_RC35Get_mode_day 0) 1
    max_vorlauf_reached := bitRead (data.getD k.EMS_OFFSET_RC35Get_mode_day 0) 5
    circuitcalctemp := data.getD k.EMS_OFFSET_RC35Set_circuitcalctemp 0 } }

/-- The function `_process_EasyStatusMessage`. -/
def _process_EasyStatusMessage (k : Consts) (data : List Nat) (s : Ems) : Ems :=
  setRefreshed { s with thermostat := { s.thermostat with
    curr_roomTemp := _toShort data k.EMS_OFFSET_EasyStatusMessage_curr
    setpoint_roomTemp := _toShort data k.EMS_OFFSET_EasyStatusMessage_setpoint } }

/-- The function `_process_RC1010StatusMessage`. -/
def _process_RC1010StatusMessage (k : Consts) (data : List Nat) (s : Ems) : Ems :=
  { s with thermostat := { s.thermostat with
    curr_roomTemp := _toShort data k.EMS_OFFSET_RC1010StatusMessage_curr
    setpoint_roomTemp := _toByte data k.EMS_OFFSET_RC1010StatusMessage_setpoint } }

/-- The function `_process_RC20Set`. -/
def _process_RC20Set (k : Consts) (data : List Nat) (s : Ems) : Ems :=
  { s with thermostat := { s.thermostat with mode := _toByte data k.EMS_OFFSET_RC20Set_mode } }

/-- The function `_process_RC30Set`. -/
def _process_RC30Set (k : Consts) (data : List Nat) (s : Ems) : Ems :=
  { s with thermostat := { s.thermostat with mode := _toByte data k.EMS_OFFSET_RC30Set_mode } }

/-- The function `_process_AnlageParamSet`. -/
def _process_AnlageParamSet (data : List Nat) (s : Ems) : Ems :=
  { s with thermostat := { s.thermostat with
    minoutsidetemp := _toByte data 5
    housetype := _toByte data 6
    tempaveragebool := _toByte data 21 } }

/-- The function `_process_HK2Schaltzeiten`. -/
def _process_HK2Schaltzeiten (data : List Nat) (s : Ems) : Ems :=
  { s with thermostat := { s.thermostat with
    pausezeit := _toByte data 1
    partyzeit := _toByte data 2 } }

/-- The function `_process_RC35Set(src, data, length)`.  The guard
`if (EMS_Thermostat.hc =2 && src != 71)` is an assignment: it stores the truth
value of `2 && src != 71` into `hc` and returns when that value is not 0. -/
def _process_RC35Set (k : Consts) (src : Nat) (data : List Nat) (s : Ems) : Ems :=
  let s1 : Ems := { s with thermostat := { s.thermostat with
    mode := _toByte data k.EMS_OFFSET_RC35Set_mode } }
  let s2 : Ems := { s1 with thermostat := { s1.thermostat with hc := ofBool (src != 71) } }
  if s2.thermostat.hc ≠ 0 then s2
  else
    setRefreshed { s2 with thermostat := { s2.thermostat with
      daytemp := _toByte data k.EMS_OFFSET_RC35Set_temp_day
      nighttemp := _toByte data k.EMS_OFFSET_RC35Set_temp_night
      holidaytemp := _toByte data k.EMS_OFFSET_RC35Set_temp_holiday
      roomoffset := _toByte data 6
      heatingtype := _toByte data k.EMS_OFFSET_RC35Set_heatingtype
      sommerschwelletemp := _toByte data 22
      minvorlauf := _toByte data 16 } }

/-- The function `_process_SM10Monitor`. -/
def _process_SM10Monitor (data : List Nat) (s : Ems) : Ems :=
  setRefreshed { s with other := { s.other with
    SM10collectorTemp := _toShort data 2
    SM10bottomTemp := _toShort data 5
    SM10pumpModulation := _toByte data 4
    SM10pump := _bitRead data 7 1 } }

/-- The function `_process_RCTime`. -/
def _process_RCTime (k : Consts) (data : List Nat) (s : Ems) : Ems :=
  if s.thermostat.model_id = k.EMS_MODEL_EASY ∨ s.thermostat.model_id = k.EMS_MODEL_BOSCHEASY then s
  else
    { s with thermostat := { s.thermostat with
      hour := _toByte data 2
      minute := _toByte data 4
      second := _toByte data 5
      day := _toByte data 3
      month := _toByte data 1
      year := _toByte data 0 } }

/-- The size `_Boiler_Types_max`, a `uint8_t`. -/
def _Boiler_Types_max (k : Consts) : Nat := k.Boiler_Types.length % 256

/-- The size `_Thermostat_Types_max`, a `uint8_t`. -/
def _Thermostat_Types_max (k : Consts) : Nat := k.Thermostat_Types.length % 256

/-- The size `_Other_Types_max`, a `uint8_t`. -/
def _Other_Types_max (k : Consts) : Nat := k.Other_Types.length % 256

/-- The function `_process_Version(src, data, length)`. -/
def _process_Version (k : Consts) (now : Nat) (data : List Nat) (length : Nat) (s : Ems) : Ems :=
  if length < 3 then s
  else
    let product_id := _toByte data 0
    let version : Option (Nat × Nat) := some (_toByte data 1, _toByte data 2)
    match (k.Boiler_Types.take (_Boiler_Types_max k)).find? (fun b => b.product_id == product_id) with
    | some b =>
      if (s.boiler.type_id = k.EMS_ID_NONE ∨ s.boiler.type_id = b.type_id)
          ∧ s.boiler.product_id = k.EMS_ID_NONE then
        ems_getBoilerValues k now
          { s with boiler := { s.boiler with
              type_id := b.type_id, product_id := b.product_id, version := version } }
      else s
    | none =>
      match (k.Thermostat_Types.take (_Thermostat_Types_max k)).find?
          (fun t => t.product_id == product_id) with
      | some t =>
        if (s.thermostat.type_id = k.EMS_ID_NONE ∨ s.thermostat.model_id = k.EMS_MODEL_NONE
              ∨ s.thermostat.type_id = t.type_id)
            ∧ s.thermostat.product_id = k.EMS_ID_NONE then
          ems_getThermostatValues k now
            { s with thermostat := { s.thermostat with
                model_id := t.model_id
                type_id := t.type_id
                read_supported := t.read_supported
                write_supported := t.write_supported
                product_id := product_id
                version := version } }
        else s
      | none =>
        match (k.Other_Types.take (_Other_Types_max k)).find?
            (fun o => o.product_id == product_id) with
        | some o =>
          let s1 : Ems :=
            if o.type_id = k.EMS_ID_SM10 then { s with other := { s.other with SM10 := true } }
            else s
          ems_getOtherValues k now s1
        | none => s

/-- The function `_process_SetPoints`: it only prints. -/
def _process_SetPoints (s : Ems) : Ems := s

/-- The function `_process_RCOutdoorTempMessage`: its body is empty. -/
def _process_RCOutdoorTempMessage (s : Ems) : Ems := s

/-- The function `_process_RC10Set`: its body is empty. -/
def _process_RC10Set (s : Ems) : Ems := s

/-- The function `_process_RC1010SetMessage`: its body is empty. -/
def _process_RC1010SetMessage (s : Ems) : Ems := s

/-- Call of a callback of `EMS_Types` with the arguments `(src, data, length)`. -/
def runDecoder (k : Consts) (now : Nat) (d : Decoder) (src : Nat) (data : List Nat)
    (length : Nat) (s : Ems) : Ems :=
  match d with
  | Decoder._process_Version => _process_Version k now data length s
  | Decoder._process_UBAMonitorFast => _process_UBAMonitorFast k data s
  | Decoder._process_UBAMonitorSlow => _process_UBAMonitorSlow data s
  | Decoder._process_UBAMonitorWWMessage => _process_UBAMonitorWWMessage data s
  | Decoder._process_UBAParameterWW => _process_UBAParameterWW k data s
  | Decoder._process_UBATotalUptimeMessage => _process_UBATotalUptimeMessage data s
  | Decoder._process_UBAParametersMessage => _process_UBAParametersMessage data s
  | Decoder._process_SetPoints => _process_SetPoints s
  | Decoder._process_SM10Monitor => _process_SM10Monitor data s
  | Decoder._process_RCTime => _process_RCTime k data s
  | Decoder._process_RCOutdoorTempMessage => _process_RCOutdoorTempMessage s
  | Decoder._process_RC10Set => _process_RC10Set s
  | Decoder._process_RC10StatusMessage => _process_RC10StatusMessage k data s
  | Decoder._process_RC20Set => _process_RC20Set k data s
  | Decoder._process_RC20StatusMessage => _process_RC20StatusMessage k data s
  | Decoder._process_RC30Set => _process_RC30Set k data s
  | Decoder._process_RC30StatusMessage => _process_RC30StatusMessage k data s
  | Decoder._process_RC35Set => _process_RC35Set k src data s
  | Decoder._process_RC35StatusMessage => _process_RC35StatusMessage k data s
  | Decoder._process_AnlageParamSet => _process_AnlageParamSet data s
  | Decoder._process_HK2Schaltzeiten => _process_HK2Schaltzeiten data s
  | Decoder._process_EasyStatusMessage => _process_EasyStatusMessage k data s
  | Decoder._process_RC1010StatusMessage => _process_RC1010StatusMessage k data s
  | Decoder._process_RC1010SetMessage => _process_RC1010SetMessage s

/-! ## Receive path -/

/-- Set `EMS_Sys_Status.emsTxStatus`. -/
def setTxStatus (st : TxStatus) (s : Ems) : Ems := { s with sys := { s.sys with emsTxStatus := st } }

/-- The search loop of `_ems_processTelegram`: the first row of `EMS_Types`
whose type id is `type` and which is either common to all models or met with a
source that is the boiler, the thermostat or the SM10. -/
def findTypeRow (k : Consts) (s : Ems) (src type : Nat) : Option EmsType :=
  (EMS_Types k).find? (fun e =>
    e.type == type &&
      (e.model_id == k.EMS_MODEL_ALL
        || (src == s.boiler.type_id || src == s.thermostat.type_id || src == k.EMS_ID_SM10)))

/-- The function `_ems_processTelegram` on the received bytes `telegram` of
length `length`.  The length handed to a callback is a `uint8_t`. -/
def _ems_processTelegram (k : Consts) (now : Nat) (telegram : List Nat) (length : Nat)
    (s : Ems) : Ems :=
  let src := telegram.getD 0 0 &&& 0x7F
  let type := telegram.getD 2 0
  let offset := telegram.getD 3 0
  let data := telegram.drop 4
  let ptype := telegram.getD 3 0
  let poffset := telegram.getD 4 0
  let pdata := telegram.drop (5 + poffset)
  if src = 16 ∧ type = 73 ∧ offset = 85 then
    setRefreshed (setTxStatus EMS_TX_STATUS_IDLE
      { s with thermostat := { s.thermostat with
          pausezeit := _toByte data 0
          partyzeit := _toByte data 1 } })
  else if src = 16 ∧ type = 71 ∧ offset = 22 then
    setRefreshed (setTxStatus EMS_TX_STATUS_IDLE
      { s with thermostat := { s.thermostat with
          maxvorlauf := _toByte data 13
          auslegungstemp := _toByte data 14
          heizturbo_till_next := _toByte data 15 } })
  else
    let s1 : Ems :=
      match findTypeRow k s src type with
      | none => s
      | some e =>
        match e.processType_cb with
        | none => s
        | some cb =>
          if e.emsplus ∧ poffset = k.EMS_PLUS_ID_NONE then
            runDecoder k now cb ptype pdata ((length + 512 - 6 - poffset) % 256) s
          else if offset = k.EMS_ID_NONE ∧ ¬ e.emsplus then
            runDecoder k now cb type data ((length + 256 - 5) % 256) s
          else s
    setTxStatus EMS_TX_STATUS_IDLE s1

/-- The block `if (EMS_TxTelegram.action == EMS_TX_TELEGRAM_READ)` of
`_processType` for the in-flight command `t`, entered in the state `s0`. -/
def readBranch (k : Consts) (now : Nat) (telegram : List Nat) (length : Nat) (t : TxTelegram)
    (s0 : Ems) : Ems :=
  let src := telegram.getD 0 0 &&& 0x7F
  let type := telegram.getD 2 0
  let a : Ems :=
    if src = t.dest ∧ type = t.type then
      let r := _removeTxQueue s0
      ems_setEmsRefreshed t.forceRefresh
        { r with sys := { r.sys with emsRxPgks := incr k.rxPgksBits r.sys.emsRxPgks } }
    else
      let r : Ems :=
        { s0 with sys := { s0.sys with txRetryCount := incr k.retryBits s0.sys.txRetryCount } }
      if r.sys.txRetryCount ≥ TX_WRITE_TIMEOUT_COUNT then _removeTxQueue r else r
  _ems_processTelegram k now telegram length a

/-- The block `if (EMS_TxTelegram.action == EMS_TX_TELEGRAM_VALIDATE)` of
`_processType` for the in-flight command `t`, entered in the state `s1`. -/
def validateBranch (k : Consts) (now : Nat) (telegram : List Nat) (t : TxTelegram)
    (s1 : Ems) : Ems :=
  let dataReceived := telegram.getD 4 0
  if t.comparisonValue = dataReceived then
    ems_doReadCommand k now t.comparisonPostRead t.dest true (_removeTxQueue s1)
  else
    let r : Ems :=
      { s1 with sys := { s1.sys with txRetryCount := incr k.retryBits s1.sys.txRetryCount } }
    if r.sys.txRetryCount > TX_WRITE_TIMEOUT_COUNT then _removeTxQueue r
    else
      let w : TxTelegram :=
        { t with
          action := EMS_TX_TELEGRAM_WRITE
          dataValue := t.comparisonValue
          offset := t.comparisonOffset }
      { r with txq := txqUnshift k.EMS_TX_TELEGRAM_QUEUE_MAX r.txq.tail w }

/-- The part of `_processType` after the in-flight command `t` has been read
from the front of the queue: the READ block, the WRITE block (which only
prints), the VALIDATE block, and the closing poll acknowledgement. -/
def reconcile (k : Consts) (now : Nat) (telegram : List Nat) (length : Nat) (t : TxTelegram)
    (s0 : Ems) : Ems :=
  let s1 : Ems :=
    if t.action = EMS_TX_TELEGRAM_READ then readBranch k now telegram length t s0 else s0
  let s2 : Ems :=
    if t.action = EMS_TX_TELEGRAM_VALIDATE then validateBranch k now telegram t s1 else s1
  emsaurt_tx_poll s2

/-- The function `_processType` on the received bytes `telegram` of length
`length`. -/
def _processType (k : Consts) (now : Nat) (telegram : List Nat) (length : Nat) (s : Ems) : Ems :=
  let src := telegram.getD 0 0 &&& 0x7F
  if src = k.EMS_ID_ME then s
  else if s.sys.emsTxStatus = EMS_TX_STATUS_IDLE then _ems_processTelegram k now telegram length s
  else
    let s0 := setTxStatus EMS_TX_STATUS_IDLE s
    if (telegram.getD 1 0 &&& 0x7F) ≠ k.EMS_ID_ME then
      _ems_processTelegram k now telegram length (_removeTxQueue s0)
    else
      match s0.txq with
      | [] => _ems_processTelegram k now telegram length s0
      | t :: _ => reconcile k now telegram length t s0

/-- The two assignments that open the block `if (length == 1)` of
`_ems_readTelegram`: the poll interval in 32-bit unsigned arithmetic, and the
static `_last_emsPollFrequency`. -/
def notePoll (now : Nat) (s : Ems) : Ems :=
  { s with
    sys := { s.sys with emsPollFrequency := (now + 2 ^ 32 - s.lastPoll) % 2 ^ 32 }
    lastPoll := now }

/-- The assignment `EMS_Sys_Status.emsTxCapable = true`. -/
def setTxCapable (s : Ems) : Ems := { s with sys := { s.sys with emsTxCapable := true } }

/-- The block `if (length == 1)` of `_ems_readTelegram` for the byte `value`;
`junk` is the content of the uninitialised local of `_createValidate`. -/
def controlByte (k : Consts) (now : Nat) (junk : TxTelegram) (value : Nat) (s : Ems) : Ems :=
  let s1 := notePoll now s
  if value = (k.EMS_ID_ME ||| 0x80) then
    let s2 := setTxCapable s1
    if ¬ s2.txq.isEmpty ∧ s2.sys.emsTxStatus = EMS_TX_STATUS_IDLE then
      _ems_sendTelegram k s2
    else if s2.sys.emsPollEnabled then emsaurt_tx_poll s2
    else s2
  else if s1.sys.emsTxStatus = EMS_TX_STATUS_WAIT then
    if value = k.EMS_TX_SUCCESS then
      _createValidate k junk
        (emsaurt_tx_poll
          { s1 with sys := { s1.sys with emsTxPkgs := incr k.txPkgsBits s1.sys.emsTxPkgs } })
    else if value = k.EMS_TX_ERROR then
      _removeTxQueue (emsaurt_tx_poll s1)
    else s1
  else s1

/-- The two assignments made for a frame with a valid checksum: the time of
the last reception and the bus-connected flag. -/
def noteRx (now : Nat) (s : Ems) : Ems :=
  { s with sys := { s.sys with emsRxTimestamp := now, emsBusConnected := true } }

/-- The function `_ems_readTelegram(telegram, length)` called at time `now`
(the value of `millis()`, a 32-bit unsigned number). -/
def _ems_readTelegram (k : Consts) (now : Nat) (junk : TxTelegram) (telegram : List Nat)
    (length : Nat) (s : Ems) : Ems :=
  if length = 1 then controlByte k now junk (telegram.getD 0 0) s
  else if length ≤ 4 then s
  else
    let crc := _crcCalculator telegram length
    if telegram.getD (length - 1) 0 ≠ crc then
      { s with sys := { s.sys with emxCrcErr := incr k.crcErrBits s.sys.emxCrcErr } }
    else
      _processType k now telegram length (noteRx now s)

/-- The call `memset(telegram, 0, n)`: the first `n` bytes become 0. -/
def memset0 (telegram : List Nat) (n : Nat) : List Nat :=
  List.replicate n 0 ++ telegram.drop n

/-- The function `ems_parseTelegram(telegram, length)`: the state after the call
and the content of the caller's buffer after the call. -/
def ems_parseTelegram (k : Consts) (now : Nat) (junk : TxTelegram) (telegram : List Nat)
    (length : Nat) (s : Ems) : Ems × List Nat :=
  let s1 : Ems :=
    if length ≠ 0 ∧ telegram.getD 0 0 ≠ 0x00 then _ems_readTelegram k now junk telegram length s
    else s
  (s1, memset0 telegram k.EMS_MAXBUFFERSIZE)

/-- The function `ems_init`; `ems_setLogging` only sets the logging level.
Variables the function does not assign keep their value. -/
def ems_init (k : Consts) (s : Ems) : Ems :=
  { s with
    sys := { s.sys with
      emsRxPgks := 0
      emsTxPkgs := 0
      emxCrcErr := 0
      emsTxStatus := EMS_TX_STATUS_IDLE
      emsRefreshed := false
      emsPollEnabled := false
      emsBusConnected := false
      emsRxTimestamp := 0
      emsTxCapable := false
      emsTxDisabled := false
      emsPollFrequency := 0
      txRetryCount := 0 }
    thermostat := { s.thermostat with
      setpoint_roomTemp := k.EMS_VALUE_SHORT_NOTSET
      curr_roomTemp := k.EMS_VALUE_SHORT_NOTSET
      hour := 0
      minute := 0
      second := 0
      day := 0
      month := 0
      year := 0
      mode := 255
      day_mode := 255
      type_id := k.EMS_ID_NONE
      read_supported := false
      write_supported := false
      hc := 1
      daytemp := k.EMS_VALUE_INT_NOTSET
      nighttemp := k.EMS_VALUE_INT_NOTSET
      holidaytemp := k.EMS_VALUE_INT_NOTSET
      heatingtype := k.EMS_VALUE_INT_NOTSET
      circuitcalctemp := k.EMS_VALUE_INT_NOTSET
      ausschalthysterese := k.EMS_VALUE_INT_NOTSET
      einschalthysterese := 196
      antipendelzeit := k.EMS_VALUE_INT_NOTSET
      kesselpumennachlauf := k.EMS_VALUE_INT_NOTSET
      auslegungstemp := k.EMS_VALUE_INT_NOTSET
      maxvorlauf := k.EMS_VALUE_INT_NOTSET
      heizturbo_till_next := k.EMS_VALUE_INT_NOTSET
      roomoffset := 236
      minoutsidetemp := 196
      housetype := k.EMS_VALUE_INT_NOTSET
      tempaveragebool := 0
      pausezeit := k.EMS_VALUE_INT_NOTSET
      partyzeit := k.EMS_VALUE_INT_NOTSET
      max_vorlauf_reached := 0
      urlaub_modus := 0
      sommer_modus := 0
      model_id := k.EMS_MODEL_NONE
      product_id := k.EMS_ID_NONE
      version := none }
    boiler := { s.boiler with
      wWActivated := k.EMS_VALUE_INT_NOTSET
      wWSelTemp := k.EMS_VALUE_INT_NOTSET
      wWCircPump := k.EMS_VALUE_INT_NOTSET
      wWDesiredTemp := k.EMS_VALUE_INT_NOTSET
      wWComfort := k.EMS_VALUE_INT_NOTSET
      selFlowTemp := k.EMS_VALUE_INT_NOTSET
      curFlowTemp := k.EMS_VALUE_SHORT_NOTSET
      retTemp := k.EMS_VALUE_SHORT_NOTSET
      burnGas := k.EMS_VALUE_INT_NOTSET
      fanWork := k.EMS_VALUE_INT_NOTSET
      ignWork := k.EMS_VALUE_INT_NOTSET
      heatPmp := k.EMS_VALUE_INT_NOTSET
      wWHeat := k.EMS_VALUE_INT_NOTSET
      wWCirc := k.EMS_VALUE_INT_NOTSET
      selBurnPow := k.EMS_VALUE_INT_NOTSET
      curBurnPow := k.EMS_VALUE_INT_NOTSET
      flameCurr := k.EMS_VALUE_SHORT_NOTSET
      sysPress := k.EMS_VALUE_INT_NOTSET
      serviceCodeChar := (63, 63)
      serviceCode := k.EMS_VALUE_SHORT_NOTSET
      extTemp := k.EMS_VALUE_SHORT_NOTSET
      abgasTemp := k.EMS_VALUE_SHORT_NOTSET
      boilTemp := k.EMS_VALUE_SHORT_NOTSET
      pumpMod := k.EMS_VALUE_INT_NOTSET
      burnStarts := k.EMS_VALUE_LONG_NOTSET
      burnWorkMin := k.EMS_VALUE_LONG_NOTSET
      heatWorkMin := k.EMS_VALUE_LONG_NOTSET
      wWCurTmp := k.EMS_VALUE_SHORT_NOTSET
      wWStarts := k.EMS_VALUE_LONG_NOTSET
      wWWorkM := k.EMS_VALUE_LONG_NOTSET
      wWOneTime := k.EMS_VALUE_INT_NOTSET
      wWCurFlow := k.EMS_VALUE_INT_NOTSET
      UBAuptime := k.EMS_VALUE_LONG_NOTSET
      heating_temp := k.EMS_VALUE_INT_NOTSET
      pump_mod_max := k.EMS_VALUE_INT_NOTSET
      pump_mod_min := k.EMS_VALUE_INT_NOTSET
      tapwaterActive := k.EMS_VALUE_INT_NOTSET
      heatingActive := k.EMS_VALUE_INT_NOTSET
      product_id := k.EMS_ID_NONE
      version := none }
    other := { s.other with
      SM10collectorTemp := k.EMS_VALUE_SHORT_NOTSET
      SM10bottomTemp := k.EMS_VALUE_SHORT_NOTSET
      SM10pumpModulation := k.EMS_VALUE_INT_NOTSET
      SM10pump := k.EMS_VALUE_INT_NOTSET
      SM10 := false } }

/-! ## The public enqueue interface -/

/-- A call of one of the functions of `ems.cpp` that put commands on the Tx
queue, with its arguments. -/
inductive EnqueueCall where
  | doReadCommand (type dest : Nat) (forceRefresh : Bool)
  | sendRawTelegram (vals : List Nat)
  | setThermostatTemp (value temptype : Nat)
  | setThermostatMode (mode : Nat)
  | setWarmWaterTemp (temperature : Nat)
  | setFlowTemp (temperature : Nat)
  | setWarmWaterModeComfort (comfort : Nat)
  | setWarmWaterActivated (activated : Bool)
  | setWarmTapWaterActivated (activated : Bool)
  | getThermostatValues
  | getBoilerValues
  | getOtherValues
  | scanDevices
  | discoverModels
  | startupTelegrams
deriving DecidableEq, Repr

/-- Execute an enqueue call at time `now`. -/
def runEnqueue (k : Consts) (now : Nat) (c : EnqueueCall) (s : Ems) : Ems :=
  match c with
  | EnqueueCall.doReadCommand type dest forceRefresh => ems_doReadCommand k now type dest forceRefresh s
  | EnqueueCall.sendRawTelegram vals => ems_sendRawTelegram k now vals s
  | EnqueueCall.setThermostatTemp value temptype => ems_setThermostatTemp k now value temptype s
  | EnqueueCall.setThermostatMode mode => ems_setThermostatMode k now mode s
  | EnqueueCall.setWarmWaterTemp temperature => ems_setWarmWaterTemp k now temperature s
  | EnqueueCall.setFlowTemp temperature => ems_setFlowTemp k now temperature s
  | EnqueueCall.setWarmWaterModeComfort comfort => ems_setWarmWaterModeComfort k now comfort s
  | EnqueueCall.setWarmWaterActivated activated => ems_setWarmWaterActivated k now activated s
  | EnqueueCall.setWarmTapWaterActivated activated => ems_setWarmTapWaterActivated k now activated s
  | EnqueueCall.getThermostatValues => ems_getThermostatValues k now s
  | EnqueueCall.getBoilerValues => ems_getBoilerValues k now s
  | EnqueueCall.getOtherValues => ems_getOtherValues k now s
  | EnqueueCall.scanDevices => ems_scanDevices k now s
  | EnqueueCall.discoverModels => ems_discoverModels k now s
  | EnqueueCall.startupTelegrams => ems_startupTelegrams k now s

/-! ## Vocabulary of the statements -/

/-- The queue obtained from `q` by pushing the commands of `l` in order. -/
def pushes (cap : Nat) (q : List TxTelegram) (l : List TxTelegram) : List TxTelegram :=
  l.foldl (txqPush cap) q

/-- The part of the state that neither an enqueue function nor a decoder
touches: the UART log, the poll bookkeeping, the three packet counters, the Tx
status and the link flags. -/
def busView (s : Ems) :
    List UartOut × Nat × Nat × Nat × Nat × TxStatus × Bool × Bool × Bool × Nat × Bool × Nat :=
  (s.uart, s.lastPoll, s.sys.emsRxPgks, s.sys.emsTxPkgs, s.sys.emxCrcErr, s.sys.emsTxStatus,
    s.sys.emsPollEnabled, s.sys.emsTxDisabled, s.sys.emsBusConnected, s.sys.emsRxTimestamp,
    s.sys.emsTxCapable, s.sys.emsPollFrequency)

/-- The state `t` comes from `s` by a step that leaves `busView` alone, only
pushes commands on the queue and does not lower the refresh flag. -/
def Appends (k : Consts) (s t : Ems) : Prop :=
  busView t = busView s
    ∧ (∃ l, t.txq = pushes k.EMS_TX_TELEGRAM_QUEUE_MAX s.txq l)
    ∧ (s.sys.emsRefreshed = true → t.sys.emsRefreshed = true)

/-- The values that the comments of `ems.cpp` document for constants of `ems.h`:
own address 0x0B (the poll for us is 0x8B), none id 0x00, success byte 0x01,
error byte 0x04, minimum telegram length 6. -/
def Consts.documented (k : Consts) : Prop :=
  k.EMS_ID_ME = 0x0B ∧ k.EMS_ID_NONE = 0x00 ∧ k.EMS_TX_SUCCESS = 0x01 ∧ k.EMS_TX_ERROR = 0x04
    ∧ k.EMS_MIN_TELEGRAM_LENGTH = 6

/-- A reply: a buffer of at least five bytes (source, destination, type, offset,
checksum) whose first byte is not 0x00 and whose last byte is the checksum of
the bytes before it, sent by another device (the low 7 bits of byte 0 are not
our own address) and addressed to us (the low 7 bits of byte 1 are). -/
def Reply (k : Consts) (tg : List Nat) (len : Nat) : Prop :=
  5 ≤ len ∧ tg.getD 0 0 ≠ 0x00 ∧ tg.getD (len - 1) 0 = _crcCalculator tg len
    ∧ tg.getD 0 0 &&& 0x7F ≠ k.EMS_ID_ME ∧ tg.getD 1 0 &&& 0x7F = k.EMS_ID_ME

/-- The parts of the state that drive the Tx state machine: the queue, the Tx
status, the retry counter and the Tx-disabled flag. -/
def txView (s : Ems) : List TxTelegram × TxStatus × Nat × Bool :=
  (s.txq, s.sys.emsTxStatus, s.sys.txRetryCount, s.sys.emsTxDisabled)

/-- The VALIDATE command that `_createValidate` builds from the command `t` in
its uninitialised local, whose content is `junk`. -/
def validateOf (k : Consts) (junk t : TxTelegram) : TxTelegram :=
  { junk with
    action := EMS_TX_TELEGRAM_VALIDATE
    type_validate := t.type_validate
    dest := t.dest
    type := t.type
    comparisonValue := t.comparisonValue
    comparisonPostRead := t.comparisonPostRead
    comparisonOffset := t.comparisonOffset
    offset := t.comparisonOffset
    dataValue := 1
    length := k.EMS_MIN_TELEGRAM_LENGTH }

/-- The WRITE command that the VALIDATE block of `_processType` puts back at the
front of the queue when the validation of `t` failed. -/
def retryWrite (t : TxTelegram) : TxTelegram :=
  { t with
    action := EMS_TX_TELEGRAM_WRITE
    dataValue := t.comparisonValue
    offset := t.comparisonOffset }

/-- The READ command that `ems_doReadCommand(type, dest, forceRefresh)` builds
at time `now`. -/
def readOf (k : Consts) (now type dest : Nat) (forceRefresh : Bool) : TxTelegram :=
  { k.EMS_TX_TELEGRAM_NEW with
    timestamp := now
    action := EMS_TX_TELEGRAM_READ
    dest := dest
    offset := 0
    length := k.EMS_MIN_TELEGRAM_LENGTH
    type := type
    dataValue := k.EMS_MAX_TELEGRAM_LENGTH
    type_validate := k.EMS_ID_NONE
    comparisonValue := 0
    comparisonOffset := 0
    comparisonPostRead := k.EMS_ID_NONE
    forceRefresh := forceRefresh }

/-- Deliver the received buffers of `events` one after the other to
`ems_parseTelegram`; an event is the time of the call, the buffer and the
length passed with it. -/
def deliver (k : Consts) (junk : TxTelegram) (events : List (Nat × List Nat × Nat)) (s : Ems) :
    Ems :=
  events.foldl (fun x e => (ems_parseTelegram k e.1 junk e.2.1 e.2.2 x).1) s

/-- The step of the bitwise reference CRC, in the words of the specification:
the checksum so far is doubled modulo 256, xor-ed with 0x19 when it was at least
0x80, and xor-ed with the next byte. -/
def crcReferenceStep (crc byte : Nat) : Nat :=
  (((2 * crc) % 256) ^^^ (if crc ≥ 0x80 then 0x19 else 0)) ^^^ byte

/-- The bitwise reference CRC: the fold of `crcReferenceStep` over the first
`len - 1` bytes of `data`, from 0. -/
def crcReference (data : List Nat) (len : Nat) : Nat :=
  (List.range (len - 1)).foldl (fun crc i => crcReferenceStep crc (data.getD i 0)) 0

/-- The values returned by successive calls of `ems_getBusConnected` made at the
times `ts`, from the state `s`. -/
def busConnectedCalls : List Nat → Ems → List Bool
  | [], _ => []
  | t :: ts, s => (ems_getBusConnected t s).2 :: busConnectedCalls ts (ems_getBusConnected t s).1

/-- The parts of the state that the decoders write: the three device records
and the refresh flag. -/
def recordView (s : Ems) : Boiler × Thermostat × Other × Bool :=
  (s.boiler, s.thermostat, s.other, s.sys.emsRefreshed)

/-- The two variables behind `ems_getBusConnected`: the time of the last valid
frame and the bus-connected flag. -/
def linkView (s : Ems) : Nat × Bool := (s.sys.emsRxTimestamp, s.sys.emsBusConnected)

/-- The byte whose entry in `ems_crc_table` is `y`: an odd entry comes from a
byte of 0x80 or more. -/
def crcTableInverse (y : Nat) : Nat :=
  if y % 2 = 1 then (y ^^^ 0x19) / 2 + 0x80 else y / 2

/-- An input of the core: a buffer handed to `ems_parseTelegram` (at the time
`now`, with `junk` the content of the uninitialised local of
`_createValidate`), or a call of one of the enqueue functions. -/
inductive Event where
  | receive (now : Nat) (junk : TxTelegram) (telegram : List Nat) (length : Nat)
  | enqueue (now : Nat) (call : EnqueueCall)

/-- The state after one input. -/
def applyEvent (k : Consts) (s : Ems) (e : Event) : Ems :=
  match e with
  | Event.receive now junk telegram length => (ems_parseTelegram k now junk telegram length s).1
  | Event.enqueue now call => runEnqueue k now call s

/-- The state after the inputs `events`, in order. -/
def runEvents (k : Consts) (events : List Event) (s : Ems) : Ems :=
  events.foldl (applyEvent k) s

/-- The command `t` is a RAW command or has one of the two lengths that the
code assigns to the READ, WRITE and VALIDATE commands it builds: the minimum
telegram length, or 22 (the write of `ems_setWarmTapWaterActivated`). -/
def lengthAssigned (k : Consts) (t : TxTelegram) : Prop :=
  t.action = EMS_TX_TELEGRAM_RAW ∨ t.length = k.EMS_MIN_TELEGRAM_LENGTH ∨ t.length = 22

/-- Every command in the queue of `s` satisfies `lengthAssigned`. -/
def queueAssigned (k : Consts) (s : Ems) : Prop :=
  ∀ t ∈ s.txq, lengthAssigned k t

/-! ## Sample values for the examples -/

/-- A sample of header values: the ones documented in the comments of `ems.cpp`
where there are any, and otherwise an arbitrary choice (a 32-byte buffer, a
queue of 100 commands, 16-bit packet counters, an 8-bit retry counter, one
entry per catalog). -/
def refConsts : Consts where
  EMS_ID_ME := 0x0B
  EMS_ID_NONE := 0x00
  EMS_PLUS_ID_NONE := 0x01
  EMS_ID_SM10 := 0x30
  EMS_MIN_TELEGRAM_LENGTH := 6
  EMS_MAX_TELEGRAM_LENGTH := 32
  EMS_MAXBUFFERSIZE := 32
  EMS_TX_TELEGRAM_QUEUE_MAX := 100
  EMS_TX_SUCCESS := 0x01
  EMS_TX_ERROR := 0x04
  EMS_TX_TELEGRAM_NEW :=
    { action := EMS_TX_TELEGRAM_INIT, dest := 0, type := 0, offset := 0, length := 0,
      dataValue := 0, type_validate := 0, comparisonValue := 0, comparisonOffset := 0,
      comparisonPostRead := 0, forceRefresh := false, timestamp := 0,
      data := List.replicate 32 0 }
  EMS_MODEL_NONE := 0
  EMS_MODEL_ALL := 1
  EMS_MODEL_UBA := 2
  EMS_MODEL_OTHER := 3
  EMS_MODEL_RC10 := 4
  EMS_MODEL_RC20 := 5
  EMS_MODEL_RC20F := 6
  EMS_MODEL_RC30 := 7
  EMS_MODEL_RC35 := 8
  EMS_MODEL_ES73 := 9
  EMS_MODEL_EASY := 10
  EMS_MODEL_BOSCHEASY := 11
  EMS_MODEL_RC1010 := 12
  EMS_TYPE_Version := 0x02
  EMS_TYPE_UBAMonitorFast := 0x18
  EMS_TYPE_UBAMonitorSlow := 0x19
  EMS_TYPE_UBAMonitorWWMessage := 0x34
  EMS_TYPE_UBAParameterWW := 0x33
  EMS_TYPE_UBATotalUptimeMessage := 0x14
  EMS_TYPE_UBAMaintenanceSettingsMessage := 0x15
  EMS_TYPE_UBAParametersMessage := 0x16
  EMS_TYPE_UBASetPoints := 0x1A
  EMS_TYPE_UBAFunctionTest := 0x1D
  EMS_TYPE_SM10Monitor := 0x97
  EMS_TYPE_RCTime := 0x06
  EMS_TYPE_RCOutdoorTempMessage := 0xA3
  EMS_TYPE_RC10Set := 0xB0
  EMS_TYPE_RC10StatusMessage := 0xB1
  EMS_TYPE_RC20Set := 0xA8
  EMS_TYPE_RC20StatusMessage := 0x91
  EMS_TYPE_RC30Set := 0xA7
  EMS_TYPE_RC30StatusMessage := 0x41
  EMS_TYPE_RC35Set_HC1 := 0x3D
  EMS_TYPE_RC35StatusMessage_HC1 := 0x3E
  EMS_TYPE_RC35Set_HC2 := 0x47
  EMS_TYPE_RC35StatusMessage_HC2 := 0x48
  EMS_TYPE_AnlageParamSet := 0xA5
  EMS_TYPE_HK2Schaltzeiten := 0x49
  EMS_TYPE_EasyStatusMessage := 0x0A
  EMS_TYPE_RC1010StatusMessage := 0xA5
  EMS_TYPE_RC1010Set := 0x03
  EMS_OFFSET_UBAParameterWW_wwtemp := 2
  EMS_OFFSET_UBAParameterWW_wwactivated := 1
  EMS_OFFSET_UBAParameterWW_wwComfort := 9
  EMS_OFFSET_UBASetPoints_flowtemp := 0
  EMS_OFFSET_RC10StatusMessage_setpoint := 1
  EMS_OFFSET_RC10StatusMessage_curr := 3
  EMS_OFFSET_RC10Set_temp := 4
  EMS_OFFSET_RC20StatusMessage_setpoint := 1
  EMS_OFFSET_RC20StatusMessage_curr := 2
  EMS_OFFSET_RC20Set_mode := 23
  EMS_OFFSET_RC20Set_temp := 28
  EMS_OFFSET_RC30StatusMessage_setpoint := 1
  EMS_OFFSET_RC30StatusMessage_curr := 2
  EMS_OFFSET_RC30Set_mode := 23
  EMS_OFFSET_RC30Set_temp := 28
  EMS_OFFSET_RC35StatusMessage_setpoint := 2
  EMS_OFFSET_RC35StatusMessage_curr := 3
  EMS_OFFSET_RC35Get_mode_day := 1
  EMS_OFFSET_RC35Set_mode := 7
  EMS_OFFSET_RC35Set_temp_day := 2
  EMS_OFFSET_RC35Set_temp_night := 1
  EMS_OFFSET_RC35Set_temp_holiday := 3
  EMS_OFFSET_RC35Set_heatingtype := 0
  EMS_OFFSET_RC35Set_circuitcalctemp := 14
  EMS_OFFSET_EasyStatusMessage_setpoint := 10
  EMS_OFFSET_EasyStatusMessage_curr := 8
  EMS_OFFSET_RC1010StatusMessage_setpoint := 3
  EMS_OFFSET_RC1010StatusMessage_curr := 0
  EMS_VALUE_INT_ON := 1
  EMS_VALUE_INT_NOTSET := 0xFF
  EMS_VALUE_SHORT_NOTSET := 0x8000
  EMS_VALUE_LONG_NOTSET := 0xFFFFFF
  EMS_VALUE_UBAParameterWW_wwComfort_Hot := 0x00
  EMS_VALUE_UBAParameterWW_wwComfort_Eco := 0xD8
  EMS_VALUE_UBAParameterWW_wwComfort_Intelligent := 0xEC
  EMS_BOILER_TAPWATER_TEMPERATURE_MAX := 60
  EMS_BOILER_SELFLOWTEMP_HEATING := 70
  Boiler_Types := [⟨2, 72, 0x08⟩]
  Thermostat_Types := [⟨4, 79, 0x17, true, true⟩]
  Other_Types := [⟨3, 73, 0x30⟩]
  rxPgksBits := 16
  txPkgsBits := 16
  crcErrBits := 16
  retryBits := 8

/-- The global variables as the C runtime zero-initialises them. -/
def zeroEms : Ems where
  sys :=
    { emsRxPgks := 0, emsTxPkgs := 0, emxCrcErr := 0, emsTxStatus := EMS_TX_STATUS_IDLE,
      emsRefreshed := false, emsPollEnabled := false, emsBusConnected := false,
      emsRxTimestamp := 0, emsTxCapable := false, emsTxDisabled := false,
      emsPollFrequency := 0, txRetryCount := 0 }
  txq := []
  boiler :=
    { type_id := 0, product_id := 0, version := none, wWActivated := 0, wWSelTemp := 0,
      wWCircPump := 0, wWDesiredTemp := 0, wWComfort := 0, selFlowTemp := 0, curFlowTemp := 0,
      retTemp := 0, burnGas := 0, fanWork := 0, ignWork := 0, heatPmp := 0, wWHeat := 0,
      wWCirc := 0, selBurnPow := 0, curBurnPow := 0, flameCurr := 0, sysPress := 0,
      serviceCodeChar := (0, 0), serviceCode := 0, extTemp := 0, abgasTemp := 0, boilTemp := 0,
      pumpMod := 0, burnStarts := 0, burnWorkMin := 0, heatWorkMin := 0, wWCurTmp := 0,
      wWStarts := 0, wWWorkM := 0, wWOneTime := 0, wWCurFlow := 0, UBAuptime := 0,
      heating_temp := 0, pump_mod_max := 0, pump_mod_min := 0, tapwaterActive := 0,
      heatingActive := 0 }
  thermostat :=
    { type_id := 0, model_id := 0, product_id := 0, version := none, read_supported := false,
      write_supported := false, hc := 0, setpoint_roomTemp := 0, curr_roomTemp := 0, hour := 0,
      minute := 0, second := 0, day := 0, month := 0, year := 0, mode := 0, day_mode := 0,
      daytemp := 0, nighttemp := 0, holidaytemp := 0, heatingtype := 0, circuitcalctemp := 0,
      ausschalthysterese := 0, einschalthysterese := 0, antipendelzeit := 0,
      kesselpumennachlauf := 0, auslegungstemp := 0, maxvorlauf := 0, heizturbo_till_next := 0,
      roomoffset := 0, minoutsidetemp := 0, housetype := 0, tempaveragebool := 0, pausezeit := 0,
      partyzeit := 0, max_vorlauf_reached := 0, urlaub_modus := 0, sommer_modus := 0,
      sommerschwelletemp := 0, minvorlauf := 0 }
  other :=
    { SM10 := false, SM10collectorTemp := 0, SM10bottomTemp := 0, SM10pumpModulation := 0,
      SM10pump := 0 }
  lastPoll := 0
  uart := []

/-- The state after `ems_init` with the sample header values. -/
def refInit : Ems := ems_init refConsts zeroEms

/-- A sample command: the read of `type` from `dest` that `ems_doReadCommand`
builds with the sample header values. -/
def refRead (type dest : Nat) (forceRefresh : Bool) : TxTelegram :=
  { refConsts.EMS_TX_TELEGRAM_NEW with
    action := EMS_TX_TELEGRAM_READ, dest := dest, type := type, offset := 0,
    length := 6, dataValue := 32, forceRefresh := forceRefresh }

/-- A sample command: a validated write of `value` at `offset` of `type` to
`dest`, as `ems_setWarmWaterTemp` builds it. -/
def refWrite (type dest offset value : Nat) : TxTelegram :=
  { refConsts.EMS_TX_TELEGRAM_NEW with
    action := EMS_TX_TELEGRAM_WRITE, dest := dest, type := type, offset := offset,
    length := 6, dataValue := value, type_validate := type, comparisonOffset := offset,
    comparisonValue := value, comparisonPostRead := type }

/-- The sample state with the queue `q`, waiting for the answer to its front
command. -/
def refWait (q : List TxTelegram) : Ems :=
  { refInit with txq := q, sys := { refInit.sys with emsTxStatus := EMS_TX_STATUS_WAIT } }

/-- A sample command: the raw request `0b 90 49 55 20` as `ems_sendRawTelegram`
builds it at time 1000 with the sample header values. -/
def refRaw : TxTelegram :=
  { refConsts.EMS_TX_TELEGRAM_NEW with
    timestamp := 1000, action := EMS_TX_TELEGRAM_RAW, dest := 0x90, type := 0x49,
    offset := 0x55, length := 6, data := [0x0b, 0x90, 0x49, 0x55, 0x20] ++ List.replicate 27 0 }

/-- The telegram documented above `_process_RC10StatusMessage`, with its
checksum byte 0x47: sent by 0x17 to 0x0B, type 0x91. -/
def refFrameStatus : List Nat :=
  [0x17, 0x0B, 0x91, 0x00, 0x80, 0x1E, 0x00, 0xCB, 0x27, 0x00, 0x00, 0x00, 0x00, 0x05, 0x01,
    0x00, 0xCB, 0x00, 0x47]

/-- A Version telegram (type 0x02) sent by 0x08 to 0x0B with product id 72 and
version 1.2, and its checksum byte. -/
def refFrameVersion : List Nat := [0x08, 0x0B, 0x02, 0x00, 72, 1, 2, 82]

/-- A telegram with a valid checksum whose source and destination are both our
own address 0x0B. -/
def refFrameEcho : List Nat := [0x0B, 0x0B, 0x02, 0x00, 0x00, 0xE0]

/-- A telegram sent by 0x08 to 0x0B whose last byte is not its checksum. -/
def refFrameCorrupt : List Nat := [0x08, 0x0B, 0x18, 0x00, 0x05, 0xFF]

/-- A buffer that starts with 0x00 and whose last byte is not its checksum. -/
def refFrameZeroCorrupt : List Nat := [0x00, 0x0B, 0x18, 0x00, 0x05, 0xFF]

/-- A buffer that starts with 0x00, is addressed to 0x0B and ends with its
checksum. -/
def refFrameZero : List Nat := [0x00, 0x0B, 0x18, 0x00, 0x05, 0x3D]

/-- The sample state in which the boiler is known under the device id 0x08. -/
def refBoiler : Ems := { refInit with boiler := { refInit.boiler with type_id := 0x08 } }

/-- A telegram of type 0x18 sent by 0x08 to 0x0B, with its checksum. -/
def refFrameFast : List Nat := [0x08, 0x0B, 0x18, 0x00, 0x05, 0xBD]

/-- The byte 55 read back at offset 2 of type 0x33, sent by 0x08 to 0x0B. -/
def refFrameWW55 : List Nat := [0x08, 0x0B, 0x33, 0x02, 55, 39]

/-- The byte 54 read back at offset 2 of type 0x33, sent by 0x08 to 0x0B. -/
def refFrameWW54 : List Nat := [0x08, 0x0B, 0x33, 0x02, 54, 38]

/-- The telegram `refFrameWW55` with our own address 0x0B as its source. -/
def refFrameWW55Echo : List Nat := [0x0B, 0x0B, 0x33, 0x02, 55, 23]

/-- The telegram `refFrameWW55` with 0x00 as its first byte. -/
def refFrameWW55Zero : List Nat := [0x00, 0x0B, 0x33, 0x02, 55, 167]

/-- The byte 0 read back at offset 0 of type 0x1D, sent by 0x08 to 0x0B. -/
def refFrameTest0 : List Nat := [0x08, 0x0B, 0x1D, 0x00, 0x00, 0xAC]

/-- The sample header values with two boilers (products 72 and 95 at 0x08) and
two thermostats (products 79 and 77 at 0x17) in the catalogs. -/
def refCatalogs : Consts :=
  { refConsts with
    Boiler_Types := [⟨2, 72, 0x08⟩, ⟨2, 95, 0x08⟩]
    Thermostat_Types := [⟨4, 79, 0x17, true, true⟩, ⟨5, 77, 0x17, true, true⟩] }

/-- A Version telegram (type 0x02) sent by 0x08 to everyone (destination 0x00)
with product id 72 and version 1.2, and its checksum byte. -/
def refFrameVersionAll : List Nat := [0x08, 0x00, 0x02, 0x00, 72, 1, 2, 43]

/-- A telegram of type 0x18 sent by 0x08 to everyone (destination 0x00). -/
def refFrameFastAll : List Nat := [0x08, 0x00, 0x18, 0x00, 0x05, 229]

/-- A buffer that starts with 0x00, is addressed to 0x08 and ends with its
checksum. -/
def refFrameZeroOther : List Nat := [0x00, 0x08, 0x18, 0x00, 0x05, 37]

/-- The sample state with the queue `q`, waiting for the answer to its front
command, after one failed attempt (retry counter 1). -/
def refWaitRetry (q : List TxTelegram) : Ems :=
  { refInit with
    txq := q
    sys := { refInit.sys with emsTxStatus := EMS_TX_STATUS_WAIT, txRetryCount := 1 } }

/-- The sample state with the boiler at 0x08, a thermostat of model RC20 at 0x17
that supports writes, and all Tx disabled by `ems_setTxDisabled(true)`. -/
def refSilent : Ems :=
  ems_setTxDisabled true
    { refInit with
      boiler := { refInit.boiler with type_id := 0x08 }
      thermostat := { refInit.thermostat with
        type_id := 0x17, model_id := refConsts.EMS_MODEL_RC20, write_supported := true } }

/-- The sample state with the queue `q`, waiting for the answer to its front
command, while a refresh is pending (`emsRefreshed` is set). -/
def refWaitPending (q : List TxTelegram) : Ems :=
  { refInit with
    txq := q
    sys := { refInit.sys with emsTxStatus := EMS_TX_STATUS_WAIT, emsRefreshed := true } }

/-- The sample state in which the thermostat is known as an RC35 at 0x10 with
the heating circuit 2 selected. -/
def refRC35 : Ems :=
  { refInit with
    thermostat := { refInit.thermostat with
      type_id := 0x10, model_id := refConsts.EMS_MODEL_RC35, hc := 2 } }

/-- A telegram of type 0x47 (the settings of heating circuit 2) sent by 0x10 to
everyone, with offset 0, 25 data bytes 0x11 and its checksum. -/
def refFrameRC35Set2 : List Nat :=
  [0x10, 0x00, 0x47, 0x00] ++ List.replicate 25 0x11 ++ [161]

/-- The sample state in which the thermostat is known as an RC10 at 0x17. -/
def refRC10 : Ems :=
  { refInit with
    thermostat := { refInit.thermostat with
      type_id := 0x17, model_id := refConsts.EMS_MODEL_RC10 } }

/-- The 18 bytes printed in the comment above `_process_RC10StatusMessage`,
without the checksum byte 0x47 that the comment gives apart. -/
def refFrameStatus18 : List Nat :=
  [0x17, 0x0B, 0x91, 0x00, 0x80, 0x1E, 0x00, 0xCB, 0x27, 0x00, 0x00, 0x00, 0x00, 0x05, 0x01,
    0x00, 0xCB, 0x00]

/-- Sample header values in which the type id of the RC1010 status row, an
extended (emsplus) row of `EMS_Types`, is 0xFF. -/
def refPlus : Consts := { refConsts with EMS_TYPE_RC1010StatusMessage := 0xFF }

/-- The sample state in which the thermostat is known as an RC1010 at 0x18. -/
def refRC1010 : Ems :=
  { refInit with
    thermostat := { refInit.thermostat with
      type_id := 0x18, model_id := refConsts.EMS_MODEL_RC1010 } }

/-- A telegram sent by 0x18 to everyone whose byte 2 is 0xFF, byte 3 is 0x77 and
byte 4 is 0x01, with its checksum. -/
def refFramePlus : List Nat :=
  [0x18, 0x00, 0xFF, 0x77, 0x01, 0xA5, 0x00, 0xCB, 0x00, 0x2A, 74]

/-- The sample state in which the thermostat is known as an RC35 at 0x10 that
supports reads, after `ems_setThermostatHC(1)`. -/
def refRC35hc1 : Ems :=
  ems_setThermostatHC 1
    { refInit with
      thermostat := { refInit.thermostat with
        type_id := 0x10, model_id := refConsts.EMS_MODEL_RC35, read_supported := true } }

/-- A sample command: the write without validation that
`ems_setWarmWaterModeComfort(1)` builds at time 0 for the boiler 0x08 with the
sample header values. -/
def refComfort : TxTelegram :=
  { refConsts.EMS_TX_TELEGRAM_NEW with
    action := EMS_TX_TELEGRAM_WRITE, dest := 0x08, type := 0x33,
    offset := refConsts.EMS_OFFSET_UBAParameterWW_wwComfort, length := 6,
    dataValue := refConsts.EMS_VALUE_UBAParameterWW_wwComfort_Hot, type_validate := 0 }

/-- A telegram of type 0x91 sent by 0x17 to 0x0B whose byte 4 is 55, with its
checksum. -/
def refFrameStatus55 : List Nat := [0x17, 0x0B, 0x91, 0x00, 55, 112]

/-- A telegram of type 0x3D (the settings of heating circuit 1) sent by 0x10 to
0x0B, with offset 0, 25 data bytes 0x11 and its checksum. -/
def refFrameRC35Set1 : List Nat :=
  [0x10, 0x0B, 0x3D, 0x00] ++ List.replicate 25 0x11 ++ [14]

/-- A receive buffer that holds the six bytes of `refFrameFast` followed by the
byte `b`. -/
def refFrameFastThen (b : Nat) : List Nat := [0x08, 0x0B, 0x18, 0x00, 0x05, 0xBD, b]

/-- The sample header values with catalogs in which the product id 72 occurs
twice among the boilers (at 0x08, then at 0x09), once among the thermostats and
once among the other devices. -/
def refCollide : Consts :=
  { refConsts with
    Boiler_Types := [⟨2, 95, 0x08⟩, ⟨2, 72, 0x08⟩, ⟨2, 72, 0x09⟩]
    Thermostat_Types := [⟨4, 72, 0x17, true, true⟩]
    Other_Types := [⟨3, 72, 0x30⟩] }

/-! ## Lemmas on the frame codec -/

theorem refConsts_documented : refConsts.documented := by
  unfold Consts.documented
  decide


theorem crc_congr (a b : List Nat) (len : Nat)
    (h : ∀ i, i < len - 1 → a.getD i 0 = b.getD i 0) :
    _crcCalculator a len = _crcCalculator b len := by
  unfold _crcCalculator
  have : ∀ (l : List Nat) (c : Nat), (∀ i ∈ l, i < len - 1) →
      l.foldl (fun crc i => (ems_crc_table.getD crc 0) ^^^ (a.getD i 0)) c
        = l.foldl (fun crc i => (ems_crc_table.getD crc 0) ^^^ (b.getD i 0)) c := by
    intro l
    induction l with
    | nil => intro c _; rfl
    | cons x xs ih =>
      intro c hx
      simp only [List.foldl_cons]
      rw [h x (hx x (List.mem_cons_self _ _))]
      exact ih _ (fun i hi => hx i (List.mem_cons_of_mem _ hi))
  exact this _ 0 (fun i hi => List.mem_range.mp hi)

theorem getD_setLast_other (a : List Nat) (len v i : Nat) (h : i < len - 1) :
    (setLast a len v).getD i 0 = a.getD i 0 := by
  unfold setLast setByte
  split
  · rfl
  · have hne : len - 1 ≠ i := by omega
    simp [List.getD_eq_getElem?_getD, List.getElem?_set, hne]

theorem getD_setLast_self (a : List Nat) (len v : Nat) (h1 : 1 ≤ len) (h : len ≤ a.length) :
    (setLast a len v).getD (len - 1) 0 = v := by
  unfold setLast setByte
  have : len ≠ 0 := by omega
  have hlt : len - 1 < a.length := by omega
  simp [this, List.getD_eq_getElem?_getD, List.getElem?_set, hlt]

/-! ## What enqueue functions and decoders leave untouched -/

theorem Appends.refl (k : Consts) (s : Ems) : Appends k s s :=
  ⟨rfl, ⟨[], rfl⟩, id⟩

theorem Appends.trans {k : Consts} {a b c : Ems} (h1 : Appends k a b) (h2 : Appends k b c) :
    Appends k a c := by
  obtain ⟨v1, ⟨l1, q1⟩, r1⟩ := h1
  obtain ⟨v2, ⟨l2, q2⟩, r2⟩ := h2
  refine ⟨v2.trans v1, ⟨l1 ++ l2, ?_⟩, fun h => r2 (r1 h)⟩
  rw [q2, q1, pushes, pushes, pushes, List.foldl_append]

theorem Appends.push (k : Consts) (s : Ems) (n : Nat) (t : TxTelegram) :
    Appends k s (Ems.push k { s with sys := { s.sys with txRetryCount := n } } t) :=
  ⟨rfl, ⟨[t], rfl⟩, id⟩

theorem appends_doReadCommand (k : Consts) (now ty d : Nat) (fr : Bool) (s : Ems) :
    Appends k s (ems_doReadCommand k now ty d fr s) := by
  unfold ems_doReadCommand
  split_ifs
  · exact Appends.refl k s
  · exact Appends.refl k s
  · exact Appends.push k s 0 _

theorem appends_sendRawTelegram (k : Consts) (now : Nat) (vals : List Nat) (s : Ems) :
    Appends k s (ems_sendRawTelegram k now vals s) := by
  unfold ems_sendRawTelegram
  split_ifs
  · exact Appends.refl k s
  · cases vals with
    | nil => exact ⟨rfl, ⟨[], rfl⟩, id⟩
    | cons v0 rest =>
      simp only
      split_ifs
      · exact ⟨rfl, ⟨[], rfl⟩, id⟩
      · exact Appends.push k s 0 _

theorem appends_setThermostatTemp (k : Consts) (now v tt : Nat) (s : Ems) :
    Appends k s (ems_setThermostatTemp k now v tt s) := by
  unfold ems_setThermostatTemp
  by_cases h1 : (!ems_getThermostatEnabled k s) = true
  · rw [if_pos h1]; exact Appends.refl k s
  · rw [if_neg h1]
    by_cases h2 : (!s.thermostat.write_supported) = true
    · rw [if_pos h2]; exact Appends.refl k s
    · rw [if_neg h2]; exact Appends.push k s 0 _

theorem appends_setThermostatMode (k : Consts) (now m : Nat) (s : Ems) :
    Appends k s (ems_setThermostatMode k now m s) := by
  unfold ems_setThermostatMode
  by_cases h1 : (!ems_getThermostatEnabled k s) = true
  · rw [if_pos h1]; exact Appends.refl k s
  · rw [if_neg h1]
    by_cases h2 : (!s.thermostat.write_supported) = true
    · rw [if_pos h2]; exact Appends.refl k s
    · rw [if_neg h2]; exact Appends.push k s 0 _

theorem appends_setWarmWaterTemp (k : Consts) (now t : Nat) (s : Ems) :
    Appends k s (ems_setWarmWaterTemp k now t s) := by
  unfold ems_setWarmWaterTemp
  split_ifs
  · exact Appends.refl k s
  · exact Appends.push k s 0 _

theorem appends_setFlowTemp (k : Consts) (now t : Nat) (s : Ems) :
    Appends k s (ems_setFlowTemp k now t s) :=
  Appends.push k s 0 _

theorem appends_setWarmWaterModeComfort (k : Consts) (now c : Nat) (s : Ems) :
    Appends k s (ems_setWarmWaterModeComfort k now c s) := by
  unfold ems_setWarmWaterModeComfort
  simp only
  split
  · exact ⟨rfl, ⟨[], rfl⟩, id⟩
  · exact Appends.push k s 0 _

theorem appends_setWarmWaterActivated (k : Consts) (now : Nat) (a : Bool) (s : Ems) :
    Appends k s (ems_setWarmWaterActivated k now a s) :=
  Appends.push k s 0 _

theorem appends_setWarmTapWaterActivated (k : Consts) (now : Nat) (a : Bool) (s : Ems) :
    Appends k s (ems_setWarmTapWaterActivated k now a s) :=
  Appends.push k s 0 _

theorem Appends.of_hc (k : Consts) (s : Ems) (n : Nat) :
    Appends k s { s with thermostat := { s.thermostat with hc := n } } :=
  ⟨rfl, ⟨[], rfl⟩, id⟩

theorem appends_getThermostatValues (k : Consts) (now : Nat) (s : Ems) :
    Appends k s (ems_getThermostatValues k now s) := by
  unfold ems_getThermostatValues
  by_cases h1 : (!ems_getThermostatEnabled k s) = true
  · rw [if_pos h1]; exact Appends.refl k s
  · rw [if_neg h1]
    by_cases h2 : (!s.thermostat.read_supported) = true
    · rw [if_pos h2]; exact Appends.refl k s
    · rw [if_neg h2]
      refine (Appends.of_hc k s 2).trans (Appends.trans ?_ (appends_doReadCommand ..))
      split_ifs
      · exact (appends_doReadCommand ..).trans (appends_doReadCommand ..)
      · exact (appends_doReadCommand ..).trans (appends_doReadCommand ..)
      · exact (appends_doReadCommand ..).trans (appends_doReadCommand ..)
      · exact (appends_doReadCommand ..).trans ((appends_doReadCommand ..).trans
          ((appends_doReadCommand ..).trans ((appends_sendRawTelegram ..).trans
            (appends_sendRawTelegram ..))))
      · exact Appends.refl ..
      · exact appends_doReadCommand ..
      · exact Appends.refl ..

theorem appends_getBoilerValues (k : Consts) (now : Nat) (s : Ems) :
    Appends k s (ems_getBoilerValues k now s) := by
  unfold ems_getBoilerValues
  exact (appends_doReadCommand ..).trans ((appends_doReadCommand ..).trans
    ((appends_doReadCommand ..).trans ((appends_doReadCommand ..).trans (appends_doReadCommand ..))))

theorem appends_getOtherValues (k : Consts) (now : Nat) (s : Ems) :
    Appends k s (ems_getOtherValues k now s) := by
  unfold ems_getOtherValues
  split_ifs
  · exact appends_doReadCommand ..
  · exact Appends.refl k s

theorem appends_foldl_doRead (k : Consts) (now ty : Nat) (l : List Nat) (s : Ems) :
    Appends k s (l.foldl (fun x d => ems_doReadCommand k now ty d false x) s) := by
  induction l generalizing s with
  | nil => exact Appends.refl k s
  | cons d ds ih => exact (appends_doReadCommand k now ty d false s).trans (ih _)

theorem appends_scanDevices (k : Consts) (now : Nat) (s : Ems) :
    Appends k s (ems_scanDevices k now s) :=
  appends_foldl_doRead ..

theorem appends_discoverModels (k : Consts) (now : Nat) (s : Ems) :
    Appends k s (ems_discoverModels k now s) := by
  unfold ems_discoverModels
  simp only
  split_ifs
  · exact (appends_doReadCommand ..).trans ((appends_doReadCommand ..).trans (appends_scanDevices ..))
  · exact (appends_doReadCommand ..).trans ((appends_doReadCommand ..).trans (appends_doReadCommand ..))

theorem appends_startupTelegrams (k : Consts) (now : Nat) (s : Ems) :
    Appends k s (ems_startupTelegrams k now s) :=
  (appends_sendRawTelegram ..).trans (appends_sendRawTelegram ..)

theorem Appends.of_records (k : Consts) (s : Ems) (b : Boiler) (t : Thermostat) (o : Other) :
    Appends k s { s with boiler := b, thermostat := t, other := o } :=
  ⟨rfl, ⟨[], rfl⟩, id⟩

theorem Appends.of_refreshed (k : Consts) (s : Ems) (b : Boiler) (t : Thermostat) (o : Other) :
    Appends k s (setRefreshed { s with boiler := b, thermostat := t, other := o }) :=
  ⟨rfl, ⟨[], rfl⟩, fun _ => rfl⟩

theorem appends_checkActive (k : Consts) (s : Ems) : Appends k s (_checkActive k s) := by
  unfold _checkActive
  simp only
  split_ifs <;> exact ⟨rfl, ⟨[], rfl⟩, id⟩

theorem appends_process_Version (k : Consts) (now : Nat) (data : List Nat) (len : Nat) (s : Ems) :
    Appends k s (_process_Version k now data len s) := by
  unfold _process_Version
  split_ifs
  · exact Appends.refl k s
  · simp only
    split
    · split_ifs
      · exact (Appends.of_records k s _ s.thermostat s.other).trans (appends_getBoilerValues ..)
      · exact Appends.refl k s
    · split
      · split_ifs
        · exact (Appends.of_records k s s.boiler _ s.other).trans (appends_getThermostatValues ..)
        · exact Appends.refl k s
      · split
        · split_ifs
          · exact (Appends.of_records k s s.boiler s.thermostat _).trans (appends_getOtherValues ..)
          · exact appends_getOtherValues ..
        · exact Appends.refl k s

theorem appends_runDecoder (k : Consts) (now : Nat) (d : Decoder) (src : Nat) (data : List Nat)
    (len : Nat) (s : Ems) : Appends k s (runDecoder k now d src data len s) := by
  cases d
  case _process_Version => exact appends_process_Version ..
  case _process_UBAMonitorFast =>
    exact (Appends.of_records k s _ s.thermostat s.other).trans (appends_checkActive ..)
  case _process_RCTime =>
    show Appends k s (_process_RCTime k data s)
    unfold _process_RCTime
    split_ifs
    · exact Appends.refl k s
    · exact Appends.of_records k s s.boiler _ s.other
  case _process_RC35Set =>
    show Appends k s (_process_RC35Set k src data s)
    unfold _process_RC35Set
    simp only
    split_ifs
    · exact Appends.of_records k s s.boiler _ s.other
    · exact Appends.of_refreshed k s s.boiler _ s.other
  all_goals
    first
    | exact Appends.refl k s
    | exact Appends.of_records k s _ _ _
    | exact Appends.of_refreshed k s _ _ _

theorem runDecoder_queue (k : Consts) (now : Nat) (d : Decoder) (src : Nat) (data : List Nat)
    (len : Nat) (s : Ems) (hd : d ≠ Decoder._process_Version) :
    (runDecoder k now d src data len s).txq = s.txq
      ∧ (runDecoder k now d src data len s).sys.txRetryCount = s.sys.txRetryCount := by
  cases d
  case _process_Version => exact absurd rfl hd
  case _process_UBAMonitorFast =>
    show (_checkActive k _).txq = _ ∧ (_checkActive k _).sys.txRetryCount = _
    unfold _checkActive
    simp only
    split_ifs <;> exact ⟨rfl, rfl⟩
  case _process_RCTime =>
    show (_process_RCTime k data s).txq = _ ∧ (_process_RCTime k data s).sys.txRetryCount = _
    unfold _process_RCTime
    split_ifs <;> exact ⟨rfl, rfl⟩
  case _process_RC35Set =>
    show (_process_RC35Set k src data s).txq = _ ∧ (_process_RC35Set k src data s).sys.txRetryCount = _
    unfold _process_RC35Set
    simp only
    split_ifs <;> exact ⟨rfl, rfl⟩
  all_goals exact ⟨rfl, rfl⟩

theorem EMS_Types_version (k : Consts) :
    ∀ e ∈ EMS_Types k, e.processType_cb = some Decoder._process_Version →
      e.type = k.EMS_TYPE_Version := by
  simp [EMS_Types]

theorem findTypeRow_version (k : Consts) (s : Ems) (src type : Nat) (e : EmsType)
    (h : findTypeRow k s src type = some e)
    (hv : e.processType_cb = some Decoder._process_Version) : type = k.EMS_TYPE_Version := by
  unfold findTypeRow at h
  have hm := List.mem_of_find?_eq_some h
  have hp := List.find?_some h
  have ht := EMS_Types_version k e hm hv
  simp only [Bool.and_eq_true, beq_iff_eq] at hp
  rw [← hp.1, ht]

theorem processTelegram_spec (k : Consts) (now : Nat) (tg : List Nat) (len : Nat) (s : Ems) :
    ∃ s1, Appends k s s1
      ∧ _ems_processTelegram k now tg len s = setTxStatus EMS_TX_STATUS_IDLE s1
      ∧ (tg.getD 2 0 ≠ k.EMS_TYPE_Version →
          s1.txq = s.txq ∧ s1.sys.txRetryCount = s.sys.txRetryCount) := by
  unfold _ems_processTelegram
  simp only
  split_ifs with h1 h2
  · exact ⟨_, Appends.of_refreshed k s s.boiler _ s.other, rfl, fun _ => ⟨rfl, rfl⟩⟩
  · exact ⟨_, Appends.of_refreshed k s s.boiler _ s.other, rfl, fun _ => ⟨rfl, rfl⟩⟩
  · refine ⟨_, ?_, rfl, ?_⟩
    · split
      · exact Appends.refl k s
      · split
        · exact Appends.refl k s
        · split_ifs
          · exact appends_runDecoder ..
          · exact appends_runDecoder ..
          · exact Appends.refl k s
    · intro hv
      split
      · exact ⟨rfl, rfl⟩
      · rename_i e he
        split
        · exact ⟨rfl, rfl⟩
        · rename_i cb hcb
          have hne : cb ≠ Decoder._process_Version := by
            intro hcv
            exact hv (findTypeRow_version k s _ _ e he (by rw [hcb, hcv]))
          split_ifs
          · exact runDecoder_queue k now cb _ _ _ s hne
          · exact runDecoder_queue k now cb _ _ _ s hne
          · exact ⟨rfl, rfl⟩

/-! ## Lemmas on the receive path -/

theorem Appends.uart {k : Consts} {s t : Ems} (h : Appends k s t) : t.uart = s.uart :=
  congrArg (fun v => v.1) h.1

theorem Appends.txStatus {k : Consts} {s t : Ems} (h : Appends k s t) :
    t.sys.emsTxStatus = s.sys.emsTxStatus :=
  congrArg (fun v => v.2.2.2.2.2.1) h.1

theorem appends_runEnqueue (k : Consts) (now : Nat) (c : EnqueueCall) (s : Ems) :
    Appends k s (runEnqueue k now c s) := by
  cases c
  case doReadCommand => exact appends_doReadCommand ..
  case sendRawTelegram => exact appends_sendRawTelegram ..
  case setThermostatTemp => exact appends_setThermostatTemp ..
  case setThermostatMode => exact appends_setThermostatMode ..
  case setWarmWaterTemp => exact appends_setWarmWaterTemp ..
  case setFlowTemp => exact appends_setFlowTemp ..
  case setWarmWaterModeComfort => exact appends_setWarmWaterModeComfort ..
  case setWarmWaterActivated => exact appends_setWarmWaterActivated ..
  case setWarmTapWaterActivated => exact appends_setWarmTapWaterActivated ..
  case getThermostatValues => exact appends_getThermostatValues ..
  case getBoilerValues => exact appends_getBoilerValues ..
  case getOtherValues => exact appends_getOtherValues ..
  case scanDevices => exact appends_scanDevices ..
  case discoverModels => exact appends_discoverModels ..
  case startupTelegrams => exact appends_startupTelegrams ..

theorem processTelegram_uart (k : Consts) (now : Nat) (tg : List Nat) (len : Nat) (s : Ems) :
    (_ems_processTelegram k now tg len s).uart = s.uart := by
  obtain ⟨s1, h1, h2, _⟩ := processTelegram_spec k now tg len s
  rw [h2]
  exact h1.uart

theorem processTelegram_txStatus (k : Consts) (now : Nat) (tg : List Nat) (len : Nat) (s : Ems) :
    (_ems_processTelegram k now tg len s).sys.emsTxStatus = EMS_TX_STATUS_IDLE := by
  obtain ⟨s1, _, h2, _⟩ := processTelegram_spec k now tg len s
  rw [h2]
  rfl

theorem readBranch_uart (k : Consts) (now : Nat) (tg : List Nat) (len : Nat) (t : TxTelegram)
    (s : Ems) : (readBranch k now tg len t s).uart = s.uart := by
  unfold readBranch
  simp only
  rw [processTelegram_uart]
  split_ifs <;> rfl

theorem validateBranch_uart (k : Consts) (now : Nat) (tg : List Nat) (t : TxTelegram)
    (s : Ems) : (validateBranch k now tg t s).uart = s.uart := by
  unfold validateBranch
  simp only
  split_ifs
  · exact (appends_doReadCommand ..).uart
  · rfl
  · rfl

theorem reconcile_uart (k : Consts) (now : Nat) (tg : List Nat) (len : Nat) (t : TxTelegram)
    (s : Ems) : (reconcile k now tg len t s).uart = s.uart ++ [UartOut.poll] := by
  unfold reconcile emsaurt_tx_poll
  simp only
  split_ifs <;> simp only [readBranch_uart, validateBranch_uart]

theorem processType_uart (k : Consts) (now : Nat) (tg : List Nat) (len : Nat) (s : Ems) :
    ∃ n, (_processType k now tg len s).uart = s.uart ++ List.replicate n UartOut.poll := by
  unfold _processType
  simp only
  split_ifs
  · exact ⟨0, by simp⟩
  · exact ⟨0, by simp [processTelegram_uart]⟩
  · refine ⟨0, ?_⟩
    rw [processTelegram_uart]
    simp [_removeTxQueue, setTxStatus]
  · split
    · refine ⟨0, ?_⟩
      rw [processTelegram_uart]
      simp [setTxStatus]
    · refine ⟨1, ?_⟩
      rw [reconcile_uart]
      rfl

theorem parse_control (k : Consts) (now : Nat) (junk : TxTelegram) (tg : List Nat) (s : Ems)
    (h0 : tg.getD 0 0 ≠ 0x00) :
    (ems_parseTelegram k now junk tg 1 s).1 = controlByte k now junk (tg.getD 0 0) s := by
  unfold ems_parseTelegram _ems_readTelegram
  simp only
  rw [if_pos ⟨one_ne_zero, h0⟩, if_pos trivial]

theorem parse_frame (k : Consts) (now : Nat) (junk : TxTelegram) (tg : List Nat) (len : Nat)
    (s : Ems) (hlen : 5 ≤ len) (h0 : tg.getD 0 0 ≠ 0x00)
    (hcrc : tg.getD (len - 1) 0 = _crcCalculator tg len) :
    (ems_parseTelegram k now junk tg len s).1 = _processType k now tg len (noteRx now s) := by
  unfold ems_parseTelegram _ems_readTelegram
  simp only
  rw [if_pos ⟨by omega, h0⟩, if_neg (by omega), if_neg (by omega), if_neg (not_not.mpr hcrc)]

theorem parse_cases (k : Consts) (now : Nat) (junk : TxTelegram) (tg : List Nat) (len : Nat)
    (s : Ems) :
    (ems_parseTelegram k now junk tg len s).1 = s
      ∨ (len = 1 ∧ (ems_parseTelegram k now junk tg len s).1
          = controlByte k now junk (tg.getD 0 0) s)
      ∨ (ems_parseTelegram k now junk tg len s).1
          = { s with sys := { s.sys with emxCrcErr := incr k.crcErrBits s.sys.emxCrcErr } }
      ∨ (ems_parseTelegram k now junk tg len s).1 = _processType k now tg len (noteRx now s) := by
  unfold ems_parseTelegram _ems_readTelegram
  simp only
  split_ifs with _ h1
  · exact Or.inr (Or.inl ⟨h1, rfl⟩)
  · exact Or.inl rfl
  · exact Or.inr (Or.inr (Or.inl rfl))
  · exact Or.inr (Or.inr (Or.inr rfl))
  · exact Or.inl rfl

theorem lor_0x80_ne_zero (n : Nat) : n ||| 0x80 ≠ 0 := by
  intro h
  have h7 : (n ||| 0x80).testBit 7 = true := by
    rw [Nat.testBit_or]
    simp
    right
    decide
  rw [h] at h7
  simp at h7

theorem createValidate_uart (k : Consts) (junk : TxTelegram) (s : Ems) :
    (_createValidate k junk s).uart = s.uart := by
  unfold _createValidate
  split
  · rfl
  · simp only
    split_ifs <;> rfl

theorem controlByte_wait_uart (k : Consts) (now : Nat) (junk : TxTelegram) (v : Nat) (s : Ems)
    (hw : s.sys.emsTxStatus = EMS_TX_STATUS_WAIT) :
    ∃ n, (controlByte k now junk v s).uart = s.uart ++ List.replicate n UartOut.poll := by
  have hnidle : ¬ ((setTxCapable (notePoll now s)).sys.emsTxStatus = EMS_TX_STATUS_IDLE) := by
    show ¬ (s.sys.emsTxStatus = EMS_TX_STATUS_IDLE)
    rw [hw]; decide
  unfold controlByte
  simp only
  by_cases hv : v = (k.EMS_ID_ME ||| 0x80)
  · rw [if_pos hv, if_neg (fun h => hnidle h.2)]
    split_ifs
    · exact ⟨1, rfl⟩
    · exact ⟨0, by simp [setTxCapable, notePoll]⟩
  · rw [if_neg hv]
    split_ifs
    · exact ⟨1, by rw [createValidate_uart]; rfl⟩
    · exact ⟨1, rfl⟩
    · exact ⟨0, by simp [notePoll]⟩
    · exact ⟨0, by simp [notePoll]⟩

theorem controlByte_other_uart (k : Consts) (now : Nat) (junk : TxTelegram) (v : Nat) (s : Ems)
    (hv : v ≠ (k.EMS_ID_ME ||| 0x80)) :
    ∃ n, (controlByte k now junk v s).uart = s.uart ++ List.replicate n UartOut.poll := by
  unfold controlByte
  simp only
  rw [if_neg hv]
  split_ifs
  · exact ⟨1, by rw [createValidate_uart]; rfl⟩
  · exact ⟨1, rfl⟩
  · exact ⟨0, by simp [notePoll]⟩
  · exact ⟨0, by simp [notePoll]⟩

/-! ## Lemmas on the transmit path and on reconciliation -/

theorem take_setLast (d : List Nat) (len v : Nat) (h1 : 1 ≤ len) (hfit : len ≤ d.length) :
    (setLast d len v).take len = d.take (len - 1) ++ [v] := by
  unfold setLast setByte
  rw [if_neg (by omega)]
  apply List.ext_getElem?
  intro i
  simp only [List.getElem?_take, List.getElem?_set, List.getElem?_append, List.length_take]
  have hm : min (len - 1) d.length = len - 1 := by omega
  rw [hm]
  by_cases hi : i < len - 1
  · have : i < len := by omega
    have hne : len - 1 ≠ i := by omega
    simp [hi, this, hne]
  · by_cases hi2 : i = len - 1
    · subst hi2
      have : len - 1 < len := by omega
      have h3 : len - 1 < d.length := by omega
      simp [this, h3]
    · have : ¬ i < len := by omega
      have h4 : i - (len - 1) ≠ 0 := by omega
      simp [hi, this]
      cases hh : i - (len - 1) with
      | zero => exact absurd hh h4
      | succ n => simp

theorem stamped_take (d : List Nat) (len : Nat) (h1 : 1 ≤ len) (hfit : len ≤ d.length) :
    ((setLast d len (_crcCalculator d len)).take len).length = len
      ∧ ((setLast d len (_crcCalculator d len)).take len)[len - 1]?
          = some (_crcCalculator ((setLast d len (_crcCalculator d len)).take len) len)
      ∧ ∀ i, i < len - 1 → ((setLast d len (_crcCalculator d len)).take len)[i]? = d[i]? := by
  rw [take_setLast d len _ h1 hfit]
  have hl : (d.take (len - 1)).length = len - 1 := by
    rw [List.length_take]; omega
  have hpre : ∀ i, i < len - 1 →
      (d.take (len - 1) ++ [_crcCalculator d len])[i]? = d[i]? := by
    intro i hi
    rw [List.getElem?_append_left (by omega), List.getElem?_take]
    simp [hi]
  refine ⟨by simp [hl]; omega, ?_, hpre⟩
  have hc : _crcCalculator (d.take (len - 1) ++ [_crcCalculator d len]) len = _crcCalculator d len := by
    apply crc_congr
    intro i hi
    rw [List.getD_eq_getElem?_getD, List.getD_eq_getElem?_getD, hpre i hi]
  rw [hc, List.getElem?_append_right (by omega), hl]
  simp

theorem header_bytes (d : List Nat) (b0 b1 b2 b3 b4 : Nat) (len m : Nat) (h6 : 5 ≤ d.length) :
    let d3 := setByte (setByte (setByte (setByte d 0 b0) 1 b1) 2 b2) 3 b3
    let d4 := if len = m then setByte d3 4 b4 else d3
    d4.length = d.length ∧ d4[0]? = some b0 ∧ d4[1]? = some b1 ∧ d4[2]? = some b2
      ∧ d4[3]? = some b3 ∧ (len = m → d4[4]? = some b4) := by
  simp only
  have hne : d ≠ [] := by
    intro h; rw [h] at h6; simp at h6
  split_ifs with h
  · simp [setByte, List.getElem?_set, h, hne]
    omega
  · simp [setByte, List.getElem?_set, h, hne]
    omega

theorem sendTelegram_uart_front (k : Consts) (s : Ems) (c : TxTelegram) (rest : List TxTelegram)
    (hq : s.txq = c :: rest) :
    (c.dest = k.EMS_ID_NONE → (_ems_sendTelegram k s).uart = s.uart)
      ∧ (c.dest ≠ k.EMS_ID_NONE →
          ∃ bytes, (_ems_sendTelegram k s).uart = s.uart ++ [UartOut.buffer bytes]) := by
  unfold _ems_sendTelegram
  rw [hq]
  simp only
  constructor
  · intro h
    rw [if_pos h]
  · intro h
    rw [if_neg h]
    by_cases hr : c.action = EMS_TX_TELEGRAM_RAW
    · rw [if_pos hr]; exact ⟨_, rfl⟩
    · rw [if_neg hr]; exact ⟨_, rfl⟩

theorem Appends.rxPgks {k : Consts} {s t : Ems} (h : Appends k s t) :
    t.sys.emsRxPgks = s.sys.emsRxPgks :=
  congrArg (fun v => v.2.2.1) h.1

theorem processType_inflight (k : Consts) (now : Nat) (tg : List Nat) (len : Nat) (s : Ems)
    (c : TxTelegram) (rest : List TxTelegram)
    (hsrc : tg.getD 0 0 &&& 0x7F ≠ k.EMS_ID_ME) (hdst : tg.getD 1 0 &&& 0x7F = k.EMS_ID_ME)
    (hw : s.sys.emsTxStatus = EMS_TX_STATUS_WAIT) (hq : s.txq = c :: rest) :
    _processType k now tg len s = reconcile k now tg len c (setTxStatus EMS_TX_STATUS_IDLE s) := by
  unfold _processType
  simp only
  have hni : ¬ s.sys.emsTxStatus = EMS_TX_STATUS_IDLE := by rw [hw]; decide
  rw [if_neg hsrc, if_neg hni, if_neg (not_not.mpr hdst)]
  have hq0 : (setTxStatus EMS_TX_STATUS_IDLE s).txq = c :: rest := hq
  rw [hq0]

/-! ## Steps of the Tx state machine -/

theorem txView_iff (s : Ems) (q : List TxTelegram) (st : TxStatus) (r : Nat) (d : Bool) :
    txView s = (q, st, r, d)
      ↔ s.txq = q ∧ s.sys.emsTxStatus = st ∧ s.sys.txRetryCount = r ∧ s.sys.emsTxDisabled = d := by
  unfold txView
  simp only [Prod.mk.injEq]

theorem parse_reply (k : Consts) (now : Nat) (junk : TxTelegram) (tg : List Nat) (len : Nat)
    (s : Ems) (c : TxTelegram) (rest : List TxTelegram) (hr : Reply k tg len)
    (hw : s.sys.emsTxStatus = EMS_TX_STATUS_WAIT) (hq : s.txq = c :: rest) :
    (ems_parseTelegram k now junk tg len s).1
      = reconcile k now tg len c (setTxStatus EMS_TX_STATUS_IDLE (noteRx now s)) := by
  obtain ⟨hlen, h0, hcrc, hsrc, hdst⟩ := hr
  rw [parse_frame k now junk tg len s hlen h0 hcrc,
    processType_inflight k now tg len (noteRx now s) c rest hsrc hdst hw hq]

theorem parse_poll_send (k : Consts) (now : Nat) (junk : TxTelegram) (tg : List Nat) (s : Ems)
    (c : TxTelegram) (rest : List TxTelegram)
    (hp : tg.getD 0 0 = k.EMS_ID_ME ||| 0x80)
    (hi : s.sys.emsTxStatus = EMS_TX_STATUS_IDLE) (hq : s.txq = c :: rest) :
    (ems_parseTelegram k now junk tg 1 s).1
      = _ems_sendTelegram k (setTxCapable (notePoll now s)) := by
  have h0 : tg.getD 0 0 ≠ 0x00 := by rw [hp]; exact lor_0x80_ne_zero _
  rw [parse_control k now junk tg s h0]
  unfold controlByte
  simp only
  rw [if_pos hp]
  have hc : ¬ (setTxCapable (notePoll now s)).txq.isEmpty = true
      ∧ (setTxCapable (notePoll now s)).sys.emsTxStatus = EMS_TX_STATUS_IDLE := by
    constructor
    · show ¬ s.txq.isEmpty = true
      rw [hq]; simp
    · exact hi
  rw [if_pos hc]

theorem sendTelegram_view (k : Consts) (s : Ems) (c : TxTelegram) (rest : List TxTelegram)
    (hq : s.txq = c :: rest) (hd : c.dest ≠ k.EMS_ID_NONE) (hr : c.action ≠ EMS_TX_TELEGRAM_RAW) :
    txView (_ems_sendTelegram k s)
      = (c :: rest, EMS_TX_STATUS_WAIT, s.sys.txRetryCount, s.sys.emsTxDisabled) := by
  unfold _ems_sendTelegram
  rw [hq]
  simp only
  rw [if_neg hd, if_neg hr]
  unfold txView emsuart_tx_buffer
  simp only [hq]

theorem view_poll (k : Consts) (now : Nat) (junk : TxTelegram) (tg : List Nat) (s : Ems)
    (c : TxTelegram) (rest : List TxTelegram) (r : Nat) (d : Bool)
    (hp : tg.getD 0 0 = k.EMS_ID_ME ||| 0x80)
    (hv : txView s = (c :: rest, EMS_TX_STATUS_IDLE, r, d))
    (hd : c.dest ≠ k.EMS_ID_NONE) (hr : c.action ≠ EMS_TX_TELEGRAM_RAW) :
    txView (ems_parseTelegram k now junk tg 1 s).1 = (c :: rest, EMS_TX_STATUS_WAIT, r, d) := by
  obtain ⟨hq, hi, hrc, hdis⟩ := (txView_iff _ _ _ _ _).mp hv
  rw [parse_poll_send k now junk tg s c rest hp hi hq,
    sendTelegram_view k (setTxCapable (notePoll now s)) c rest hq hd hr]
  show (c :: rest, EMS_TX_STATUS_WAIT, s.sys.txRetryCount, s.sys.emsTxDisabled) = _
  rw [hrc, hdis]

theorem parse_success (k : Consts) (now : Nat) (junk : TxTelegram) (tg : List Nat) (s : Ems)
    (h0 : k.EMS_TX_SUCCESS ≠ 0x00) (hne : k.EMS_TX_SUCCESS ≠ k.EMS_ID_ME ||| 0x80)
    (hp : tg.getD 0 0 = k.EMS_TX_SUCCESS)
    (hw : s.sys.emsTxStatus = EMS_TX_STATUS_WAIT) :
    (ems_parseTelegram k now junk tg 1 s).1
      = _createValidate k junk
          (emsaurt_tx_poll
            { notePoll now s with
              sys := { (notePoll now s).sys with
                emsTxPkgs := incr k.txPkgsBits (notePoll now s).sys.emsTxPkgs } }) := by
  have h1 : tg.getD 0 0 ≠ 0x00 := by rw [hp]; exact h0
  rw [parse_control k now junk tg s h1]
  unfold controlByte
  simp only
  rw [hp, if_neg hne]
  have hw2 : (notePoll now s).sys.emsTxStatus = EMS_TX_STATUS_WAIT := hw
  rw [if_pos hw2, if_pos rfl]

theorem createValidate_view (k : Consts) (junk : TxTelegram) (s : Ems) (w : TxTelegram)
    (rest : List TxTelegram) (hq : s.txq = w :: rest)
    (ha : w.action = EMS_TX_TELEGRAM_WRITE) (hv : w.type_validate ≠ k.EMS_ID_NONE) :
    txView (_createValidate k junk s)
      = (txqUnshift k.EMS_TX_TELEGRAM_QUEUE_MAX rest (validateOf k junk w), EMS_TX_STATUS_IDLE,
          s.sys.txRetryCount, s.sys.emsTxDisabled) := by
  unfold _createValidate
  rw [hq]
  simp only
  have hn : ¬ (w.action ≠ EMS_TX_TELEGRAM_WRITE ∨ w.type_validate = k.EMS_ID_NONE) := by
    rintro (h | h)
    · exact h ha
    · exact hv h
  rw [if_neg hn]
  rfl

theorem view_success (k : Consts) (now : Nat) (junk : TxTelegram) (tg : List Nat) (s : Ems)
    (w : TxTelegram) (rest : List TxTelegram) (r : Nat) (d : Bool)
    (h0 : k.EMS_TX_SUCCESS ≠ 0x00) (hne : k.EMS_TX_SUCCESS ≠ k.EMS_ID_ME ||| 0x80)
    (hp : tg.getD 0 0 = k.EMS_TX_SUCCESS)
    (hv : txView s = (w :: rest, EMS_TX_STATUS_WAIT, r, d))
    (ha : w.action = EMS_TX_TELEGRAM_WRITE) (hty : w.type_validate ≠ k.EMS_ID_NONE) :
    txView (ems_parseTelegram k now junk tg 1 s).1
      = (txqUnshift k.EMS_TX_TELEGRAM_QUEUE_MAX rest (validateOf k junk w), EMS_TX_STATUS_IDLE,
          r, d) := by
  obtain ⟨hq, hw, hrc, hdis⟩ := (txView_iff _ _ _ _ _).mp hv
  rw [parse_success k now junk tg s h0 hne hp hw]
  refine (createValidate_view k junk _ w rest ?_ ha hty).trans ?_
  · exact hq
  · show (_, EMS_TX_STATUS_IDLE, s.sys.txRetryCount, s.sys.emsTxDisabled) = _
    rw [hrc, hdis]

theorem reconcile_write (k : Consts) (now : Nat) (tg : List Nat) (len : Nat) (c : TxTelegram)
    (s0 : Ems) (ha : c.action = EMS_TX_TELEGRAM_WRITE) :
    reconcile k now tg len c s0 = emsaurt_tx_poll s0 := by
  have hnr : ¬ c.action = EMS_TX_TELEGRAM_READ := by rw [ha]; decide
  have hnv : ¬ c.action = EMS_TX_TELEGRAM_VALIDATE := by rw [ha]; decide
  unfold reconcile
  simp only
  rw [if_neg hnv, if_neg hnr]

theorem reconcile_validate (k : Consts) (now : Nat) (tg : List Nat) (len : Nat) (c : TxTelegram)
    (s0 : Ems) (ha : c.action = EMS_TX_TELEGRAM_VALIDATE) :
    reconcile k now tg len c s0 = emsaurt_tx_poll (validateBranch k now tg c s0) := by
  have hnr : ¬ c.action = EMS_TX_TELEGRAM_READ := by rw [ha]; decide
  unfold reconcile
  simp only
  rw [if_pos ha, if_neg hnr]

theorem reconcile_read (k : Consts) (now : Nat) (tg : List Nat) (len : Nat) (c : TxTelegram)
    (s0 : Ems) (ha : c.action = EMS_TX_TELEGRAM_READ) :
    reconcile k now tg len c s0 = emsaurt_tx_poll (readBranch k now tg len c s0) := by
  have hnv : ¬ c.action = EMS_TX_TELEGRAM_VALIDATE := by rw [ha]; decide
  unfold reconcile
  simp only
  rw [if_neg hnv, if_pos ha]

theorem view_write (k : Consts) (now : Nat) (junk : TxTelegram) (tg : List Nat) (len : Nat)
    (s : Ems) (c : TxTelegram) (rest : List TxTelegram) (r : Nat) (d : Bool)
    (hr : Reply k tg len) (hv : txView s = (c :: rest, EMS_TX_STATUS_WAIT, r, d))
    (ha : c.action = EMS_TX_TELEGRAM_WRITE) :
    (ems_parseTelegram k now junk tg len s).1
        = emsaurt_tx_poll (setTxStatus EMS_TX_STATUS_IDLE (noteRx now s))
      ∧ txView (ems_parseTelegram k now junk tg len s).1 = (c :: rest, EMS_TX_STATUS_IDLE, r, d) := by
  obtain ⟨hq, hw, hrc, hdis⟩ := (txView_iff _ _ _ _ _).mp hv
  rw [parse_reply k now junk tg len s c rest hr hw hq, reconcile_write k now tg len c _ ha]
  refine ⟨rfl, ?_⟩
  show (s.txq, EMS_TX_STATUS_IDLE, s.sys.txRetryCount, s.sys.emsTxDisabled) = _
  rw [hq, hrc, hdis]

theorem doReadCommand_view (k : Consts) (now type dest : Nat) (fr : Bool) (s : Ems)
    (ht : type ≠ k.EMS_ID_NONE) (hd : dest ≠ k.EMS_ID_NONE) (hdis : s.sys.emsTxDisabled = false) :
    txView (ems_doReadCommand k now type dest fr s)
      = (txqPush k.EMS_TX_TELEGRAM_QUEUE_MAX s.txq (readOf k now type dest fr),
          s.sys.emsTxStatus, 0, false) := by
  unfold ems_doReadCommand
  have hn : ¬ (type = k.EMS_ID_NONE ∨ dest = k.EMS_ID_NONE) := by
    rintro (h | h)
    · exact ht h
    · exact hd h
  rw [if_neg hn, if_neg (by rw [hdis]; decide)]
  show (_, s.sys.emsTxStatus, 0, s.sys.emsTxDisabled) = _
  rw [hdis]
  rfl

theorem doReadCommand_skip (k : Consts) (now type dest : Nat) (fr : Bool) (s : Ems)
    (h : type = k.EMS_ID_NONE ∨ dest = k.EMS_ID_NONE ∨ s.sys.emsTxDisabled = true) :
    ems_doReadCommand k now type dest fr s = s := by
  unfold ems_doReadCommand
  by_cases hn : type = k.EMS_ID_NONE ∨ dest = k.EMS_ID_NONE
  · rw [if_pos hn]
  · rw [if_neg hn]
    rcases h with h | h | h
    · exact absurd (Or.inl h) hn
    · exact absurd (Or.inr h) hn
    · rw [if_pos h]

theorem Appends.txDisabled {k : Consts} {s t : Ems} (h : Appends k s t) :
    t.sys.emsTxDisabled = s.sys.emsTxDisabled :=
  congrArg (fun v => v.2.2.2.2.2.2.2.1) h.1

theorem processTelegram_view (k : Consts) (now : Nat) (tg : List Nat) (len : Nat) (s : Ems)
    (hv : tg.getD 2 0 ≠ k.EMS_TYPE_Version) :
    txView (_ems_processTelegram k now tg len s)
      = (s.txq, EMS_TX_STATUS_IDLE, s.sys.txRetryCount, s.sys.emsTxDisabled) := by
  obtain ⟨s1, hA, hE, hV⟩ := processTelegram_spec k now tg len s
  rw [hE]
  show (s1.txq, EMS_TX_STATUS_IDLE, s1.sys.txRetryCount, s1.sys.emsTxDisabled) = _
  rw [(hV hv).1, (hV hv).2, hA.txDisabled]

theorem view_read_mismatch (k : Consts) (now : Nat) (junk : TxTelegram) (tg : List Nat)
    (len : Nat) (s : Ems) (c : TxTelegram) (rest : List TxTelegram) (r : Nat) (d : Bool)
    (hr : Reply k tg len) (hv : txView s = (c :: rest, EMS_TX_STATUS_WAIT, r, d))
    (ha : c.action = EMS_TX_TELEGRAM_READ)
    (hmis : tg.getD 0 0 &&& 0x7F ≠ c.dest ∨ tg.getD 2 0 ≠ c.type)
    (hnv : tg.getD 2 0 ≠ k.EMS_TYPE_Version) :
    txView (ems_parseTelegram k now junk tg len s).1
      = (if TX_WRITE_TIMEOUT_COUNT ≤ incr k.retryBits r then rest else c :: rest,
          EMS_TX_STATUS_IDLE, incr k.retryBits r, d) := by
  obtain ⟨hq, hw, hrc, hdis⟩ := (txView_iff _ _ _ _ _).mp hv
  have hnm : ¬ (tg.getD 0 0 &&& 0x7F = c.dest ∧ tg.getD 2 0 = c.type) := by
    rintro ⟨h1, h2⟩
    rcases hmis with h | h
    · exact h h1
    · exact h h2
  rw [parse_reply k now junk tg len s c rest hr hw hq, reconcile_read k now tg len c _ ha]
  unfold readBranch
  simp only
  rw [if_neg hnm]
  show txView (_ems_processTelegram k now tg len _) = _
  rw [processTelegram_view k now tg len _ hnv]
  by_cases hge : TX_WRITE_TIMEOUT_COUNT ≤ incr k.retryBits r
  · have hge2 : ({ setTxStatus EMS_TX_STATUS_IDLE (noteRx now s) with
          sys := { (setTxStatus EMS_TX_STATUS_IDLE (noteRx now s)).sys with
            txRetryCount := incr k.retryBits
              (setTxStatus EMS_TX_STATUS_IDLE (noteRx now s)).sys.txRetryCount } } : Ems).sys.txRetryCount
        ≥ TX_WRITE_TIMEOUT_COUNT := by
      show TX_WRITE_TIMEOUT_COUNT ≤ incr k.retryBits s.sys.txRetryCount
      rw [hrc]; exact hge
    rw [if_pos hge2, if_pos hge]
    show (s.txq.tail, EMS_TX_STATUS_IDLE, incr k.retryBits s.sys.txRetryCount,
      s.sys.emsTxDisabled) = _
    rw [hq, hrc, hdis]
    rfl
  · have hge2 : ¬ ({ setTxStatus EMS_TX_STATUS_IDLE (noteRx now s) with
          sys := { (setTxStatus EMS_TX_STATUS_IDLE (noteRx now s)).sys with
            txRetryCount := incr k.retryBits
              (setTxStatus EMS_TX_STATUS_IDLE (noteRx now s)).sys.txRetryCount } } : Ems).sys.txRetryCount
        ≥ TX_WRITE_TIMEOUT_COUNT := by
      show ¬ TX_WRITE_TIMEOUT_COUNT ≤ incr k.retryBits s.sys.txRetryCount
      rw [hrc]; exact hge
    rw [if_neg hge2, if_neg hge]
    show (s.txq, EMS_TX_STATUS_IDLE, incr k.retryBits s.sys.txRetryCount,
      s.sys.emsTxDisabled) = _
    rw [hq, hrc, hdis]

theorem parse_validate_ok (k : Consts) (now : Nat) (junk : TxTelegram) (tg : List Nat)
    (len : Nat) (s : Ems) (v : TxTelegram) (rest : List TxTelegram)
    (hr : Reply k tg len) (hw : s.sys.emsTxStatus = EMS_TX_STATUS_WAIT) (hq : s.txq = v :: rest)
    (ha : v.action = EMS_TX_TELEGRAM_VALIDATE) (hm : v.comparisonValue = tg.getD 4 0) :
    (ems_parseTelegram k now junk tg len s).1
      = emsaurt_tx_poll (ems_doReadCommand k now v.comparisonPostRead v.dest true
          (_removeTxQueue (setTxStatus EMS_TX_STATUS_IDLE (noteRx now s)))) := by
  rw [parse_reply k now junk tg len s v rest hr hw hq, reconcile_validate k now tg len v _ ha]
  unfold validateBranch
  simp only
  rw [if_pos hm]

theorem view_validate_fail (k : Consts) (now : Nat) (junk : TxTelegram) (tg : List Nat)
    (len : Nat) (s : Ems) (v : TxTelegram) (rest : List TxTelegram) (r : Nat) (d : Bool)
    (hr : Reply k tg len) (hv : txView s = (v :: rest, EMS_TX_STATUS_WAIT, r, d))
    (ha : v.action = EMS_TX_TELEGRAM_VALIDATE) (hm : v.comparisonValue ≠ tg.getD 4 0) :
    txView (ems_parseTelegram k now junk tg len s).1
      = (if incr k.retryBits r > TX_WRITE_TIMEOUT_COUNT then rest
          else txqUnshift k.EMS_TX_TELEGRAM_QUEUE_MAX rest (retryWrite v),
          EMS_TX_STATUS_IDLE, incr k.retryBits r, d) := by
  obtain ⟨hq, hw, hrc, hdis⟩ := (txView_iff _ _ _ _ _).mp hv
  rw [parse_reply k now junk tg len s v rest hr hw hq, reconcile_validate k now tg len v _ ha]
  unfold validateBranch
  simp only
  rw [if_neg hm]
  by_cases hgt : incr k.retryBits r > TX_WRITE_TIMEOUT_COUNT
  · have hgt2 : ({ setTxStatus EMS_TX_STATUS_IDLE (noteRx now s) with
          sys := { (setTxStatus EMS_TX_STATUS_IDLE (noteRx now s)).sys with
            txRetryCount := incr k.retryBits
              (setTxStatus EMS_TX_STATUS_IDLE (noteRx now s)).sys.txRetryCount } } : Ems).sys.txRetryCount
        > TX_WRITE_TIMEOUT_COUNT := by
      show incr k.retryBits s.sys.txRetryCount > TX_WRITE_TIMEOUT_COUNT
      rw [hrc]; exact hgt
    rw [if_pos hgt2, if_pos hgt]
    show (s.txq.tail, EMS_TX_STATUS_IDLE, incr k.retryBits s.sys.txRetryCount,
      s.sys.emsTxDisabled) = _
    rw [hq, hrc, hdis]
    rfl
  · have hgt2 : ¬ ({ setTxStatus EMS_TX_STATUS_IDLE (noteRx now s) with
          sys := { (setTxStatus EMS_TX_STATUS_IDLE (noteRx now s)).sys with
            txRetryCount := incr k.retryBits
              (setTxStatus EMS_TX_STATUS_IDLE (noteRx now s)).sys.txRetryCount } } : Ems).sys.txRetryCount
        > TX_WRITE_TIMEOUT_COUNT := by
      show ¬ incr k.retryBits s.sys.txRetryCount > TX_WRITE_TIMEOUT_COUNT
      rw [hrc]; exact hgt
    rw [if_neg hgt2, if_neg hgt]
    show (txqUnshift k.EMS_TX_TELEGRAM_QUEUE_MAX s.txq.tail (retryWrite v), EMS_TX_STATUS_IDLE,
      incr k.retryBits s.sys.txRetryCount, s.sys.emsTxDisabled) = _
    rw [hq, hrc, hdis]
    rfl

theorem txqPush_room (cap : Nat) (q : List TxTelegram) (t : TxTelegram) (h : q.length < cap) :
    txqPush cap q t = q ++ [t] := by
  unfold txqPush
  rw [if_pos h]

/-! ## What the enqueue functions leave of the device records -/

theorem doReadCommand_boiler (k : Consts) (now ty d : Nat) (fr : Bool) (s : Ems) :
    (ems_doReadCommand k now ty d fr s).boiler = s.boiler := by
  unfold ems_doReadCommand
  split_ifs <;> rfl

theorem doReadCommand_thermostat (k : Consts) (now ty d : Nat) (fr : Bool) (s : Ems) :
    (ems_doReadCommand k now ty d fr s).thermostat = s.thermostat := by
  unfold ems_doReadCommand
  split_ifs <;> rfl

theorem sendRawTelegram_boiler (k : Consts) (now : Nat) (vals : List Nat) (s : Ems) :
    (ems_sendRawTelegram k now vals s).boiler = s.boiler := by
  unfold ems_sendRawTelegram
  split_ifs
  · rfl
  · cases vals with
    | nil => rfl
    | cons v0 rest =>
      simp only
      split_ifs <;> rfl

theorem getThermostatValues_boiler (k : Consts) (now : Nat) (s : Ems) :
    (ems_getThermostatValues k now s).boiler = s.boiler := by
  unfold ems_getThermostatValues
  by_cases h1 : (!ems_getThermostatEnabled k s) = true
  · rw [if_pos h1]
  · rw [if_neg h1]
    by_cases h2 : (!s.thermostat.read_supported) = true
    · rw [if_pos h2]
    · rw [if_neg h2]
      simp only
      rw [doReadCommand_boiler]
      split_ifs <;> simp only [doReadCommand_boiler, sendRawTelegram_boiler]

theorem getBoilerValues_thermostat (k : Consts) (now : Nat) (s : Ems) :
    (ems_getBoilerValues k now s).thermostat = s.thermostat := by
  unfold ems_getBoilerValues
  simp only [doReadCommand_thermostat]

theorem getOtherValues_boiler (k : Consts) (now : Nat) (s : Ems) :
    (ems_getOtherValues k now s).boiler = s.boiler := by
  unfold ems_getOtherValues
  split_ifs
  · exact doReadCommand_boiler ..
  · rfl

theorem getOtherValues_thermostat (k : Consts) (now : Nat) (s : Ems) :
    (ems_getOtherValues k now s).thermostat = s.thermostat := by
  unfold ems_getOtherValues
  split_ifs
  · exact doReadCommand_thermostat ..
  · rfl

/-! ## Lemmas for the catalogs, the link state and the checksum table -/

theorem doReadCommand_other (k : Consts) (now ty d : Nat) (fr : Bool) (s : Ems) :
    (ems_doReadCommand k now ty d fr s).other = s.other := by
  unfold ems_doReadCommand
  split_ifs <;> rfl

theorem sendRawTelegram_other (k : Consts) (now : Nat) (vals : List Nat) (s : Ems) :
    (ems_sendRawTelegram k now vals s).other = s.other := by
  unfold ems_sendRawTelegram
  split_ifs
  · rfl
  · cases vals with
    | nil => rfl
    | cons v0 rest =>
      simp only
      split_ifs <;> rfl

theorem getThermostatValues_other (k : Consts) (now : Nat) (s : Ems) :
    (ems_getThermostatValues k now s).other = s.other := by
  unfold ems_getThermostatValues
  by_cases h1 : (!ems_getThermostatEnabled k s) = true
  · rw [if_pos h1]
  · rw [if_neg h1]
    by_cases h2 : (!s.thermostat.read_supported) = true
    · rw [if_pos h2]
    · rw [if_neg h2]
      simp only
      rw [doReadCommand_other]
      split_ifs <;> simp only [doReadCommand_other, sendRawTelegram_other]

theorem getBoilerValues_other (k : Consts) (now : Nat) (s : Ems) :
    (ems_getBoilerValues k now s).other = s.other := by
  unfold ems_getBoilerValues
  simp only [doReadCommand_other]

theorem getBoilerValues_boiler (k : Consts) (now : Nat) (s : Ems) :
    (ems_getBoilerValues k now s).boiler = s.boiler := by
  unfold ems_getBoilerValues
  simp only [doReadCommand_boiler]

theorem take_size_mod (α : Type) (l : List α) (h : l.length < 256) :
    l.take (l.length % 256) = l := by
  rw [Nat.mod_eq_of_lt h, List.take_length]

theorem find_some_of_mem {α : Type} (l : List α) (p : α → Bool) (a : α) (ha : a ∈ l)
    (hp : p a = true) : ∃ b, l.find? p = some b := by
  cases h : l.find? p with
  | none =>
    rw [List.find?_eq_none] at h
    exact absurd hp (h a ha)
  | some b => exact ⟨b, rfl⟩

theorem find_none_of_forall {α : Type} (l : List α) (p : α → Bool)
    (h : ∀ a ∈ l, p a = false) : l.find? p = none := by
  rw [List.find?_eq_none]
  intro a ha
  rw [h a ha]
  decide

theorem unique_mem (l : List Nat) : ∀ x, x ∈ unique l ↔ x ∈ l := by
  induction l using unique.induct with
  | case1 => intro x; simp [unique]
  | case2 a => intro x; simp [unique]
  | case3 a rest ih =>
    intro x
    rw [unique, if_pos rfl, ih x]
    simp
  | case4 a b rest h ih =>
    intro x
    rw [unique, if_neg h]
    simp only [List.mem_cons, ih x]

theorem unique_sorted (l : List Nat) (hs : l.Sorted (· ≤ ·)) : (unique l).Sorted (· < ·) := by
  induction l using unique.induct with
  | case1 => simp [unique]
  | case2 a => simp [unique]
  | case3 a rest ih =>
    rw [unique, if_pos rfl]
    exact ih (List.Sorted.of_cons hs)
  | case4 a b rest h ih =>
    rw [unique, if_neg h]
    rw [List.sorted_cons] at hs ⊢
    refine ⟨fun y hy => ?_, ih hs.2⟩
    have hy2 : y ∈ b :: rest := (unique_mem _ y).mp hy
    have hab : a ≤ b := hs.1 b (List.mem_cons_self _ _)
    have hby : b ≤ y := by
      rcases List.mem_cons.mp hy2 with h1 | h1
      · omega
      · exact (List.sorted_cons.mp hs.2).1 y h1
    omega

theorem Device_Ids_sorted (k : Consts) : (Device_Ids k).Sorted (· < ·) := by
  unfold Device_Ids
  exact List.Sorted.filter _ (unique_sorted _ (List.sorted_insertionSort _ _))

theorem Device_Ids_mem (k : Consts) (d : Nat) :
    d ∈ Device_Ids k
      ↔ ((∃ b ∈ k.Boiler_Types, b.type_id = d) ∨ (∃ t ∈ k.Thermostat_Types, t.type_id = d)
          ∨ (∃ o ∈ k.Other_Types, o.type_id = d)) ∧ d ≠ k.EMS_MODEL_NONE := by
  unfold Device_Ids
  simp only [List.mem_filter, unique_mem, bne_iff_ne, ne_eq]
  rw [(List.perm_insertionSort _ _).mem_iff]
  simp only [List.mem_append, List.mem_map, or_assoc]

theorem foldl_doRead_txq (k : Consts) (now ty : Nat) (l : List Nat) (s : Ems)
    (hty : ty ≠ k.EMS_ID_NONE) (hdis : s.sys.emsTxDisabled = false)
    (hroom : s.txq.length + l.length ≤ k.EMS_TX_TELEGRAM_QUEUE_MAX) :
    (l.foldl (fun x type_id => ems_doReadCommand k now ty type_id false x) s).txq
      = s.txq ++ (l.filter (fun d => d != k.EMS_ID_NONE)).map (fun d => readOf k now ty d false) := by
  induction l generalizing s with
  | nil => simp
  | cons d rest ih =>
    simp only [List.length_cons] at hroom
    by_cases hd : d = k.EMS_ID_NONE
    · rw [List.foldl_cons, doReadCommand_skip k now ty d false s (Or.inr (Or.inl hd)),
        ih s hdis (by omega)]
      simp [hd]
    · have hv := doReadCommand_view k now ty d false s hty hd hdis
      obtain ⟨q1, _, _, d1⟩ := (txView_iff _ _ _ _ _).mp hv
      have hq : (ems_doReadCommand k now ty d false s).txq
          = s.txq ++ [readOf k now ty d false] := by
        rw [q1, txqPush_room _ _ _ (by omega)]
      rw [List.foldl_cons, ih _ d1
        (by rw [hq]; simp only [List.length_append, List.length_singleton]; omega), hq]
      simp [hd]

theorem Appends.link {k : Consts} {s t : Ems} (h : Appends k s t) : linkView t = linkView s := by
  have h1 : t.sys.emsBusConnected = s.sys.emsBusConnected :=
    congrArg (fun v => v.2.2.2.2.2.2.2.2.1) h.1
  have h2 : t.sys.emsRxTimestamp = s.sys.emsRxTimestamp :=
    congrArg (fun v => v.2.2.2.2.2.2.2.2.2.1) h.1
  unfold linkView
  rw [h1, h2]

theorem processTelegram_link (k : Consts) (now : Nat) (tg : List Nat) (len : Nat) (s : Ems) :
    linkView (_ems_processTelegram k now tg len s) = linkView s := by
  obtain ⟨s1, hA, hE, _⟩ := processTelegram_spec k now tg len s
  rw [hE]
  exact hA.link

theorem readBranch_link (k : Consts) (now : Nat) (tg : List Nat) (len : Nat) (t : TxTelegram)
    (s : Ems) : linkView (readBranch k now tg len t s) = linkView s := by
  unfold readBranch
  simp only
  rw [processTelegram_link]
  split_ifs <;> rfl

theorem validateBranch_link (k : Consts) (now : Nat) (tg : List Nat) (t : TxTelegram) (s : Ems) :
    linkView (validateBranch k now tg t s) = linkView s := by
  unfold validateBranch
  simp only
  split_ifs
  · exact (appends_doReadCommand k now _ _ _ _).link
  · rfl
  · rfl

theorem reconcile_link (k : Consts) (now : Nat) (tg : List Nat) (len : Nat) (t : TxTelegram)
    (s : Ems) : linkView (reconcile k now tg len t s) = linkView s := by
  unfold reconcile
  simp only
  show linkView (if t.action = EMS_TX_TELEGRAM_VALIDATE then _ else _) = _
  split_ifs
  · rw [validateBranch_link, readBranch_link]
  · rw [validateBranch_link]
  · rw [readBranch_link]
  · rfl

theorem processType_link (k : Consts) (now : Nat) (tg : List Nat) (len : Nat) (s : Ems) :
    linkView (_processType k now tg len s) = linkView s := by
  unfold _processType
  simp only
  split_ifs
  · rfl
  · exact processTelegram_link ..
  · rw [processTelegram_link]; rfl
  · split
    · rw [processTelegram_link]; rfl
    · rw [reconcile_link]; rfl

theorem readTelegram_frame_link (k : Consts) (now : Nat) (junk : TxTelegram) (tg : List Nat)
    (len : Nat) (s : Ems) (hlen : 5 ≤ len)
    (hcrc : tg.getD (len - 1) 0 = _crcCalculator tg len) :
    linkView (_ems_readTelegram k now junk tg len s) = (now, true) := by
  unfold _ems_readTelegram
  simp only
  rw [if_neg (by omega), if_neg (by omega), if_neg (not_not.mpr hcrc), processType_link]
  rfl

theorem busConnectedCalls_spec (t : Nat) (ts : List Nat) :
    ∀ s : Ems, s.sys.emsRxTimestamp = t → ts.Sorted (· ≤ ·) →
      (∀ u ∈ ts, t ≤ u ∧ u < 2 ^ 32) →
      (s.sys.emsBusConnected = true ∨ ∀ u ∈ ts, EMS_BUS_TIMEOUT < u - t) →
      busConnectedCalls ts s = ts.map (fun u => decide (u - t ≤ EMS_BUS_TIMEOUT)) := by
  induction ts with
  | nil => intro s _ _ _ _; rfl
  | cons u rest ih =>
    intro s hts hs hb hinv
    rw [List.sorted_cons] at hs
    obtain ⟨htu, hu⟩ := hb u (List.mem_cons_self _ _)
    have hdiff : (u + 2 ^ 32 - s.sys.emsRxTimestamp) % 2 ^ 32 = u - t := by
      rw [hts]
      have : u + 2 ^ 32 - t = (u - t) + 2 ^ 32 := by omega
      rw [this, Nat.add_mod_right, Nat.mod_eq_of_lt (by omega)]
    have hrest : ∀ v ∈ rest, t ≤ v ∧ v < 2 ^ 32 := fun v hv => hb v (List.mem_cons_of_mem _ hv)
    unfold busConnectedCalls
    unfold ems_getBusConnected
    simp only [List.map_cons]
    rw [hdiff]
    by_cases hgt : u - t > EMS_BUS_TIMEOUT
    · rw [if_pos hgt]
      have hd : decide (u - t ≤ EMS_BUS_TIMEOUT) = false := by
        rw [decide_eq_false_iff_not]; omega
      rw [hd]
      congr 1
      refine ih _ hts hs.2 hrest (Or.inr (fun v hv => ?_))
      have := hs.1 v hv
      omega
    · rw [if_neg hgt]
      have hconn : s.sys.emsBusConnected = true := by
        rcases hinv with h | h
        · exact h
        · exact absurd (h u (List.mem_cons_self _ _)) hgt
      have hd : decide (u - t ≤ EMS_BUS_TIMEOUT) = true := by
        rw [decide_eq_true_iff]; omega
      rw [hd, hconn]
      congr 1
      exact ih _ hts hs.2 hrest (Or.inl hconn)

theorem findTypeRow_thermostat (k : Consts) (s : Ems) (src type : Nat)
    (h : src = s.thermostat.type_id) :
    findTypeRow k s src type = (EMS_Types k).find? (fun e => e.type == type) := by
  unfold findTypeRow
  congr 1
  funext e
  simp [h]

set_option maxRecDepth 100000 in
theorem crc_table_length : ems_crc_table.length = 256 := by
  decide

set_option maxRecDepth 100000 in
theorem crc_table_entry :
    ∀ c, c < 256 →
      ems_crc_table.getD c 0 = ((2 * c) % 256) ^^^ (if c ≥ 0x80 then 0x19 else 0) := by
  decide

set_option maxRecDepth 100000 in
theorem crc_table_lt : ∀ c, c < 256 → ems_crc_table.getD c 0 < 256 := by
  decide

theorem getD_lt_of_bytes (data : List Nat) (hb : ∀ b ∈ data, b < 256) (i : Nat) :
    data.getD i 0 < 256 := by
  rw [List.getD_eq_getElem?_getD]
  cases h : data[i]? with
  | none => simp
  | some v =>
    simp only [Option.getD_some]
    exact hb v (List.getElem?_mem h)

theorem crc_fold_agrees (data : List Nat) (hb : ∀ b ∈ data, b < 256) (n : Nat) :
    (List.range n).foldl (fun crc i => (ems_crc_table.getD crc 0) ^^^ (data.getD i 0)) 0
        = (List.range n).foldl (fun crc i => crcReferenceStep crc (data.getD i 0)) 0
      ∧ (List.range n).foldl (fun crc i => (ems_crc_table.getD crc 0) ^^^ (data.getD i 0)) 0
        < 256 := by
  induction n with
  | zero => exact ⟨rfl, by simp⟩
  | succ n ih =>
    rw [List.range_succ, List.foldl_append, List.foldl_append]
    simp only [List.foldl_cons, List.foldl_nil]
    obtain ⟨he, hlt⟩ := ih
    constructor
    · rw [← he]
      unfold crcReferenceStep
      rw [crc_table_entry _ hlt]
    · exact Nat.xor_lt_two_pow (n := 8) (crc_table_lt _ hlt) (getD_lt_of_bytes data hb n)

theorem doReadCommand_recordView (k : Consts) (now ty d : Nat) (fr : Bool) (s : Ems) :
    recordView (ems_doReadCommand k now ty d fr s) = recordView s := by
  unfold ems_doReadCommand
  split_ifs <;> rfl

theorem validateBranch_recordView (k : Consts) (now : Nat) (tg : List Nat) (t : TxTelegram)
    (s : Ems) : recordView (validateBranch k now tg t s) = recordView s := by
  unfold validateBranch
  simp only
  split_ifs
  · rw [doReadCommand_recordView]; rfl
  · rfl
  · rfl

theorem sendRawTelegram_thermostat (k : Consts) (now : Nat) (vals : List Nat) (s : Ems) :
    (ems_sendRawTelegram k now vals s).thermostat = s.thermostat := by
  unfold ems_sendRawTelegram
  split_ifs
  · rfl
  · cases vals with
    | nil => rfl
    | cons v0 rest =>
      simp only
      split_ifs <;> rfl

set_option maxRecDepth 100000 in
theorem crc_table_left_inverse :
    ∀ c, c < 256 → crcTableInverse (ems_crc_table.getD c 0) = c := by
  decide

set_option maxRecDepth 100000 in
theorem crc_table_right_inverse :
    ∀ y, y < 256 → crcTableInverse y < 256 ∧ ems_crc_table.getD (crcTableInverse y) 0 = y := by
  decide

theorem crc_table_injective (a b : Nat) (ha : a < 256) (hb : b < 256)
    (h : ems_crc_table.getD a 0 = ems_crc_table.getD b 0) : a = b := by
  rw [← crc_table_left_inverse a ha, ← crc_table_left_inverse b hb, h]

theorem crc_fold_lt (data : List Nat) (hb : ∀ b ∈ data, b < 256) (n : Nat) :
    (List.range n).foldl (fun crc i => (ems_crc_table.getD crc 0) ^^^ (data.getD i 0)) 0 < 256 :=
  (crc_fold_agrees data hb n).2

theorem crc_fold_differs (a b : List Nat) (ha : ∀ x ∈ a, x < 256) (hb : ∀ x ∈ b, x < 256)
    (j : Nat) (hj : a.getD j 0 ≠ b.getD j 0)
    (hrest : ∀ i, i ≠ j → a.getD i 0 = b.getD i 0) (n : Nat) :
    (n ≤ j →
      (List.range n).foldl (fun crc i => (ems_crc_table.getD crc 0) ^^^ (a.getD i 0)) 0
        = (List.range n).foldl (fun crc i => (ems_crc_table.getD crc 0) ^^^ (b.getD i 0)) 0)
      ∧ (j < n →
        (List.range n).foldl (fun crc i => (ems_crc_table.getD crc 0) ^^^ (a.getD i 0)) 0
          ≠ (List.range n).foldl (fun crc i => (ems_crc_table.getD crc 0) ^^^ (b.getD i 0)) 0) := by
  induction n with
  | zero => exact ⟨fun _ => rfl, fun h => absurd h (by omega)⟩
  | succ n ih =>
    rw [List.range_succ, List.foldl_append, List.foldl_append]
    simp only [List.foldl_cons, List.foldl_nil]
    constructor
    · intro hn
      rw [ih.1 (by omega), hrest n (by omega)]
    · intro hn
      by_cases hnj : n = j
      · subst hnj
        rw [ih.1 (le_refl _)]
        intro h
        exact hj (Nat.xor_right_injective h)
      · rw [hrest n hnj]
        intro h
        have h2 := Nat.xor_left_injective h
        exact (ih.2 (by omega)) (crc_table_injective _ _ (crc_fold_lt a ha n) (crc_fold_lt b hb n) h2)

theorem validateBranch_txStatus (k : Consts) (now : Nat) (tg : List Nat) (t : TxTelegram)
    (s : Ems) (hs : s.sys.emsTxStatus = EMS_TX_STATUS_IDLE) :
    (validateBranch k now tg t s).sys.emsTxStatus = EMS_TX_STATUS_IDLE := by
  unfold validateBranch
  simp only
  split_ifs
  · rw [(appends_doReadCommand k now _ _ _ _).txStatus]; rfl
  · rfl
  · exact hs

theorem reconcile_txStatus (k : Consts) (now : Nat) (tg : List Nat) (len : Nat) (t : TxTelegram)
    (s : Ems) (hs : s.sys.emsTxStatus = EMS_TX_STATUS_IDLE) :
    (reconcile k now tg len t s).sys.emsTxStatus = EMS_TX_STATUS_IDLE := by
  have hr : (readBranch k now tg len t s).sys.emsTxStatus = EMS_TX_STATUS_IDLE := by
    unfold readBranch
    simp only
    exact processTelegram_txStatus ..
  unfold reconcile
  simp only
  show (if t.action = EMS_TX_TELEGRAM_VALIDATE then _ else _ : Ems).sys.emsTxStatus = _
  split_ifs
  · exact validateBranch_txStatus _ _ _ _ _ hr
  · exact validateBranch_txStatus _ _ _ _ _ hs
  · exact hr
  · exact hs

theorem processType_idle (k : Consts) (now : Nat) (tg : List Nat) (len : Nat) (s : Ems)
    (hsrc : tg.getD 0 0 &&& 0x7F ≠ k.EMS_ID_ME) :
    (_processType k now tg len s).sys.emsTxStatus = EMS_TX_STATUS_IDLE := by
  unfold _processType
  simp only
  rw [if_neg hsrc]
  split_ifs
  · exact processTelegram_txStatus ..
  · exact processTelegram_txStatus ..
  · split
    · exact processTelegram_txStatus ..
    · exact reconcile_txStatus _ _ _ _ _ _ rfl

theorem validateBranch_congr (k : Consts) (now : Nat) (tg1 tg2 : List Nat) (t : TxTelegram)
    (s : Ems) (h4 : tg1.getD 4 0 = tg2.getD 4 0) :
    validateBranch k now tg1 t s = validateBranch k now tg2 t s := by
  unfold validateBranch
  simp only
  rw [h4]

theorem processType_echo (k : Consts) (now : Nat) (tg : List Nat) (len : Nat) (s : Ems)
    (hsrc : tg.getD 0 0 &&& 0x7F = k.EMS_ID_ME) : _processType k now tg len s = s := by
  unfold _processType
  simp only
  rw [if_pos hsrc]

theorem createValidate_cons (k : Consts) (junk : TxTelegram) (s : Ems) (c : TxTelegram)
    (rest : List TxTelegram) (hq : s.txq = c :: rest) :
    (_createValidate k junk s).sys.emsTxStatus = EMS_TX_STATUS_IDLE
      ∧ (_createValidate k junk s).sys.emsTxPkgs = s.sys.emsTxPkgs
      ∧ (_createValidate k junk s).uart = s.uart
      ∧ ((c.action ≠ EMS_TX_TELEGRAM_WRITE ∨ c.type_validate = k.EMS_ID_NONE) →
          (_createValidate k junk s).txq = rest)
      ∧ (¬ (c.action ≠ EMS_TX_TELEGRAM_WRITE ∨ c.type_validate = k.EMS_ID_NONE) →
          (_createValidate k junk s).txq
            = txqUnshift k.EMS_TX_TELEGRAM_QUEUE_MAX rest (validateOf k junk c)) := by
  unfold _createValidate
  rw [hq]
  simp only
  by_cases h : c.action ≠ EMS_TX_TELEGRAM_WRITE ∨ c.type_validate = k.EMS_ID_NONE
  · rw [if_pos h]
    exact ⟨rfl, rfl, rfl, fun _ => rfl, fun h2 => absurd h h2⟩
  · rw [if_neg h]
    exact ⟨rfl, rfl, rfl, fun h2 => absurd h2 h, fun _ => rfl⟩

theorem mem_txqPush (cap : Nat) (q : List TxTelegram) (t x : TxTelegram)
    (h : x ∈ txqPush cap q t) : x ∈ q ∨ x = t := by
  unfold txqPush at h
  split_ifs at h
  · simpa using h
  · rcases List.mem_append.mp h with h1 | h1
    · exact Or.inl (List.mem_of_mem_tail h1)
    · exact Or.inr (by simpa using h1)

theorem mem_txqUnshift (cap : Nat) (q : List TxTelegram) (t x : TxTelegram)
    (h : x ∈ txqUnshift cap q t) : x ∈ q ∨ x = t := by
  unfold txqUnshift at h
  split_ifs at h
  · rcases List.mem_cons.mp h with h1 | h1
    · exact Or.inr h1
    · exact Or.inl h1
  · rcases List.mem_cons.mp h with h1 | h1
    · exact Or.inr h1
    · exact Or.inl (List.mem_of_mem_dropLast h1)

theorem queueAssigned_push (k : Consts) (s : Ems) (n : Nat) (t : TxTelegram)
    (h : queueAssigned k s) (ht : lengthAssigned k t) :
    queueAssigned k (Ems.push k { s with sys := { s.sys with txRetryCount := n } } t) := by
  intro x hx
  rcases mem_txqPush _ _ _ _ hx with h1 | h1
  · exact h x h1
  · rw [h1]; exact ht

theorem queueAssigned_of_txq (k : Consts) (s t : Ems) (e : t.txq = s.txq)
    (h : queueAssigned k s) : queueAssigned k t := by
  intro x hx
  rw [e] at hx
  exact h x hx

theorem queueAssigned_tail (k : Consts) (s t : Ems) (e : t.txq = s.txq.tail)
    (h : queueAssigned k s) : queueAssigned k t := by
  intro x hx
  rw [e] at hx
  exact h x (List.mem_of_mem_tail hx)

theorem queueAssigned_doReadCommand (k : Consts) (now ty d : Nat) (fr : Bool) (s : Ems)
    (h : queueAssigned k s) : queueAssigned k (ems_doReadCommand k now ty d fr s) := by
  unfold ems_doReadCommand
  split_ifs
  · exact h
  · exact h
  · exact queueAssigned_push k s 0 _ h (Or.inr (Or.inl rfl))

theorem queueAssigned_sendRawTelegram (k : Consts) (now : Nat) (vals : List Nat) (s : Ems)
    (h : queueAssigned k s) : queueAssigned k (ems_sendRawTelegram k now vals s) := by
  unfold ems_sendRawTelegram
  split_ifs
  · exact h
  · cases vals with
    | nil => exact h
    | cons v0 rest =>
      simp only
      split_ifs
      · exact h
      · exact queueAssigned_push k s 0 _ h (Or.inl rfl)

theorem queueAssigned_setThermostatTemp (k : Consts) (now v tt : Nat) (s : Ems)
    (h : queueAssigned k s) : queueAssigned k (ems_setThermostatTemp k now v tt s) := by
  unfold ems_setThermostatTemp
  by_cases h1 : (!ems_getThermostatEnabled k s) = true
  · rw [if_pos h1]; exact h
  · rw [if_neg h1]
    by_cases h2 : (!s.thermostat.write_supported) = true
    · rw [if_pos h2]; exact h
    · rw [if_neg h2]; exact queueAssigned_push k s 0 _ h (Or.inr (Or.inl rfl))

theorem queueAssigned_setThermostatMode (k : Consts) (now m : Nat) (s : Ems)
    (h : queueAssigned k s) : queueAssigned k (ems_setThermostatMode k now m s) := by
  unfold ems_setThermostatMode
  by_cases h1 : (!ems_getThermostatEnabled k s) = true
  · rw [if_pos h1]; exact h
  · rw [if_neg h1]
    by_cases h2 : (!s.thermostat.write_supported) = true
    · rw [if_pos h2]; exact h
    · rw [if_neg h2]
      refine queueAssigned_push k s 0 _ h (Or.inr (Or.inl ?_))
      simp only
      split_ifs <;> rfl

theorem queueAssigned_setWarmWaterTemp (k : Consts) (now t : Nat) (s : Ems)
    (h : queueAssigned k s) : queueAssigned k (ems_setWarmWaterTemp k now t s) := by
  unfold ems_setWarmWaterTemp
  split_ifs
  · exact h
  · exact queueAssigned_push k s 0 _ h (Or.inr (Or.inl rfl))

theorem queueAssigned_setFlowTemp (k : Consts) (now t : Nat) (s : Ems)
    (h : queueAssigned k s) : queueAssigned k (ems_setFlowTemp k now t s) :=
  queueAssigned_push k s 0 _ h (Or.inr (Or.inl rfl))

theorem queueAssigned_setWarmWaterModeComfort (k : Consts) (now c : Nat) (s : Ems)
    (h : queueAssigned k s) : queueAssigned k (ems_setWarmWaterModeComfort k now c s) := by
  unfold ems_setWarmWaterModeComfort
  simp only
  split
  · exact h
  · exact queueAssigned_push k s 0 _ h (Or.inr (Or.inl rfl))

theorem queueAssigned_setWarmWaterActivated (k : Consts) (now : Nat) (a : Bool) (s : Ems)
    (h : queueAssigned k s) : queueAssigned k (ems_setWarmWaterActivated k now a s) :=
  queueAssigned_push k s 0 _ h (Or.inr (Or.inl rfl))

theorem queueAssigned_setWarmTapWaterActivated (k : Consts) (now : Nat) (a : Bool) (s : Ems)
    (h : queueAssigned k s) : queueAssigned k (ems_setWarmTapWaterActivated k now a s) :=
  queueAssigned_push k s 0 _ h (Or.inr (Or.inr rfl))

theorem queueAssigned_getThermostatValues (k : Consts) (now : Nat) (s : Ems)
    (h : queueAssigned k s) : queueAssigned k (ems_getThermostatValues k now s) := by
  unfold ems_getThermostatValues
  by_cases h1 : (!ems_getThermostatEnabled k s) = true
  · rw [if_pos h1]; exact h
  · rw [if_neg h1]
    by_cases h2 : (!s.thermostat.read_supported) = true
    · rw [if_pos h2]; exact h
    · rw [if_neg h2]
      have h0 : queueAssigned k { s with thermostat := { s.thermostat with hc := 2 } } := h
      simp only
      apply queueAssigned_doReadCommand
      split_ifs <;>
        repeat (first
          | exact h0
          | apply queueAssigned_doReadCommand
          | apply queueAssigned_sendRawTelegram)

theorem queueAssigned_getBoilerValues (k : Consts) (now : Nat) (s : Ems)
    (h : queueAssigned k s) : queueAssigned k (ems_getBoilerValues k now s) := by
  unfold ems_getBoilerValues
  exact queueAssigned_doReadCommand _ _ _ _ _ _ (queueAssigned_doReadCommand _ _ _ _ _ _
    (queueAssigned_doReadCommand _ _ _ _ _ _ (queueAssigned_doReadCommand _ _ _ _ _ _
      (queueAssigned_doReadCommand _ _ _ _ _ _ h))))

theorem queueAssigned_getOtherValues (k : Consts) (now : Nat) (s : Ems)
    (h : queueAssigned k s) : queueAssigned k (ems_getOtherValues k now s) := by
  unfold ems_getOtherValues
  split_ifs
  · exact queueAssigned_doReadCommand _ _ _ _ _ _ h
  · exact h

theorem queueAssigned_foldl_doRead (k : Consts) (now ty : Nat) (l : List Nat) (s : Ems)
    (h : queueAssigned k s) :
    queueAssigned k (l.foldl (fun x d => ems_doReadCommand k now ty d false x) s) := by
  induction l generalizing s with
  | nil => exact h
  | cons d ds ih => exact ih _ (queueAssigned_doReadCommand k now ty d false s h)

theorem queueAssigned_discoverModels (k : Consts) (now : Nat) (s : Ems)
    (h : queueAssigned k s) : queueAssigned k (ems_discoverModels k now s) := by
  unfold ems_discoverModels
  simp only
  split_ifs
  · exact queueAssigned_foldl_doRead _ _ _ _ _ (queueAssigned_doReadCommand _ _ _ _ _ _
      (queueAssigned_doReadCommand _ _ _ _ _ _ h))
  · exact queueAssigned_doReadCommand _ _ _ _ _ _ (queueAssigned_doReadCommand _ _ _ _ _ _
      (queueAssigned_doReadCommand _ _ _ _ _ _ h))

theorem queueAssigned_runEnqueue (k : Consts) (now : Nat) (c : EnqueueCall) (s : Ems)
    (h : queueAssigned k s) : queueAssigned k (runEnqueue k now c s) := by
  cases c
  case doReadCommand => exact queueAssigned_doReadCommand _ _ _ _ _ _ h
  case sendRawTelegram => exact queueAssigned_sendRawTelegram _ _ _ _ h
  case setThermostatTemp => exact queueAssigned_setThermostatTemp _ _ _ _ _ h
  case setThermostatMode => exact queueAssigned_setThermostatMode _ _ _ _ h
  case setWarmWaterTemp => exact queueAssigned_setWarmWaterTemp _ _ _ _ h
  case setFlowTemp => exact queueAssigned_setFlowTemp _ _ _ _ h
  case setWarmWaterModeComfort => exact queueAssigned_setWarmWaterModeComfort _ _ _ _ h
  case setWarmWaterActivated => exact queueAssigned_setWarmWaterActivated _ _ _ _ h
  case setWarmTapWaterActivated => exact queueAssigned_setWarmTapWaterActivated _ _ _ _ h
  case getThermostatValues => exact queueAssigned_getThermostatValues _ _ _ h
  case getBoilerValues => exact queueAssigned_getBoilerValues _ _ _ h
  case getOtherValues => exact queueAssigned_getOtherValues _ _ _ h
  case scanDevices => exact queueAssigned_foldl_doRead _ _ _ _ _ h
  case discoverModels => exact queueAssigned_discoverModels _ _ _ h
  case startupTelegrams =>
    exact queueAssigned_sendRawTelegram _ _ _ _ (queueAssigned_sendRawTelegram _ _ _ _ h)

theorem queueAssigned_process_Version (k : Consts) (now : Nat) (data : List Nat) (len : Nat)
    (s : Ems) (h : queueAssigned k s) : queueAssigned k (_process_Version k now data len s) := by
  unfold _process_Version
  split_ifs
  · exact h
  · simp only
    split
    · split_ifs
      · exact queueAssigned_getBoilerValues _ _ _ h
      · exact h
    · split
      · split_ifs
        · exact queueAssigned_getThermostatValues _ _ _ h
        · exact h
      · split
        · split_ifs
          · exact queueAssigned_getOtherValues _ _ _ h
          · exact queueAssigned_getOtherValues _ _ _ h
        · exact h

theorem queueAssigned_runDecoder (k : Consts) (now : Nat) (d : Decoder) (src : Nat)
    (data : List Nat) (len : Nat) (s : Ems) (h : queueAssigned k s) :
    queueAssigned k (runDecoder k now d src data len s) := by
  by_cases hd : d = Decoder._process_Version
  · subst hd
    exact queueAssigned_process_Version k now data len s h
  · exact queueAssigned_of_txq k s _ (runDecoder_queue k now d src data len s hd).1 h

theorem queueAssigned_processTelegram (k : Consts) (now : Nat) (tg : List Nat) (len : Nat)
    (s : Ems) (h : queueAssigned k s) : queueAssigned k (_ems_processTelegram k now tg len s) := by
  unfold _ems_processTelegram
  simp only
  split_ifs with h1 h2
  · exact h
  · exact h
  · apply queueAssigned_of_txq k _ _ (show (setTxStatus EMS_TX_STATUS_IDLE _).txq = _ from rfl)
    split
    · exact h
    · split
      · exact h
      · split_ifs
        · exact queueAssigned_runDecoder _ _ _ _ _ _ _ h
        · exact queueAssigned_runDecoder _ _ _ _ _ _ _ h
        · exact h

theorem queueAssigned_readBranch (k : Consts) (now : Nat) (tg : List Nat) (len : Nat)
    (t : TxTelegram) (s : Ems) (h : queueAssigned k s) :
    queueAssigned k (readBranch k now tg len t s) := by
  unfold readBranch
  simp only
  apply queueAssigned_processTelegram
  split_ifs
  · exact queueAssigned_tail k s _ rfl h
  · exact queueAssigned_tail k s _ rfl h
  · exact h

theorem queueAssigned_validateBranch (k : Consts) (now : Nat) (tg : List Nat) (t : TxTelegram)
    (s : Ems) (h : queueAssigned k s) (ht : lengthAssigned k t)
    (ha : t.action = EMS_TX_TELEGRAM_VALIDATE) :
    queueAssigned k (validateBranch k now tg t s) := by
  unfold validateBranch
  simp only
  split_ifs
  · exact queueAssigned_doReadCommand _ _ _ _ _ _ (queueAssigned_tail k s _ rfl h)
  · exact queueAssigned_tail k s _ rfl h
  · intro x hx
    rcases mem_txqUnshift _ _ _ _ hx with h1 | h1
    · exact h x (List.mem_of_mem_tail h1)
    · rw [h1]
      rcases ht with r | r | r
      · rw [ha] at r
        exact absurd r (by decide)
      · exact Or.inr (Or.inl r)
      · exact Or.inr (Or.inr r)

theorem queueAssigned_reconcile (k : Consts) (now : Nat) (tg : List Nat) (len : Nat)
    (t : TxTelegram) (s : Ems) (h : queueAssigned k s) (ht : lengthAssigned k t) :
    queueAssigned k (reconcile k now tg len t s) := by
  unfold reconcile
  simp only
  apply queueAssigned_of_txq k _ _ (show (emsaurt_tx_poll _).txq = _ from rfl)
  split_ifs with h1 h2 h3
  · exact queueAssigned_validateBranch _ _ _ _ _ (queueAssigned_readBranch _ _ _ _ _ _ h) ht h1
  · exact queueAssigned_validateBranch _ _ _ _ _ h ht h1
  · exact queueAssigned_readBranch _ _ _ _ _ _ h
  · exact h

theorem queueAssigned_processType (k : Consts) (now : Nat) (tg : List Nat) (len : Nat) (s : Ems)
    (h : queueAssigned k s) : queueAssigned k (_processType k now tg len s) := by
  unfold _processType
  simp only
  split_ifs
  · exact h
  · exact queueAssigned_processTelegram _ _ _ _ _ h
  · exact queueAssigned_processTelegram _ _ _ _ _ (queueAssigned_tail k s _ rfl h)
  · split
    · exact queueAssigned_processTelegram _ _ _ _ _ h
    · rename_i t rest heq
      have hq : s.txq = t :: rest := heq
      exact queueAssigned_reconcile _ _ _ _ _ _ h (h t (by rw [hq]; exact List.mem_cons_self _ _))

theorem queueAssigned_sendTelegram (k : Consts) (s : Ems) (h : queueAssigned k s) :
    queueAssigned k (_ems_sendTelegram k s) := by
  unfold _ems_sendTelegram
  cases hq : s.txq with
  | nil => exact h
  | cons t rest =>
    simp only
    have ht : ∀ x ∈ rest, lengthAssigned k x :=
      fun x hx => h x (by rw [hq]; exact List.mem_cons_of_mem _ hx)
    by_cases h1 : t.dest = k.EMS_ID_NONE
    · rw [if_pos h1]; exact ht
    · rw [if_neg h1]
      by_cases h2 : t.action = EMS_TX_TELEGRAM_RAW
      · rw [if_pos h2]; exact ht
      · rw [if_neg h2]; exact h

theorem queueAssigned_createValidate (k : Consts) (junk : TxTelegram) (s : Ems)
    (h : queueAssigned k s) : queueAssigned k (_createValidate k junk s) := by
  unfold _createValidate
  cases hq : s.txq with
  | nil => exact h
  | cons t rest =>
    simp only
    have ht : ∀ x ∈ rest, lengthAssigned k x :=
      fun x hx => h x (by rw [hq]; exact List.mem_cons_of_mem _ hx)
    split_ifs
    · exact ht
    · intro x hx
      rcases mem_txqUnshift _ _ _ _ hx with h1 | h1
      · exact ht x h1
      · rw [h1]; exact Or.inr (Or.inl rfl)

theorem queueAssigned_controlByte (k : Consts) (now : Nat) (junk : TxTelegram) (v : Nat) (s : Ems)
    (h : queueAssigned k s) : queueAssigned k (controlByte k now junk v s) := by
  unfold controlByte
  simp only
  split_ifs
  · exact queueAssigned_sendTelegram _ _ h
  · exact h
  · exact h
  · exact queueAssigned_createValidate _ _ _ h
  · exact queueAssigned_tail k s _ rfl h
  · exact h
  · exact h

theorem queueAssigned_parse (k : Consts) (now : Nat) (junk : TxTelegram) (tg : List Nat)
    (len : Nat) (s : Ems) (h : queueAssigned k s) :
    queueAssigned k (ems_parseTelegram k now junk tg len s).1 := by
  rcases parse_cases k now junk tg len s with e | ⟨_, e⟩ | e | e
  · rw [e]; exact h
  · rw [e]; exact queueAssigned_controlByte _ _ _ _ _ h
  · rw [e]; exact h
  · rw [e]; exact queueAssigned_processType _ _ _ _ _ h

theorem queueAssigned_runEvents (k : Consts) (events : List Event) (s : Ems)
    (h : queueAssigned k s) : queueAssigned k (runEvents k events s) := by
  induction events generalizing s with
  | nil => exact h
  | cons e rest ih =>
    apply ih
    cases e with
    | receive now junk tg len => exact queueAssigned_parse _ _ _ _ _ _ h
    | enqueue now call => exact queueAssigned_runEnqueue _ _ _ _ h

theorem sendTelegram_framed (k : Consts) (s : Ems) (c : TxTelegram) (rest : List TxTelegram)
    (hq : s.txq = c :: rest) (hd : c.dest ≠ k.EMS_ID_NONE)
    (ha : c.action = EMS_TX_TELEGRAM_READ ∨ c.action = EMS_TX_TELEGRAM_WRITE
      ∨ c.action = EMS_TX_TELEGRAM_VALIDATE)
    (hmin : k.EMS_MIN_TELEGRAM_LENGTH = 6) (h5 : 5 ≤ c.length) (hfit : c.length ≤ c.data.length) :
    ∃ bytes, _ems_sendTelegram k s
          = { s with uart := s.uart ++ [UartOut.buffer bytes]
                     sys := { s.sys with emsTxStatus := EMS_TX_STATUS_WAIT } }
      ∧ bytes.length = c.length
      ∧ bytes[0]? = some k.EMS_ID_ME
      ∧ bytes[1]? = some (if c.action = EMS_TX_TELEGRAM_WRITE then c.dest else c.dest ||| 0x80)
      ∧ bytes[2]? = some c.type
      ∧ bytes[3]? = some c.offset
      ∧ (c.length = k.EMS_MIN_TELEGRAM_LENGTH → bytes[4]? = some c.dataValue)
      ∧ bytes[c.length - 1]? = some (_crcCalculator bytes c.length)
      ∧ (_ems_sendTelegram k s).txq = s.txq := by
  have hraw : c.action ≠ EMS_TX_TELEGRAM_RAW := by
    rcases ha with h | h | h <;> rw [h] <;> decide
  obtain ⟨hl4, g0, g1, g2, g3, g4⟩ := header_bytes c.data k.EMS_ID_ME
    (if c.action = EMS_TX_TELEGRAM_WRITE then c.dest else c.dest ||| 0x80) c.type c.offset
    c.dataValue c.length k.EMS_MIN_TELEGRAM_LENGTH (by omega)
  unfold _ems_sendTelegram
  rw [hq]
  simp only
  rw [if_neg hd, if_neg hraw]
  generalize (if c.length = k.EMS_MIN_TELEGRAM_LENGTH then
      setByte (setByte (setByte (setByte (setByte c.data 0 k.EMS_ID_ME) 1
        (if c.action = EMS_TX_TELEGRAM_WRITE then c.dest else c.dest ||| 0x80)) 2 c.type) 3 c.offset)
        4 c.dataValue
    else setByte (setByte (setByte (setByte c.data 0 k.EMS_ID_ME) 1
        (if c.action = EMS_TX_TELEGRAM_WRITE then c.dest else c.dest ||| 0x80)) 2 c.type) 3 c.offset)
    = d4 at hl4 g0 g1 g2 g3 g4 ⊢
  obtain ⟨p1, p2, p3⟩ := stamped_take d4 c.length (by omega) (by omega)
  refine ⟨(setLast d4 c.length (_crcCalculator d4 c.length)).take c.length, ?_, p1,
    ?_, ?_, ?_, ?_, ?_, p2, hq⟩
  · simp only [emsuart_tx_buffer, hq]
  · rw [p3 0 (by omega)]; exact g0
  · rw [p3 1 (by omega)]; exact g1
  · rw [p3 2 (by omega)]; exact g2
  · rw [p3 3 (by omega)]; exact g3
  · intro h
    rw [p3 4 (by omega)]; exact g4 h

theorem getThermostatValues_thermostat (k : Consts) (now : Nat) (s : Ems) :
    (ems_getThermostatValues k now s).thermostat = s.thermostat
      ∨ (ems_getThermostatValues k now s).thermostat = { s.thermostat with hc := 2 } := by
  unfold ems_getThermostatValues
  by_cases h1 : (!ems_getThermostatEnabled k s) = true
  · rw [if_pos h1]; exact Or.inl rfl
  · rw [if_neg h1]
    by_cases h2 : (!s.thermostat.read_supported) = true
    · rw [if_pos h2]; exact Or.inl rfl
    · rw [if_neg h2]
      refine Or.inr ?_
      simp only
      rw [doReadCommand_thermostat]
      split_ifs <;> simp only [doReadCommand_thermostat, sendRawTelegram_thermostat]

theorem getOtherValues_other (k : Consts) (now : Nat) (s : Ems) :
    (ems_getOtherValues k now s).other = s.other := by
  unfold ems_getOtherValues
  split_ifs
  · exact doReadCommand_other ..
  · rfl

theorem find_first {α : Type} (l : List α) (p : α → Bool) (a : α) (h : l.find? p = some a) :
    p a = true ∧ ∃ pre post, l = pre ++ a :: post ∧ ∀ x ∈ pre, p x = false := by
  rw [List.find?_eq_some] at h
  obtain ⟨hp, as, bs, hl, hn⟩ := h
  refine ⟨hp, as, bs, hl, fun x hx => ?_⟩
  have := hn x hx
  simpa using this

/-! # Properties -/

/-! ## C1: checksum round trip -/

/-- C1. For every buffer and every length `n ≥ 1` that fits in it (in particular
`1 ≤ n ≤ 255`), after `_crcCalculator(buf, n)` has been written into `buf[n-1]`,
as `_ems_sendTelegram` does, the last byte of the stamped buffer equals
`_crcCalculator` of the stamped buffer: the frame passes the comparison made by
`_ems_readTelegram`. -/
theorem C1_checksum_round_trip (buf : List Nat) (n : Nat) (h1 : 1 ≤ n) (hn : n ≤ buf.length) :
    (setLast buf n (_crcCalculator buf n)).getD (n - 1) 0
      = _crcCalculator (setLast buf n (_crcCalculator buf n)) n := by
  rw [getD_setLast_self _ _ _ h1 hn]
  exact (crc_congr _ _ _ (fun i hi => getD_setLast_other _ _ _ _ hi)).symm

/-- C1, instance: the read request `0B 88 02 00 20` with one checksum slot. -/
theorem C1_checksum_round_trip_witness :
    1 ≤ 6 ∧ 6 ≤ [0x0B, 0x88, 0x02, 0x00, 0x20, 0x00].length
      ∧ (setLast [0x0B, 0x88, 0x02, 0x00, 0x20, 0x00] 6
            (_crcCalculator [0x0B, 0x88, 0x02, 0x00, 0x20, 0x00] 6)).getD (6 - 1) 0
          = _crcCalculator (setLast [0x0B, 0x88, 0x02, 0x00, 0x20, 0x00] 6
              (_crcCalculator [0x0B, 0x88, 0x02, 0x00, 0x20, 0x00] 6)) 6 :=
  ⟨by decide, by decide,
    C1_checksum_round_trip [0x0B, 0x88, 0x02, 0x00, 0x20, 0x00] 6 (by decide) (by decide)⟩

/-! ## C2: corrupt frames -/

/-- C2 fails as stated: the buffer `00 0B 18 00 05 FF` has length 6 and its
last byte is not its checksum, yet `ems_parseTelegram` leaves the CRC-error
counter at 0, because a buffer whose first byte is 0x00 is discarded before the
checksum is looked at. -/
theorem C2_counterexample :
    5 ≤ 6
      ∧ refFrameZeroCorrupt.getD (6 - 1) 0 ≠ _crcCalculator refFrameZeroCorrupt 6
      ∧ refInit.sys.emxCrcErr = 0
      ∧ (ems_parseTelegram refConsts 1000 refConsts.EMS_TX_TELEGRAM_NEW
          refFrameZeroCorrupt 6 refInit).1.sys.emxCrcErr = 0 := by
  decide

/-- C2, amended. For every buffer of length at least 5 whose first byte is not
0x00 and whose last byte is not the checksum of the preceding bytes,
`ems_parseTelegram` increments the CRC-error counter by one (in the arithmetic
of the counter) and changes nothing else: no decoder runs, the boiler, the
thermostat and the other-device record are as before. -/
theorem C2_corrupt_frame_counted (k : Consts) (now : Nat) (junk : TxTelegram) (tg : List Nat)
    (len : Nat) (s : Ems) (hlen : 5 ≤ len) (h0 : tg.getD 0 0 ≠ 0x00)
    (hcrc : tg.getD (len - 1) 0 ≠ _crcCalculator tg len) :
    (ems_parseTelegram k now junk tg len s).1
        = { s with sys := { s.sys with emxCrcErr := incr k.crcErrBits s.sys.emxCrcErr } }
      ∧ (ems_parseTelegram k now junk tg len s).1.sys.emxCrcErr
          = (s.sys.emxCrcErr + 1) % 2 ^ k.crcErrBits
      ∧ (ems_parseTelegram k now junk tg len s).1.boiler = s.boiler
      ∧ (ems_parseTelegram k now junk tg len s).1.thermostat = s.thermostat
      ∧ (ems_parseTelegram k now junk tg len s).1.other = s.other := by
  have h : (ems_parseTelegram k now junk tg len s).1
      = { s with sys := { s.sys with emxCrcErr := incr k.crcErrBits s.sys.emxCrcErr } } := by
    unfold ems_parseTelegram _ems_readTelegram
    simp only
    rw [if_pos ⟨by omega, h0⟩, if_neg (by omega), if_neg (by omega), if_pos hcrc]
  rw [h]
  exact ⟨rfl, rfl, rfl, rfl, rfl⟩

/-- C2, instance: the corrupt frame `08 0B 18 00 05 FF` received after
`ems_init`. -/
theorem C2_corrupt_frame_counted_witness :
    5 ≤ 6 ∧ refFrameCorrupt.getD 0 0 ≠ 0x00
      ∧ refFrameCorrupt.getD (6 - 1) 0 ≠ _crcCalculator refFrameCorrupt 6
      ∧ (ems_parseTelegram refConsts 1000 refConsts.EMS_TX_TELEGRAM_NEW
            refFrameCorrupt 6 refInit).1.sys.emxCrcErr
          = (refInit.sys.emxCrcErr + 1) % 2 ^ refConsts.crcErrBits :=
  ⟨by decide, by decide, by decide,
    (C2_corrupt_frame_counted refConsts 1000 refConsts.EMS_TX_TELEGRAM_NEW refFrameCorrupt 6
      refInit (by decide) (by decide) (by decide)).2.1⟩

/-! ## C3: the receive buffer is cleared -/

/-- C3. Whatever the content of the buffer, the length and the state, after
`ems_parseTelegram` the first `EMS_MAXBUFFERSIZE` bytes of the caller's buffer
are zero. -/
theorem C3_receive_buffer_cleared (k : Consts) (now : Nat) (junk : TxTelegram) (tg : List Nat)
    (len : Nat) (s : Ems) :
    ((ems_parseTelegram k now junk tg len s).2.take k.EMS_MAXBUFFERSIZE
        = List.replicate k.EMS_MAXBUFFERSIZE 0)
      ∧ k.EMS_MAXBUFFERSIZE ≤ (ems_parseTelegram k now junk tg len s).2.length := by
  simp [ems_parseTelegram, memset0, List.take_append_eq_append_take]

/-! ## C4: single flight -/

/-- C4. In every state whose Tx status is WAIT: (1) no enqueue function calls
the UART or changes the Tx status; (2) a poll-for-us byte is answered by the
bare poll acknowledgement exactly when polling is enabled and by nothing else,
and leaves queue and status as they are; (3) whatever is received, the receive
path sends nothing but bare poll acknowledgements, so no telegram buffer is
transmitted while the status is WAIT; (4) the same holds for a reception that
follows an enqueue call; (5) in any state at all, a reception other than the
poll-for-us byte sends nothing but bare poll acknowledgements, so a telegram
buffer goes out only through the call of `_ems_sendTelegram` in the poll
branch, which by (3) is not taken in WAIT. -/
theorem C4_single_flight (k : Consts) (junk : TxTelegram) (s : Ems)
    (hw : s.sys.emsTxStatus = EMS_TX_STATUS_WAIT) :
    (∀ now c, (runEnqueue k now c s).uart = s.uart
        ∧ (runEnqueue k now c s).sys.emsTxStatus = EMS_TX_STATUS_WAIT)
      ∧ (∀ now tg, tg.getD 0 0 = (k.EMS_ID_ME ||| 0x80) →
          (ems_parseTelegram k now junk tg 1 s).1.uart
              = s.uart ++ (if s.sys.emsPollEnabled then [UartOut.poll] else [])
            ∧ (ems_parseTelegram k now junk tg 1 s).1.txq = s.txq
            ∧ (ems_parseTelegram k now junk tg 1 s).1.sys.emsTxStatus = EMS_TX_STATUS_WAIT)
      ∧ (∀ now tg len, ∃ n,
          (ems_parseTelegram k now junk tg len s).1.uart = s.uart ++ List.replicate n UartOut.poll)
      ∧ (∀ now now1 c tg len, ∃ n,
          (ems_parseTelegram k now1 junk tg len (runEnqueue k now c s)).1.uart
            = s.uart ++ List.replicate n UartOut.poll)
      ∧ (∀ (x : Ems) now tg len, ¬ (len = 1 ∧ tg.getD 0 0 = (k.EMS_ID_ME ||| 0x80)) → ∃ n,
          (ems_parseTelegram k now junk tg len x).1.uart
            = x.uart ++ List.replicate n UartOut.poll) := by
  have key : ∀ (x : Ems), x.sys.emsTxStatus = EMS_TX_STATUS_WAIT → ∀ now tg len, ∃ n,
      (ems_parseTelegram k now junk tg len x).1.uart = x.uart ++ List.replicate n UartOut.poll := by
    intro x hx now tg len
    rcases parse_cases k now junk tg len x with h | h | h | h
    · exact ⟨0, by rw [h]; simp⟩
    · rw [h.2]; exact controlByte_wait_uart k now junk _ x hx
    · exact ⟨0, by rw [h]; simp⟩
    · rw [h]; exact processType_uart k now tg len (noteRx now x)
  refine ⟨fun now c => ⟨(appends_runEnqueue k now c s).uart,
      (appends_runEnqueue k now c s).txStatus.trans hw⟩, ?_, key s hw, ?_, ?_⟩
  · intro now tg htg
    have hne : tg.getD 0 0 ≠ 0x00 := by rw [htg]; exact lor_0x80_ne_zero _
    have hnidle : ¬ ((setTxCapable (notePoll now s)).sys.emsTxStatus = EMS_TX_STATUS_IDLE) := by
      show ¬ (s.sys.emsTxStatus = EMS_TX_STATUS_IDLE)
      rw [hw]; decide
    rw [parse_control k now junk tg s hne, htg]
    unfold controlByte
    simp only
    rw [if_pos trivial, if_neg (fun h => hnidle h.2)]
    by_cases hp : s.sys.emsPollEnabled = true
    · have hp2 : (setTxCapable (notePoll now s)).sys.emsPollEnabled = true := hp
      rw [if_pos hp2, if_pos hp]
      exact ⟨rfl, rfl, hw⟩
    · have hp2 : ¬ (setTxCapable (notePoll now s)).sys.emsPollEnabled = true := hp
      rw [if_neg hp2, if_neg hp]
      exact ⟨by simp [setTxCapable, notePoll], rfl, hw⟩
  · intro now now1 c tg len
    have ha := appends_runEnqueue k now c s
    obtain ⟨n, hn⟩ := key (runEnqueue k now c s) (ha.txStatus.trans hw) now1 tg len
    exact ⟨n, by rw [hn, ha.uart]⟩
  · intro x now tg len hnp
    rcases parse_cases k now junk tg len x with h | h | h | h
    · exact ⟨0, by rw [h]; simp⟩
    · rw [h.2]
      exact controlByte_other_uart k now junk _ x (fun hv => hnp ⟨h.1, hv⟩)
    · exact ⟨0, by rw [h]; simp⟩
    · rw [h]; exact processType_uart k now tg len (noteRx now x)

/-- C4, instance: a read of type 0x18 from 0x08 is in flight after `ems_init`. -/
theorem C4_single_flight_witness :
    (refWait [refRead 0x18 0x08 false]).sys.emsTxStatus = EMS_TX_STATUS_WAIT
      ∧ (∀ now tg len, ∃ n,
          (ems_parseTelegram refConsts now refConsts.EMS_TX_TELEGRAM_NEW tg len
              (refWait [refRead 0x18 0x08 false])).1.uart
            = (refWait [refRead 0x18 0x08 false]).uart ++ List.replicate n UartOut.poll) :=
  ⟨by decide,
    (C4_single_flight refConsts refConsts.EMS_TX_TELEGRAM_NEW (refWait [refRead 0x18 0x08 false])
      (by decide)).2.2.1⟩

/-! ## C5: framing of READ, WRITE and VALIDATE commands -/

/-- C5. For every front command `c` with a destination other than the none id,
action READ, WRITE or VALIDATE and a length of at least 5 that fits the data
array (with the documented minimum telegram length 6), `_ems_sendTelegram`
transmits exactly `c.length` bytes: byte 0 the own address, byte 1 `c.dest` for
a WRITE and `c.dest | 0x80` otherwise, byte 2 `c.type`, byte 3 `c.offset`,
byte 4 `c.dataValue` when `c.length` is the minimum telegram length, the last
byte the checksum of the bytes before it; the Tx status becomes WAIT and
nothing else changes, the queue included.  The condition on the length holds of
every front command the code can have: in every state reached from `ems_init`
with an empty queue by calls of `ems_parseTelegram` and of the enqueue
functions, a queued command that is not RAW has the minimum telegram length or
the length 22. -/
theorem C5_framed_send (k : Consts) (s : Ems) (c : TxTelegram) (rest : List TxTelegram)
    (hq : s.txq = c :: rest) (hd : c.dest ≠ k.EMS_ID_NONE)
    (ha : c.action = EMS_TX_TELEGRAM_READ ∨ c.action = EMS_TX_TELEGRAM_WRITE
      ∨ c.action = EMS_TX_TELEGRAM_VALIDATE)
    (hmin : k.EMS_MIN_TELEGRAM_LENGTH = 6) (h5 : 5 ≤ c.length) (hfit : c.length ≤ c.data.length) :
    (∃ bytes, _ems_sendTelegram k s
            = { s with uart := s.uart ++ [UartOut.buffer bytes]
                       sys := { s.sys with emsTxStatus := EMS_TX_STATUS_WAIT } }
        ∧ bytes.length = c.length
        ∧ bytes[0]? = some k.EMS_ID_ME
        ∧ bytes[1]? = some (if c.action = EMS_TX_TELEGRAM_WRITE then c.dest else c.dest ||| 0x80)
        ∧ bytes[2]? = some c.type
        ∧ bytes[3]? = some c.offset
        ∧ (c.length = k.EMS_MIN_TELEGRAM_LENGTH → bytes[4]? = some c.dataValue)
        ∧ bytes[c.length - 1]? = some (_crcCalculator bytes c.length)
        ∧ (_ems_sendTelegram k s).txq = s.txq)
      ∧ (∀ (events : List Event) (z : Ems) (c1 : TxTelegram) (rest1 : List TxTelegram),
          z.txq = [] → (runEvents k events (ems_init k z)).txq = c1 :: rest1 →
          c1.action ≠ EMS_TX_TELEGRAM_RAW →
          (c1.length = k.EMS_MIN_TELEGRAM_LENGTH ∨ c1.length = 22) ∧ 5 ≤ c1.length) := by
  refine ⟨sendTelegram_framed k s c rest hq hd ha hmin h5 hfit, ?_⟩
  intro events z c1 rest1 hz hq1 hraw
  have h0 : queueAssigned k (ems_init k z) := by
    intro t ht
    have hm : t ∈ z.txq := ht
    rw [hz] at hm
    exact absurd hm (List.not_mem_nil t)
  have h1 := queueAssigned_runEvents k events _ h0 c1 (by rw [hq1]; exact List.mem_cons_self _ _)
  rcases h1 with r | r | r
  · exact absurd r hraw
  · exact ⟨Or.inl r, by omega⟩
  · exact ⟨Or.inr r, by omega⟩

/-- C5, instance: the validated write of 55 to offset 2 of type 0x33 at 0x08. -/
theorem C5_framed_send_witness :
    ({ refInit with txq := [refWrite 0x33 0x08 2 55] } : Ems).txq = [refWrite 0x33 0x08 2 55]
      ∧ (refWrite 0x33 0x08 2 55).dest ≠ refConsts.EMS_ID_NONE
      ∧ (refWrite 0x33 0x08 2 55).action = EMS_TX_TELEGRAM_WRITE
      ∧ refConsts.EMS_MIN_TELEGRAM_LENGTH = 6
      ∧ 5 ≤ (refWrite 0x33 0x08 2 55).length
      ∧ (refWrite 0x33 0x08 2 55).length ≤ (refWrite 0x33 0x08 2 55).data.length
      ∧ (_ems_sendTelegram refConsts { refInit with txq := [refWrite 0x33 0x08 2 55] }).txq
          = ({ refInit with txq := [refWrite 0x33 0x08 2 55] } : Ems).txq :=
  ⟨rfl, by decide, rfl, rfl, by decide, by decide,
    (C5_framed_send refConsts { refInit with txq := [refWrite 0x33 0x08 2 55] }
      (refWrite 0x33 0x08 2 55) [] rfl (by decide) (Or.inr (Or.inl rfl)) rfl (by decide)
      (by decide)).1.choose_spec.2.2.2.2.2.2.2.2⟩

/-! ## C6: RAW commands -/

/-- C6. For every front command `c` of action RAW with a destination other than
the none id (and a length between 1 and the size of the data array, outside of
which the store of the checksum is undefined), `_ems_sendTelegram` transmits
the bytes `0 .. length-2` of `c.data` as they are, byte 0 included, followed by
their checksum, removes `c` from the queue and changes nothing else: the Tx
status is as before. -/
theorem C6_raw_send (k : Consts) (s : Ems) (c : TxTelegram) (rest : List TxTelegram)
    (hq : s.txq = c :: rest) (hd : c.dest ≠ k.EMS_ID_NONE)
    (ha : c.action = EMS_TX_TELEGRAM_RAW) (h1 : 1 ≤ c.length) (hfit : c.length ≤ c.data.length) :
    _ems_sendTelegram k s
        = { s with
            uart := s.uart ++
              [UartOut.buffer (c.data.take (c.length - 1) ++ [_crcCalculator c.data c.length])]
            txq := rest }
      ∧ _crcCalculator c.data c.length
          = _crcCalculator (c.data.take (c.length - 1) ++ [_crcCalculator c.data c.length]) c.length
      ∧ (_ems_sendTelegram k s).sys.emsTxStatus = s.sys.emsTxStatus := by
  have e : _ems_sendTelegram k s
        = { s with
            uart := s.uart ++
              [UartOut.buffer (c.data.take (c.length - 1) ++ [_crcCalculator c.data c.length])]
            txq := rest } := by
    unfold _ems_sendTelegram
    rw [hq]
    simp only
    rw [if_neg hd, if_pos ha]
    simp only [emsuart_tx_buffer, take_setLast c.data c.length _ h1 hfit]
  refine ⟨e, ?_, by rw [e]⟩
  obtain ⟨_, p2, _⟩ := stamped_take c.data c.length h1 hfit
  rw [take_setLast c.data c.length _ h1 hfit] at p2
  have hl : (c.data.take (c.length - 1)).length = c.length - 1 := by
    rw [List.length_take]; omega
  rw [List.getElem?_append_right (by omega), hl] at p2
  simpa using p2

/-- C6, instance: the raw request `0b 90 49 55 20` queued by
`ems_sendRawTelegram`. -/
theorem C6_raw_send_witness :
    (ems_sendRawTelegram refConsts 1000 [0x0b, 0x90, 0x49, 0x55, 0x20] refInit).txq
        = [refRaw]
      ∧ refRaw.dest ≠ refConsts.EMS_ID_NONE
      ∧ refRaw.action = EMS_TX_TELEGRAM_RAW
      ∧ 1 ≤ refRaw.length
      ∧ refRaw.length ≤ refRaw.data.length
      ∧ _ems_sendTelegram refConsts
            (ems_sendRawTelegram refConsts 1000 [0x0b, 0x90, 0x49, 0x55, 0x20] refInit)
          = { ems_sendRawTelegram refConsts 1000 [0x0b, 0x90, 0x49, 0x55, 0x20] refInit with
              uart := (ems_sendRawTelegram refConsts 1000 [0x0b, 0x90, 0x49, 0x55, 0x20] refInit).uart
                ++ [UartOut.buffer (refRaw.data.take (refRaw.length - 1)
                      ++ [_crcCalculator refRaw.data refRaw.length])]
              txq := [] }
      ∧ refRaw.data.take (refRaw.length - 1) ++ [_crcCalculator refRaw.data refRaw.length]
          = [0x0b, 0x90, 0x49, 0x55, 0x20, 0xE3] :=
  ⟨by decide, by decide, by decide, by decide, by decide,
    (C6_raw_send refConsts
      (ems_sendRawTelegram refConsts 1000 [0x0b, 0x90, 0x49, 0x55, 0x20] refInit)
      refRaw [] (by decide) (by decide) (by decide) (by decide) (by decide)).1,
    by decide⟩

/-! ## C7: the poll for us -/

/-- C7 fails as stated: after `ems_init`, with the boiler not yet known,
`ems_setWarmWaterTemp(55)` queues a WRITE whose destination is the none id; the
queue is not empty and the Tx status is IDLE, yet on the poll byte 0x8B nothing
is transmitted: `_ems_sendTelegram` drops a command without destination. -/
theorem C7_counterexample :
    [0x8B].getD 0 0 = (refConsts.EMS_ID_ME ||| 0x80)
      ∧ (ems_setWarmWaterTemp refConsts 900 55 refInit).txq.length = 1
      ∧ (ems_setWarmWaterTemp refConsts 900 55 refInit).sys.emsTxStatus = EMS_TX_STATUS_IDLE
      ∧ (ems_parseTelegram refConsts 1000 refConsts.EMS_TX_TELEGRAM_NEW [0x8B] 1
            (ems_setWarmWaterTemp refConsts 900 55 refInit)).1.uart = []
      ∧ (ems_parseTelegram refConsts 1000 refConsts.EMS_TX_TELEGRAM_NEW [0x8B] 1
            (ems_setWarmWaterTemp refConsts 900 55 refInit)).1.txq = [] := by
  decide

/-- C7, amended. On reception of the single byte `EMS_ID_ME | 0x80`: if the queue
is not empty and the Tx status is IDLE, the receive path hands over to
`_ems_sendTelegram` (after noting the poll interval and that Tx is possible),
which transmits the front command when its destination is not the none id and
drops it otherwise, and no bare poll acknowledgement is emitted; in every other
case the bare poll acknowledgement is emitted exactly when polling is enabled,
nothing else is transmitted, and queue and Tx status stay as they are. -/
theorem C7_poll_for_us (k : Consts) (now : Nat) (junk : TxTelegram) (tg : List Nat) (s : Ems)
    (htg : tg.getD 0 0 = (k.EMS_ID_ME ||| 0x80)) :
    (∀ c rest, s.txq = c :: rest → s.sys.emsTxStatus = EMS_TX_STATUS_IDLE →
        (ems_parseTelegram k now junk tg 1 s).1
            = _ems_sendTelegram k (setTxCapable (notePoll now s))
          ∧ (c.dest ≠ k.EMS_ID_NONE → ∃ bytes,
              (ems_parseTelegram k now junk tg 1 s).1.uart = s.uart ++ [UartOut.buffer bytes])
          ∧ (c.dest = k.EMS_ID_NONE → (ems_parseTelegram k now junk tg 1 s).1.uart = s.uart))
      ∧ (s.txq = [] ∨ s.sys.emsTxStatus ≠ EMS_TX_STATUS_IDLE →
          (ems_parseTelegram k now junk tg 1 s).1.uart
              = s.uart ++ (if s.sys.emsPollEnabled then [UartOut.poll] else [])
            ∧ (ems_parseTelegram k now junk tg 1 s).1.txq = s.txq
            ∧ (ems_parseTelegram k now junk tg 1 s).1.sys.emsTxStatus = s.sys.emsTxStatus) := by
  have hne : tg.getD 0 0 ≠ 0x00 := by rw [htg]; exact lor_0x80_ne_zero _
  rw [parse_control k now junk tg s hne, htg]
  unfold controlByte
  simp only
  rw [if_pos trivial]
  constructor
  · intro c rest hq hidle
    have hcond : ¬ (setTxCapable (notePoll now s)).txq.isEmpty = true
        ∧ (setTxCapable (notePoll now s)).sys.emsTxStatus = EMS_TX_STATUS_IDLE := by
      refine ⟨?_, hidle⟩
      show ¬ s.txq.isEmpty = true
      rw [hq]; simp
    rw [if_pos hcond]
    have hq2 : (setTxCapable (notePoll now s)).txq = c :: rest := hq
    obtain ⟨f1, f2⟩ := sendTelegram_uart_front k (setTxCapable (notePoll now s)) c rest hq2
    exact ⟨rfl, f2, f1⟩
  · intro hno
    have hcond : ¬ (¬ (setTxCapable (notePoll now s)).txq.isEmpty = true
        ∧ (setTxCapable (notePoll now s)).sys.emsTxStatus = EMS_TX_STATUS_IDLE) := by
      rintro ⟨h1, h2⟩
      rcases hno with h | h
      · apply h1
        show s.txq.isEmpty = true
        rw [h]; rfl
      · exact h h2
    rw [if_neg hcond]
    by_cases hp : s.sys.emsPollEnabled = true
    · have hp2 : (setTxCapable (notePoll now s)).sys.emsPollEnabled = true := hp
      rw [if_pos hp2, if_pos hp]
      exact ⟨rfl, rfl, rfl⟩
    · have hp2 : ¬ (setTxCapable (notePoll now s)).sys.emsPollEnabled = true := hp
      rw [if_neg hp2, if_neg hp]
      exact ⟨by simp [setTxCapable, notePoll], rfl, rfl⟩

/-- C7, instance: after `ems_init`, with a read of type 0x18 from 0x08 queued,
the poll byte 0x8B makes the read go out as `0B 88 18 00 20 D4`. -/
theorem C7_poll_for_us_witness :
    [0x8B].getD 0 0 = (refConsts.EMS_ID_ME ||| 0x80)
      ∧ (refRead 0x18 0x08 false).dest ≠ refConsts.EMS_ID_NONE
      ∧ (ems_parseTelegram refConsts 1000 refConsts.EMS_TX_TELEGRAM_NEW [0x8B] 1
            { refInit with txq := [refRead 0x18 0x08 false] }).1
          = _ems_sendTelegram refConsts
              (setTxCapable (notePoll 1000 { refInit with txq := [refRead 0x18 0x08 false] }))
      ∧ (ems_parseTelegram refConsts 1000 refConsts.EMS_TX_TELEGRAM_NEW [0x8B] 1
            { refInit with txq := [refRead 0x18 0x08 false] }).1.uart
          = [UartOut.buffer [0x0B, 0x88, 0x18, 0x00, 0x20, 0xD4]] :=
  ⟨by decide, by decide,
    ((C7_poll_for_us refConsts 1000 refConsts.EMS_TX_TELEGRAM_NEW [0x8B]
      { refInit with txq := [refRead 0x18 0x08 false] } (by decide)).1
        (refRead 0x18 0x08 false) [] rfl rfl).1,
    by decide⟩

/-! ## C8: the SUCCESS byte turns the write into a validate -/

/-- C8. When the Tx status is WAIT, the front command is a WRITE `w` with a
validate type other than the none id and the SUCCESS byte is received (the
SUCCESS code being neither 0x00 nor the poll-for-us byte, and the queue within
its capacity): the sent counter is incremented, one poll acknowledgement is
emitted, the queue keeps its length and the commands behind the front, the Tx
status becomes IDLE, and the front becomes a VALIDATE with the destination,
type, validate type, comparison value, comparison offset and post-read type of
`w`, offset `w.comparisonOffset`, data value 1 and the minimum telegram
length. -/
theorem C8_success_creates_validate (k : Consts) (now : Nat) (junk : TxTelegram) (tg : List Nat)
    (s : Ems) (w : TxTelegram) (rest : List TxTelegram)
    (hs0 : k.EMS_TX_SUCCESS ≠ 0x00) (hsp : k.EMS_TX_SUCCESS ≠ (k.EMS_ID_ME ||| 0x80))
    (hcap : s.txq.length ≤ k.EMS_TX_TELEGRAM_QUEUE_MAX)
    (htg : tg.getD 0 0 = k.EMS_TX_SUCCESS)
    (hw : s.sys.emsTxStatus = EMS_TX_STATUS_WAIT) (hq : s.txq = w :: rest)
    (ha : w.action = EMS_TX_TELEGRAM_WRITE) (hv : w.type_validate ≠ k.EMS_ID_NONE) :
    (ems_parseTelegram k now junk tg 1 s).1.sys.emsTxPkgs
        = (s.sys.emsTxPkgs + 1) % 2 ^ k.txPkgsBits
      ∧ (ems_parseTelegram k now junk tg 1 s).1.uart = s.uart ++ [UartOut.poll]
      ∧ (ems_parseTelegram k now junk tg 1 s).1.txq.length = s.txq.length
      ∧ (ems_parseTelegram k now junk tg 1 s).1.txq.tail = rest
      ∧ (ems_parseTelegram k now junk tg 1 s).1.sys.emsTxStatus = EMS_TX_STATUS_IDLE
      ∧ ∃ v, (ems_parseTelegram k now junk tg 1 s).1.txq = v :: rest
          ∧ v.action = EMS_TX_TELEGRAM_VALIDATE
          ∧ v.dest = w.dest
          ∧ v.type = w.type
          ∧ v.type_validate = w.type_validate
          ∧ v.comparisonValue = w.comparisonValue
          ∧ v.comparisonOffset = w.comparisonOffset
          ∧ v.comparisonPostRead = w.comparisonPostRead
          ∧ v.offset = w.comparisonOffset
          ∧ v.dataValue = 1
          ∧ v.length = k.EMS_MIN_TELEGRAM_LENGTH := by
  have hne : tg.getD 0 0 ≠ 0x00 := by rw [htg]; exact hs0
  have hlt : rest.length < k.EMS_TX_TELEGRAM_QUEUE_MAX := by
    rw [hq] at hcap; simp at hcap; omega
  have hw1 : (notePoll now s).sys.emsTxStatus = EMS_TX_STATUS_WAIT := hw
  rw [parse_control k now junk tg s hne, htg]
  unfold controlByte
  simp only
  rw [if_neg hsp, if_pos hw1, if_pos trivial]
  unfold _createValidate
  have hq1 : (emsaurt_tx_poll
      { notePoll now s with sys := { (notePoll now s).sys with
          emsTxPkgs := incr k.txPkgsBits (notePoll now s).sys.emsTxPkgs } }).txq = w :: rest := hq
  rw [hq1]
  simp only
  have hcond : ¬ (w.action ≠ EMS_TX_TELEGRAM_WRITE ∨ w.type_validate = k.EMS_ID_NONE) := by
    rintro (h | h)
    · exact h ha
    · exact hv h
  rw [if_neg hcond]
  unfold txqUnshift
  rw [if_pos hlt]
  refine ⟨?_, ?_, ?_, ?_, ?_, ?_⟩
  · rfl
  · rfl
  · rw [hq]; rfl
  · rfl
  · rfl
  · exact ⟨_, rfl, rfl, rfl, rfl, rfl, rfl, rfl, rfl, rfl, rfl, rfl⟩

/-- C8, instance: the validated write of 55 to offset 2 of type 0x33 at 0x08 is
in flight and the byte 0x01 arrives. -/
theorem C8_success_creates_validate_witness :
    refConsts.EMS_TX_SUCCESS ≠ 0x00
      ∧ refConsts.EMS_TX_SUCCESS ≠ (refConsts.EMS_ID_ME ||| 0x80)
      ∧ (refWait [refWrite 0x33 0x08 2 55]).txq.length ≤ refConsts.EMS_TX_TELEGRAM_QUEUE_MAX
      ∧ [0x01].getD 0 0 = refConsts.EMS_TX_SUCCESS
      ∧ (refWait [refWrite 0x33 0x08 2 55]).sys.emsTxStatus = EMS_TX_STATUS_WAIT
      ∧ (refWrite 0x33 0x08 2 55).action = EMS_TX_TELEGRAM_WRITE
      ∧ (refWrite 0x33 0x08 2 55).type_validate ≠ refConsts.EMS_ID_NONE
      ∧ (ems_parseTelegram refConsts 1000 refConsts.EMS_TX_TELEGRAM_NEW [0x01] 1
            (refWait [refWrite 0x33 0x08 2 55])).1.sys.emsTxStatus = EMS_TX_STATUS_IDLE :=
  ⟨by decide, by decide, by decide, by decide, by decide, by decide, by decide,
    (C8_success_creates_validate refConsts 1000 refConsts.EMS_TX_TELEGRAM_NEW [0x01]
      (refWait [refWrite 0x33 0x08 2 55]) (refWrite 0x33 0x08 2 55) []
      (by decide) (by decide) (by decide) (by decide) (by decide) rfl (by decide)
      (by decide)).2.2.2.2.1⟩

/-! ## C9: a read is confirmed -/

/-- C9 fails as stated: with a READ of type 0x02 addressed to our own address
0x0B in flight, the CRC-valid frame `0B 0B 02 00 00 E0` is addressed to us, its
source equals the destination of the command and its type equals the type of
the command, yet the command stays in the queue, the received counter stays 0
and the Tx status stays WAIT: `_processType` ignores every frame whose source
is our own address. -/
theorem C9_counterexample :
    refFrameEcho.getD (6 - 1) 0 = _crcCalculator refFrameEcho 6
      ∧ refFrameEcho.getD 1 0 &&& 0x7F = refConsts.EMS_ID_ME
      ∧ refFrameEcho.getD 0 0 &&& 0x7F = (refRead 0x02 0x0B true).dest
      ∧ refFrameEcho.getD 2 0 = (refRead 0x02 0x0B true).type
      ∧ (refWait [refRead 0x02 0x0B true]).sys.emsRxPgks = 0
      ∧ (ems_parseTelegram refConsts 1000 refConsts.EMS_TX_TELEGRAM_NEW refFrameEcho 6
            (refWait [refRead 0x02 0x0B true])).1.txq = [refRead 0x02 0x0B true]
      ∧ (ems_parseTelegram refConsts 1000 refConsts.EMS_TX_TELEGRAM_NEW refFrameEcho 6
            (refWait [refRead 0x02 0x0B true])).1.sys.emsRxPgks = 0
      ∧ (ems_parseTelegram refConsts 1000 refConsts.EMS_TX_TELEGRAM_NEW refFrameEcho 6
            (refWait [refRead 0x02 0x0B true])).1.sys.emsTxStatus = EMS_TX_STATUS_WAIT
      ∧ (ems_parseTelegram refConsts 1000 refConsts.EMS_TX_TELEGRAM_NEW refFrameEcho 6
            (refWait [refRead 0x02 0x0B true])).1.sys.emsRefreshed = false := by
  decide

/-- C9, amended. When a CRC-valid frame (at least the five bytes source,
destination, type, offset, checksum) from another device (the low 7 bits of
byte 0 are not our own address) and addressed to us arrives while the READ `c`
is in flight (Tx status WAIT, `c` at the front, sent to a destination other than
the none id 0x00), and the source of the frame equals `c.dest` and its byte 2
equals `c.type`, then `c` is removed from the queue, which afterwards holds the
commands that were behind `c` followed by whatever the dispatch of the frame
pushed onto them (nothing unless the frame is a Version telegram), the received
counter is incremented, the Tx status is IDLE, the refresh flag is true if
`c.forceRefresh` is set, and one poll acknowledgement is sent. -/
theorem C9_read_confirmed (k : Consts) (now : Nat) (junk : TxTelegram) (tg : List Nat) (len : Nat)
    (s : Ems) (c : TxTelegram) (rest : List TxTelegram)
    (hnone : k.EMS_ID_NONE = 0x00) (hlen : 5 ≤ len)
    (hcrc : tg.getD (len - 1) 0 = _crcCalculator tg len)
    (hsrc : tg.getD 0 0 &&& 0x7F ≠ k.EMS_ID_ME) (hdst : tg.getD 1 0 &&& 0x7F = k.EMS_ID_ME)
    (hw : s.sys.emsTxStatus = EMS_TX_STATUS_WAIT) (hq : s.txq = c :: rest)
    (ha : c.action = EMS_TX_TELEGRAM_READ) (hcd : c.dest ≠ k.EMS_ID_NONE)
    (hm1 : tg.getD 0 0 &&& 0x7F = c.dest) (hm2 : tg.getD 2 0 = c.type) :
    (∃ l, (ems_parseTelegram k now junk tg len s).1.txq
        = pushes k.EMS_TX_TELEGRAM_QUEUE_MAX rest l)
      ∧ (tg.getD 2 0 ≠ k.EMS_TYPE_Version → (ems_parseTelegram k now junk tg len s).1.txq = rest)
      ∧ (ems_parseTelegram k now junk tg len s).1.sys.emsRxPgks
          = (s.sys.emsRxPgks + 1) % 2 ^ k.rxPgksBits
      ∧ (ems_parseTelegram k now junk tg len s).1.sys.emsTxStatus = EMS_TX_STATUS_IDLE
      ∧ (c.forceRefresh = true → (ems_parseTelegram k now junk tg len s).1.sys.emsRefreshed = true)
      ∧ (ems_parseTelegram k now junk tg len s).1.uart = s.uart ++ [UartOut.poll] := by
  have h0 : tg.getD 0 0 ≠ 0x00 := by
    intro hz
    apply hcd
    rw [hnone, ← hm1, hz]
    rfl
  rw [parse_frame k now junk tg len s hlen h0 hcrc,
    processType_inflight k now tg len (noteRx now s) c rest hsrc hdst hw hq]
  have hnv : ¬ c.action = EMS_TX_TELEGRAM_VALIDATE := by rw [ha]; decide
  unfold reconcile
  simp only
  rw [if_pos ha, if_neg hnv]
  unfold readBranch
  simp only
  rw [if_pos ⟨hm1, hm2⟩]
  obtain ⟨s1, hA, hE, hV⟩ := processTelegram_spec k now tg len
    (ems_setEmsRefreshed c.forceRefresh
      { _removeTxQueue (setTxStatus EMS_TX_STATUS_IDLE (noteRx now s)) with
        sys := { (_removeTxQueue (setTxStatus EMS_TX_STATUS_IDLE (noteRx now s))).sys with
          emsRxPgks := incr k.rxPgksBits
            (_removeTxQueue (setTxStatus EMS_TX_STATUS_IDLE (noteRx now s))).sys.emsRxPgks } })
  rw [hE]
  obtain ⟨l, hl⟩ := hA.2.1
  refine ⟨⟨l, ?_⟩, ?_, ?_, rfl, ?_, ?_⟩
  · show s1.txq = _
    rw [hl]
    show pushes _ (s.txq.tail) l = _
    rw [hq]; rfl
  · intro hv
    show s1.txq = _
    rw [(hV hv).1]
    show s.txq.tail = rest
    rw [hq]; rfl
  · show s1.sys.emsRxPgks = _
    rw [hA.rxPgks]
    rfl
  · intro hf
    show s1.sys.emsRefreshed = true
    exact hA.2.2 hf
  · show s1.uart ++ [UartOut.poll] = _
    rw [hA.uart]
    rfl

/-- C9, instance: the Version reply of the boiler 0x08 arrives while the Version
read addressed to it is in flight. -/
theorem C9_read_confirmed_witness :
    refConsts.EMS_ID_NONE = 0x00 ∧ 5 ≤ 8
      ∧ refFrameVersion.getD (8 - 1) 0 = _crcCalculator refFrameVersion 8
      ∧ refFrameVersion.getD 0 0 &&& 0x7F ≠ refConsts.EMS_ID_ME
      ∧ refFrameVersion.getD 1 0 &&& 0x7F = refConsts.EMS_ID_ME
      ∧ (refRead 0x02 0x08 true).dest ≠ refConsts.EMS_ID_NONE
      ∧ refFrameVersion.getD 0 0 &&& 0x7F = (refRead 0x02 0x08 true).dest
      ∧ refFrameVersion.getD 2 0 = (refRead 0x02 0x08 true).type
      ∧ (ems_parseTelegram refConsts 1000 refConsts.EMS_TX_TELEGRAM_NEW refFrameVersion 8
            (refWait [refRead 0x02 0x08 true, refRead 0x18 0x08 false])).1.sys.emsRxPgks
          = ((refWait [refRead 0x02 0x08 true, refRead 0x18 0x08 false]).sys.emsRxPgks + 1)
              % 2 ^ refConsts.rxPgksBits :=
  ⟨by decide, by decide, by decide, by decide, by decide, by decide, by decide, by decide,
    (C9_read_confirmed refConsts 1000 refConsts.EMS_TX_TELEGRAM_NEW refFrameVersion 8
      (refWait [refRead 0x02 0x08 true, refRead 0x18 0x08 false]) (refRead 0x02 0x08 true)
      [refRead 0x18 0x08 false] (by decide) (by decide) (by decide) (by decide) (by decide)
      (by decide) rfl rfl (by decide) (by decide) (by decide)).2.2.1⟩

/-! ## C10: a read is answered by something else -/

/-- C10 fails as stated, in three ways.  (1) With a READ of type 0x18 from 0x08
in flight, the CRC-valid frame `0B 0B 02 00 00 E0`, addressed to us and not
matching the command, leaves the retry counter at 0 and the Tx status at WAIT:
its source is our own address and `_processType` ignores it.  (2) The CRC-valid
buffer `00 0B 18 00 05 3D`, addressed to us and not matching the command, does
the same: `ems_parseTelegram` discards a buffer that starts with 0x00.  (3) With
a Version read addressed to 0x17 in flight, the Version frame of the boiler
0x08 (product id 72, in the sample boiler catalog) does not match; the retry
counter is incremented and then reset to 0 by the reads that the dispatch of
the frame enqueues, so that it is 0 after the call as it was before. -/
theorem C10_counterexample :
    (refFrameEcho.getD (6 - 1) 0 = _crcCalculator refFrameEcho 6
        ∧ refFrameEcho.getD 1 0 &&& 0x7F = refConsts.EMS_ID_ME
        ∧ refFrameEcho.getD 0 0 &&& 0x7F ≠ (refRead 0x18 0x08 false).dest
        ∧ (refWait [refRead 0x18 0x08 false]).sys.txRetryCount = 0
        ∧ (ems_parseTelegram refConsts 1000 refConsts.EMS_TX_TELEGRAM_NEW refFrameEcho 6
              (refWait [refRead 0x18 0x08 false])).1.sys.txRetryCount = 0
        ∧ (ems_parseTelegram refConsts 1000 refConsts.EMS_TX_TELEGRAM_NEW refFrameEcho 6
              (refWait [refRead 0x18 0x08 false])).1.sys.emsTxStatus = EMS_TX_STATUS_WAIT)
      ∧ (refFrameZero.getD (6 - 1) 0 = _crcCalculator refFrameZero 6
        ∧ refFrameZero.getD 1 0 &&& 0x7F = refConsts.EMS_ID_ME
        ∧ refFrameZero.getD 0 0 &&& 0x7F ≠ (refRead 0x18 0x08 false).dest
        ∧ (ems_parseTelegram refConsts 1000 refConsts.EMS_TX_TELEGRAM_NEW refFrameZero 6
              (refWait [refRead 0x18 0x08 false])).1.sys.txRetryCount = 0
        ∧ (ems_parseTelegram refConsts 1000 refConsts.EMS_TX_TELEGRAM_NEW refFrameZero 6
              (refWait [refRead 0x18 0x08 false])).1.sys.emsTxStatus = EMS_TX_STATUS_WAIT)
      ∧ (refFrameVersion.getD (8 - 1) 0 = _crcCalculator refFrameVersion 8
        ∧ refFrameVersion.getD 1 0 &&& 0x7F = refConsts.EMS_ID_ME
        ∧ refFrameVersion.getD 0 0 &&& 0x7F ≠ (refRead 0x02 0x17 false).dest
        ∧ (refWait [refRead 0x02 0x17 false]).sys.txRetryCount = 0
        ∧ (ems_parseTelegram refConsts 1000 refConsts.EMS_TX_TELEGRAM_NEW refFrameVersion 8
              (refWait [refRead 0x02 0x17 false])).1.sys.txRetryCount = 0
        ∧ (ems_parseTelegram refConsts 1000 refConsts.EMS_TX_TELEGRAM_NEW refFrameVersion 8
              (refWait [refRead 0x02 0x17 false])).1.txq.length = 6) := by
  decide

/-- C10, amended. When a CRC-valid frame (at least five bytes) with a non-zero
first byte, sent by another device (the low 7 bits of byte 0 are not our own
address) and addressed to us, arrives while the READ `c` is in flight (Tx
status WAIT, `c` at the front) and its source or its type does
not match `c`: the Tx status is IDLE after the call and the only thing sent is
one bare poll acknowledgement, so `c` is not re-transmitted by this call; the
retry counter is incremented and `c` is removed exactly when the incremented
counter has reached 2, otherwise it stays at the front; the dispatch of the
frame that follows can only push commands behind that, and when the frame is
not a Version telegram it pushes nothing and the retry counter after the call
is the incremented one. -/
theorem C10_read_mismatch (k : Consts) (now : Nat) (junk : TxTelegram) (tg : List Nat) (len : Nat)
    (s : Ems) (c : TxTelegram) (rest : List TxTelegram)
    (hlen : 5 ≤ len) (h0 : tg.getD 0 0 ≠ 0x00)
    (hcrc : tg.getD (len - 1) 0 = _crcCalculator tg len)
    (hsrc : tg.getD 0 0 &&& 0x7F ≠ k.EMS_ID_ME) (hdst : tg.getD 1 0 &&& 0x7F = k.EMS_ID_ME)
    (hw : s.sys.emsTxStatus = EMS_TX_STATUS_WAIT) (hq : s.txq = c :: rest)
    (ha : c.action = EMS_TX_TELEGRAM_READ)
    (hmis : tg.getD 0 0 &&& 0x7F ≠ c.dest ∨ tg.getD 2 0 ≠ c.type) :
    (ems_parseTelegram k now junk tg len s).1.sys.emsTxStatus = EMS_TX_STATUS_IDLE
      ∧ (ems_parseTelegram k now junk tg len s).1.uart = s.uart ++ [UartOut.poll]
      ∧ (2 ≤ (s.sys.txRetryCount + 1) % 2 ^ k.retryBits →
          ∃ l, (ems_parseTelegram k now junk tg len s).1.txq
            = pushes k.EMS_TX_TELEGRAM_QUEUE_MAX rest l)
      ∧ ((s.sys.txRetryCount + 1) % 2 ^ k.retryBits < 2 →
          ∃ l, (ems_parseTelegram k now junk tg len s).1.txq
            = pushes k.EMS_TX_TELEGRAM_QUEUE_MAX (c :: rest) l)
      ∧ (tg.getD 2 0 ≠ k.EMS_TYPE_Version →
          (ems_parseTelegram k now junk tg len s).1.sys.txRetryCount
              = (s.sys.txRetryCount + 1) % 2 ^ k.retryBits
            ∧ (2 ≤ (s.sys.txRetryCount + 1) % 2 ^ k.retryBits →
                (ems_parseTelegram k now junk tg len s).1.txq = rest)
            ∧ ((s.sys.txRetryCount + 1) % 2 ^ k.retryBits < 2 →
                (ems_parseTelegram k now junk tg len s).1.txq = c :: rest)) := by
  rw [parse_frame k now junk tg len s hlen h0 hcrc,
    processType_inflight k now tg len (noteRx now s) c rest hsrc hdst hw hq]
  have hnv : ¬ c.action = EMS_TX_TELEGRAM_VALIDATE := by rw [ha]; decide
  have hnm : ¬ (tg.getD 0 0 &&& 0x7F = c.dest ∧ tg.getD 2 0 = c.type) := by
    rintro ⟨h1, h2⟩
    rcases hmis with h | h
    · exact h h1
    · exact h h2
  unfold reconcile
  simp only
  rw [if_pos ha, if_neg hnv]
  unfold readBranch
  simp only
  rw [if_neg hnm]
  by_cases hr : 2 ≤ (s.sys.txRetryCount + 1) % 2 ^ k.retryBits
  · have hge : ({ setTxStatus EMS_TX_STATUS_IDLE (noteRx now s) with
          sys := { (setTxStatus EMS_TX_STATUS_IDLE (noteRx now s)).sys with
            txRetryCount := incr k.retryBits
              (setTxStatus EMS_TX_STATUS_IDLE (noteRx now s)).sys.txRetryCount } } : Ems).sys.txRetryCount
        ≥ TX_WRITE_TIMEOUT_COUNT := hr
    rw [if_pos hge]
    obtain ⟨s1, hA, hE, hV⟩ := processTelegram_spec k now tg len
      (_removeTxQueue { setTxStatus EMS_TX_STATUS_IDLE (noteRx now s) with
          sys := { (setTxStatus EMS_TX_STATUS_IDLE (noteRx now s)).sys with
            txRetryCount := incr k.retryBits
              (setTxStatus EMS_TX_STATUS_IDLE (noteRx now s)).sys.txRetryCount } })
    rw [hE]
    obtain ⟨l, hl⟩ := hA.2.1
    have hl2 : s1.txq = pushes k.EMS_TX_TELEGRAM_QUEUE_MAX rest l := by
      rw [hl]
      show pushes _ (s.txq.tail) l = _
      rw [hq]; rfl
    refine ⟨rfl, ?_, fun _ => ⟨l, hl2⟩, fun h => absurd hr (by omega), ?_⟩
    · show s1.uart ++ [UartOut.poll] = _
      rw [hA.uart]; rfl
    · intro hv
      refine ⟨?_, fun _ => ?_, fun h => absurd hr (by omega)⟩
      · show s1.sys.txRetryCount = _
        rw [(hV hv).2]; rfl
      · show s1.txq = _
        rw [(hV hv).1]
        show s.txq.tail = rest
        rw [hq]; rfl
  · have hge : ¬ ({ setTxStatus EMS_TX_STATUS_IDLE (noteRx now s) with
          sys := { (setTxStatus EMS_TX_STATUS_IDLE (noteRx now s)).sys with
            txRetryCount := incr k.retryBits
              (setTxStatus EMS_TX_STATUS_IDLE (noteRx now s)).sys.txRetryCount } } : Ems).sys.txRetryCount
        ≥ TX_WRITE_TIMEOUT_COUNT := hr
    rw [if_neg hge]
    obtain ⟨s1, hA, hE, hV⟩ := processTelegram_spec k now tg len
      { setTxStatus EMS_TX_STATUS_IDLE (noteRx now s) with
          sys := { (setTxStatus EMS_TX_STATUS_IDLE (noteRx now s)).sys with
            txRetryCount := incr k.retryBits
              (setTxStatus EMS_TX_STATUS_IDLE (noteRx now s)).sys.txRetryCount } }
    rw [hE]
    obtain ⟨l, hl⟩ := hA.2.1
    have hl2 : s1.txq = pushes k.EMS_TX_TELEGRAM_QUEUE_MAX (c :: rest) l := by
      rw [hl]
      show pushes _ s.txq l = _
      rw [hq]
    refine ⟨rfl, ?_, fun h => absurd h hr, fun _ => ⟨l, hl2⟩, ?_⟩
    · show s1.uart ++ [UartOut.poll] = _
      rw [hA.uart]; rfl
    · intro hv
      refine ⟨?_, fun h => absurd h hr, fun _ => ?_⟩
      · show s1.sys.txRetryCount = _
        rw [(hV hv).2]; rfl
      · show s1.txq = _
        rw [(hV hv).1]
        exact hq

/-- C10, instance: the documented status telegram of the thermostat 0x17 arrives
while a read of type 0x18 from the boiler 0x08 is in flight. -/
theorem C10_read_mismatch_witness :
    5 ≤ 19 ∧ refFrameStatus.getD 0 0 ≠ 0x00
      ∧ refFrameStatus.getD (19 - 1) 0 = _crcCalculator refFrameStatus 19
      ∧ refFrameStatus.getD 0 0 &&& 0x7F ≠ refConsts.EMS_ID_ME
      ∧ refFrameStatus.getD 1 0 &&& 0x7F = refConsts.EMS_ID_ME
      ∧ refFrameStatus.getD 0 0 &&& 0x7F ≠ (refRead 0x18 0x08 false).dest
      ∧ (ems_parseTelegram refConsts 1000 refConsts.EMS_TX_TELEGRAM_NEW refFrameStatus 19
            (refWait [refRead 0x18 0x08 false])).1.uart
          = (refWait [refRead 0x18 0x08 false]).uart ++ [UartOut.poll] :=
  ⟨by decide, by decide, by decide, by decide, by decide, by decide,
    (C10_read_mismatch refConsts 1000 refConsts.EMS_TX_TELEGRAM_NEW refFrameStatus 19
      (refWait [refRead 0x18 0x08 false]) (refRead 0x18 0x08 false) []
      (by decide) (by decide) (by decide) (by decide) (by decide) (by decide) rfl rfl
      (Or.inl (by decide))).2.1⟩

/-! ## C11: the retry bound -/

/-- C11 fails as stated, in three ways.  (1) Two reads are enqueued on the idle
sample state, of type 0x18 and then of type 0x19, both from 0x08.  The first
is sent, gets a reply that does not match (retry counter 1), is sent again and
is confirmed by a matching reply.  The second read is now at the front with the
retry counter still at 1; it is sent, and the first reply that does not match
it removes it.  So it is given up after one mismatching reply, and the queue is
then empty while it held one command before this read was enqueued.  (2) and
(3) With a read in flight and the retry counter at 0, two CRC-valid buffers
addressed to us that do not match the read, with our own address as source or
with 0x00 as first byte, leave the read in the queue. -/
theorem C11_counterexample :
    ((ems_doReadCommand refConsts 1 0x18 0x08 false refInit).txq.length = 1
        ∧ (deliver refConsts refConsts.EMS_TX_TELEGRAM_NEW
              [(2, [0x8B], 1), (3, refFrameStatus, 19), (4, [0x8B], 1), (5, refFrameFast, 6)]
              (ems_doReadCommand refConsts 1 0x19 0x08 false
                (ems_doReadCommand refConsts 1 0x18 0x08 false refInit))).txq
            = [readOf refConsts 1 0x19 0x08 false]
        ∧ (deliver refConsts refConsts.EMS_TX_TELEGRAM_NEW
              [(2, [0x8B], 1), (3, refFrameStatus, 19), (4, [0x8B], 1), (5, refFrameFast, 6),
                (6, [0x8B], 1)]
              (ems_doReadCommand refConsts 1 0x19 0x08 false
                (ems_doReadCommand refConsts 1 0x18 0x08 false refInit))).sys.emsTxStatus
            = EMS_TX_STATUS_WAIT
        ∧ refFrameStatus.getD (19 - 1) 0 = _crcCalculator refFrameStatus 19
        ∧ refFrameStatus.getD 1 0 &&& 0x7F = refConsts.EMS_ID_ME
        ∧ refFrameStatus.getD 0 0 &&& 0x7F ≠ (readOf refConsts 1 0x19 0x08 false).dest
        ∧ (deliver refConsts refConsts.EMS_TX_TELEGRAM_NEW
              [(2, [0x8B], 1), (3, refFrameStatus, 19), (4, [0x8B], 1), (5, refFrameFast, 6),
                (6, [0x8B], 1), (7, refFrameStatus, 19)]
              (ems_doReadCommand refConsts 1 0x19 0x08 false
                (ems_doReadCommand refConsts 1 0x18 0x08 false refInit))).txq = [])
      ∧ (refFrameEcho.getD (6 - 1) 0 = _crcCalculator refFrameEcho 6
        ∧ refFrameEcho.getD 1 0 &&& 0x7F = refConsts.EMS_ID_ME
        ∧ refFrameEcho.getD 0 0 &&& 0x7F ≠ (refRead 0x18 0x08 false).dest
        ∧ (refWait [refRead 0x18 0x08 false]).sys.txRetryCount = 0
        ∧ txView (deliver refConsts refConsts.EMS_TX_TELEGRAM_NEW
              [(2, refFrameEcho, 6), (3, [0x8B], 1), (4, refFrameEcho, 6)]
              (refWait [refRead 0x18 0x08 false]))
            = ([refRead 0x18 0x08 false], EMS_TX_STATUS_WAIT, 0, false))
      ∧ (refFrameZero.getD (6 - 1) 0 = _crcCalculator refFrameZero 6
        ∧ refFrameZero.getD 1 0 &&& 0x7F = refConsts.EMS_ID_ME
        ∧ refFrameZero.getD 0 0 &&& 0x7F ≠ (refRead 0x18 0x08 false).dest
        ∧ txView (deliver refConsts refConsts.EMS_TX_TELEGRAM_NEW
              [(2, refFrameZero, 6), (3, [0x8B], 1), (4, refFrameZero, 6)]
              (refWait [refRead 0x18 0x08 false]))
            = ([refRead 0x18 0x08 false], EMS_TX_STATUS_WAIT, 0, false)) := by
  decide

/-- C11, amended.  Let the READ `c`, for a destination other than the none id,
be at the front of the queue with the Tx status IDLE and the retry counter at 0
(as after `c` was enqueued into an empty queue), and let the events be: a poll
for us, a reply `f1`, a poll for us, a reply `f2`, where both replies are
CRC-valid buffers of at least five bytes with a non-zero first byte, sent by
another device and addressed to us, which do not match `c` (source or type
differs) and are not Version telegrams (so their dispatch enqueues nothing).
Then each poll puts `c` in flight (Tx status WAIT, queue unchanged); after the
first reply `c` is still at the front and the retry counter is 1; after the
second reply `c` is removed: the queue holds exactly the commands that were
behind `c`, one command less than with `c`, and the retry counter is 2.  The
retry counter is assumed wide enough to hold the value 2. -/
theorem C11_retry_bound (k : Consts) (junk : TxTelegram) (n1 n2 n3 n4 : Nat)
    (p1 f1 p2 f2 : List Nat) (len1 len2 : Nat) (s : Ems) (c : TxTelegram)
    (rest : List TxTelegram) (d : Bool)
    (hbits : 2 < 2 ^ k.retryBits)
    (hp1 : p1.getD 0 0 = k.EMS_ID_ME ||| 0x80) (hp2 : p2.getD 0 0 = k.EMS_ID_ME ||| 0x80)
    (hv : txView s = (c :: rest, EMS_TX_STATUS_IDLE, 0, d))
    (ha : c.action = EMS_TX_TELEGRAM_READ) (hd : c.dest ≠ k.EMS_ID_NONE)
    (hr1 : Reply k f1 len1) (hm1 : f1.getD 0 0 &&& 0x7F ≠ c.dest ∨ f1.getD 2 0 ≠ c.type)
    (hv1 : f1.getD 2 0 ≠ k.EMS_TYPE_Version)
    (hr2 : Reply k f2 len2) (hm2 : f2.getD 0 0 &&& 0x7F ≠ c.dest ∨ f2.getD 2 0 ≠ c.type)
    (hv2 : f2.getD 2 0 ≠ k.EMS_TYPE_Version) :
    txView (deliver k junk [(n1, p1, 1)] s) = (c :: rest, EMS_TX_STATUS_WAIT, 0, d)
      ∧ txView (deliver k junk [(n1, p1, 1), (n2, f1, len1)] s)
          = (c :: rest, EMS_TX_STATUS_IDLE, 1, d)
      ∧ txView (deliver k junk [(n1, p1, 1), (n2, f1, len1), (n3, p2, 1)] s)
          = (c :: rest, EMS_TX_STATUS_WAIT, 1, d)
      ∧ txView (deliver k junk [(n1, p1, 1), (n2, f1, len1), (n3, p2, 1), (n4, f2, len2)] s)
          = (rest, EMS_TX_STATUS_IDLE, 2, d)
      ∧ (deliver k junk [(n1, p1, 1), (n2, f1, len1), (n3, p2, 1), (n4, f2, len2)] s).txq.length
            + 1 = s.txq.length := by
  have hnr : c.action ≠ EMS_TX_TELEGRAM_RAW := by rw [ha]; decide
  have hi1 : incr k.retryBits 0 = 1 := by
    unfold incr
    exact Nat.mod_eq_of_lt (by omega)
  have hi2 : incr k.retryBits 1 = 2 := by
    unfold incr
    exact Nat.mod_eq_of_lt hbits
  have e1 := view_poll k n1 junk p1 s c rest 0 d hp1 hv hd hnr
  have e2 := view_read_mismatch k n2 junk f1 len1 _ c rest 0 d hr1 e1 ha hm1 hv1
  rw [hi1, if_neg (by unfold TX_WRITE_TIMEOUT_COUNT; omega)] at e2
  have e3 := view_poll k n3 junk p2 _ c rest 1 d hp2 e2 hd hnr
  have e4 := view_read_mismatch k n4 junk f2 len2 _ c rest 1 d hr2 e3 ha hm2 hv2
  rw [hi2, if_pos (by unfold TX_WRITE_TIMEOUT_COUNT; omega)] at e4
  refine ⟨e1, e2, e3, e4, ?_⟩
  have hq4 := ((txView_iff _ _ _ _ _).mp e4).1
  have hq0 := ((txView_iff _ _ _ _ _).mp hv).1
  show (deliver k junk [(n1, p1, 1), (n2, f1, len1), (n3, p2, 1), (n4, f2, len2)] s).txq.length
      + 1 = s.txq.length
  rw [hq0]
  have hq4b : (deliver k junk [(n1, p1, 1), (n2, f1, len1), (n3, p2, 1), (n4, f2, len2)] s).txq
      = rest := hq4
  rw [hq4b]
  rfl

/-- C11, instance: a read of type 0x18 from 0x08 is enqueued on the idle sample
state, whose queue is empty; the thermostat's status telegram arrives twice. -/
theorem C11_retry_bound_witness :
    2 < 2 ^ refConsts.retryBits
      ∧ txView (ems_doReadCommand refConsts 1 0x18 0x08 false refInit)
          = ([readOf refConsts 1 0x18 0x08 false], EMS_TX_STATUS_IDLE, 0, false)
      ∧ Reply refConsts refFrameStatus 19
      ∧ refFrameStatus.getD 2 0 ≠ refConsts.EMS_TYPE_Version
      ∧ txView (deliver refConsts refConsts.EMS_TX_TELEGRAM_NEW
            [(2, [0x8B], 1), (3, refFrameStatus, 19), (4, [0x8B], 1), (5, refFrameStatus, 19)]
            (ems_doReadCommand refConsts 1 0x18 0x08 false refInit))
          = (refInit.txq, EMS_TX_STATUS_IDLE, 2, false) :=
  ⟨by decide, by decide, by unfold Reply; decide, by decide,
    (C11_retry_bound refConsts refConsts.EMS_TX_TELEGRAM_NEW 2 3 4 5 [0x8B] refFrameStatus [0x8B]
      refFrameStatus 19 19 (ems_doReadCommand refConsts 1 0x18 0x08 false refInit)
      (readOf refConsts 1 0x18 0x08 false) [] false (by decide) (by decide) (by decide)
      (by decide) (by decide) (by decide) (by unfold Reply; decide) (Or.inl (by decide))
      (by decide) (by unfold Reply; decide) (Or.inl (by decide)) (by decide)).2.2.2.1⟩

/-! ## C12: the retry budget of a failed validation -/

/-- C12, the code at the failing input.  On the sample state with the boiler at
0x08 and an empty queue, `ems_setWarmWaterTemp(55)` enqueues a validated write
with the retry counter at 0.  One round is: poll for us (the WRITE is sent),
SUCCESS byte (it becomes a VALIDATE), poll for us (the VALIDATE is sent), and the
reply `08 0B 33 02 36 26`, whose read-back byte 54 differs from 55.  After one
round and after two rounds the command is still in the queue, turned back into
the WRITE, with the retry counter at 1 and at 2; only the third failed reply
removes it, with the retry counter at 3.  A READ that starts with the retry
counter at 0 is removed by its second mismatching reply. -/
theorem C12_validate_retry_budget :
    txView (ems_setWarmWaterTemp refConsts 0 55 refBoiler)
        = ([refWrite 0x33 0x08 2 55], EMS_TX_STATUS_IDLE, 0, false)
      ∧ Reply refConsts refFrameWW54 6
      ∧ refFrameWW54.getD 4 0 ≠ (refWrite 0x33 0x08 2 55).comparisonValue
      ∧ txView (deliver refConsts refConsts.EMS_TX_TELEGRAM_NEW
            [(2, [0x8B], 1), (3, [0x01], 1), (4, [0x8B], 1)]
            (ems_setWarmWaterTemp refConsts 0 55 refBoiler))
          = ([validateOf refConsts refConsts.EMS_TX_TELEGRAM_NEW (refWrite 0x33 0x08 2 55)],
              EMS_TX_STATUS_WAIT, 0, false)
      ∧ txView (deliver refConsts refConsts.EMS_TX_TELEGRAM_NEW
            [(2, [0x8B], 1), (3, [0x01], 1), (4, [0x8B], 1), (5, refFrameWW54, 6)]
            (ems_setWarmWaterTemp refConsts 0 55 refBoiler))
          = ([refWrite 0x33 0x08 2 55], EMS_TX_STATUS_IDLE, 1, false)
      ∧ txView (deliver refConsts refConsts.EMS_TX_TELEGRAM_NEW
            [(2, [0x8B], 1), (3, [0x01], 1), (4, [0x8B], 1), (5, refFrameWW54, 6),
              (6, [0x8B], 1), (7, [0x01], 1), (8, [0x8B], 1), (9, refFrameWW54, 6)]
            (ems_setWarmWaterTemp refConsts 0 55 refBoiler))
          = ([refWrite 0x33 0x08 2 55], EMS_TX_STATUS_IDLE, 2, false)
      ∧ txView (deliver refConsts refConsts.EMS_TX_TELEGRAM_NEW
            [(2, [0x8B], 1), (3, [0x01], 1), (4, [0x8B], 1), (5, refFrameWW54, 6),
              (6, [0x8B], 1), (7, [0x01], 1), (8, [0x8B], 1), (9, refFrameWW54, 6),
              (10, [0x8B], 1), (11, [0x01], 1), (12, [0x8B], 1), (13, refFrameWW54, 6)]
            (ems_setWarmWaterTemp refConsts 0 55 refBoiler))
          = ([], EMS_TX_STATUS_IDLE, 3, false)
      ∧ txView (deliver refConsts refConsts.EMS_TX_TELEGRAM_NEW
            [(2, [0x8B], 1), (3, refFrameStatus, 19)]
            (ems_doReadCommand refConsts 1 0x18 0x08 false refInit))
          = ([readOf refConsts 1 0x18 0x08 false], EMS_TX_STATUS_IDLE, 1, false)
      ∧ txView (deliver refConsts refConsts.EMS_TX_TELEGRAM_NEW
            [(2, [0x8B], 1), (3, refFrameStatus, 19), (4, [0x8B], 1), (5, refFrameStatus, 19)]
            (ems_doReadCommand refConsts 1 0x18 0x08 false refInit))
          = ([], EMS_TX_STATUS_IDLE, 2, false) := by
  exact ⟨by decide, by unfold Reply; decide, by decide, by decide, by decide, by decide,
    by decide, by decide, by decide⟩

/-! ## C13: a validation succeeds -/

/-- C13 fails as stated: with the VALIDATE of a write of 55 in flight, the
CRC-valid buffers `0B 0B 33 02 37 17` (source: our own address) and
`00 0B 33 02 37 A7` (first byte 0x00) are addressed to us and carry the expected
value 55 in byte 4, yet the VALIDATE stays in the queue, the Tx status stays
WAIT and no READ is enqueued: `_processType` ignores a frame whose source is
our own address and `ems_parseTelegram` discards a buffer that starts with
0x00. -/
theorem C13_counterexample :
    (refFrameWW55Echo.getD (6 - 1) 0 = _crcCalculator refFrameWW55Echo 6
        ∧ refFrameWW55Echo.getD 1 0 &&& 0x7F = refConsts.EMS_ID_ME
        ∧ refFrameWW55Echo.getD 4 0
            = (validateOf refConsts refConsts.EMS_TX_TELEGRAM_NEW
                (refWrite 0x33 0x08 2 55)).comparisonValue
        ∧ txView (ems_parseTelegram refConsts 1000 refConsts.EMS_TX_TELEGRAM_NEW refFrameWW55Echo 6
              (refWait [validateOf refConsts refConsts.EMS_TX_TELEGRAM_NEW
                (refWrite 0x33 0x08 2 55)])).1
            = ([validateOf refConsts refConsts.EMS_TX_TELEGRAM_NEW (refWrite 0x33 0x08 2 55)],
                EMS_TX_STATUS_WAIT, 0, false))
      ∧ (refFrameWW55Zero.getD (6 - 1) 0 = _crcCalculator refFrameWW55Zero 6
        ∧ refFrameWW55Zero.getD 1 0 &&& 0x7F = refConsts.EMS_ID_ME
        ∧ refFrameWW55Zero.getD 4 0
            = (validateOf refConsts refConsts.EMS_TX_TELEGRAM_NEW
                (refWrite 0x33 0x08 2 55)).comparisonValue
        ∧ txView (ems_parseTelegram refConsts 1000 refConsts.EMS_TX_TELEGRAM_NEW refFrameWW55Zero 6
              (refWait [validateOf refConsts refConsts.EMS_TX_TELEGRAM_NEW
                (refWrite 0x33 0x08 2 55)])).1
            = ([validateOf refConsts refConsts.EMS_TX_TELEGRAM_NEW (refWrite 0x33 0x08 2 55)],
                EMS_TX_STATUS_WAIT, 0, false)) := by
  decide

/-- C13, amended.  When a reply (a CRC-valid buffer of at least five bytes with
a non-zero first byte, sent by another device and addressed to us) arrives
while the VALIDATE `v` is in flight (Tx status WAIT, `v` at the front of a queue
that holds no more than its capacity) and byte 4 of the reply equals
`v.comparisonValue`, then the Tx status is IDLE after the call and `v` is
removed.  If Tx is not disabled and neither the post-read type nor the
destination of `v` is the none id, the queue after the call is the commands
that were behind `v` followed by exactly one new command, the READ built by
`ems_doReadCommand`, with type `v.comparisonPostRead`, destination `v.dest`,
offset 0 and forceRefresh set; otherwise the queue after the call is the
commands that were behind `v`. -/
theorem C13_validate_success (k : Consts) (now : Nat) (junk : TxTelegram) (tg : List Nat)
    (len : Nat) (s : Ems) (v : TxTelegram) (rest : List TxTelegram)
    (hr : Reply k tg len) (hcap : s.txq.length ≤ k.EMS_TX_TELEGRAM_QUEUE_MAX)
    (hw : s.sys.emsTxStatus = EMS_TX_STATUS_WAIT) (hq : s.txq = v :: rest)
    (ha : v.action = EMS_TX_TELEGRAM_VALIDATE) (hm : tg.getD 4 0 = v.comparisonValue) :
    (ems_parseTelegram k now junk tg len s).1.sys.emsTxStatus = EMS_TX_STATUS_IDLE
      ∧ ((s.sys.emsTxDisabled = false ∧ v.comparisonPostRead ≠ k.EMS_ID_NONE
            ∧ v.dest ≠ k.EMS_ID_NONE) →
          (ems_parseTelegram k now junk tg len s).1.txq
              = rest ++ [readOf k now v.comparisonPostRead v.dest true]
            ∧ (readOf k now v.comparisonPostRead v.dest true).action = EMS_TX_TELEGRAM_READ
            ∧ (readOf k now v.comparisonPostRead v.dest true).type = v.comparisonPostRead
            ∧ (readOf k now v.comparisonPostRead v.dest true).dest = v.dest
            ∧ (readOf k now v.comparisonPostRead v.dest true).offset = 0
            ∧ (readOf k now v.comparisonPostRead v.dest true).forceRefresh = true)
      ∧ (¬ (s.sys.emsTxDisabled = false ∧ v.comparisonPostRead ≠ k.EMS_ID_NONE
            ∧ v.dest ≠ k.EMS_ID_NONE) →
          (ems_parseTelegram k now junk tg len s).1.txq = rest) := by
  rw [parse_validate_ok k now junk tg len s v rest hr hw hq ha hm.symm]
  have hroom : rest.length < k.EMS_TX_TELEGRAM_QUEUE_MAX := by
    rw [hq] at hcap
    simp only [List.length_cons] at hcap
    omega
  have hq1 : (_removeTxQueue (setTxStatus EMS_TX_STATUS_IDLE (noteRx now s))).txq = rest := by
    show s.txq.tail = rest
    rw [hq]; rfl
  by_cases hc : s.sys.emsTxDisabled = false ∧ v.comparisonPostRead ≠ k.EMS_ID_NONE
      ∧ v.dest ≠ k.EMS_ID_NONE
  · have hview := doReadCommand_view k now v.comparisonPostRead v.dest true
      (_removeTxQueue (setTxStatus EMS_TX_STATUS_IDLE (noteRx now s))) hc.2.1 hc.2.2 hc.1
    obtain ⟨e1, e2, _, _⟩ := (txView_iff _ _ _ _ _).mp hview
    refine ⟨e2, fun _ => ⟨?_, rfl, rfl, rfl, rfl, rfl⟩, fun h => absurd hc h⟩
    show (ems_doReadCommand k now v.comparisonPostRead v.dest true
      (_removeTxQueue (setTxStatus EMS_TX_STATUS_IDLE (noteRx now s)))).txq = _
    rw [e1, hq1, txqPush_room _ _ _ hroom]
  · have hskip : ems_doReadCommand k now v.comparisonPostRead v.dest true
        (_removeTxQueue (setTxStatus EMS_TX_STATUS_IDLE (noteRx now s)))
        = _removeTxQueue (setTxStatus EMS_TX_STATUS_IDLE (noteRx now s)) := by
      apply doReadCommand_skip
      by_cases h1 : v.comparisonPostRead = k.EMS_ID_NONE
      · exact Or.inl h1
      · by_cases h2 : v.dest = k.EMS_ID_NONE
        · exact Or.inr (Or.inl h2)
        · refine Or.inr (Or.inr ?_)
          show s.sys.emsTxDisabled = true
          cases hdis : s.sys.emsTxDisabled
          · exact absurd ⟨hdis, h1, h2⟩ hc
          · rfl
    rw [hskip]
    exact ⟨rfl, fun h => absurd h hc, fun _ => hq1⟩

/-- C13, instance: the read-back byte 55 arrives while the VALIDATE of a write
of 55 at offset 2 of type 0x33 to the boiler 0x08 is in flight. -/
theorem C13_validate_success_witness :
    Reply refConsts refFrameWW55 6
      ∧ refFrameWW55.getD 4 0
          = (validateOf refConsts refConsts.EMS_TX_TELEGRAM_NEW
              (refWrite 0x33 0x08 2 55)).comparisonValue
      ∧ (ems_parseTelegram refConsts 1000 refConsts.EMS_TX_TELEGRAM_NEW refFrameWW55 6
            (refWait [validateOf refConsts refConsts.EMS_TX_TELEGRAM_NEW
              (refWrite 0x33 0x08 2 55)])).1.txq
          = [readOf refConsts 1000 0x33 0x08 true] :=
  ⟨by unfold Reply; decide, by decide,
    ((C13_validate_success refConsts 1000 refConsts.EMS_TX_TELEGRAM_NEW refFrameWW55 6
      (refWait [validateOf refConsts refConsts.EMS_TX_TELEGRAM_NEW (refWrite 0x33 0x08 2 55)])
      (validateOf refConsts refConsts.EMS_TX_TELEGRAM_NEW (refWrite 0x33 0x08 2 55)) []
      (by unfold Reply; decide) (by decide) (by decide) rfl (by decide) (by decide)).2.1
      (by decide)).1⟩

/-! ## C14: the write/validate round trip -/

/-- C14, the code at the failing input.  On the sample state with the boiler at
0x08, `ems_setWarmTapWaterActivated(false)` enqueues a WRITE of type 0x1D with a
validate type, length 22 and a pre-populated data block; on the poll for us its
22 bytes are transmitted.  After the SUCCESS byte, the next poll for us and the
reply `08 0B 1D 00 00 AC`, whose byte 4 is not the expected 1, the command put
back at the front is a WRITE to the same destination, of the same type and
offset, but with length 6 instead of 22 and data value 1 instead of 0, and on
the next poll for us six bytes `0B 08 1D 00 01 85` are transmitted instead of
the original 22. -/
theorem C14_round_trip_tapwater :
    (ems_setWarmTapWaterActivated refConsts 0 false refBoiler).txq.map (fun t => t.action)
        = [EMS_TX_TELEGRAM_WRITE]
      ∧ (ems_setWarmTapWaterActivated refConsts 0 false refBoiler).txq.map
          (fun t => [t.type_validate, t.dest, t.type, t.offset, t.dataValue, t.length])
        = [[0x1D, 0x08, 0x1D, 0, 0, 22]]
      ∧ (deliver refConsts refConsts.EMS_TX_TELEGRAM_NEW [(2, [0x8B], 1)]
          (ems_setWarmTapWaterActivated refConsts 0 false refBoiler)).uart
        = [UartOut.buffer [0x0B, 0x08, 0x1D, 0x00, 0x5A, 0x00, 0x00, 0x64, 0xFF, 0, 0, 0, 0, 0, 0, 0,
            0, 0, 0, 0, 0, 0xC2]]
      ∧ Reply refConsts refFrameTest0 6
      ∧ (deliver refConsts refConsts.EMS_TX_TELEGRAM_NEW
            [(2, [0x8B], 1), (3, [0x01], 1), (4, [0x8B], 1), (5, refFrameTest0, 6)]
            (ems_setWarmTapWaterActivated refConsts 0 false refBoiler)).txq.map (fun t => t.action)
        = [EMS_TX_TELEGRAM_WRITE]
      ∧ (deliver refConsts refConsts.EMS_TX_TELEGRAM_NEW
            [(2, [0x8B], 1), (3, [0x01], 1), (4, [0x8B], 1), (5, refFrameTest0, 6)]
            (ems_setWarmTapWaterActivated refConsts 0 false refBoiler)).txq.map
          (fun t => [t.type_validate, t.dest, t.type, t.offset, t.dataValue, t.length])
        = [[0x1D, 0x08, 0x1D, 0, 1, 6]]
      ∧ (deliver refConsts refConsts.EMS_TX_TELEGRAM_NEW
            [(2, [0x8B], 1), (3, [0x01], 1), (4, [0x8B], 1), (5, refFrameTest0, 6), (6, [0x8B], 1)]
            (ems_setWarmTapWaterActivated refConsts 0 false refBoiler)).uart.getLast?
        = some (UartOut.buffer [0x0B, 0x08, 0x1D, 0x00, 0x01, 0x85]) := by
  exact ⟨by decide, by decide, by decide, by unfold Reply; decide, by decide, by decide,
    by decide⟩

/-! ## C15: a reply arrives while a WRITE is in flight -/

/-- C15 fails as stated: with the write of 55 at offset 2 of type 0x33 to 0x08
in flight, the reply `08 0B 33 02 37 27` leaves the WRITE at the front of the
queue (the Tx status becomes IDLE), and on the next poll for us the WRITE is
transmitted again: `0B 08 33 02 37 0F`. -/
theorem C15_counterexample :
    Reply refConsts refFrameWW55 6
      ∧ (refWrite 0x33 0x08 2 55).action = EMS_TX_TELEGRAM_WRITE
      ∧ txView (deliver refConsts refConsts.EMS_TX_TELEGRAM_NEW [(2, refFrameWW55, 6)]
            (refWait [refWrite 0x33 0x08 2 55]))
          = ([refWrite 0x33 0x08 2 55], EMS_TX_STATUS_IDLE, 0, false)
      ∧ (deliver refConsts refConsts.EMS_TX_TELEGRAM_NEW [(2, refFrameWW55, 6), (3, [0x8B], 1)]
            (refWait [refWrite 0x33 0x08 2 55])).uart
          = [UartOut.poll, UartOut.buffer [0x0B, 0x08, 0x33, 0x02, 55, 0x0F]] := by
  exact ⟨by unfold Reply; decide, by decide, by decide, by decide⟩

/-- C15, amended.  When a reply (a CRC-valid buffer of at least five bytes with
a non-zero first byte, sent by another device and addressed to us) arrives
while the WRITE `c` is in flight (Tx status WAIT, `c` at the front), the call
only releases the Tx lock and acknowledges: the state after it is the state
before it with the reception noted, the Tx status IDLE and one poll
acknowledgement sent, so the queue still starts with `c`, the retry counter is
unchanged and no decoder has run.  On the next poll for us, if the destination
of `c` is not the none id, `c` is transmitted again: one buffer goes out, the
Tx status is WAIT and `c` is still at the front. -/
theorem C15_write_in_flight (k : Consts) (now now2 : Nat) (junk : TxTelegram) (tg : List Nat)
    (len : Nat) (p : List Nat) (s : Ems) (c : TxTelegram) (rest : List TxTelegram)
    (hr : Reply k tg len) (hw : s.sys.emsTxStatus = EMS_TX_STATUS_WAIT) (hq : s.txq = c :: rest)
    (ha : c.action = EMS_TX_TELEGRAM_WRITE) (hp : p.getD 0 0 = k.EMS_ID_ME ||| 0x80)
    (hd : c.dest ≠ k.EMS_ID_NONE) :
    (ems_parseTelegram k now junk tg len s).1
        = emsaurt_tx_poll (setTxStatus EMS_TX_STATUS_IDLE (noteRx now s))
      ∧ (ems_parseTelegram k now junk tg len s).1.txq = c :: rest
      ∧ (ems_parseTelegram k now junk tg len s).1.sys.emsTxStatus = EMS_TX_STATUS_IDLE
      ∧ (ems_parseTelegram k now junk tg len s).1.sys.txRetryCount = s.sys.txRetryCount
      ∧ (ems_parseTelegram k now junk tg len s).1.uart = s.uart ++ [UartOut.poll]
      ∧ (deliver k junk [(now, tg, len), (now2, p, 1)] s).txq = c :: rest
      ∧ (deliver k junk [(now, tg, len), (now2, p, 1)] s).sys.emsTxStatus = EMS_TX_STATUS_WAIT
      ∧ ∃ bytes, (deliver k junk [(now, tg, len), (now2, p, 1)] s).uart
          = s.uart ++ [UartOut.poll, UartOut.buffer bytes] := by
  have hv : txView s = (c :: rest, EMS_TX_STATUS_WAIT, s.sys.txRetryCount, s.sys.emsTxDisabled) := by
    rw [txView_iff]
    exact ⟨hq, hw, rfl, rfl⟩
  obtain ⟨e1, e2⟩ := view_write k now junk tg len s c rest _ _ hr hv ha
  obtain ⟨q1, st1, r1, _⟩ := (txView_iff _ _ _ _ _).mp e2
  have hnr : c.action ≠ EMS_TX_TELEGRAM_RAW := by rw [ha]; decide
  have e3 := view_poll k now2 junk p _ c rest _ _ hp e2 hd hnr
  obtain ⟨q3, st3, _, _⟩ := (txView_iff _ _ _ _ _).mp e3
  refine ⟨e1, q1, st1, r1, ?_, q3, st3, ?_⟩
  · rw [e1]; rfl
  · show ∃ bytes, (ems_parseTelegram k now2 junk p 1 (ems_parseTelegram k now junk tg len s).1).1.uart
        = s.uart ++ [UartOut.poll, UartOut.buffer bytes]
    rw [parse_poll_send k now2 junk p _ c rest hp st1 q1]
    obtain ⟨bytes, hb⟩ := (sendTelegram_uart_front k
      (setTxCapable (notePoll now2 (ems_parseTelegram k now junk tg len s).1)) c rest q1).2 hd
    refine ⟨bytes, ?_⟩
    rw [hb]
    show (ems_parseTelegram k now junk tg len s).1.uart ++ [UartOut.buffer bytes] = _
    rw [e1]
    show (s.uart ++ [UartOut.poll]) ++ [UartOut.buffer bytes] = _
    simp

/-- C15, instance: the reply `08 0B 33 02 37 27` arrives while the write of 55
to the boiler 0x08 is in flight. -/
theorem C15_write_in_flight_witness :
    Reply refConsts refFrameWW55 6
      ∧ (refWrite 0x33 0x08 2 55).action = EMS_TX_TELEGRAM_WRITE
      ∧ (refWrite 0x33 0x08 2 55).dest ≠ refConsts.EMS_ID_NONE
      ∧ (deliver refConsts refConsts.EMS_TX_TELEGRAM_NEW [(2, refFrameWW55, 6), (3, [0x8B], 1)]
            (refWait [refWrite 0x33 0x08 2 55])).txq = [refWrite 0x33 0x08 2 55] :=
  ⟨by unfold Reply; decide, by decide, by decide,
    (C15_write_in_flight refConsts 2 3 refConsts.EMS_TX_TELEGRAM_NEW refFrameWW55 6 [0x8B]
      (refWait [refWrite 0x33 0x08 2 55]) (refWrite 0x33 0x08 2 55) []
      (by unfold Reply; decide) (by decide) rfl (by decide) (by decide) (by decide)).2.2.2.2.2.1⟩

/-! ## C16: a frame for somebody else arrives while a command is in flight -/

/-- C16 fails as stated, in two ways.  (1) With a read in flight after one
failed attempt (retry counter 1), the Version telegram `08 00 02 00 48 01 02 2B`
of the boiler 0x08 (product id 72, in the sample boiler catalog), sent to
destination 0x00, removes the read, and its dispatch makes the boiler known and
enqueues the five reads of its values, which reset the retry counter: it is 0
after the call.  (2) The CRC-valid buffer `00 08 18 00 05 25`, whose source and
destination are not our own address, leaves the read at the front and the Tx
status at WAIT: `ems_parseTelegram` discards a buffer that starts with 0x00. -/
theorem C16_counterexample :
    (refFrameVersionAll.getD (8 - 1) 0 = _crcCalculator refFrameVersionAll 8
        ∧ refFrameVersionAll.getD 0 0 &&& 0x7F ≠ refConsts.EMS_ID_ME
        ∧ refFrameVersionAll.getD 1 0 &&& 0x7F ≠ refConsts.EMS_ID_ME
        ∧ txView (refWaitRetry [refRead 0x18 0x08 false])
            = ([refRead 0x18 0x08 false], EMS_TX_STATUS_WAIT, 1, false)
        ∧ (ems_parseTelegram refConsts 1000 refConsts.EMS_TX_TELEGRAM_NEW refFrameVersionAll 8
              (refWaitRetry [refRead 0x18 0x08 false])).1.sys.txRetryCount = 0
        ∧ (ems_parseTelegram refConsts 1000 refConsts.EMS_TX_TELEGRAM_NEW refFrameVersionAll 8
              (refWaitRetry [refRead 0x18 0x08 false])).1.txq.length = 5)
      ∧ (refFrameZeroOther.getD (6 - 1) 0 = _crcCalculator refFrameZeroOther 6
        ∧ refFrameZeroOther.getD 0 0 &&& 0x7F ≠ refConsts.EMS_ID_ME
        ∧ refFrameZeroOther.getD 1 0 &&& 0x7F ≠ refConsts.EMS_ID_ME
        ∧ txView (ems_parseTelegram refConsts 1000 refConsts.EMS_TX_TELEGRAM_NEW refFrameZeroOther 6
              (refWait [refRead 0x18 0x08 false])).1
            = ([refRead 0x18 0x08 false], EMS_TX_STATUS_WAIT, 0, false)) := by
  exact ⟨⟨by decide, by decide, by decide, by decide, by decide, by decide⟩,
    ⟨by decide, by decide, by decide, by decide⟩⟩

/-- C16, amended.  When a CRC-valid buffer of at least five bytes with a
non-zero first byte, sent by another device (the low 7 bits of byte 0 are not
our own address), arrives while the Tx status is WAIT with the command `c` at
the front of the queue, and the low 7 bits of its destination byte are not our
own address, then `c` is removed and the frame is dispatched through the type
registry on the state so obtained (the call returns what
`_ems_processTelegram` returns there); the Tx status is IDLE after the call, the
received counter is unchanged, and the queue is the commands that were behind
`c`, in their order, followed by whatever the dispatch enqueued.  If the frame
is not a Version telegram, the dispatch enqueues nothing and the retry counter
is unchanged. -/
theorem C16_frame_for_others (k : Consts) (now : Nat) (junk : TxTelegram) (tg : List Nat)
    (len : Nat) (s : Ems) (c : TxTelegram) (rest : List TxTelegram)
    (hlen : 5 ≤ len) (h0 : tg.getD 0 0 ≠ 0x00)
    (hcrc : tg.getD (len - 1) 0 = _crcCalculator tg len)
    (hsrc : tg.getD 0 0 &&& 0x7F ≠ k.EMS_ID_ME) (hdst : tg.getD 1 0 &&& 0x7F ≠ k.EMS_ID_ME)
    (hw : s.sys.emsTxStatus = EMS_TX_STATUS_WAIT) (hq : s.txq = c :: rest) :
    (ems_parseTelegram k now junk tg len s).1
        = _ems_processTelegram k now tg len
            (_removeTxQueue (setTxStatus EMS_TX_STATUS_IDLE (noteRx now s)))
      ∧ (_removeTxQueue (setTxStatus EMS_TX_STATUS_IDLE (noteRx now s))).txq = rest
      ∧ (ems_parseTelegram k now junk tg len s).1.sys.emsTxStatus = EMS_TX_STATUS_IDLE
      ∧ (ems_parseTelegram k now junk tg len s).1.sys.emsRxPgks = s.sys.emsRxPgks
      ∧ (∃ l, (ems_parseTelegram k now junk tg len s).1.txq
          = pushes k.EMS_TX_TELEGRAM_QUEUE_MAX rest l)
      ∧ (tg.getD 2 0 ≠ k.EMS_TYPE_Version →
          (ems_parseTelegram k now junk tg len s).1.txq = rest
            ∧ (ems_parseTelegram k now junk tg len s).1.sys.txRetryCount = s.sys.txRetryCount) := by
  have hq1 : (_removeTxQueue (setTxStatus EMS_TX_STATUS_IDLE (noteRx now s))).txq = rest := by
    show s.txq.tail = rest
    rw [hq]; rfl
  have hE : (ems_parseTelegram k now junk tg len s).1
      = _ems_processTelegram k now tg len
          (_removeTxQueue (setTxStatus EMS_TX_STATUS_IDLE (noteRx now s))) := by
    rw [parse_frame k now junk tg len s hlen h0 hcrc]
    unfold _processType
    simp only
    have hni : ¬ (noteRx now s).sys.emsTxStatus = EMS_TX_STATUS_IDLE := by
      show ¬ s.sys.emsTxStatus = EMS_TX_STATUS_IDLE
      rw [hw]; decide
    rw [if_neg hsrc, if_neg hni, if_pos hdst]
  refine ⟨hE, hq1, ?_⟩
  rw [hE]
  obtain ⟨s1, hA, hP, hV⟩ := processTelegram_spec k now tg len
    (_removeTxQueue (setTxStatus EMS_TX_STATUS_IDLE (noteRx now s)))
  rw [hP]
  obtain ⟨l, hl⟩ := hA.2.1
  refine ⟨rfl, ?_, ⟨l, ?_⟩, fun hv => ⟨?_, ?_⟩⟩
  · show s1.sys.emsRxPgks = _
    rw [hA.rxPgks]; rfl
  · show s1.txq = _
    rw [hl, hq1]
  · show s1.txq = _
    rw [(hV hv).1, hq1]
  · show s1.sys.txRetryCount = _
    rw [(hV hv).2]; rfl

/-- C16, instance: a telegram of type 0x18 that the boiler 0x08 sends to
everyone arrives while a read from the thermostat 0x17 is in flight. -/
theorem C16_frame_for_others_witness :
    5 ≤ 6 ∧ refFrameFastAll.getD 0 0 ≠ 0x00
      ∧ refFrameFastAll.getD (6 - 1) 0 = _crcCalculator refFrameFastAll 6
      ∧ refFrameFastAll.getD 0 0 &&& 0x7F ≠ refConsts.EMS_ID_ME
      ∧ refFrameFastAll.getD 1 0 &&& 0x7F ≠ refConsts.EMS_ID_ME
      ∧ refFrameFastAll.getD 2 0 ≠ refConsts.EMS_TYPE_Version
      ∧ (ems_parseTelegram refConsts 1000 refConsts.EMS_TX_TELEGRAM_NEW refFrameFastAll 6
            (refWaitRetry [refRead 0x91 0x17 false, refRead 0x18 0x08 false])).1.txq
          = [refRead 0x18 0x08 false]
      ∧ (ems_parseTelegram refConsts 1000 refConsts.EMS_TX_TELEGRAM_NEW refFrameFastAll 6
            (refWaitRetry [refRead 0x91 0x17 false, refRead 0x18 0x08 false])).1.sys.txRetryCount
          = (refWaitRetry [refRead 0x91 0x17 false, refRead 0x18 0x08 false]).sys.txRetryCount :=
  ⟨by decide, by decide, by decide, by decide, by decide, by decide,
    (C16_frame_for_others refConsts 1000 refConsts.EMS_TX_TELEGRAM_NEW refFrameFastAll 6
      (refWaitRetry [refRead 0x91 0x17 false, refRead 0x18 0x08 false]) (refRead 0x91 0x17 false)
      [refRead 0x18 0x08 false] (by decide) (by decide) (by decide) (by decide) (by decide)
      (by decide) rfl).2.2.2.2.2 (by decide)⟩

/-! ## C17: the write confirmation flow -/

/-- C17 fails as stated, in two ways.  (1) On the sample state with the boiler
at 0x08, `ems_setWarmWaterTemp(55)` enqueues a validated write with data value
55; after the poll for us, the SUCCESS byte, the poll for us and the CRC-valid
buffer `0B 0B 33 02 37 17`, addressed to us with the payload byte 55, the
VALIDATE is still in the queue, the Tx status is WAIT and no READ is enqueued:
the source of the buffer is our own address.  (2)
`ems_setWarmTapWaterActivated(false)` enqueues a validated write whose data
value is 0 and whose comparison value is 1; after the same events with the
reply `08 0B 1D 00 00 AC`, whose payload byte 0 equals the data value, the
validation has failed: the queue holds the write put back for a retry and no
READ. -/
theorem C17_counterexample :
    ((ems_setWarmWaterTemp refConsts 0 55 refBoiler).txq = [refWrite 0x33 0x08 2 55]
        ∧ refFrameWW55Echo.getD (6 - 1) 0 = _crcCalculator refFrameWW55Echo 6
        ∧ refFrameWW55Echo.getD 1 0 &&& 0x7F = refConsts.EMS_ID_ME
        ∧ refFrameWW55Echo.getD 4 0 = (refWrite 0x33 0x08 2 55).dataValue
        ∧ txView (deliver refConsts refConsts.EMS_TX_TELEGRAM_NEW
              [(2, [0x8B], 1), (3, [0x01], 1), (4, [0x8B], 1), (5, refFrameWW55Echo, 6)]
              (ems_setWarmWaterTemp refConsts 0 55 refBoiler))
            = ([validateOf refConsts refConsts.EMS_TX_TELEGRAM_NEW (refWrite 0x33 0x08 2 55)],
                EMS_TX_STATUS_WAIT, 0, false))
      ∧ ((ems_setWarmTapWaterActivated refConsts 0 false refBoiler).txq.map
            (fun t => [t.dataValue, t.comparisonValue, t.type_validate]) = [[0, 1, 0x1D]]
        ∧ Reply refConsts refFrameTest0 6
        ∧ refFrameTest0.getD 4 0 = 0
        ∧ (deliver refConsts refConsts.EMS_TX_TELEGRAM_NEW
              [(2, [0x8B], 1), (3, [0x01], 1), (4, [0x8B], 1), (5, refFrameTest0, 6)]
              (ems_setWarmTapWaterActivated refConsts 0 false refBoiler)).txq.map
            (fun t => t.action) = [EMS_TX_TELEGRAM_WRITE]) := by
  exact ⟨⟨by decide, by decide, by decide, by decide, by decide⟩,
    ⟨by decide, by unfold Reply; decide, by decide, by decide⟩⟩

/-- C17, amended.  Let the queue hold exactly the WRITE `w` (as after enqueueing
`w` on an empty queue) with the Tx status IDLE and Tx not disabled, where `w`
has a validate type, a destination and a post-read type other than the none
id, and let the SUCCESS code be neither 0x00 nor the poll for us.  After the
poll for us, the SUCCESS byte, the poll for us and a reply (a CRC-valid buffer
of at least five bytes with a non-zero first byte, sent by another device and
addressed to us) whose byte 4 equals the comparison value of `w`, the queue holds
neither `w` nor its VALIDATE but exactly one command, the READ that
`ems_doReadCommand` builds for the post-read type of `w` and the destination of
`w` with forceRefresh set; the Tx status is IDLE and the retry counter is 0.
Before the reply the queue holds exactly the VALIDATE of `w`, in flight. -/
theorem C17_write_confirmation (k : Consts) (junk : TxTelegram) (n1 n2 n3 n4 : Nat)
    (p1 ok p2 f : List Nat) (len : Nat) (s : Ems) (w : TxTelegram) (r : Nat)
    (h0 : k.EMS_TX_SUCCESS ≠ 0x00) (hne : k.EMS_TX_SUCCESS ≠ k.EMS_ID_ME ||| 0x80)
    (hp1 : p1.getD 0 0 = k.EMS_ID_ME ||| 0x80) (hok : ok.getD 0 0 = k.EMS_TX_SUCCESS)
    (hp2 : p2.getD 0 0 = k.EMS_ID_ME ||| 0x80)
    (hv : txView s = ([w], EMS_TX_STATUS_IDLE, r, false))
    (ha : w.action = EMS_TX_TELEGRAM_WRITE) (hty : w.type_validate ≠ k.EMS_ID_NONE)
    (hd : w.dest ≠ k.EMS_ID_NONE) (hpr : w.comparisonPostRead ≠ k.EMS_ID_NONE)
    (hr : Reply k f len) (hm : f.getD 4 0 = w.comparisonValue) :
    txView (deliver k junk [(n1, p1, 1), (n2, ok, 1), (n3, p2, 1)] s)
        = ([validateOf k junk w], EMS_TX_STATUS_WAIT, r, false)
      ∧ txView (deliver k junk [(n1, p1, 1), (n2, ok, 1), (n3, p2, 1), (n4, f, len)] s)
        = ([readOf k n4 w.comparisonPostRead w.dest true], EMS_TX_STATUS_IDLE, 0, false)
      ∧ (readOf k n4 w.comparisonPostRead w.dest true).action = EMS_TX_TELEGRAM_READ
      ∧ (readOf k n4 w.comparisonPostRead w.dest true).type = w.comparisonPostRead
      ∧ (readOf k n4 w.comparisonPostRead w.dest true).dest = w.dest := by
  have hnr : w.action ≠ EMS_TX_TELEGRAM_RAW := by rw [ha]; decide
  have e1 := view_poll k n1 junk p1 s w [] r false hp1 hv hd hnr
  have e2 := view_success k n2 junk ok _ w [] r false h0 hne hok e1 ha hty
  have hu : txqUnshift k.EMS_TX_TELEGRAM_QUEUE_MAX [] (validateOf k junk w)
      = [validateOf k junk w] := by
    unfold txqUnshift
    split_ifs <;> rfl
  rw [hu] at e2
  have e3 := view_poll k n3 junk p2 _ (validateOf k junk w) [] r false hp2 e2 hd
    (by show EMS_TX_TELEGRAM_VALIDATE ≠ EMS_TX_TELEGRAM_RAW; decide)
  obtain ⟨q3, st3, _, d3⟩ := (txView_iff _ _ _ _ _).mp e3
  have e4 := parse_validate_ok k n4 junk f len _ (validateOf k junk w) [] hr st3 q3 rfl hm.symm
  have hview := doReadCommand_view k n4 w.comparisonPostRead w.dest true
    (_removeTxQueue (setTxStatus EMS_TX_STATUS_IDLE (noteRx n4
      (ems_parseTelegram k n3 junk p2 1 (ems_parseTelegram k n2 junk ok 1
        (ems_parseTelegram k n1 junk p1 1 s).1).1).1))) hpr hd d3
  have hq1 : (_removeTxQueue (setTxStatus EMS_TX_STATUS_IDLE (noteRx n4
      (ems_parseTelegram k n3 junk p2 1 (ems_parseTelegram k n2 junk ok 1
        (ems_parseTelegram k n1 junk p1 1 s).1).1).1))).txq = [] := by
    show (ems_parseTelegram k n3 junk p2 1 (ems_parseTelegram k n2 junk ok 1
        (ems_parseTelegram k n1 junk p1 1 s).1).1).1.txq.tail = []
    rw [q3]; rfl
  have hpush : txqPush k.EMS_TX_TELEGRAM_QUEUE_MAX []
      (readOf k n4 w.comparisonPostRead w.dest true)
      = [readOf k n4 w.comparisonPostRead w.dest true] := by
    unfold txqPush
    split_ifs <;> rfl
  rw [hq1, hpush] at hview
  refine ⟨e3, ?_, rfl, rfl, rfl⟩
  show txView (ems_parseTelegram k n4 junk f len _).1 = _
  rw [e4]
  exact hview

/-- C17, instance: `ems_setWarmWaterTemp(55)` on the sample state with the
boiler at 0x08 and an empty queue, then the poll for us, the SUCCESS byte, the
poll for us and the read-back byte 55. -/
theorem C17_write_confirmation_witness :
    refConsts.EMS_TX_SUCCESS ≠ 0x00 ∧ refConsts.EMS_TX_SUCCESS ≠ refConsts.EMS_ID_ME ||| 0x80
      ∧ refBoiler.txq = []
      ∧ txView (ems_setWarmWaterTemp refConsts 0 55 refBoiler)
          = ([refWrite 0x33 0x08 2 55], EMS_TX_STATUS_IDLE, 0, false)
      ∧ Reply refConsts refFrameWW55 6
      ∧ refFrameWW55.getD 4 0 = (refWrite 0x33 0x08 2 55).comparisonValue
      ∧ txView (deliver refConsts refConsts.EMS_TX_TELEGRAM_NEW
            [(2, [0x8B], 1), (3, [0x01], 1), (4, [0x8B], 1), (5, refFrameWW55, 6)]
            (ems_setWarmWaterTemp refConsts 0 55 refBoiler))
          = ([readOf refConsts 5 0x33 0x08 true], EMS_TX_STATUS_IDLE, 0, false) :=
  ⟨by decide, by decide, by decide, by decide, by unfold Reply; decide, by decide,
    (C17_write_confirmation refConsts refConsts.EMS_TX_TELEGRAM_NEW 2 3 4 5 [0x8B] [0x01] [0x8B]
      refFrameWW55 6 (ems_setWarmWaterTemp refConsts 0 55 refBoiler) (refWrite 0x33 0x08 2 55) 0
      (by decide) (by decide) (by decide) (by decide) (by decide) (by decide) (by decide)
      (by decide) (by decide) (by decide) (by unfold Reply; decide) (by decide)).2.1⟩

/-! ## C18: enqueueing while Tx is disabled -/

/-- C18, the code at the failing input.  In the sample state with the boiler at
0x08, a thermostat RC20 at 0x17 that supports writes, an empty queue and
`emsTxDisabled` set, `ems_doReadCommand` and `ems_sendRawTelegram` leave the
queue empty, and each of the seven other functions puts a command on it. -/
theorem C18_tx_disabled_enqueue :
    refSilent.sys.emsTxDisabled = true ∧ refSilent.txq = []
      ∧ (ems_doReadCommand refConsts 1 0x18 0x08 false refSilent).txq = []
      ∧ (ems_sendRawTelegram refConsts 1 [0x0B, 0x88, 0x18, 0x00, 0x20] refSilent).txq = []
      ∧ (ems_setThermostatTemp refConsts 1 42 0 refSilent).txq.length = 1
      ∧ (ems_setThermostatMode refConsts 1 2 refSilent).txq.length = 1
      ∧ (ems_setWarmWaterTemp refConsts 1 55 refSilent).txq.length = 1
      ∧ (ems_setFlowTemp refConsts 1 60 refSilent).txq.length = 1
      ∧ (ems_setWarmWaterModeComfort refConsts 1 1 refSilent).txq.length = 1
      ∧ (ems_setWarmWaterActivated refConsts 1 true refSilent).txq.length = 1
      ∧ (ems_setWarmTapWaterActivated refConsts 1 true refSilent).txq.length = 1
      ∧ (deliver refConsts refConsts.EMS_TX_TELEGRAM_NEW [(2, [0x8B], 1)]
            (ems_setWarmWaterTemp refConsts 1 55 refSilent)).uart
          = [UartOut.buffer [0x0B, 0x08, 0x33, 0x02, 55, 0x0F]] := by
  exact ⟨by decide, by decide, by decide, by decide, by decide, by decide, by decide,
    by decide, by decide, by decide, by decide, by decide⟩

/-! ## C19: `ems_setWarmWaterTemp` -/

/-- C19.  For every temperature below 30 or above
`EMS_BOILER_TAPWATER_TEMPERATURE_MAX`, `ems_setWarmWaterTemp` returns the state
unchanged.  For every temperature from 30 to the maximum it pushes exactly one
command `w` on the queue and changes nothing else of the state but the retry
counter, which it resets: the queue after the call is the queue before it
followed by `w` when the queue had room (when it was full the push of the
circular buffer overwrites the oldest entry), `w` is the last command of the
queue in any case, and `w` is a WRITE with destination the boiler's device id,
type `EMS_TYPE_UBAParameterWW`, offset `EMS_OFFSET_UBAParameterWW_wwtemp`,
length `EMS_MIN_TELEGRAM_LENGTH`, data value and comparison value the
temperature. -/
theorem C19_setWarmWaterTemp (k : Consts) (now : Nat) (t : Nat) (s : Ems) :
    ((t < 30 ∨ k.EMS_BOILER_TAPWATER_TEMPERATURE_MAX < t) → ems_setWarmWaterTemp k now t s = s)
      ∧ ((30 ≤ t ∧ t ≤ k.EMS_BOILER_TAPWATER_TEMPERATURE_MAX) →
          ∃ w, ems_setWarmWaterTemp k now t s
              = { s with
                  sys := { s.sys with txRetryCount := 0 }
                  txq := txqPush k.EMS_TX_TELEGRAM_QUEUE_MAX s.txq w }
            ∧ (s.txq.length < k.EMS_TX_TELEGRAM_QUEUE_MAX →
                (ems_setWarmWaterTemp k now t s).txq = s.txq ++ [w])
            ∧ (ems_setWarmWaterTemp k now t s).txq.getLast? = some w
            ∧ busView (ems_setWarmWaterTemp k now t s) = busView s
            ∧ w.action = EMS_TX_TELEGRAM_WRITE
            ∧ w.dest = s.boiler.type_id
            ∧ w.type = k.EMS_TYPE_UBAParameterWW
            ∧ w.offset = k.EMS_OFFSET_UBAParameterWW_wwtemp
            ∧ w.length = k.EMS_MIN_TELEGRAM_LENGTH
            ∧ w.dataValue = t
            ∧ w.comparisonValue = t) := by
  constructor
  · intro h
    unfold ems_setWarmWaterTemp
    rw [if_pos h]
  · intro h
    have hn : ¬ (t < 30 ∨ t > k.EMS_BOILER_TAPWATER_TEMPERATURE_MAX) := by
      rintro (h1 | h1) <;> omega
    unfold ems_setWarmWaterTemp
    simp only
    rw [if_neg hn]
    refine ⟨_, rfl, ?_, ?_, rfl, rfl, rfl, rfl, rfl, rfl, rfl, rfl⟩
    · intro hroom
      show txqPush _ s.txq _ = _
      rw [txqPush_room _ _ _ hroom]
    · show (txqPush _ s.txq _).getLast? = _
      unfold txqPush
      split_ifs <;> simp

/-- C19, instance: on the sample state with the boiler at 0x08 and an empty
queue, a temperature of 29 changes nothing and a temperature of 55 puts one
write of 55 on the queue. -/
theorem C19_setWarmWaterTemp_witness :
    (29 < 30 ∨ refConsts.EMS_BOILER_TAPWATER_TEMPERATURE_MAX < 29)
      ∧ ems_setWarmWaterTemp refConsts 0 29 refBoiler = refBoiler
      ∧ (30 ≤ 55 ∧ 55 ≤ refConsts.EMS_BOILER_TAPWATER_TEMPERATURE_MAX)
      ∧ ∃ w, ems_setWarmWaterTemp refConsts 0 55 refBoiler
            = { refBoiler with
                sys := { refBoiler.sys with txRetryCount := 0 }
                txq := txqPush refConsts.EMS_TX_TELEGRAM_QUEUE_MAX refBoiler.txq w }
          ∧ w.dataValue = 55 :=
  ⟨by decide, (C19_setWarmWaterTemp refConsts 0 29 refBoiler).1 (by decide), by decide,
    (((C19_setWarmWaterTemp refConsts 0 55 refBoiler).2 (by decide)).imp
      (fun _ h => ⟨h.1, h.2.2.2.2.2.2.2.2.2.1⟩))⟩

/-! ## C20: role locking -/

/-- C20.  Once the boiler record holds a product id other than the none id,
`_process_Version` leaves the whole boiler record unchanged, for every
payload and length (the source of the telegram is only printed), in particular
its device id, product id and version text; once the thermostat record holds a
product id other than the none id, `_process_Version` leaves the whole
thermostat record unchanged, in particular its device id, model id, product
id, version text and the two capability flags. -/
theorem C20_role_locking (k : Consts) (now : Nat) (data : List Nat) (length : Nat) (s : Ems) :
    (s.boiler.product_id ≠ k.EMS_ID_NONE →
        (_process_Version k now data length s).boiler = s.boiler)
      ∧ (s.thermostat.product_id ≠ k.EMS_ID_NONE →
        (_process_Version k now data length s).thermostat = s.thermostat) := by
  constructor
  · intro hb
    unfold _process_Version
    split_ifs
    · rfl
    · simp only
      split
      · rw [if_neg (fun h => hb h.2)]
      · split
        · split_ifs
          · rw [getThermostatValues_boiler]
          · rfl
        · split
          · split_ifs
            · rw [getOtherValues_boiler]
            · rw [getOtherValues_boiler]
          · rfl
  · intro ht
    unfold _process_Version
    split_ifs
    · rfl
    · simp only
      split
      · split_ifs
        · rw [getBoilerValues_thermostat]
        · rfl
      · split
        · rw [if_neg (fun h => ht h.2)]
        · split
          · split_ifs
            · rw [getOtherValues_thermostat]
            · rw [getOtherValues_thermostat]
          · rfl

/-- C20, instance: with two boilers and two thermostats in the catalogs, the
Version telegram of product 72 makes the boiler known, and the Version telegram
of the other boiler, product 95, then leaves the boiler record as it is; the
same for the thermostats 79 and 77. -/
theorem C20_role_locking_witness :
    ((_process_Version refCatalogs 0 [72, 1, 2] 3 refInit).boiler.product_id = 72
        ∧ (_process_Version refCatalogs 0 [72, 1, 2] 3 refInit).boiler.product_id
            ≠ refCatalogs.EMS_ID_NONE
        ∧ (_process_Version refCatalogs 0 [95, 3, 4] 3
            (_process_Version refCatalogs 0 [72, 1, 2] 3 refInit)).boiler
          = (_process_Version refCatalogs 0 [72, 1, 2] 3 refInit).boiler)
      ∧ ((_process_Version refCatalogs 0 [79, 1, 2] 3 refInit).thermostat.product_id = 79
        ∧ (_process_Version refCatalogs 0 [79, 1, 2] 3 refInit).thermostat.product_id
            ≠ refCatalogs.EMS_ID_NONE
        ∧ (_process_Version refCatalogs 0 [77, 3, 4] 3
            (_process_Version refCatalogs 0 [79, 1, 2] 3 refInit)).thermostat
          = (_process_Version refCatalogs 0 [79, 1, 2] 3 refInit).thermostat) :=
  ⟨⟨by decide, by decide,
      (C20_role_locking refCatalogs 0 [95, 3, 4] 3
        (_process_Version refCatalogs 0 [72, 1, 2] 3 refInit)).1 (by decide)⟩,
    ⟨by decide, by decide,
      (C20_role_locking refCatalogs 0 [77, 3, 4] 3
        (_process_Version refCatalogs 0 [79, 1, 2] 3 refInit)).2 (by decide)⟩⟩

/-! ## C21: the order of the catalogs -/

/-- C21.  `_process_Version` returns the state unchanged when the length of the
payload is below 3.  Otherwise, with `payload[0]` as the product id and
catalogs whose sizes fit the `uint8_t` in which they are kept:
(1) whenever the product id occurs in the boiler catalog, the entry used is the
first boiler entry `b0` with that product id (no entry before it has it); the
thermostat record and the other-accessory record are unchanged; when the boiler
role can be claimed (the boiler's device id is the none id or that of `b0`, and
its product id is the none id) the result is `ems_getBoilerValues` on the state
with device id, product id and version of the boiler set from `b0` and the
payload, and otherwise the state is unchanged;
(2) when it does not occur in the boiler catalog but occurs in the thermostat
catalog, the entry used is the first thermostat entry `t0` with that product
id; the boiler record and the other-accessory record are unchanged; when the
thermostat role can be claimed the result is `ems_getThermostatValues` on the
state with model, device id, read and write support, product id and version
set from `t0` and the payload, and otherwise the state is unchanged;
(3) when it occurs in neither of the two, the boiler record and the thermostat
record are unchanged; if it occurs in the other-accessory catalog, the first
entry `o0` with that product id is used: the SM10 flag is set when the device
id of `o0` is that of the SM10, and `ems_getOtherValues` is called; if it
occurs in no catalog the state is unchanged. -/
theorem C21_version_priority (k : Consts) (now : Nat) (data : List Nat) (length : Nat) (s : Ems)
    (hB : k.Boiler_Types.length < 256) (hT : k.Thermostat_Types.length < 256) :
    (length < 3 → _process_Version k now data length s = s)
      ∧ (3 ≤ length → (∃ b ∈ k.Boiler_Types, b.product_id = data.getD 0 0) →
          (_process_Version k now data length s).thermostat = s.thermostat
            ∧ (_process_Version k now data length s).other = s.other
            ∧ ∃ b0, k.Boiler_Types.find? (fun b => b.product_id == data.getD 0 0) = some b0
              ∧ ((_process_Version k now data length s).boiler = s.boiler
                ∨ (_process_Version k now data length s).boiler
                    = { s.boiler with
                        type_id := b0.type_id
                        product_id := b0.product_id
                        version := some (data.getD 1 0, data.getD 2 0) })
              ∧ (∃ pre post, k.Boiler_Types = pre ++ b0 :: post
                  ∧ (∀ b ∈ pre, b.product_id ≠ data.getD 0 0)
                  ∧ b0.product_id = data.getD 0 0)
              ∧ (((s.boiler.type_id = k.EMS_ID_NONE ∨ s.boiler.type_id = b0.type_id)
                    ∧ s.boiler.product_id = k.EMS_ID_NONE) →
                  _process_Version k now data length s
                      = ems_getBoilerValues k now
                          { s with boiler := { s.boiler with
                              type_id := b0.type_id
                              product_id := b0.product_id
                              version := some (data.getD 1 0, data.getD 2 0) } }
                    ∧ (_process_Version k now data length s).boiler
                      = { s.boiler with
                          type_id := b0.type_id
                          product_id := b0.product_id
                          version := some (data.getD 1 0, data.getD 2 0) })
              ∧ (¬ ((s.boiler.type_id = k.EMS_ID_NONE ∨ s.boiler.type_id = b0.type_id)
                    ∧ s.boiler.product_id = k.EMS_ID_NONE) →
                  _process_Version k now data length s = s))
      ∧ (3 ≤ length → (∀ b ∈ k.Boiler_Types, b.product_id ≠ data.getD 0 0) →
          (∃ t ∈ k.Thermostat_Types, t.product_id = data.getD 0 0) →
          (_process_Version k now data length s).boiler = s.boiler
            ∧ (_process_Version k now data length s).other = s.other
            ∧ ∃ t0 pre post, k.Thermostat_Types = pre ++ t0 :: post
              ∧ (∀ t ∈ pre, t.product_id ≠ data.getD 0 0)
              ∧ t0.product_id = data.getD 0 0
              ∧ (((s.thermostat.type_id = k.EMS_ID_NONE
                      ∨ s.thermostat.model_id = k.EMS_MODEL_NONE
                      ∨ s.thermostat.type_id = t0.type_id)
                    ∧ s.thermostat.product_id = k.EMS_ID_NONE) →
                  _process_Version k now data length s
                      = ems_getThermostatValues k now
                          { s with thermostat := { s.thermostat with
                              model_id := t0.model_id
                              type_id := t0.type_id
                              read_supported := t0.read_supported
                              write_supported := t0.write_supported
                              product_id := data.getD 0 0
                              version := some (data.getD 1 0, data.getD 2 0) } }
                    ∧ (_process_Version k now data length s).thermostat.model_id = t0.model_id
                    ∧ (_process_Version k now data length s).thermostat.type_id = t0.type_id
                    ∧ (_process_Version k now data length s).thermostat.read_supported
                        = t0.read_supported
                    ∧ (_process_Version k now data length s).thermostat.write_supported
                        = t0.write_supported
                    ∧ (_process_Version k now data length s).thermostat.product_id
                        = data.getD 0 0
                    ∧ (_process_Version k now data length s).thermostat.version
                        = some (data.getD 1 0, data.getD 2 0))
              ∧ (¬ ((s.thermostat.type_id = k.EMS_ID_NONE
                      ∨ s.thermostat.model_id = k.EMS_MODEL_NONE
                      ∨ s.thermostat.type_id = t0.type_id)
                    ∧ s.thermostat.product_id = k.EMS_ID_NONE) →
                  _process_Version k now data length s = s))
      ∧ (3 ≤ length → (∀ b ∈ k.Boiler_Types, b.product_id ≠ data.getD 0 0) →
          (∀ t ∈ k.Thermostat_Types, t.product_id ≠ data.getD 0 0) →
          (_process_Version k now data length s).boiler = s.boiler
            ∧ (_process_Version k now data length s).thermostat = s.thermostat
            ∧ (k.Other_Types.length < 256 →
                ((∃ o ∈ k.Other_Types, o.product_id = data.getD 0 0) →
                  ∃ o0 pre post, k.Other_Types = pre ++ o0 :: post
                    ∧ (∀ o ∈ pre, o.product_id ≠ data.getD 0 0)
                    ∧ o0.product_id = data.getD 0 0
                    ∧ _process_Version k now data length s
                        = ems_getOtherValues k now
                            (if o0.type_id = k.EMS_ID_SM10 then
                              { s with other := { s.other with SM10 := true } }
                            else s)
                    ∧ (_process_Version k now data length s).other
                        = (if o0.type_id = k.EMS_ID_SM10 then { s.other with SM10 := true }
                          else s.other))
                ∧ ((∀ o ∈ k.Other_Types, o.product_id ≠ data.getD 0 0) →
                  _process_Version k now data length s = s))) := by
  have hBt : k.Boiler_Types.take (_Boiler_Types_max k) = k.Boiler_Types :=
    take_size_mod _ _ hB
  have hTt : k.Thermostat_Types.take (_Thermostat_Types_max k) = k.Thermostat_Types :=
    take_size_mod _ _ hT
  refine ⟨?_, ?_, ?_, ?_⟩
  · intro h
    unfold _process_Version
    rw [if_pos h]
  · rintro h ⟨b, hb, hpid⟩
    obtain ⟨b0, hb0⟩ := find_some_of_mem k.Boiler_Types
      (fun b => b.product_id == data.getD 0 0) b hb (by simp [hpid])
    obtain ⟨hp0, pre, post, hl, hpre⟩ := find_first _ _ _ hb0
    have hfirst : ∃ pre post, k.Boiler_Types = pre ++ b0 :: post
        ∧ (∀ b ∈ pre, b.product_id ≠ data.getD 0 0) ∧ b0.product_id = data.getD 0 0 :=
      ⟨pre, post, hl, fun x hx => by simpa using hpre x hx, by simpa using hp0⟩
    unfold _process_Version
    rw [if_neg (by omega)]
    simp only [_toByte, hBt, hb0]
    by_cases hc : (s.boiler.type_id = k.EMS_ID_NONE ∨ s.boiler.type_id = b0.type_id)
        ∧ s.boiler.product_id = k.EMS_ID_NONE
    · rw [if_pos hc]
      exact ⟨getBoilerValues_thermostat .., getBoilerValues_other .., b0, rfl,
        Or.inr (getBoilerValues_boiler ..), hfirst,
        fun _ => ⟨rfl, getBoilerValues_boiler ..⟩, fun hn => absurd hc hn⟩
    · rw [if_neg hc]
      exact ⟨rfl, rfl, b0, rfl, Or.inl rfl, hfirst, fun h => absurd h hc, fun _ => rfl⟩
  · rintro h hnb ⟨t, ht, hpid⟩
    have hb0 := find_none_of_forall k.Boiler_Types (fun b => b.product_id == data.getD 0 0)
      (fun b hb => by simpa using hnb b hb)
    obtain ⟨t0, ht0⟩ := find_some_of_mem k.Thermostat_Types
      (fun t => t.product_id == data.getD 0 0) t ht (by simp [hpid])
    obtain ⟨hp0, pre, post, hl, hpre⟩ := find_first _ _ _ ht0
    unfold _process_Version
    rw [if_neg (by omega)]
    simp only [_toByte, hBt, hb0, hTt, ht0]
    by_cases hc : (s.thermostat.type_id = k.EMS_ID_NONE
          ∨ s.thermostat.model_id = k.EMS_MODEL_NONE
          ∨ s.thermostat.type_id = t0.type_id)
        ∧ s.thermostat.product_id = k.EMS_ID_NONE
    · rw [if_pos hc]
      refine ⟨getThermostatValues_boiler .., getThermostatValues_other .., t0, pre, post, hl,
        fun x hx => by simpa using hpre x hx, by simpa using hp0, fun _ => ⟨rfl, ?_⟩,
        fun hn => absurd hc hn⟩
      rcases getThermostatValues_thermostat k now
        { s with thermostat := { s.thermostat with
            model_id := t0.model_id
            type_id := t0.type_id
            read_supported := t0.read_supported
            write_supported := t0.write_supported
            product_id := data.getD 0 0
            version := some (data.getD 1 0, data.getD 2 0) } } with e | e
      · rw [e]; exact ⟨rfl, rfl, rfl, rfl, rfl, rfl⟩
      · rw [e]; exact ⟨rfl, rfl, rfl, rfl, rfl, rfl⟩
    · rw [if_neg hc]
      exact ⟨rfl, rfl, t0, pre, post, hl, fun x hx => by simpa using hpre x hx,
        by simpa using hp0, fun h => absurd h hc, fun _ => rfl⟩
  · intro h hnb hnt
    have hb0 := find_none_of_forall k.Boiler_Types (fun b => b.product_id == data.getD 0 0)
      (fun b hb => by simpa using hnb b hb)
    have ht0 := find_none_of_forall k.Thermostat_Types (fun t => t.product_id == data.getD 0 0)
      (fun t ht => by simpa using hnt t ht)
    refine ⟨?_, ?_, ?_⟩
    · unfold _process_Version
      rw [if_neg (by omega)]
      simp only [_toByte, hBt, hb0, hTt, ht0]
      split
      · rw [getOtherValues_boiler]
        split_ifs <;> rfl
      · rfl
    · unfold _process_Version
      rw [if_neg (by omega)]
      simp only [_toByte, hBt, hb0, hTt, ht0]
      split
      · rw [getOtherValues_thermostat]
        split_ifs <;> rfl
      · rfl
    · intro hO
      have hOt : k.Other_Types.take (_Other_Types_max k) = k.Other_Types :=
        take_size_mod _ _ hO
      refine ⟨?_, ?_⟩
      · rintro ⟨o, ho, hpid⟩
        obtain ⟨o0, ho0⟩ := find_some_of_mem k.Other_Types
          (fun o => o.product_id == data.getD 0 0) o ho (by simp [hpid])
        obtain ⟨hp0, pre, post, hl, hpre⟩ := find_first _ _ _ ho0
        refine ⟨o0, pre, post, hl, fun x hx => by simpa using hpre x hx, by simpa using hp0,
          ?_, ?_⟩
        · unfold _process_Version
          rw [if_neg (by omega)]
          simp only [_toByte, hBt, hb0, hTt, ht0, hOt, ho0]
        · unfold _process_Version
          rw [if_neg (by omega)]
          simp only [_toByte, hBt, hb0, hTt, ht0, hOt, ho0]
          rw [getOtherValues_other]
          split_ifs <;> rfl
      · intro hno
        have ho0 := find_none_of_forall k.Other_Types (fun o => o.product_id == data.getD 0 0)
          (fun o ho => by simpa using hno o ho)
        unfold _process_Version
        rw [if_neg (by omega)]
        simp only [_toByte, hBt, hb0, hTt, ht0, hOt, ho0]

/-- C21, instance: the product id 72 occurs in all three catalogs, among the
boilers at the second place (device id 0x08) and at the third (device id 0x09);
the Version payload `48 01 02` makes the boiler the one of the second place and
leaves the thermostat and the other devices as they were. -/
theorem C21_version_priority_witness :
    refCollide.Boiler_Types.length < 256 ∧ refCollide.Thermostat_Types.length < 256
      ∧ 3 ≤ 3 ∧ (∃ b ∈ refCollide.Boiler_Types, b.product_id = [72, 1, 2].getD 0 0)
      ∧ (∃ t ∈ refCollide.Thermostat_Types, t.product_id = [72, 1, 2].getD 0 0)
      ∧ (∃ o ∈ refCollide.Other_Types, o.product_id = [72, 1, 2].getD 0 0)
      ∧ (_process_Version refCollide 0 [72, 1, 2] 3 refInit).thermostat = refInit.thermostat
      ∧ (_process_Version refCollide 0 [72, 1, 2] 3 refInit).other = refInit.other
      ∧ (_process_Version refCollide 0 [72, 1, 2] 3 refInit).boiler.type_id = 0x08
      ∧ (_process_Version refCollide 0 [72, 1, 2] 3 refInit).boiler.product_id = 72
      ∧ (_process_Version refCollide 0 [72, 1, 2] 3 refInit).boiler.version = some (1, 2)
      ∧ ((_process_Version refCollide 0 [72, 1, 2] 3 refInit).txq.map (fun t => t.dest))
          = [0x08, 0x08, 0x08, 0x08, 0x08] :=
  ⟨by decide, by decide, by decide, by decide, by decide, by decide,
    ((C21_version_priority refCollide 0 [72, 1, 2] 3 refInit (by decide) (by decide)).2.1
      (by decide) (by decide)).1,
    ((C21_version_priority refCollide 0 [72, 1, 2] 3 refInit (by decide) (by decide)).2.1
      (by decide) (by decide)).2.1,
    by decide, by decide, by decide, by decide⟩

/-! ## C22: the scan for devices -/

/-- C22.  With Tx not disabled, a queue that has room for one command per device
id, and a Version type that is not the none id, `ems_scanDevices` appends to
the queue exactly the commands that `ems_doReadCommand` builds for the Version
type and the destinations `dests`, in this order: each is a READ of the Version
type; `dests` is strictly increasing (sorted, no duplicates); and a device id
is in `dests` exactly when it occurs in the boiler, thermostat or other catalog
and is neither `EMS_MODEL_NONE` (the value that `ems_scanDevices` removes from
its list) nor the none id (which `ems_doReadCommand` refuses).  With header
values in which `EMS_MODEL_NONE` is the none id, that is: exactly when it
occurs in one of the three catalogs and is not the none id. -/
theorem C22_scanDevices (k : Consts) (now : Nat) (s : Ems)
    (hv : k.EMS_TYPE_Version ≠ k.EMS_ID_NONE)
    (hdis : s.sys.emsTxDisabled = false)
    (hroom : s.txq.length + (Device_Ids k).length ≤ k.EMS_TX_TELEGRAM_QUEUE_MAX) :
    ∃ dests : List Nat,
      (ems_scanDevices k now s).txq
          = s.txq ++ dests.map (fun d => readOf k now k.EMS_TYPE_Version d false)
        ∧ (∀ d, (readOf k now k.EMS_TYPE_Version d false).action = EMS_TX_TELEGRAM_READ
            ∧ (readOf k now k.EMS_TYPE_Version d false).type = k.EMS_TYPE_Version
            ∧ (readOf k now k.EMS_TYPE_Version d false).dest = d)
        ∧ dests.Sorted (· < ·)
        ∧ (∀ d, d ∈ dests
            ↔ ((∃ b ∈ k.Boiler_Types, b.type_id = d) ∨ (∃ t ∈ k.Thermostat_Types, t.type_id = d)
                ∨ (∃ o ∈ k.Other_Types, o.type_id = d))
              ∧ d ≠ k.EMS_MODEL_NONE ∧ d ≠ k.EMS_ID_NONE)
        ∧ (k.EMS_MODEL_NONE = k.EMS_ID_NONE →
            ∀ d, d ∈ dests
              ↔ ((∃ b ∈ k.Boiler_Types, b.type_id = d) ∨ (∃ t ∈ k.Thermostat_Types, t.type_id = d)
                  ∨ (∃ o ∈ k.Other_Types, o.type_id = d)) ∧ d ≠ k.EMS_ID_NONE) := by
  have hmem : ∀ d, d ∈ (Device_Ids k).filter (fun d => d != k.EMS_ID_NONE)
      ↔ ((∃ b ∈ k.Boiler_Types, b.type_id = d) ∨ (∃ t ∈ k.Thermostat_Types, t.type_id = d)
          ∨ (∃ o ∈ k.Other_Types, o.type_id = d))
        ∧ d ≠ k.EMS_MODEL_NONE ∧ d ≠ k.EMS_ID_NONE := by
    intro d
    rw [List.mem_filter, Device_Ids_mem]
    simp only [bne_iff_ne, ne_eq, and_assoc]
  refine ⟨(Device_Ids k).filter (fun d => d != k.EMS_ID_NONE), ?_, fun d => ⟨rfl, rfl, rfl⟩,
    List.Sorted.filter _ (Device_Ids_sorted k), hmem, fun hm d => ?_⟩
  · unfold ems_scanDevices
    exact foldl_doRead_txq k now _ _ s hv hdis hroom
  · rw [hmem, hm]
    constructor
    · exact fun h => ⟨h.1, h.2.1⟩
    · exact fun h => ⟨h.1, h.2, h.2⟩

/-- C22, instance: the sample catalogs (a boiler at 0x08, a thermostat at 0x17,
an SM10 at 0x30) and the empty queue of the sample state. -/
theorem C22_scanDevices_witness :
    refConsts.EMS_TYPE_Version ≠ refConsts.EMS_ID_NONE
      ∧ refInit.sys.emsTxDisabled = false
      ∧ refInit.txq.length + (Device_Ids refConsts).length ≤ refConsts.EMS_TX_TELEGRAM_QUEUE_MAX
      ∧ ∃ dests : List Nat,
          (ems_scanDevices refConsts 0 refInit).txq
              = refInit.txq ++ dests.map (fun d => readOf refConsts 0 refConsts.EMS_TYPE_Version d false)
            ∧ dests.Sorted (· < ·) :=
  ⟨by decide, by decide, by decide,
    (C22_scanDevices refConsts 0 refInit (by decide) (by decide) (by decide)).imp
      (fun _ h => ⟨h.1, h.2.2.1⟩)⟩

/-! ## C23: the refresh flag is never cleared -/

/-- C23, the code at the failing input.  In the sample state a refresh is
pending and the Version read that `ems_discoverModels` sends to 0x08
(forceRefresh not set) is in flight.  The Version reply of 0x08 matches the
read; `_processType` confirms the read with
`ems_setEmsRefreshed(EMS_TxTelegram.forceRefresh)`, which stores `false`, and
the Version decoder does not raise the flag: the refresh flag is false after
the call. -/
theorem C23_refresh_flag_cleared :
    (refWaitPending [refRead 0x02 0x08 false]).sys.emsRefreshed = true
      ∧ Reply refConsts refFrameVersion 8
      ∧ refFrameVersion.getD 0 0 &&& 0x7F = (refRead 0x02 0x08 false).dest
      ∧ refFrameVersion.getD 2 0 = (refRead 0x02 0x08 false).type
      ∧ (ems_parseTelegram refConsts 1000 refConsts.EMS_TX_TELEGRAM_NEW refFrameVersion 8
            (refWaitPending [refRead 0x02 0x08 false])).1.sys.emsRefreshed = false := by
  exact ⟨by decide, by unfold Reply; decide, by decide, by decide, by decide⟩

/-! ## C24: the heating-circuit selector -/

/-- C24, the code at the failing input.  For every payload and state,
`_process_RC35Set` called with 71 (0x47) as its first argument leaves 0 in the
heating-circuit selector: the guard `if (EMS_Thermostat.hc =2 && src != 71)`
assigns the truth value of `2 && src != 71`.  The dispatcher passes the type of
the telegram as first argument, so in the sample state with an RC35 at 0x10 and
the selector at 2, the telegram of type 0x47 sent by the thermostat leaves the
selector at 0. -/
theorem C24_heating_circuit_zero (k : Consts) (data : List Nat) (s : Ems) :
    (_process_RC35Set k 71 data s).thermostat.hc = 0
      ∧ refRC35.thermostat.hc = 2
      ∧ refFrameRC35Set2.getD (30 - 1) 0 = _crcCalculator refFrameRC35Set2 30
      ∧ refFrameRC35Set2.getD 2 0 = refConsts.EMS_TYPE_RC35Set_HC2
      ∧ (ems_parseTelegram refConsts 1000 refConsts.EMS_TX_TELEGRAM_NEW refFrameRC35Set2 30
            refRC35).1.thermostat.hc = 0 := by
  exact ⟨rfl, by decide, by decide, by decide, by decide⟩

/-! ## C25: the bus-connected flag -/

/-- C25.  Let a frame of at least five bytes whose last byte is its checksum be
received by `_ems_readTelegram` at the time `t`, and let `ems_getBusConnected`
then be called at the times `ts`, which are non-decreasing, not before `t`,
and, like `t`, values of the 32-bit millisecond clock, with no other valid
frame in between.  Then the call made at the time `u` returns true exactly
when `u - t <= 15000` and false exactly when `u - t > 15000`.  The same holds
when the frame is delivered to `ems_parseTelegram` and its first byte is not
0x00 (a buffer that starts with 0x00 is not handed to `_ems_readTelegram`). -/
theorem C25_bus_connected (k : Consts) (junk : TxTelegram) (tg : List Nat) (len : Nat) (s : Ems)
    (t : Nat) (ts : List Nat) (hlen : 5 ≤ len)
    (hcrc : tg.getD (len - 1) 0 = _crcCalculator tg len)
    (hsorted : ts.Sorted (· ≤ ·)) (hts : ∀ u ∈ ts, t ≤ u ∧ u < 2 ^ 32) :
    busConnectedCalls ts (_ems_readTelegram k t junk tg len s)
        = ts.map (fun u => decide (u - t ≤ 15000))
      ∧ (tg.getD 0 0 ≠ 0x00 →
          busConnectedCalls ts (ems_parseTelegram k t junk tg len s).1
            = ts.map (fun u => decide (u - t ≤ 15000))) := by
  have hl := readTelegram_frame_link k t junk tg len s hlen hcrc
  have h1 : (_ems_readTelegram k t junk tg len s).sys.emsRxTimestamp = t :=
    congrArg Prod.fst hl
  have h2 : (_ems_readTelegram k t junk tg len s).sys.emsBusConnected = true :=
    congrArg Prod.snd hl
  have key := busConnectedCalls_spec t ts _ h1 hsorted hts (Or.inl h2)
  refine ⟨key, fun h0 => ?_⟩
  have hp : (ems_parseTelegram k t junk tg len s).1 = _ems_readTelegram k t junk tg len s := by
    unfold ems_parseTelegram
    simp only
    rw [if_pos ⟨by omega, h0⟩]
  rw [hp]
  exact key

/-- C25, instance: the thermostat's status telegram is received at the time
1000 and `ems_getBusConnected` is called at 1000, 16000 (15 s later), 16001 and
20000. -/
theorem C25_bus_connected_witness :
    5 ≤ 19 ∧ refFrameStatus.getD (19 - 1) 0 = _crcCalculator refFrameStatus 19
      ∧ [1000, 16000, 16001, 20000].Sorted (· ≤ ·)
      ∧ (∀ u ∈ [1000, 16000, 16001, 20000], 1000 ≤ u ∧ u < 2 ^ 32)
      ∧ busConnectedCalls [1000, 16000, 16001, 20000]
            (_ems_readTelegram refConsts 1000 refConsts.EMS_TX_TELEGRAM_NEW refFrameStatus 19
              refInit)
          = [true, true, false, false] :=
  ⟨by decide, by decide, by decide, by decide,
    (C25_bus_connected refConsts refConsts.EMS_TX_TELEGRAM_NEW refFrameStatus 19 refInit 1000
      [1000, 16000, 16001, 20000] (by decide) (by decide) (by decide) (by decide)).1⟩

/-! ## C26: the documented status telegram -/

/-- C26 fails as stated: the 18 bytes
`17 0B 91 00 80 1E 00 CB 27 00 00 00 00 05 01 00 CB 00` are the telegram without
its checksum byte (the comment in the source gives it apart: `CRC=47`).
`_crcCalculator` over the 18 bytes is 0xAF, not their last byte 0x00, so
delivering them with length 18, with the thermostat known as an RC10 at 0x17,
increments the CRC-error counter, decodes nothing and leaves the refresh flag
down. -/
theorem C26_counterexample :
    refFrameStatus18.length = 18
      ∧ _crcCalculator refFrameStatus18 18 = 0xAF
      ∧ refFrameStatus18.getD (18 - 1) 0 = 0x00
      ∧ refRC10.sys.emxCrcErr = 0
      ∧ (ems_parseTelegram refConsts 1000 refConsts.EMS_TX_TELEGRAM_NEW refFrameStatus18 18
            refRC10).1.sys.emxCrcErr = 1
      ∧ (ems_parseTelegram refConsts 1000 refConsts.EMS_TX_TELEGRAM_NEW refFrameStatus18 18
            refRC10).1.thermostat = refRC10.thermostat
      ∧ (ems_parseTelegram refConsts 1000 refConsts.EMS_TX_TELEGRAM_NEW refFrameStatus18 18
            refRC10).1.sys.emsRefreshed = false := by
  exact ⟨by decide, by decide, by decide, by decide, by decide, by decide, by decide⟩

/-- C26, amended.  The 19-byte frame made of the 18 documented bytes followed by
the checksum 0x47 has a valid checksum (its last byte equals `_crcCalculator`
over the frame).  With the sample header values, delivering it to
`ems_parseTelegram` in any state in which the Tx status is IDLE and the
thermostat is known at the source address 0x17 does not change the CRC-error
counter, stores the setpoint 0x1E (payload byte 1) and the current room
temperature 0xCB, and raises the refresh flag. -/
theorem C26_status_telegram (now : Nat) (junk : TxTelegram) (s : Ems)
    (hi : s.sys.emsTxStatus = EMS_TX_STATUS_IDLE) (hth : s.thermostat.type_id = 0x17) :
    refFrameStatus = refFrameStatus18 ++ [0x47]
      ∧ refFrameStatus.getD (19 - 1) 0 = _crcCalculator refFrameStatus 19
      ∧ (ems_parseTelegram refConsts now junk refFrameStatus 19 s).1.sys.emxCrcErr
          = s.sys.emxCrcErr
      ∧ (ems_parseTelegram refConsts now junk refFrameStatus 19 s).1.thermostat.setpoint_roomTemp
          = 0x1E
      ∧ (ems_parseTelegram refConsts now junk refFrameStatus 19 s).1.thermostat.curr_roomTemp
          = 0xCB
      ∧ (ems_parseTelegram refConsts now junk refFrameStatus 19 s).1.sys.emsRefreshed = true := by
  have hcrc : refFrameStatus.getD (19 - 1) 0 = _crcCalculator refFrameStatus 19 := by decide
  have hrow : findTypeRow refConsts (noteRx now s) 0x17 0x91
      = some ⟨refConsts.EMS_MODEL_RC20, 0x91, some Decoder._process_RC20StatusMessage, false⟩ := by
    rw [findTypeRow_thermostat refConsts (noteRx now s) 0x17 0x91 hth.symm]
    decide
  have hE : (ems_parseTelegram refConsts now junk refFrameStatus 19 s).1
      = setTxStatus EMS_TX_STATUS_IDLE
          (_process_RC20StatusMessage refConsts (refFrameStatus.drop 4) (noteRx now s)) := by
    rw [parse_frame refConsts now junk refFrameStatus 19 s (by decide) (by decide) hcrc]
    unfold _processType
    simp only
    rw [if_neg (by decide), if_pos (by exact hi)]
    unfold _ems_processTelegram
    simp only
    rw [if_neg (by decide), if_neg (by decide)]
    have h2 : refFrameStatus.getD 0 0 &&& 0x7F = 0x17 := by decide
    have h3 : refFrameStatus.getD 2 0 = 0x91 := by decide
    rw [h2, h3, hrow]
    simp only
    rw [if_neg (by decide), if_pos (by decide)]
    rfl
  rw [hE]
  exact ⟨by decide, hcrc, rfl, rfl, rfl, rfl⟩

/-- C26, instance: the sample state with the thermostat known as an RC10 at
0x17. -/
theorem C26_status_telegram_witness :
    refRC10.sys.emsTxStatus = EMS_TX_STATUS_IDLE ∧ refRC10.thermostat.type_id = 0x17
      ∧ refRC10.thermostat.model_id = refConsts.EMS_MODEL_RC10
      ∧ (ems_parseTelegram refConsts 1000 refConsts.EMS_TX_TELEGRAM_NEW refFrameStatus 19
            refRC10).1.sys.emsRefreshed = true :=
  ⟨by decide, by decide, by decide,
    (C26_status_telegram 1000 refConsts.EMS_TX_TELEGRAM_NEW refRC10 (by decide)
      (by decide)).2.2.2.2.2⟩

/-! ## C27: the table is the bitwise CRC -/

/-- C27. For every buffer of bytes and every length, the table-driven
`_crcCalculator(data, len)` equals the bitwise reference CRC, the fold over the
first `len - 1` bytes, from 0, of the step
`crc := (((2*crc) mod 256) xor (0x19 if crc >= 0x80 else 0)) xor byte`; every
entry `c` of `ems_crc_table` equals `((2*c) mod 256) xor (0x19 if c >= 0x80
else 0)`; and the result is the same for two buffers that agree on their first
`len - 1` bytes, so it does not depend on the final (checksum) byte. -/
theorem C27_crc_table_is_bitwise (data : List Nat) (len : Nat) (hb : ∀ b ∈ data, b < 256) :
    _crcCalculator data len = crcReference data len
      ∧ (∀ c, c < 256 →
          ems_crc_table.getD c 0 = ((2 * c) % 256) ^^^ (if c ≥ 0x80 then 0x19 else 0))
      ∧ ems_crc_table.length = 256
      ∧ (∀ other : List Nat, (∀ i, i < len - 1 → other.getD i 0 = data.getD i 0) →
          _crcCalculator other len = _crcCalculator data len)
      ∧ (∀ v, _crcCalculator (setLast data len v) len = _crcCalculator data len) := by
  refine ⟨(crc_fold_agrees data hb (len - 1)).1, crc_table_entry, crc_table_length,
    fun other h => crc_congr _ _ _ h, fun v => ?_⟩
  exact crc_congr _ _ _ (fun i hi => getD_setLast_other _ _ _ _ hi)

/-- C27, instance: the read request `0B 88 02 00 20` with its checksum slot. -/
theorem C27_crc_table_is_bitwise_witness :
    (∀ b ∈ [0x0B, 0x88, 0x02, 0x00, 0x20, 0x00], b < 256)
      ∧ _crcCalculator [0x0B, 0x88, 0x02, 0x00, 0x20, 0x00] 6
          = crcReference [0x0B, 0x88, 0x02, 0x00, 0x20, 0x00] 6 :=
  ⟨by decide, (C27_crc_table_is_bitwise [0x0B, 0x88, 0x02, 0x00, 0x20, 0x00] 6 (by decide)).1⟩

/-! ## C28: the checksums documented in the comments -/

/-- C28. `_crcCalculator` over the telegram bytes followed by one checksum slot,
whatever the slot holds, returns 0x84 for `0B 08 1D 00 00`, 0x8B for
`0B 88 01 00 1B` (the two telegrams documented in `ems_startupTelegrams`) and
0x47 for the 18 bytes `17 0B 91 00 80 1E 00 CB 27 00 00 00 00 05 01 00 CB 00`
documented above `_process_RC10StatusMessage`. -/
theorem C28_documented_checksums (slot : Nat) :
    _crcCalculator ([0x0B, 0x08, 0x1D, 0x00, 0x00] ++ [slot]) 6 = 0x84
      ∧ _crcCalculator ([0x0B, 0x88, 0x01, 0x00, 0x1B] ++ [slot]) 6 = 0x8B
      ∧ _crcCalculator
          ([0x17, 0x0B, 0x91, 0x00, 0x80, 0x1E, 0x00, 0xCB, 0x27, 0x00, 0x00, 0x00, 0x00, 0x05,
            0x01, 0x00, 0xCB, 0x00] ++ [slot]) 19 = 0x47 := by
  refine ⟨?_, ?_, ?_⟩
  · rw [crc_congr _ ([0x0B, 0x08, 0x1D, 0x00, 0x00] ++ [0]) 6
      (fun i hi => by
        have : i < 5 := hi
        interval_cases i <;> rfl)]
    decide
  · rw [crc_congr _ ([0x0B, 0x88, 0x01, 0x00, 0x1B] ++ [0]) 6
      (fun i hi => by
        have : i < 5 := hi
        interval_cases i <;> rfl)]
    decide
  · rw [crc_congr _
      ([0x17, 0x0B, 0x91, 0x00, 0x80, 0x1E, 0x00, 0xCB, 0x27, 0x00, 0x00, 0x00, 0x00, 0x05,
        0x01, 0x00, 0xCB, 0x00] ++ [0]) 19
      (fun i hi => by
        have : i < 18 := hi
        interval_cases i <;> rfl)]
    decide

/-! ## C29: what is dispatched while a command is in flight -/

/-- C29 fails as stated.  In the sample state no boiler is known, and the
Version reply `08 0B 02 00 48 01 02 52` of the boiler 0x08, once dispatched,
makes the boiler known (product id 72): this is what happens when the Tx status
is IDLE and when a READ is in flight.  When a WRITE or a VALIDATE is in flight
the same reply leaves the boiler record as it was: the frame is not dispatched
to the type registry. -/
theorem C29_counterexample :
    Reply refConsts refFrameVersion 8
      ∧ refInit.boiler.product_id = refConsts.EMS_ID_NONE
      ∧ (ems_parseTelegram refConsts 1000 refConsts.EMS_TX_TELEGRAM_NEW refFrameVersion 8
            refInit).1.boiler.product_id = 72
      ∧ (ems_parseTelegram refConsts 1000 refConsts.EMS_TX_TELEGRAM_NEW refFrameVersion 8
            (refWait [refRead 0x18 0x08 false])).1.boiler.product_id = 72
      ∧ (refWrite 0x33 0x08 2 55).action = EMS_TX_TELEGRAM_WRITE
      ∧ (ems_parseTelegram refConsts 1000 refConsts.EMS_TX_TELEGRAM_NEW refFrameVersion 8
            (refWait [refWrite 0x33 0x08 2 55])).1.boiler = refInit.boiler
      ∧ (validateOf refConsts refConsts.EMS_TX_TELEGRAM_NEW (refWrite 0x33 0x08 2 55)).action
          = EMS_TX_TELEGRAM_VALIDATE
      ∧ (ems_parseTelegram refConsts 1000 refConsts.EMS_TX_TELEGRAM_NEW refFrameVersion 8
            (refWait [validateOf refConsts refConsts.EMS_TX_TELEGRAM_NEW
              (refWrite 0x33 0x08 2 55)])).1.boiler = refInit.boiler := by
  exact ⟨by unfold Reply; decide, by decide, by decide, by decide, by decide, by decide,
    by decide, by decide⟩

/-- C29, amended.  When a reply (a CRC-valid buffer of at least five bytes with
a non-zero first byte, sent by another device and addressed to us) arrives
while the command `c` is in flight (Tx status WAIT, `c` at the front): if `c`
is a READ, the frame is dispatched through `_ems_processTelegram` after it has
been compared with `c`, on a state whose device records are those before the
call; if `c` is not a READ (a WRITE, a VALIDATE or a RAW command), the frame is
not dispatched: the three device records and the refresh flag are unchanged by
the call. -/
theorem C29_dispatch_in_flight (k : Consts) (now : Nat) (junk : TxTelegram) (tg : List Nat)
    (len : Nat) (s : Ems) (c : TxTelegram) (rest : List TxTelegram)
    (hr : Reply k tg len) (hw : s.sys.emsTxStatus = EMS_TX_STATUS_WAIT) (hq : s.txq = c :: rest) :
    (c.action = EMS_TX_TELEGRAM_READ →
        ∃ a, (ems_parseTelegram k now junk tg len s).1
            = emsaurt_tx_poll (_ems_processTelegram k now tg len a)
          ∧ a.boiler = s.boiler ∧ a.thermostat = s.thermostat ∧ a.other = s.other)
      ∧ (c.action ≠ EMS_TX_TELEGRAM_READ →
          (ems_parseTelegram k now junk tg len s).1.boiler = s.boiler
            ∧ (ems_parseTelegram k now junk tg len s).1.thermostat = s.thermostat
            ∧ (ems_parseTelegram k now junk tg len s).1.other = s.other
            ∧ (ems_parseTelegram k now junk tg len s).1.sys.emsRefreshed = s.sys.emsRefreshed) := by
  rw [parse_reply k now junk tg len s c rest hr hw hq]
  constructor
  · intro ha
    rw [reconcile_read k now tg len c _ ha]
    unfold readBranch
    simp only
    refine ⟨_, rfl, ?_⟩
    split_ifs <;> exact ⟨rfl, rfl, rfl⟩
  · intro ha
    have key : recordView (reconcile k now tg len c (setTxStatus EMS_TX_STATUS_IDLE (noteRx now s)))
        = recordView s := by
      unfold reconcile
      simp only
      rw [if_neg ha]
      show recordView (if c.action = EMS_TX_TELEGRAM_VALIDATE then _ else _) = _
      split_ifs
      · rw [validateBranch_recordView]; rfl
      · rfl
    exact ⟨congrArg (fun v => v.1) key, congrArg (fun v => v.2.1) key,
      congrArg (fun v => v.2.2.1) key, congrArg (fun v => v.2.2.2) key⟩

/-- C29, instance: the Version reply of the boiler arrives while the VALIDATE
of a write is in flight. -/
theorem C29_dispatch_in_flight_witness :
    Reply refConsts refFrameVersion 8
      ∧ (validateOf refConsts refConsts.EMS_TX_TELEGRAM_NEW (refWrite 0x33 0x08 2 55)).action
          ≠ EMS_TX_TELEGRAM_READ
      ∧ (ems_parseTelegram refConsts 1000 refConsts.EMS_TX_TELEGRAM_NEW refFrameVersion 8
            (refWait [validateOf refConsts refConsts.EMS_TX_TELEGRAM_NEW
              (refWrite 0x33 0x08 2 55)])).1.boiler
          = (refWait [validateOf refConsts refConsts.EMS_TX_TELEGRAM_NEW
              (refWrite 0x33 0x08 2 55)]).boiler :=
  ⟨by unfold Reply; decide, by decide,
    ((C29_dispatch_in_flight refConsts 1000 refConsts.EMS_TX_TELEGRAM_NEW refFrameVersion 8
      (refWait [validateOf refConsts refConsts.EMS_TX_TELEGRAM_NEW (refWrite 0x33 0x08 2 55)])
      (validateOf refConsts refConsts.EMS_TX_TELEGRAM_NEW (refWrite 0x33 0x08 2 55)) []
      (by unfold Reply; decide) (by decide) rfl).2 (by decide)).1⟩

/-! ## C30: the key of the registry search -/

/-- C30 fails as stated.  With sample header values in which the extended row
of the RC1010 status message has the type id 0xFF, the frame
`18 00 FF 77 01 A5 00 CB 00 2A 4A` has byte 2 >= 0xF0 and byte 3 = 0x77, which
is the type id of no row of the registry; yet the frame is decoded (current
room temperature 0xCB, setpoint 0x2A): the registry is searched with byte 2. -/
theorem C30_counterexample :
    0xF0 ≤ refFramePlus.getD 2 0
      ∧ refFramePlus.getD (11 - 1) 0 = _crcCalculator refFramePlus 11
      ∧ (EMS_Types refPlus).find? (fun e => e.type == refFramePlus.getD 3 0) = none
      ∧ refRC1010.thermostat.curr_roomTemp = refConsts.EMS_VALUE_SHORT_NOTSET
      ∧ (ems_parseTelegram refPlus 1000 refPlus.EMS_TX_TELEGRAM_NEW refFramePlus 11
            refRC1010).1.thermostat.curr_roomTemp = 0xCB
      ∧ (ems_parseTelegram refPlus 1000 refPlus.EMS_TX_TELEGRAM_NEW refFramePlus 11
            refRC1010).1.thermostat.setpoint_roomTemp = 0x2A := by
  exact ⟨by decide, by decide, by decide, by decide, by decide, by decide⟩

/-- C30, amended.  For every frame, whether its byte 2 is below 0xF0 or not,
`_ems_processTelegram` searches the type registry with byte 2 as the type id
(the two telegrams of source 0x10 that it handles before looking at the result
of the search apart).  If no row is found for byte 2 the frame only sets the Tx
status to IDLE, whatever byte 3 is.  If a row with a callback is found, the
framing is taken from the row: for an extended row and byte 4 equal to
`EMS_PLUS_ID_NONE` the callback receives byte 3 as its first argument and the
payload that starts at byte `5 + byte 4`; for a legacy row and byte 3 (the
offset) equal to 0 it receives byte 2 and the payload that starts at byte 4. -/
theorem C30_registry_search (k : Consts) (now : Nat) (tg : List Nat) (len : Nat) (s : Ems)
    (h1 : ¬ (tg.getD 0 0 &&& 0x7F = 16 ∧ tg.getD 2 0 = 73 ∧ tg.getD 3 0 = 85))
    (h2 : ¬ (tg.getD 0 0 &&& 0x7F = 16 ∧ tg.getD 2 0 = 71 ∧ tg.getD 3 0 = 22)) :
    (findTypeRow k s (tg.getD 0 0 &&& 0x7F) (tg.getD 2 0) = none →
        _ems_processTelegram k now tg len s = setTxStatus EMS_TX_STATUS_IDLE s)
      ∧ (∀ e cb, findTypeRow k s (tg.getD 0 0 &&& 0x7F) (tg.getD 2 0) = some e →
          e.processType_cb = some cb →
          (e.emsplus = true → tg.getD 4 0 = k.EMS_PLUS_ID_NONE →
              _ems_processTelegram k now tg len s
                = setTxStatus EMS_TX_STATUS_IDLE
                    (runDecoder k now cb (tg.getD 3 0) (tg.drop (5 + tg.getD 4 0))
                      ((len + 512 - 6 - tg.getD 4 0) % 256) s))
            ∧ (e.emsplus = false → tg.getD 3 0 = k.EMS_ID_NONE →
              _ems_processTelegram k now tg len s
                = setTxStatus EMS_TX_STATUS_IDLE
                    (runDecoder k now cb (tg.getD 2 0) (tg.drop 4) ((len + 256 - 5) % 256) s))) := by
  constructor
  · intro hn
    unfold _ems_processTelegram
    simp only
    rw [if_neg h1, if_neg h2, hn]
  · intro e cb he hcb
    constructor
    · intro hp h4
      unfold _ems_processTelegram
      simp only
      rw [if_neg h1, if_neg h2, he]
      simp only [hcb]
      rw [if_pos ⟨by rw [hp], h4⟩]
    · intro hp h3
      unfold _ems_processTelegram
      simp only
      rw [if_neg h1, if_neg h2, he]
      simp only [hcb]
      rw [if_neg (fun h => by rw [hp] at h; exact absurd h.1 (by decide)),
        if_pos ⟨h3, by rw [hp]; decide⟩]

/-- C30, instance: a frame whose byte 2 is 0xFF and whose byte 3 is 0x02, the
Version type; the registry of the sample header values has no row of type 0xFF,
so the frame only sets the Tx status to IDLE. -/
theorem C30_registry_search_witness :
    findTypeRow refConsts refInit ([0x08, 0x00, 0xFF, 0x02, 72, 1, 2, 0].getD 0 0 &&& 0x7F)
        ([0x08, 0x00, 0xFF, 0x02, 72, 1, 2, 0].getD 2 0) = none
      ∧ findTypeRow refConsts refInit ([0x08, 0x00, 0xFF, 0x02, 72, 1, 2, 0].getD 0 0 &&& 0x7F)
        ([0x08, 0x00, 0xFF, 0x02, 72, 1, 2, 0].getD 3 0) ≠ none
      ∧ _ems_processTelegram refConsts 1000 [0x08, 0x00, 0xFF, 0x02, 72, 1, 2, 0] 8 refInit
          = setTxStatus EMS_TX_STATUS_IDLE refInit :=
  ⟨by decide, by decide,
    (C30_registry_search refConsts 1000 [0x08, 0x00, 0xFF, 0x02, 72, 1, 2, 0] 8 refInit
      (by decide) (by decide)).1 (by decide)⟩

/-! ## C31: telegrams with a non-zero offset -/

/-- C31.  For every frame whose matching registry entry (the row found by the
search of `_ems_processTelegram`) is a legacy entry and whose offset byte
(byte 3) is not `EMS_ID_NONE` (0x00), no decoder of the registry is invoked:
unless the frame is one of the two special cases (source 0x10, type 0x49,
offset 85) and (source 0x10, type 0x47, offset 22), `_ems_processTelegram` only
sets the Tx status to IDLE, so no field of the boiler, thermostat or
other-device record changes; in the two special cases it stores the bytes it
handles itself in the thermostat record, sets the Tx status to IDLE and raises
the refresh flag, and the boiler and other-device records do not change. -/
theorem C31_nonzero_offset (k : Consts) (now : Nat) (tg : List Nat) (len : Nat) (s : Ems)
    (e : EmsType)
    (hrow : findTypeRow k s (tg.getD 0 0 &&& 0x7F) (tg.getD 2 0) = some e)
    (hleg : e.emsplus = false) (hoff : tg.getD 3 0 ≠ k.EMS_ID_NONE) :
    (¬ (tg.getD 0 0 &&& 0x7F = 0x10 ∧ tg.getD 2 0 = 0x49 ∧ tg.getD 3 0 = 85) →
        ¬ (tg.getD 0 0 &&& 0x7F = 0x10 ∧ tg.getD 2 0 = 0x47 ∧ tg.getD 3 0 = 22) →
        _ems_processTelegram k now tg len s = setTxStatus EMS_TX_STATUS_IDLE s
          ∧ (_ems_processTelegram k now tg len s).boiler = s.boiler
          ∧ (_ems_processTelegram k now tg len s).thermostat = s.thermostat
          ∧ (_ems_processTelegram k now tg len s).other = s.other)
      ∧ ((tg.getD 0 0 &&& 0x7F = 0x10 ∧ tg.getD 2 0 = 0x49 ∧ tg.getD 3 0 = 85) →
          _ems_processTelegram k now tg len s
            = setRefreshed (setTxStatus EMS_TX_STATUS_IDLE
                { s with thermostat := { s.thermostat with
                    pausezeit := tg.getD 4 0
                    partyzeit := tg.getD 5 0 } }))
      ∧ (¬ (tg.getD 0 0 &&& 0x7F = 0x10 ∧ tg.getD 2 0 = 0x49 ∧ tg.getD 3 0 = 85) →
          (tg.getD 0 0 &&& 0x7F = 0x10 ∧ tg.getD 2 0 = 0x47 ∧ tg.getD 3 0 = 22) →
          _ems_processTelegram k now tg len s
            = setRefreshed (setTxStatus EMS_TX_STATUS_IDLE
                { s with thermostat := { s.thermostat with
                    maxvorlauf := tg.getD 17 0
                    auslegungstemp := tg.getD 18 0
                    heizturbo_till_next := tg.getD 19 0 } }))
      ∧ (_ems_processTelegram k now tg len s).boiler = s.boiler
      ∧ (_ems_processTelegram k now tg len s).other = s.other := by
  have main : ¬ (tg.getD 0 0 &&& 0x7F = 0x10 ∧ tg.getD 2 0 = 0x49 ∧ tg.getD 3 0 = 85) →
      ¬ (tg.getD 0 0 &&& 0x7F = 0x10 ∧ tg.getD 2 0 = 0x47 ∧ tg.getD 3 0 = 22) →
      _ems_processTelegram k now tg len s = setTxStatus EMS_TX_STATUS_IDLE s := by
    intro h1 h2
    unfold _ems_processTelegram
    simp only
    rw [if_neg h1, if_neg h2, hrow]
    simp only
    cases hcb : e.processType_cb with
    | none => rfl
    | some cb =>
      simp only
      rw [if_neg (fun h => by rw [hleg] at h; exact absurd h.1 (by decide)),
        if_neg (fun h => hoff h.1)]
  have sp1 : (tg.getD 0 0 &&& 0x7F = 0x10 ∧ tg.getD 2 0 = 0x49 ∧ tg.getD 3 0 = 85) →
      _ems_processTelegram k now tg len s
        = setRefreshed (setTxStatus EMS_TX_STATUS_IDLE
            { s with thermostat := { s.thermostat with
                pausezeit := tg.getD 4 0
                partyzeit := tg.getD 5 0 } }) := by
    intro h1
    unfold _ems_processTelegram
    simp only
    rw [if_pos h1]
    simp [_toByte, List.getD_eq_getElem?_getD, List.getElem?_drop]
  have sp2 : ¬ (tg.getD 0 0 &&& 0x7F = 0x10 ∧ tg.getD 2 0 = 0x49 ∧ tg.getD 3 0 = 85) →
      (tg.getD 0 0 &&& 0x7F = 0x10 ∧ tg.getD 2 0 = 0x47 ∧ tg.getD 3 0 = 22) →
      _ems_processTelegram k now tg len s
        = setRefreshed (setTxStatus EMS_TX_STATUS_IDLE
            { s with thermostat := { s.thermostat with
                maxvorlauf := tg.getD 17 0
                auslegungstemp := tg.getD 18 0
                heizturbo_till_next := tg.getD 19 0 } }) := by
    intro h1 h2
    unfold _ems_processTelegram
    simp only
    rw [if_neg h1, if_pos h2]
    simp [_toByte, List.getD_eq_getElem?_getD, List.getElem?_drop]
  refine ⟨fun h1 h2 => ?_, sp1, sp2, ?_, ?_⟩
  · rw [main h1 h2]
    exact ⟨rfl, rfl, rfl, rfl⟩
  · by_cases h1 : (tg.getD 0 0 &&& 0x7F = 0x10 ∧ tg.getD 2 0 = 0x49 ∧ tg.getD 3 0 = 85)
    · rw [sp1 h1]; rfl
    · by_cases h2 : (tg.getD 0 0 &&& 0x7F = 0x10 ∧ tg.getD 2 0 = 0x47 ∧ tg.getD 3 0 = 22)
      · rw [sp2 h1 h2]; rfl
      · rw [main h1 h2]; rfl
  · by_cases h1 : (tg.getD 0 0 &&& 0x7F = 0x10 ∧ tg.getD 2 0 = 0x49 ∧ tg.getD 3 0 = 85)
    · rw [sp1 h1]; rfl
    · by_cases h2 : (tg.getD 0 0 &&& 0x7F = 0x10 ∧ tg.getD 2 0 = 0x47 ∧ tg.getD 3 0 = 22)
      · rw [sp2 h1 h2]; rfl
      · rw [main h1 h2]; rfl

/-- C31, instance: the read-back telegram `08 0B 33 02 37 27` of the boiler
(type 0x33, offset 2) in the sample state with the boiler at 0x08. -/
theorem C31_nonzero_offset_witness :
    findTypeRow refConsts refBoiler (refFrameWW55.getD 0 0 &&& 0x7F) (refFrameWW55.getD 2 0)
        = some ⟨refConsts.EMS_MODEL_UBA, 0x33, some Decoder._process_UBAParameterWW, false⟩
      ∧ refFrameWW55.getD 3 0 ≠ refConsts.EMS_ID_NONE
      ∧ _ems_processTelegram refConsts 1000 refFrameWW55 6 refBoiler
          = setTxStatus EMS_TX_STATUS_IDLE refBoiler :=
  ⟨by decide, by decide,
    ((C31_nonzero_offset refConsts 1000 refFrameWW55 6 refBoiler
      ⟨refConsts.EMS_MODEL_UBA, 0x33, some Decoder._process_UBAParameterWW, false⟩
      (by decide) rfl (by decide)).1 (by decide) (by decide)).1⟩

/-! ## C32: the heating circuit in `ems_getThermostatValues` -/

/-- C32.  When the thermostat is enabled and supports reads,
`ems_getThermostatValues` leaves 2 in the heating-circuit selector, whatever the
selector was, and its result does not depend on the selector.  For an RC35 or
ES73 thermostat the call is, from the state with the selector set to 2, the
read of `EMS_TYPE_RC35StatusMessage_HC2`, the read of `EMS_TYPE_RC35Set_HC2`,
the read of `EMS_TYPE_AnlageParamSet`, the two raw requests and the read of
`EMS_TYPE_RCTime`: the reads of heating circuit 1 are never made, also after
`ems_setThermostatHC(1)`.  With Tx not disabled, room for two commands and the
thermostat's id and the two types not the none id, the queue after the call is
the queue before it, the two reads of heating circuit 2, and then what the
remaining calls push. -/
theorem C32_heating_circuit_forced (k : Consts) (now : Nat) (s : Ems) (hc : Nat)
    (hen : s.thermostat.type_id ≠ k.EMS_ID_NONE) (hrs : s.thermostat.read_supported = true) :
    (ems_getThermostatValues k now (ems_setThermostatHC hc s)).thermostat.hc = 2
      ∧ ems_getThermostatValues k now (ems_setThermostatHC hc s)
          = ems_getThermostatValues k now s
      ∧ ((s.thermostat.model_id = k.EMS_MODEL_RC35 ∨ s.thermostat.model_id = k.EMS_MODEL_ES73) →
          s.thermostat.model_id ≠ k.EMS_MODEL_RC20 → s.thermostat.model_id ≠ k.EMS_MODEL_RC30 →
          ems_getThermostatValues k now (ems_setThermostatHC hc s)
              = ems_doReadCommand k now k.EMS_TYPE_RCTime s.thermostat.type_id false
                  (ems_sendRawTelegram k now [0x0b, 0x90, 0x47, 0x16, 0x20]
                    (ems_sendRawTelegram k now [0x0b, 0x90, 0x49, 0x55, 0x20]
                      (ems_doReadCommand k now k.EMS_TYPE_AnlageParamSet s.thermostat.type_id false
                        (ems_doReadCommand k now k.EMS_TYPE_RC35Set_HC2 s.thermostat.type_id false
                          (ems_doReadCommand k now k.EMS_TYPE_RC35StatusMessage_HC2
                            s.thermostat.type_id false
                            { s with thermostat := { s.thermostat with hc := 2 } })))))
            ∧ (s.sys.emsTxDisabled = false → k.EMS_TYPE_RC35StatusMessage_HC2 ≠ k.EMS_ID_NONE →
                k.EMS_TYPE_RC35Set_HC2 ≠ k.EMS_ID_NONE →
                s.txq.length + 2 ≤ k.EMS_TX_TELEGRAM_QUEUE_MAX →
                ∃ l, (ems_getThermostatValues k now (ems_setThermostatHC hc s)).txq
                  = pushes k.EMS_TX_TELEGRAM_QUEUE_MAX
                      (s.txq ++ [readOf k now k.EMS_TYPE_RC35StatusMessage_HC2
                                  s.thermostat.type_id false,
                                readOf k now k.EMS_TYPE_RC35Set_HC2 s.thermostat.type_id false])
                      l)) := by
  have hen1 : ¬ ((!ems_getThermostatEnabled k s) = true) := by
    unfold ems_getThermostatEnabled
    simp [hen]
  have hen2 : ¬ ((!ems_getThermostatEnabled k (ems_setThermostatHC hc s)) = true) := hen1
  have hrs1 : ¬ ((!s.thermostat.read_supported) = true) := by simp [hrs]
  have hrs2 : ¬ ((!(ems_setThermostatHC hc s).thermostat.read_supported) = true) := hrs1
  have hsame : ems_getThermostatValues k now (ems_setThermostatHC hc s)
      = ems_getThermostatValues k now s := by
    unfold ems_getThermostatValues
    rw [if_neg hen1, if_neg hen2, if_neg hrs1, if_neg hrs2]
    rfl
  rw [hsame]
  refine ⟨?_, rfl, fun hm h20 h30 => ?_⟩
  · unfold ems_getThermostatValues
    rw [if_neg hen1, if_neg hrs1]
    simp only
    rw [doReadCommand_thermostat]
    split_ifs <;> simp only [doReadCommand_thermostat, sendRawTelegram_thermostat]
  · have hE : ems_getThermostatValues k now s
        = ems_doReadCommand k now k.EMS_TYPE_RCTime s.thermostat.type_id false
            (ems_sendRawTelegram k now [0x0b, 0x90, 0x47, 0x16, 0x20]
              (ems_sendRawTelegram k now [0x0b, 0x90, 0x49, 0x55, 0x20]
                (ems_doReadCommand k now k.EMS_TYPE_AnlageParamSet s.thermostat.type_id false
                  (ems_doReadCommand k now k.EMS_TYPE_RC35Set_HC2 s.thermostat.type_id false
                    (ems_doReadCommand k now k.EMS_TYPE_RC35StatusMessage_HC2
                      s.thermostat.type_id false
                      { s with thermostat := { s.thermostat with hc := 2 } }))))) := by
      unfold ems_getThermostatValues
      rw [if_neg hen1, if_neg hrs1]
      simp only
      rw [if_neg h20, if_neg h30, if_pos hm, if_neg (by decide), if_pos trivial]
    refine ⟨hE, fun hdis ht1 ht2 hroom => ?_⟩
    rw [hE]
    have v1 := doReadCommand_view k now k.EMS_TYPE_RC35StatusMessage_HC2 s.thermostat.type_id
      false { s with thermostat := { s.thermostat with hc := 2 } } ht1 hen hdis
    obtain ⟨q1, _, _, d1⟩ := (txView_iff _ _ _ _ _).mp v1
    have hq1 : (ems_doReadCommand k now k.EMS_TYPE_RC35StatusMessage_HC2 s.thermostat.type_id
        false { s with thermostat := { s.thermostat with hc := 2 } }).txq
        = s.txq ++ [readOf k now k.EMS_TYPE_RC35StatusMessage_HC2 s.thermostat.type_id false] := by
      rw [q1]
      exact txqPush_room _ _ _ (by show s.txq.length < _; omega)
    have v2 := doReadCommand_view k now k.EMS_TYPE_RC35Set_HC2 s.thermostat.type_id false
      _ ht2 hen d1
    obtain ⟨q2, _, _, _⟩ := (txView_iff _ _ _ _ _).mp v2
    have hq2 : (ems_doReadCommand k now k.EMS_TYPE_RC35Set_HC2 s.thermostat.type_id false
        (ems_doReadCommand k now k.EMS_TYPE_RC35StatusMessage_HC2 s.thermostat.type_id
          false { s with thermostat := { s.thermostat with hc := 2 } })).txq
        = s.txq ++ [readOf k now k.EMS_TYPE_RC35StatusMessage_HC2 s.thermostat.type_id false,
            readOf k now k.EMS_TYPE_RC35Set_HC2 s.thermostat.type_id false] := by
      rw [q2, hq1, txqPush_room _ _ _
        (by simp only [List.length_append, List.length_singleton]; omega)]
      simp
    have hA := ((appends_doReadCommand k now k.EMS_TYPE_AnlageParamSet s.thermostat.type_id false
      (ems_doReadCommand k now k.EMS_TYPE_RC35Set_HC2 s.thermostat.type_id false
        (ems_doReadCommand k now k.EMS_TYPE_RC35StatusMessage_HC2 s.thermostat.type_id
          false { s with thermostat := { s.thermostat with hc := 2 } }))).trans
      ((appends_sendRawTelegram k now [0x0b, 0x90, 0x49, 0x55, 0x20] _).trans
        ((appends_sendRawTelegram k now [0x0b, 0x90, 0x47, 0x16, 0x20] _).trans
          (appends_doReadCommand k now k.EMS_TYPE_RCTime s.thermostat.type_id false _))))
    obtain ⟨l, hl⟩ := hA.2.1
    exact ⟨l, by rw [hl, hq2]⟩

/-- C32, instance: an RC35 at 0x10 after `ems_setThermostatHC(1)`; the queue
holds the reads of the types 0x48 and 0x47 of heating circuit 2 first. -/
theorem C32_heating_circuit_forced_witness :
    refRC35hc1.thermostat.hc = 1
      ∧ refRC35hc1.thermostat.type_id ≠ refConsts.EMS_ID_NONE
      ∧ refRC35hc1.thermostat.read_supported = true
      ∧ (ems_getThermostatValues refConsts 0 refRC35hc1).thermostat.hc = 2
      ∧ (ems_getThermostatValues refConsts 0 refRC35hc1).txq.map (fun t => t.type)
          = [0x48, 0x47, 0xA5, 0x49, 0x47, 0x06] :=
  ⟨by decide, by decide, by decide,
    (C32_heating_circuit_forced refConsts 0 refRC35hc1 1 (by decide) (by decide)).1,
    by decide⟩

/-! ## C33: one corrupted byte is detected -/

/-- C33.  `ems_crc_table` is a bijection on bytes: its 256 entries are bytes,
two different bytes have different entries, and every byte is an entry.  Hence
for every `len >= 2` and every two buffers of bytes that differ in exactly one
of their first `len - 1` bytes (at the index `j < len - 1`), `_crcCalculator` returns
different values; so when the first buffer ends with its checksum and the
second ends with the same byte, the second does not pass the comparison of
`_ems_readTelegram`. -/
theorem C33_single_byte_error (a b : List Nat) (len j : Nat)
    (ha : ∀ x ∈ a, x < 256) (hb : ∀ x ∈ b, x < 256)
    (hj : j < len - 1) (hdiff : a.getD j 0 ≠ b.getD j 0)
    (hrest : ∀ i, i < len - 1 → i ≠ j → a.getD i 0 = b.getD i 0) :
    ((∀ c, c < 256 → ems_crc_table.getD c 0 < 256)
        ∧ (∀ c d, c < 256 → d < 256 → ems_crc_table.getD c 0 = ems_crc_table.getD d 0 → c = d)
        ∧ (∀ y, y < 256 → ∃ c, c < 256 ∧ ems_crc_table.getD c 0 = y))
      ∧ _crcCalculator a len ≠ _crcCalculator b len
      ∧ (a.getD (len - 1) 0 = _crcCalculator a len → b.getD (len - 1) 0 = a.getD (len - 1) 0 →
          b.getD (len - 1) 0 ≠ _crcCalculator b len) := by
  have hne : _crcCalculator a len ≠ _crcCalculator b len := by
    -- the bytes from `len - 1` on are not read: cut both buffers there
    have hca : _crcCalculator a len = _crcCalculator (a.take (len - 1)) len :=
      crc_congr _ _ _ (fun i hi => by
        rw [List.getD_eq_getElem?_getD, List.getD_eq_getElem?_getD, List.getElem?_take]
        simp [hi])
    have hcb : _crcCalculator b len = _crcCalculator (b.take (len - 1)) len :=
      crc_congr _ _ _ (fun i hi => by
        rw [List.getD_eq_getElem?_getD, List.getD_eq_getElem?_getD, List.getElem?_take]
        simp [hi])
    rw [hca, hcb]
    have hget : ∀ (l : List Nat) i, (l.take (len - 1)).getD i 0
        = if i < len - 1 then l.getD i 0 else 0 := by
      intro l i
      rw [List.getD_eq_getElem?_getD, List.getD_eq_getElem?_getD, List.getElem?_take]
      split_ifs <;> simp
    refine (crc_fold_differs (a.take (len - 1)) (b.take (len - 1))
      (fun x hx => ha x (List.mem_of_mem_take hx)) (fun x hx => hb x (List.mem_of_mem_take hx))
      j ?_ ?_ (len - 1)).2 hj
    · rw [hget, hget, if_pos hj, if_pos hj]
      exact hdiff
    · intro i hi
      rw [hget, hget]
      split_ifs with h
      · exact hrest i h hi
      · rfl
  refine ⟨⟨crc_table_lt, crc_table_injective, fun y hy => ?_⟩, hne, fun h1 h2 h3 => ?_⟩
  · exact ⟨crcTableInverse y, (crc_table_right_inverse y hy).1, (crc_table_right_inverse y hy).2⟩
  · apply hne
    rw [← h1, ← h3, h2]

/-- C33, instance: the read request `0B 88 02 00 20` with its checksum 0xBC, and
the same frame with the type 0x02 corrupted to 0x03. -/
theorem C33_single_byte_error_witness :
    2 < 6 - 1
      ∧ [0x0B, 0x88, 0x02, 0x00, 0x20, 0xBC].getD 2 0 ≠ [0x0B, 0x88, 0x03, 0x00, 0x20, 0xBC].getD 2 0
      ∧ [0x0B, 0x88, 0x02, 0x00, 0x20, 0xBC].getD (6 - 1) 0
        = _crcCalculator [0x0B, 0x88, 0x02, 0x00, 0x20, 0xBC] 6
      ∧ [0x0B, 0x88, 0x03, 0x00, 0x20, 0xBC].getD (6 - 1) 0
        ≠ _crcCalculator [0x0B, 0x88, 0x03, 0x00, 0x20, 0xBC] 6 :=
  ⟨by decide, by decide, by decide,
    (C33_single_byte_error [0x0B, 0x88, 0x02, 0x00, 0x20, 0xBC]
      [0x0B, 0x88, 0x03, 0x00, 0x20, 0xBC] 6 2 (by decide) (by decide)
      (by decide) (by decide)
      (fun i hi hne => by
        have : i < 5 := hi
        interval_cases i <;> first | rfl | exact absurd rfl hne)).2.2 (by decide) (by decide)⟩

/-! ## C34: a command is queued whenever the Tx status is WAIT -/

/-- C35. After `ems_parseTelegram` has processed a buffer of length at least 5
whose first byte is not 0x00, whose last byte is the checksum of the bytes
before it and whose source (the low 7 bits of byte 0) is not our own address,
the Tx status is IDLE, whatever the state was before; this is what
`_processType` does with every such frame. -/
theorem C35_lock_release (k : Consts) (now : Nat) (junk : TxTelegram) (tg : List Nat) (len : Nat)
    (s : Ems) (hlen : 5 ≤ len) (h0 : tg.getD 0 0 ≠ 0x00)
    (hcrc : tg.getD (len - 1) 0 = _crcCalculator tg len)
    (hsrc : tg.getD 0 0 &&& 0x7F ≠ k.EMS_ID_ME) :
    (ems_parseTelegram k now junk tg len s).1.sys.emsTxStatus = EMS_TX_STATUS_IDLE
      ∧ (∀ s0, (_processType k now tg len s0).sys.emsTxStatus = EMS_TX_STATUS_IDLE) := by
  refine ⟨?_, fun s0 => processType_idle k now tg len s0 hsrc⟩
  rw [parse_frame k now junk tg len s hlen h0 hcrc]
  exact processType_idle k now tg len _ hsrc

/-- C35, instance: with a read of type 0x18 in flight (status WAIT), the frame
`08 0B 33 02 37 27`, which answers another type, leaves the Tx status IDLE. -/
theorem C35_lock_release_witness :
    5 ≤ 6 ∧ refFrameWW55.getD 0 0 ≠ 0x00
      ∧ refFrameWW55.getD (6 - 1) 0 = _crcCalculator refFrameWW55 6
      ∧ (refFrameWW55.getD 0 0 &&& 0x7F) ≠ refConsts.EMS_ID_ME
      ∧ (refWait [refRead 0x18 0x08 false]).sys.emsTxStatus = EMS_TX_STATUS_WAIT
      ∧ (ems_parseTelegram refConsts 1000 refConsts.EMS_TX_TELEGRAM_NEW refFrameWW55 6
            (refWait [refRead 0x18 0x08 false])).1.sys.emsTxStatus = EMS_TX_STATUS_IDLE :=
  ⟨by decide, by decide, by decide, by decide, by decide,
    (C35_lock_release refConsts 1000 refConsts.EMS_TX_TELEGRAM_NEW refFrameWW55 6
      (refWait [refRead 0x18 0x08 false]) (by decide) (by decide) (by decide) (by decide)).1⟩

/-! ## C36: the SUCCESS byte drops a command that needs no validation -/

/-- C36. When the Tx status is WAIT, the command `c` is at the front of the
queue and the SUCCESS byte is received (the SUCCESS code being neither 0x00 nor
the poll-for-us byte): the sent counter is incremented, one poll
acknowledgement is emitted, the Tx status becomes IDLE, and unless `c` is a
WRITE with a validate type other than the none id the queue after the call is
the commands that were behind `c`, so a READ, a VALIDATE and a WRITE without
validation are dropped; a WRITE with a validate type is replaced at the front
by its VALIDATE. -/
theorem C36_success_drops (k : Consts) (now : Nat) (junk : TxTelegram) (tg : List Nat)
    (s : Ems) (c : TxTelegram) (rest : List TxTelegram)
    (hs0 : k.EMS_TX_SUCCESS ≠ 0x00) (hsp : k.EMS_TX_SUCCESS ≠ (k.EMS_ID_ME ||| 0x80))
    (htg : tg.getD 0 0 = k.EMS_TX_SUCCESS)
    (hw : s.sys.emsTxStatus = EMS_TX_STATUS_WAIT) (hq : s.txq = c :: rest) :
    (ems_parseTelegram k now junk tg 1 s).1.sys.emsTxPkgs
        = (s.sys.emsTxPkgs + 1) % 2 ^ k.txPkgsBits
      ∧ (ems_parseTelegram k now junk tg 1 s).1.uart = s.uart ++ [UartOut.poll]
      ∧ (ems_parseTelegram k now junk tg 1 s).1.sys.emsTxStatus = EMS_TX_STATUS_IDLE
      ∧ (¬ (c.action = EMS_TX_TELEGRAM_WRITE ∧ c.type_validate ≠ k.EMS_ID_NONE) →
          (ems_parseTelegram k now junk tg 1 s).1.txq = rest)
      ∧ (c.action = EMS_TX_TELEGRAM_READ → (ems_parseTelegram k now junk tg 1 s).1.txq = rest)
      ∧ (c.action = EMS_TX_TELEGRAM_VALIDATE →
          (ems_parseTelegram k now junk tg 1 s).1.txq = rest)
      ∧ (c.action = EMS_TX_TELEGRAM_WRITE → c.type_validate = k.EMS_ID_NONE →
          (ems_parseTelegram k now junk tg 1 s).1.txq = rest)
      ∧ (c.action = EMS_TX_TELEGRAM_WRITE → c.type_validate ≠ k.EMS_ID_NONE →
          (ems_parseTelegram k now junk tg 1 s).1.txq
            = txqUnshift k.EMS_TX_TELEGRAM_QUEUE_MAX rest (validateOf k junk c)) := by
  rw [parse_success k now junk tg s hs0 hsp htg hw]
  obtain ⟨c1, c2, c3, c4, c5⟩ := createValidate_cons k junk
    (emsaurt_tx_poll
      { notePoll now s with sys := { (notePoll now s).sys with
          emsTxPkgs := incr k.txPkgsBits (notePoll now s).sys.emsTxPkgs } }) c rest hq
  refine ⟨c2, c3, c1, ?_, ?_, ?_, ?_, ?_⟩
  · intro h
    apply c4
    by_cases ha : c.action = EMS_TX_TELEGRAM_WRITE
    · exact Or.inr (not_not.mp (fun hv => h ⟨ha, hv⟩))
    · exact Or.inl ha
  · intro ha
    exact c4 (Or.inl (by rw [ha]; decide))
  · intro ha
    exact c4 (Or.inl (by rw [ha]; decide))
  · intro _ hv
    exact c4 (Or.inr hv)
  · intro ha hv
    apply c5
    rintro (h | h)
    · exact h ha
    · exact hv h

/-- C36, instance: the write without validation that
`ems_setWarmWaterModeComfort(1)` enqueues is in flight and the byte 0x01
arrives: the queue is empty after the call and the Tx status is IDLE. -/
theorem C36_success_drops_witness :
    refConsts.EMS_TX_SUCCESS ≠ 0x00
      ∧ refConsts.EMS_TX_SUCCESS ≠ (refConsts.EMS_ID_ME ||| 0x80)
      ∧ [0x01].getD 0 0 = refConsts.EMS_TX_SUCCESS
      ∧ (ems_setWarmWaterModeComfort refConsts 0 1 refBoiler).txq = [refComfort]
      ∧ (refWait [refComfort]).sys.emsTxStatus = EMS_TX_STATUS_WAIT
      ∧ refComfort.action = EMS_TX_TELEGRAM_WRITE
      ∧ refComfort.type_validate = refConsts.EMS_ID_NONE
      ∧ (ems_parseTelegram refConsts 1000 refConsts.EMS_TX_TELEGRAM_NEW [0x01] 1
            (refWait [refComfort])).1.txq = []
      ∧ (ems_parseTelegram refConsts 1000 refConsts.EMS_TX_TELEGRAM_NEW [0x01] 1
            (refWait [refComfort])).1.sys.emsTxStatus = EMS_TX_STATUS_IDLE :=
  ⟨by decide, by decide, by decide, by decide, by decide, by decide, by decide,
    (C36_success_drops refConsts 1000 refConsts.EMS_TX_TELEGRAM_NEW [0x01]
      (refWait [refComfort]) refComfort [] (by decide) (by decide) (by decide) (by decide)
      rfl).2.2.2.2.2.2.1 (by decide) (by decide),
    by decide⟩

/-! ## C37: a validation looks at byte 4 only -/

/-- C37. With a VALIDATE `v` in flight (Tx status WAIT, `v` at the front of the
queue), `_processType` gives the same state for any two frames that come from
another device, are addressed to us and have the same byte 4, whatever their
lengths and their other bytes; so do two such frames with valid checksums
handed to `ems_parseTelegram`, and with them the queue, the retry counter and
the Tx status.  When byte 4 equals `v.comparisonValue` the result is the
confirmation (`v` removed, the post-read enqueued, one poll acknowledgement)
whatever the source of the frame. -/
theorem C37_validate_byte4 (k : Consts) (now : Nat) (junk : TxTelegram) (tg1 tg2 : List Nat)
    (len1 len2 : Nat) (s : Ems) (v : TxTelegram) (rest : List TxTelegram)
    (hs1 : tg1.getD 0 0 &&& 0x7F ≠ k.EMS_ID_ME) (hd1 : tg1.getD 1 0 &&& 0x7F = k.EMS_ID_ME)
    (hs2 : tg2.getD 0 0 &&& 0x7F ≠ k.EMS_ID_ME) (hd2 : tg2.getD 1 0 &&& 0x7F = k.EMS_ID_ME)
    (hw : s.sys.emsTxStatus = EMS_TX_STATUS_WAIT) (hq : s.txq = v :: rest)
    (ha : v.action = EMS_TX_TELEGRAM_VALIDATE) (h4 : tg1.getD 4 0 = tg2.getD 4 0) :
    _processType k now tg1 len1 s = _processType k now tg2 len2 s
      ∧ (Reply k tg1 len1 → Reply k tg2 len2 →
          (ems_parseTelegram k now junk tg1 len1 s).1 = (ems_parseTelegram k now junk tg2 len2 s).1
            ∧ (ems_parseTelegram k now junk tg1 len1 s).1.txq
                = (ems_parseTelegram k now junk tg2 len2 s).1.txq
            ∧ (ems_parseTelegram k now junk tg1 len1 s).1.sys.txRetryCount
                = (ems_parseTelegram k now junk tg2 len2 s).1.sys.txRetryCount
            ∧ (ems_parseTelegram k now junk tg1 len1 s).1.sys.emsTxStatus
                = (ems_parseTelegram k now junk tg2 len2 s).1.sys.emsTxStatus)
      ∧ (v.comparisonValue = tg1.getD 4 0 →
          _processType k now tg1 len1 s
            = emsaurt_tx_poll (ems_doReadCommand k now v.comparisonPostRead v.dest true
                (_removeTxQueue (setTxStatus EMS_TX_STATUS_IDLE s)))) := by
  have e1 : _processType k now tg1 len1 s
      = emsaurt_tx_poll (validateBranch k now tg1 v (setTxStatus EMS_TX_STATUS_IDLE s)) := by
    rw [processType_inflight k now tg1 len1 s v rest hs1 hd1 hw hq,
      reconcile_validate k now tg1 len1 v _ ha]
  have e2 : _processType k now tg2 len2 s
      = emsaurt_tx_poll (validateBranch k now tg2 v (setTxStatus EMS_TX_STATUS_IDLE s)) := by
    rw [processType_inflight k now tg2 len2 s v rest hs2 hd2 hw hq,
      reconcile_validate k now tg2 len2 v _ ha]
  refine ⟨?_, ?_, ?_⟩
  · rw [e1, e2, validateBranch_congr k now tg1 tg2 v _ h4]
  · intro hr1 hr2
    have hp : (ems_parseTelegram k now junk tg1 len1 s).1
        = (ems_parseTelegram k now junk tg2 len2 s).1 := by
      rw [parse_reply k now junk tg1 len1 s v rest hr1 hw hq,
        parse_reply k now junk tg2 len2 s v rest hr2 hw hq,
        reconcile_validate k now tg1 len1 v _ ha, reconcile_validate k now tg2 len2 v _ ha,
        validateBranch_congr k now tg1 tg2 v _ h4]
    exact ⟨hp, by rw [hp], by rw [hp], by rw [hp]⟩
  · intro hm
    rw [e1]
    unfold validateBranch
    simp only
    rw [if_pos hm]

/-- C37, instance: the VALIDATE of a write of 55 at offset 2 of type 0x33 to
the boiler 0x08 is in flight; the telegram `17 0B 91 00 37 70`, sent by the
device 0x17 with another type and offset, has the same effect as the read-back
`08 0B 33 02 37 27` of the boiler: the VALIDATE is removed and the post-read is
enqueued. -/
theorem C37_validate_byte4_witness :
    Reply refConsts refFrameWW55 6 ∧ Reply refConsts refFrameStatus55 6
      ∧ refFrameStatus55.getD 0 0 &&& 0x7F
          ≠ (validateOf refConsts refConsts.EMS_TX_TELEGRAM_NEW (refWrite 0x33 0x08 2 55)).dest
      ∧ (ems_parseTelegram refConsts 1000 refConsts.EMS_TX_TELEGRAM_NEW refFrameWW55 6
            (refWait [validateOf refConsts refConsts.EMS_TX_TELEGRAM_NEW
              (refWrite 0x33 0x08 2 55)])).1
          = (ems_parseTelegram refConsts 1000 refConsts.EMS_TX_TELEGRAM_NEW refFrameStatus55 6
            (refWait [validateOf refConsts refConsts.EMS_TX_TELEGRAM_NEW
              (refWrite 0x33 0x08 2 55)])).1
      ∧ (ems_parseTelegram refConsts 1000 refConsts.EMS_TX_TELEGRAM_NEW refFrameStatus55 6
            (refWait [validateOf refConsts refConsts.EMS_TX_TELEGRAM_NEW
              (refWrite 0x33 0x08 2 55)])).1.txq
          = [readOf refConsts 1000 0x33 0x08 true] :=
  ⟨by unfold Reply; decide, by unfold Reply; decide, by decide,
    ((C37_validate_byte4 refConsts 1000 refConsts.EMS_TX_TELEGRAM_NEW refFrameWW55
      refFrameStatus55 6 6
      (refWait [validateOf refConsts refConsts.EMS_TX_TELEGRAM_NEW (refWrite 0x33 0x08 2 55)])
      (validateOf refConsts refConsts.EMS_TX_TELEGRAM_NEW (refWrite 0x33 0x08 2 55)) []
      (by decide) (by decide) (by decide) (by decide) (by decide) rfl (by decide)
      (by decide)).2.1 (by unfold Reply; decide) (by unfold Reply; decide)).1,
    by decide⟩

/-! ## C38: our own echo -/

/-- C38. A buffer of length at least 5 whose last byte is the checksum of the
bytes before it and whose source (the low 7 bits of byte 0) is our own address
changes nothing but the time of the last reception and the bus-connected flag:
when byte 0 is not 0x00 the state after `ems_parseTelegram` is the state before
with these two variables set (and the state before itself when byte 0 is 0x00),
so the Tx queue, the Tx status, the retry, sent, received and CRC-error
counters, the refresh flag, the three device records and the bytes handed to
the UART are the same as before; `_processType` returns its state unchanged. -/
theorem C38_echo (k : Consts) (now : Nat) (junk : TxTelegram) (tg : List Nat) (len : Nat)
    (s : Ems) (hlen : 5 ≤ len) (hcrc : tg.getD (len - 1) 0 = _crcCalculator tg len)
    (hsrc : tg.getD 0 0 &&& 0x7F = k.EMS_ID_ME) :
    (tg.getD 0 0 ≠ 0x00 → (ems_parseTelegram k now junk tg len s).1 = noteRx now s)
      ∧ (tg.getD 0 0 = 0x00 → (ems_parseTelegram k now junk tg len s).1 = s)
      ∧ (∀ s0, _processType k now tg len s0 = s0)
      ∧ (ems_parseTelegram k now junk tg len s).1.txq = s.txq
      ∧ (ems_parseTelegram k now junk tg len s).1.sys.emsTxStatus = s.sys.emsTxStatus
      ∧ (ems_parseTelegram k now junk tg len s).1.sys.txRetryCount = s.sys.txRetryCount
      ∧ (ems_parseTelegram k now junk tg len s).1.sys.emsTxPkgs = s.sys.emsTxPkgs
      ∧ (ems_parseTelegram k now junk tg len s).1.sys.emsRxPgks = s.sys.emsRxPgks
      ∧ (ems_parseTelegram k now junk tg len s).1.sys.emxCrcErr = s.sys.emxCrcErr
      ∧ (ems_parseTelegram k now junk tg len s).1.sys.emsRefreshed = s.sys.emsRefreshed
      ∧ (ems_parseTelegram k now junk tg len s).1.boiler = s.boiler
      ∧ (ems_parseTelegram k now junk tg len s).1.thermostat = s.thermostat
      ∧ (ems_parseTelegram k now junk tg len s).1.other = s.other
      ∧ (ems_parseTelegram k now junk tg len s).1.uart = s.uart := by
  have h1 : tg.getD 0 0 ≠ 0x00 → (ems_parseTelegram k now junk tg len s).1 = noteRx now s := by
    intro h0
    rw [parse_frame k now junk tg len s hlen h0 hcrc, processType_echo k now tg len _ hsrc]
  have h2 : tg.getD 0 0 = 0x00 → (ems_parseTelegram k now junk tg len s).1 = s := by
    intro h0
    unfold ems_parseTelegram
    simp only
    rw [if_neg (fun h => h.2 h0)]
  refine ⟨h1, h2, fun s0 => processType_echo k now tg len s0 hsrc, ?_⟩
  by_cases h0 : tg.getD 0 0 = 0x00
  · rw [h2 h0]
    exact ⟨rfl, rfl, rfl, rfl, rfl, rfl, rfl, rfl, rfl, rfl, rfl⟩
  · rw [h1 h0]
    exact ⟨rfl, rfl, rfl, rfl, rfl, rfl, rfl, rfl, rfl, rfl, rfl⟩

/-- C38, instance: with a read of type 0x02 addressed to 0x0B in flight, the
telegram `0B 0B 02 00 00 E0` leaves the queue and the Tx status WAIT as they
were and only sets the time of the last reception and the bus-connected
flag. -/
theorem C38_echo_witness :
    5 ≤ 6 ∧ refFrameEcho.getD (6 - 1) 0 = _crcCalculator refFrameEcho 6
      ∧ (refFrameEcho.getD 0 0 &&& 0x7F) = refConsts.EMS_ID_ME
      ∧ (ems_parseTelegram refConsts 1000 refConsts.EMS_TX_TELEGRAM_NEW refFrameEcho 6
            (refWait [refRead 0x02 0x0B false])).1
          = noteRx 1000 (refWait [refRead 0x02 0x0B false])
      ∧ (ems_parseTelegram refConsts 1000 refConsts.EMS_TX_TELEGRAM_NEW refFrameEcho 6
            (refWait [refRead 0x02 0x0B false])).1.sys.emsTxStatus = EMS_TX_STATUS_WAIT
      ∧ (ems_parseTelegram refConsts 1000 refConsts.EMS_TX_TELEGRAM_NEW refFrameEcho 6
            (refWait [refRead 0x02 0x0B false])).1.sys.emsRxTimestamp = 1000 :=
  ⟨by decide, by decide, by decide,
    (C38_echo refConsts 1000 refConsts.EMS_TX_TELEGRAM_NEW refFrameEcho 6
      (refWait [refRead 0x02 0x0B false]) (by decide) (by decide) (by decide)).1 (by decide),
    by decide, by decide⟩

/-! ## C39: what `_process_RC35Set` stores -/

/-- C39. For every first argument `src`, payload and state, `_process_RC35Set`
stores payload[mode offset] into the thermostat mode.  When `src` is 71 it
stores the day, night and holiday temperatures, the room offset (payload[6]),
the heating type, the summer threshold (payload[22]) and the minimum flow
temperature (payload[16]) and sets the refresh flag; for every other `src`
these seven fields and the refresh flag keep their values. -/
theorem C39_RC35Set_fields (k : Consts) (src : Nat) (data : List Nat) (s : Ems) :
    (_process_RC35Set k src data s).thermostat.mode = _toByte data k.EMS_OFFSET_RC35Set_mode
      ∧ (src = 71 →
          (_process_RC35Set k src data s).thermostat.daytemp
              = _toByte data k.EMS_OFFSET_RC35Set_temp_day
            ∧ (_process_RC35Set k src data s).thermostat.nighttemp
              = _toByte data k.EMS_OFFSET_RC35Set_temp_night
            ∧ (_process_RC35Set k src data s).thermostat.holidaytemp
              = _toByte data k.EMS_OFFSET_RC35Set_temp_holiday
            ∧ (_process_RC35Set k src data s).thermostat.roomoffset = _toByte data 6
            ∧ (_process_RC35Set k src data s).thermostat.heatingtype
              = _toByte data k.EMS_OFFSET_RC35Set_heatingtype
            ∧ (_process_RC35Set k src data s).thermostat.sommerschwelletemp = _toByte data 22
            ∧ (_process_RC35Set k src data s).thermostat.minvorlauf = _toByte data 16
            ∧ (_process_RC35Set k src data s).sys.emsRefreshed = true)
      ∧ (src ≠ 71 →
          (_process_RC35Set k src data s).thermostat.daytemp = s.thermostat.daytemp
            ∧ (_process_RC35Set k src data s).thermostat.nighttemp = s.thermostat.nighttemp
            ∧ (_process_RC35Set k src data s).thermostat.holidaytemp = s.thermostat.holidaytemp
            ∧ (_process_RC35Set k src data s).thermostat.roomoffset = s.thermostat.roomoffset
            ∧ (_process_RC35Set k src data s).thermostat.heatingtype = s.thermostat.heatingtype
            ∧ (_process_RC35Set k src data s).thermostat.sommerschwelletemp
              = s.thermostat.sommerschwelletemp
            ∧ (_process_RC35Set k src data s).thermostat.minvorlauf = s.thermostat.minvorlauf
            ∧ (_process_RC35Set k src data s).sys.emsRefreshed = s.sys.emsRefreshed) := by
  refine ⟨?_, ?_, ?_⟩
  · unfold _process_RC35Set
    simp only
    split_ifs <;> rfl
  · intro h
    subst h
    exact ⟨rfl, rfl, rfl, rfl, rfl, rfl, rfl, rfl⟩
  · intro h
    have hb : (src != 71) = true := by simpa using h
    unfold _process_RC35Set
    simp only
    rw [hb]
    exact ⟨rfl, rfl, rfl, rfl, rfl, rfl, rfl, rfl⟩

/-- C39, instance: in the sample state with an RC35 at 0x10, the telegram of
type 0x47 with 25 data bytes 0x11 stores 0x11 as mode and as day temperature
and sets the refresh flag; the same telegram with type 0x3D stores 0x11 as
mode and leaves the day temperature and the refresh flag as they were. -/
theorem C39_RC35Set_fields_witness :
    (ems_parseTelegram refConsts 1000 refConsts.EMS_TX_TELEGRAM_NEW refFrameRC35Set2 30
          refRC35).1.thermostat.mode = 0x11
      ∧ (ems_parseTelegram refConsts 1000 refConsts.EMS_TX_TELEGRAM_NEW refFrameRC35Set2 30
          refRC35).1.thermostat.daytemp = 0x11
      ∧ (ems_parseTelegram refConsts 1000 refConsts.EMS_TX_TELEGRAM_NEW refFrameRC35Set2 30
          refRC35).1.sys.emsRefreshed = true
      ∧ refFrameRC35Set1.getD (30 - 1) 0 = _crcCalculator refFrameRC35Set1 30
      ∧ (ems_parseTelegram refConsts 1000 refConsts.EMS_TX_TELEGRAM_NEW refFrameRC35Set1 30
          refRC35).1.thermostat.mode = 0x11
      ∧ (ems_parseTelegram refConsts 1000 refConsts.EMS_TX_TELEGRAM_NEW refFrameRC35Set1 30
          refRC35).1.thermostat.daytemp = refRC35.thermostat.daytemp
      ∧ (ems_parseTelegram refConsts 1000 refConsts.EMS_TX_TELEGRAM_NEW refFrameRC35Set1 30
          refRC35).1.sys.emsRefreshed = false
      ∧ (_process_RC35Set refConsts 0x3D (refFrameRC35Set1.drop 4) refRC35).thermostat.daytemp
          = refRC35.thermostat.daytemp :=
  ⟨by decide, by decide, by decide, by decide, by decide, by decide, by decide,
    ((C39_RC35Set_fields refConsts 0x3D (refFrameRC35Set1.drop 4) refRC35).2.2 (by decide)).1⟩

/-! ## C40: decoders read past the payload -/

/-- C40, the code at the failing input.  `_process_UBAMonitorFast` reads the
payload indices 0 to 21 whatever the payload length is: its fields are the
bytes of the payload at fixed positions.  The six-byte telegram
`08 0B 18 00 05 BD` from the boiler has a valid checksum and is dispatched with
the payload length 1; the current flow temperature stored is made of the
checksum byte 0xBD (payload index 1) and of the byte that follows the frame in
the receive buffer (payload index 2), so two receive buffers that hold the same
six bytes and differ behind them give different boiler records.  Only
`_process_Version` looks at the payload length. -/
theorem C40_decoder_reads_past_payload :
    (∀ (k : Consts) (data : List Nat) (s : Ems),
        (_process_UBAMonitorFast k data s).boiler.curFlowTemp = _toShort data 1
          ∧ (_process_UBAMonitorFast k data s).boiler.serviceCode = _toShort data 20)
      ∧ (refFrameFastThen 1).take 6 = refFrameFast
      ∧ (refFrameFastThen 2).take 6 = refFrameFast
      ∧ (refFrameFastThen 1).getD (6 - 1) 0 = _crcCalculator (refFrameFastThen 1) 6
      ∧ (refFrameFastThen 2).getD (6 - 1) 0 = _crcCalculator (refFrameFastThen 2) 6
      ∧ findTypeRow refConsts refBoiler 0x08 0x18
          = some ⟨refConsts.EMS_MODEL_UBA, 0x18, some Decoder._process_UBAMonitorFast, false⟩
      ∧ (6 + 256 - 5) % 256 = 1
      ∧ (ems_parseTelegram refConsts 1000 refConsts.EMS_TX_TELEGRAM_NEW (refFrameFastThen 1) 6
            refBoiler).1.boiler.curFlowTemp = 0xBD01
      ∧ (ems_parseTelegram refConsts 1000 refConsts.EMS_TX_TELEGRAM_NEW (refFrameFastThen 2) 6
            refBoiler).1.boiler.curFlowTemp = 0xBD02
      ∧ (ems_parseTelegram refConsts 1000 refConsts.EMS_TX_TELEGRAM_NEW (refFrameFastThen 1) 6
            refBoiler).1.boiler
          ≠ (ems_parseTelegram refConsts 1000 refConsts.EMS_TX_TELEGRAM_NEW (refFrameFastThen 2) 6
            refBoiler).1.boiler := by
  refine ⟨fun k data s => ?_, by decide, by decide, by decide, by decide, by decide, by decide,
    by decide, by decide, ?_⟩
  · unfold _process_UBAMonitorFast _checkActive
    simp only
    split_ifs <;> exact ⟨rfl, rfl⟩
  · intro h
    have h1 : (ems_parseTelegram refConsts 1000 refConsts.EMS_TX_TELEGRAM_NEW
        (refFrameFastThen 1) 6 refBoiler).1.boiler.curFlowTemp
        = (ems_parseTelegram refConsts 1000 refConsts.EMS_TX_TELEGRAM_NEW
          (refFrameFastThen 2) 6 refBoiler).1.boiler.curFlowTemp := by rw [h]
    revert h1
    decide

end EMS
